import Mathlib

/-!
# calc code generator (codegen.c)

A shallow embedding of the single-pass recursive-descent compiler in
`codegen.c`.  The compiler reads tokens from the lexer and appends opcodes to
the function under construction.  Everything the compiler calls but which is
not defined in `codegen.c` (lexer, emitter, label manager, symbol store,
interning tables) is modelled from the specification as a pure function on
the compiler state; every such call is also recorded in the state's `trace`,
so that statements about the order of the calls can be expressed.

The parser functions are mutually recursive.  They are written in open
recursion: each body takes the handle `self` through which it calls the other
parser functions, and `run (n+1)` is the body run over `run n`.  Loops of the
C code are bounded by the same number.  Running out of this bound yields
`none`.
-/

namespace Codegen

/-! ## Tokens, opcodes, words -/

/-- Token kinds delivered by the lexer; the names are those used in codegen.c. -/
inductive Tok
  | T_NULL | T_EOF | T_NEWLINE | T_SEMICOLON | T_COMMA | T_COLON
  | T_LEFTPAREN | T_RIGHTPAREN | T_LEFTBRACE | T_RIGHTBRACE
  | T_LEFTBRACKET | T_RIGHTBRACKET
  | T_SYMBOL | T_NUMBER | T_IMAGINARY | T_STRING | T_OLDVALUE
  | T_ASSIGN | T_PLUSEQUALS | T_MINUSEQUALS | T_MULTEQUALS | T_DIVEQUALS
  | T_SLASHSLASHEQUALS | T_MODEQUALS | T_ANDEQUALS | T_OREQUALS
  | T_LSHIFTEQUALS | T_RSHIFTEQUALS | T_POWEREQUALS | T_HASHEQUALS
  | T_TILDEEQUALS | T_BACKSLASHEQUALS
  | T_PLUSPLUS | T_MINUSMINUS | T_NOT | T_QUESTIONMARK | T_OROR | T_ANDAND
  | T_EQ | T_NE | T_LT | T_GT | T_LE | T_GE
  | T_PLUS | T_MINUS | T_MULT | T_DIV | T_MOD | T_SLASHSLASH
  | T_OR | T_AND | T_HASH | T_TILDE | T_BACKSLASH
  | T_POWER | T_LEFTSHIFT | T_RIGHTSHIFT
  | T_PERIOD | T_ARROW | T_BACKQUOTE
  | T_IF | T_ELSE | T_FOR | T_WHILE | T_DO | T_SWITCH | T_CASE | T_DEFAULT
  | T_BREAK | T_CONTINUE | T_GOTO | T_RETURN
  | T_LOCAL | T_GLOBAL | T_STATIC | T_MAT | T_OBJ
  | T_PRINT | T_QUIT | T_ABORT | T_SHOW
  | T_DEFINE | T_UNDEFINE | T_HELP | T_READ | T_WRITE | T_CD
  deriving DecidableEq, Repr

/-- A token with its payload: `t_sym` is what `tokensymbol()` returns, `t_val`
what `tokennumber()` and `tokenstring()` return (an index into the constant or
string table). -/
structure TOKEN where
  t_type : Tok
  t_sym : String
  t_val : Int
  deriving DecidableEq, Repr

/-- Opcodes of the stack machine that codegen.c emits. -/
inductive Op
  | OP_NOP | OP_DEBUG | OP_UNDEF | OP_RETURN | OP_SAVE | OP_POP | OP_DUPLICATE | OP_DUPVALUE
  | OP_NUMBER | OP_IMAGINARY | OP_STRING | OP_ZERO | OP_ONE | OP_OLDVALUE
  | OP_LOCALADDR | OP_PARAMADDR | OP_GLOBALADDR | OP_INDEXADDR | OP_FIADDR
  | OP_ELEMADDR | OP_PTR | OP_DEREF | OP_GETVALUE
  | OP_ADD | OP_SUB | OP_MUL | OP_DIV | OP_QUO | OP_MOD | OP_AND | OP_OR | OP_XOR
  | OP_LEFTSHIFT | OP_RIGHTSHIFT | OP_POWER | OP_HASHOP | OP_SETMINUS
  | OP_PLUS | OP_NEGATE | OP_NOT | OP_INVERT | OP_BACKSLASH | OP_COMP | OP_CONTENT
  | OP_EQ | OP_NE | OP_LT | OP_GT | OP_LE | OP_GE
  | OP_ASSIGN | OP_ASSIGNPOP | OP_ASSIGNBACK
  | OP_PREINC | OP_PREDEC | OP_POSTINC | OP_POSTDEC
  | OP_JUMP | OP_JUMPZ | OP_JUMPNZ | OP_JUMPNN | OP_CONDORJUMP | OP_CONDANDJUMP
  | OP_CASEJUMP | OP_INITSTATIC
  | OP_MATCREATE | OP_OBJCREATE | OP_INITFILL | OP_ELEMINIT
  | OP_CALL | OP_USERCALL
  | OP_PRINT | OP_PRINTEOL | OP_PRINTSPACE | OP_PRINTSTRING | OP_PRINTRESULT
  | OP_QUIT | OP_ABORT | OP_SHOW
  deriving DecidableEq, Repr

/-- One slot of the opcode vector `f_opcodes`: an opcode tag, an integer
immediate, or the handle of a global symbol. -/
inductive Word
  | op (o : Op)
  | arg (n : Int)
  | ptr (g : String)
  deriving DecidableEq, Repr

/-- The LABEL structure: offset of the label (negative when not yet placed)
and head of the chain of slots waiting for the offset (negative when empty). -/
structure LABEL where
  l_offset : Int
  l_chain : Int
  deriving DecidableEq, Repr

/-- Symbol classifications returned by `symboltype`. -/
inductive SymType
  | SYM_UNDEFINED | SYM_PARAM | SYM_LOCAL | SYM_GLOBAL | SYM_STATIC
  deriving DecidableEq, Repr

/-- Record of a call made by the compiler to one of its collaborators. -/
inductive Event
  | addop (o : Op)
  | addopone (o : Op) (a : Int)
  | addoptwo (o : Op) (a b : Int)
  | addopptr (o : Op) (g : String)
  | addoplabel (o : Op) (l : Nat)
  | addopfunction (o : Op) (index argc : Int)
  | writeindexop
  | clearopt
  | patch (pc : Nat) (v : Int)
  | clearlabel (l : Nat)
  | setlabel (l : Nat)
  | addlabel (name : String)
  | definelabel (name : String)
  | checklabels
  | scanerror (skip : Tok) (msg : String)
  | tokenmode (m : Int)
  | addlocal (name : String)
  | addparam (name : String)
  | addglobal (name : String) (isstatic : Bool)
  | endscope (name : String) (isglobal : Bool)
  | enterfilescope | exitfilescope | enterfuncscope | exitfuncscope
  | addelement (name : String)
  | defineobject (name : String) (indices : List Int) (count : Int)
  | adduserfunc (name : String)
  | builtincheck (index argc : Int)
  | addqconstant (q : Int)
  | beginfunc (name : String) (nest : Bool)
  | endfunc
  | rmuserfunc (name : String)
  | rmalluserfunc
  | calculate
  deriving DecidableEq, Repr

/-! ## Constants of the absent headers -/

/-- Modelled from the spec: the expression kind flags form a bitset; RVALUE,
CONST and ASSIGN are three distinct bits (calc.h is not among the sources). -/
def EXPR_RVALUE : Int := 1

/-- Modelled from the spec: CONST bit of the expression kind. -/
def EXPR_CONST : Int := 2

/-- Modelled from the spec: ASSIGN bit of the expression kind. -/
def EXPR_ASSIGN : Int := 4

/-- Modelled from the spec: macro isrvalue of calc.h, the RVALUE bit is set. -/
def isrvalue (type : Int) : Bool := Int.land type EXPR_RVALUE != 0

/-- Modelled from the spec: macro isassign of calc.h, the ASSIGN bit is set. -/
def isassign (type : Int) : Bool := Int.land type EXPR_ASSIGN != 0

/-- Modelled from the spec: token mode DEFAULT, newlines are ignored. -/
def TM_DEFAULT : Int := 0

/-- Modelled from the spec: token mode NEWLINES, a newline is a token. -/
def TM_NEWLINES : Int := 1

/-- Modelled from the spec: token mode ALLSYMS, reserved words are symbols. -/
def TM_ALLSYMS : Int := 2

/-- Modelled from the spec: macro iskeyword of token.h, the reserved words. -/
def iskeyword (t : Tok) : Bool :=
  match t with
  | .T_IF | .T_ELSE | .T_FOR | .T_WHILE | .T_DO | .T_SWITCH | .T_CASE | .T_DEFAULT
  | .T_BREAK | .T_CONTINUE | .T_GOTO | .T_RETURN
  | .T_LOCAL | .T_GLOBAL | .T_STATIC | .T_MAT | .T_OBJ
  | .T_PRINT | .T_QUIT | .T_ABORT | .T_SHOW
  | .T_DEFINE | .T_UNDEFINE | .T_HELP | .T_READ | .T_WRITE | .T_CD => true
  | _ => false

/-! ## Compiler state -/

/-- The global state the compiler works on: lexer, function under
construction, labels, symbol store, interning tables, error counter. -/
structure State where
  /-- tokens not yet read -/
  input : List TOKEN
  /-- the token last delivered -/
  curtoken : TOKEN
  /-- set by rescantoken: the next gettoken delivers curtoken again -/
  rescan : Bool
  /-- current token mode -/
  mode : Int
  /-- value of linenumber() -/
  linenum : Int
  /-- curfunc->f_name -/
  f_name : String
  /-- curfunc->f_opcodes; its length is f_opcodecount -/
  f_opcodes : List Word
  /-- offset of the write flag of the last INDEXADDR emitted, if it is the last opcode -/
  lastindex : Option Nat
  /-- storage of the LABEL variables of the active parser functions -/
  labels : List LABEL
  /-- named labels of the current function -/
  namedlabels : List (String × Nat)
  /-- parameters of the current function, in slot order -/
  params : List String
  /-- locals of the current function, in slot order -/
  locals : List String
  /-- global symbols, with their static flag, most recent first -/
  globals : List (String × Bool)
  /-- element-name table -/
  elements : List String
  /-- object types: name and element indices -/
  objects : List (String × List Int)
  /-- numeric constant table -/
  constants : List Int
  /-- names of the builtin functions -/
  builtins : List String
  /-- names of the user functions -/
  userfuncs : List String
  /-- bound on the number of matrix dimensions -/
  MAXDIM : Int
  /-- bound on the number of elements of an object type -/
  MAXINDICES : Nat
  /-- bound on the length of a symbol name -/
  SYMBOLSIZE : Nat
  /-- number of errors reported so far -/
  errorcount : Nat
  /-- calls made to the collaborators, oldest first -/
  trace : List Event
  deriving DecidableEq, Repr

/-- Parser computations: a state transformer that may run out of recursion
bound. -/
abbrev P (α : Type) := State → Option (α × State)

instance : Monad P where
  pure a := fun s => some (a, s)
  bind m f := fun s =>
    match m s with
    | none => none
    | some (a, s1) => f a s1

/-- Run a state update. -/
def act (f : State → State) : P Unit := fun s => some ((), f s)

/-- Run a state update that returns a value. -/
def eff {α : Type} (f : State → α × State) : P α := fun s => some (f s)

/-- Read a value off the state. -/
def ask {α : Type} (f : State → α) : P α := fun s => some (f s, s)

/-- The recursion bound is exhausted. -/
def fail {α : Type} : P α := fun _ => none

/-- Conditional statement without else branch. -/
def whenP (c : Bool) (m : P Unit) : P Unit := if c then m else pure ()

/-- Record an event. -/
def log (e : Event) (s : State) : State := { s with trace := s.trace ++ [e] }

/-! ## Lexer -/

/-- The token delivered at the end of the input. -/
def EOFTOKEN : TOKEN := ⟨.T_EOF, "", 0⟩

/-- Modelled from the spec: the lexer reads the next token; in a mode without
NEWLINES a newline is ignored. -/
def nexttoken (newlines : Bool) : List TOKEN → TOKEN × List TOKEN
  | [] => (EOFTOKEN, [])
  | t :: rest =>
    if t.t_type = .T_NEWLINE ∧ newlines = false then nexttoken newlines rest
    else (t, rest)

/-- Modelled from the spec: gettoken of the lexer contract; after rescantoken
it delivers the last token once more. -/
def gettoken (s : State) : Tok × State :=
  if s.rescan then (s.curtoken.t_type, { s with rescan := false })
  else
    let r := nexttoken (Int.land s.mode TM_NEWLINES != 0) s.input
    (r.1.t_type, { s with curtoken := r.1, input := r.2 })

/-- Modelled from the spec: rescantoken pushes back exactly one token. -/
def rescantoken (s : State) : State := { s with rescan := true }

/-- Modelled from the spec: tokenmode sets the mode and returns the previous one. -/
def tokenmode (flag : Int) (s : State) : Int × State :=
  (s.mode, log (.tokenmode flag) { s with mode := flag })

/-- Modelled from the spec: payload of the last token, a symbol name. -/
def tokensymbol (s : State) : String := s.curtoken.t_sym

/-- Modelled from the spec: payload of the last token, a constant index. -/
def tokennumber (s : State) : Int := s.curtoken.t_val

/-- Modelled from the spec: payload of the last token, a string index. -/
def tokenstring (s : State) : Int := s.curtoken.t_val

/-- Modelled from the spec: current line number of the lexer. -/
def linenumber (s : State) : Int := s.linenum

/-- Modelled from the spec: the one-character lookahead `nextchar() == ':'` of
the label test; a colon directly after the symbol is consumed, anything else
is put back by reread. -/
def nextcharcolon (s : State) : Bool × State :=
  match s.input with
  | t :: rest => if t.t_type = .T_COLON then (true, { s with input := rest }) else (false, s)
  | [] => (false, s)

/-- Drop tokens up to and including the first one of kind `skip`. -/
def skippast (skip : Tok) : List TOKEN → List TOKEN
  | [] => []
  | t :: rest => if t.t_type = skip then rest else skippast skip rest

/-- Modelled from the spec: the diagnostic sink. It increments the error
counter and, unless the resync token is T_NULL, advances the token stream past
the next token of that kind. -/
def scanerror (skip : Tok) (msg : String) (s : State) : State :=
  let s1 := log (.scanerror skip msg) { s with errorcount := s.errorcount + 1 }
  if skip = .T_NULL then s1
  else if s1.rescan ∧ s1.curtoken.t_type = skip then { s1 with rescan := false }
  else { s1 with rescan := false, input := skippast skip s1.input }

/-! ## Emitter -/

/-- Append words to the opcode vector. -/
def emitwords (ws : List Word) (s : State) : State :=
  { s with f_opcodes := s.f_opcodes ++ ws, lastindex := none }

/-- Modelled from the spec: emit(op) appends the opcode. -/
def addop (op : Op) (s : State) : State :=
  log (.addop op) (emitwords [.op op] s)

/-- Modelled from the spec: emit1(op, imm) appends the opcode and one immediate. -/
def addopone (op : Op) (arg : Int) (s : State) : State :=
  log (.addopone op arg) (emitwords [.op op, .arg arg] s)

/-- Modelled from the spec: emit2(op, imm1, imm2); for INDEXADDR the second
immediate is the write flag, whose offset is remembered. -/
def addoptwo (op : Op) (arg1 arg2 : Int) (s : State) : State :=
  let s1 := emitwords [.op op, .arg arg1, .arg arg2] s
  log (.addoptwo op arg1 arg2)
    (if op = .OP_INDEXADDR then { s1 with lastindex := some (s.f_opcodes.length + 2) } else s1)

/-- Modelled from the spec: emit_ptr(op, handle). -/
def addopptr (op : Op) (g : String) (s : State) : State :=
  log (.addopptr op g) (emitwords [.op op, .ptr g] s)

/-- Modelled from the spec: emit_function_call(op, idx, argc). -/
def addopfunction (op : Op) (index argc : Int) (s : State) : State :=
  log (.addopfunction op index argc) (emitwords [.op op, .arg index, .arg argc] s)

/-- Modelled from the spec: rewrite_last_index_for_write flips the write flag
of the most recently emitted index opcode. -/
def writeindexop (s : State) : State :=
  log .writeindexop
    (match s.lastindex with
     | some pc => { s with f_opcodes := s.f_opcodes.set pc (.arg 1) }
     | none => s)

/-- Modelled from the spec: clearopt only resets the emitter's memory of the
previous opcode. -/
def clearopt (s : State) : State := log .clearopt { s with lastindex := none }

/-- The assignment `curfunc->f_opcodes[pc] = v` of getonematrix. -/
def patchopcode (pc : Nat) (v : Int) (s : State) : State :=
  log (.patch pc v) { s with f_opcodes := s.f_opcodes.set pc (.arg v) }

/-! ## Label manager -/

/-- Storage for a LABEL variable of a parser function. -/
def newlabel (s : State) : Nat × State :=
  (s.labels.length, { s with labels := s.labels ++ [⟨-1, -1⟩] })

/-- Storage for the `k` LABEL variables declared by a parser function; they
are numbered from the returned base. -/
def newlabels (k : Nat) (s : State) : Nat × State :=
  (s.labels.length, { s with labels := s.labels ++ List.replicate k ⟨-1, -1⟩ })

/-- Read a LABEL variable. -/
def getlabel (l : Nat) (s : State) : LABEL := s.labels.getD l ⟨-1, -1⟩

/-- Modelled from the spec: clear(L) makes the label undefined with an empty chain. -/
def clearlabel (l : Nat) (s : State) : State :=
  log (.clearlabel l) { s with labels := s.labels.set l ⟨-1, -1⟩ }

/-- Walk the chain of patch sites, overwriting every slot with the offset. -/
def fixchain : Nat → Int → Int → List Word → List Word
  | 0, _, _, code => code
  | k + 1, nextfix, offset, code =>
    if nextfix < 0 then code
    else
      match code.getD nextfix.toNat (.arg (-1)) with
      | .arg n => fixchain k n offset (code.set nextfix.toNat (.arg offset))
      | _ => code.set nextfix.toNat (.arg offset)

/-- Modelled from the spec: define(L) places L at the current emission offset
and resolves its chain. -/
def setlabel (l : Nat) (s : State) : State :=
  let offset : Int := s.f_opcodes.length
  log (.setlabel l)
    { s with
      f_opcodes := fixchain (s.f_opcodes.length + 1) (getlabel l s).l_chain offset s.f_opcodes,
      labels := s.labels.set l ⟨offset, -1⟩,
      lastindex := none }

/-- Modelled from the spec: the immediate slot of a jump holds the offset of a
placed label, else the previous chain head, and becomes the new chain head. -/
def uselabel (l : Nat) (s : State) : State :=
  let lp := getlabel l s
  let offset : Int := s.f_opcodes.length
  if lp.l_offset ≥ 0 then emitwords [.arg lp.l_offset] s
  else
    let s1 := emitwords [.arg lp.l_chain] s
    { s1 with labels := s1.labels.set l ⟨lp.l_offset, offset⟩ }

/-- Modelled from the spec: emit_jump(op, L). -/
def addoplabel (op : Op) (l : Nat) (s : State) : State :=
  log (.addoplabel op l) (uselabel l (emitwords [.op op] s))

/-- Find the storage of a named label. -/
def findnamedlabel (name : String) (s : State) : Option Nat :=
  (s.namedlabels.find? (fun p => p.1 = name)).map (fun p => p.2)

/-- Modelled from the spec: reference to a named label (goto); the label is
entered in the table of the function when it is new. -/
def addlabel (name : String) (s : State) : State :=
  match findnamedlabel name s with
  | some l => log (.addlabel name) (uselabel l s)
  | none =>
    let r := newlabel s
    log (.addlabel name)
      (uselabel r.1 { r.2 with namedlabels := r.2.namedlabels ++ [(name, r.1)] })

/-- Modelled from the spec: bind the identifier as a named label at the
current offset; a label placed twice is an error. -/
def definelabel (name : String) (s : State) : State :=
  match findnamedlabel name s with
  | some l =>
    if (getlabel l s).l_offset ≥ 0 then
      scanerror .T_NULL "Label is multiply defined" (log (.definelabel name) s)
    else setlabel l (log (.definelabel name) s)
  | none =>
    let r := newlabel s
    setlabel r.1 (log (.definelabel name)
      { r.2 with namedlabels := r.2.namedlabels ++ [(name, r.1)] })

/-- Report every named label that was referenced but never placed. -/
def checknamed : List (String × Nat) → State → State
  | [], s => s
  | p :: rest, s =>
    checknamed rest
      (if (getlabel p.2 s).l_offset < 0 then scanerror .T_NULL "Label was never defined" s else s)

/-- Modelled from the spec: resolve_all verifies at function end that no named
label is still undefined. -/
def checklabels (s : State) : State := checknamed s.namedlabels (log .checklabels s)

/-! ## Symbol store -/

/-- Index of a name in a table, -1 when absent. -/
def indexof (name : String) (l : List String) : Int :=
  if l.contains name then (l.indexOf name : Nat) else -1

/-- Modelled from the spec: find_param(name) gives the slot, negative when
the name is no parameter. -/
def findparam (name : String) (s : State) : Int := indexof name s.params

/-- Modelled from the spec: find_local(name) gives the slot, negative when the
name is no local. -/
def findlocal (name : String) (s : State) : Int := indexof name s.locals

/-- Modelled from the spec: find_global(name) gives the handle of the visible
global or static of that name. -/
def findglobal (name : String) (s : State) : Option (String × Bool) :=
  s.globals.find? (fun g => g.1 = name)

/-- Modelled from the spec: classify(name) is one of UNDEFINED, GLOBAL,
STATIC, LOCAL, PARAM. -/
def symboltype (name : String) (s : State) : SymType :=
  if findparam name s ≥ 0 then .SYM_PARAM
  else if findlocal name s ≥ 0 then .SYM_LOCAL
  else
    match findglobal name s with
    | some g => if g.2 then .SYM_STATIC else .SYM_GLOBAL
    | none => .SYM_UNDEFINED

/-- Modelled from the spec: add_local(name) allocates a slot and returns it. -/
def addlocal (name : String) (s : State) : Int × State :=
  if s.locals.contains name then (indexof name s.locals, log (.addlocal name) s)
  else (s.locals.length, log (.addlocal name) { s with locals := s.locals ++ [name] })

/-- Modelled from the spec: add_param(name) allocates a slot and returns it. -/
def addparam (name : String) (s : State) : Int × State :=
  if s.params.contains name then (indexof name s.params, log (.addparam name) s)
  else (s.params.length, log (.addparam name) { s with params := s.params ++ [name] })

/-- Modelled from the spec: add_global(name, is_static) makes the name a
global, or a static when the flag is set. -/
def addglobal (name : String) (isstatic : Bool) (s : State) : State :=
  log (.addglobal name isstatic) { s with globals := (name, isstatic) :: s.globals }

/-- Modelled from the spec: end_scope(name, is_global) terminates the
visibility of a prior static of that name. -/
def endscope (name : String) (isglobal : Bool) (s : State) : State :=
  log (.endscope name isglobal)
    { s with globals := s.globals.filter (fun g => !(g.1 = name && g.2)) }

/-- Modelled from the spec: enter_file_scope of the symbol store. -/
def enterfilescope (s : State) : State := log .enterfilescope s

/-- Modelled from the spec: exit_file_scope of the symbol store. -/
def exitfilescope (s : State) : State := log .exitfilescope s

/-- Modelled from the spec: enter_func_scope of the symbol store. -/
def enterfuncscope (s : State) : State := log .enterfuncscope s

/-- Modelled from the spec: exit_func_scope of the symbol store. -/
def exitfuncscope (s : State) : State := log .exitfuncscope s

/-! ## Interning tables -/

/-- Modelled from the spec: the literal table returns the interned name. -/
def addliteral (name : String) : String := name

/-- Modelled from the spec: element names are interned in one global table;
addelement returns the index of the name, entering it when new. -/
def addelement (name : String) (s : State) : Int × State :=
  if s.elements.contains name then (indexof name s.elements, log (.addelement name) s)
  else (s.elements.length, log (.addelement name) { s with elements := s.elements ++ [name] })

/-- Modelled from the spec: index of an element name, negative when unknown. -/
def findelement (name : String) (s : State) : Int := indexof name s.elements

/-- Modelled from the spec: register the object type with its element indices. -/
def defineobject (name : String) (indices : List Int) (count : Int) (s : State) : State :=
  log (.defineobject name indices count)
    (if (s.objects.map (fun o => o.1)).contains name then s
     else { s with objects := s.objects ++ [(name, indices)] })

/-- Modelled from the spec: index of an object type, negative when undefined. -/
def checkobject (name : String) (s : State) : Int :=
  indexof name (s.objects.map (fun o => o.1))

/-- Modelled from the spec: index of a builtin function, negative when the
name is no builtin. -/
def getbuiltinfunc (name : String) (s : State) : Int := indexof name s.builtins

/-- Modelled from the spec: index of a user function, entered when new. -/
def adduserfunc (name : String) (s : State) : Int × State :=
  if s.userfuncs.contains name then (indexof name s.userfuncs, log (.adduserfunc name) s)
  else (s.userfuncs.length, log (.adduserfunc name) { s with userfuncs := s.userfuncs ++ [name] })

/-- Modelled from the spec: argument count check of a builtin call; the
builtin table is external, the call is only recorded. -/
def builtincheck (index argc : Int) (s : State) : State := log (.builtincheck index argc) s

/-- Index of a number in the constant table, -1 when absent. -/
def constindex (q : Int) (l : List Int) : Int :=
  if l.contains q then (l.indexOf q : Nat) else -1

/-- Modelled from the spec: addqconstant(itoq(n)) returns the constant-table
index of the number n, entering it when new. -/
def addqconstant (q : Int) (s : State) : Int × State :=
  if s.constants.contains q then (constindex q s.constants, log (.addqconstant q) s)
  else (s.constants.length, log (.addqconstant q) { s with constants := s.constants ++ [q] })

/-- Character `curfunc->f_name[i]`, the terminating NUL past the end. -/
def fnamechar (i : Nat) (s : State) : Char := s.f_name.data.getD i (Char.ofNat 0)

/-- Handle of a global symbol as stored in the opcode vector. -/
def globalptr (g : Option (String × Bool)) : String :=
  match g with
  | some p => p.1
  | none => ""

/-! ## The parser functions of codegen.c -/

/-- The mutually recursive parser functions, with their arguments. -/
inductive Call
  | getbody (contlabel breaklabel nextcaselabel defaultlabel : Option Nat)
  | getdeclarations (symtype : SymType)
  | getsimpledeclaration (symtype : SymType)
  | getonevariable (symtype : SymType)
  | getstatement (contlabel breaklabel nextcaselabel defaultlabel : Option Nat)
  | getobjdeclaration (symtype : SymType)
  | getoneobj (index : Int) (symtype : SymType)
  | getobjvars (name : String) (symtype : SymType)
  | getmatdeclaration (symtype : SymType)
  | getonematrix (symtype : SymType)
  | creatematrix
  | getsimplebody
  | getcondition
  | getmatargs
  | getcallargs (name : String)
  | getexprlist
  | getopassignment
  | getassignment
  | getaltcond
  | getorcond
  | getandcond
  | getrelation
  | getsum
  | getproduct
  | getorexpr
  | getandexpr
  | getshiftexpr
  | getreference
  | getincdecexpr
  | getterm
  | getidexpr (okmat autodef : Bool)
  | getinitlist
  deriving DecidableEq, Repr

/-- Handle for the recursive calls; functions returning void return 0. -/
abbrev Rec := Call → P Int

/-- Read in a single symbol name (getid); returns whether a valid symbol was
found, and the name copied into the buffer. -/
def getid (s : State) : (Bool × String) × State :=
  let r := gettoken s
  if iskeyword r.1 then
    ((false, ""), scanerror .T_NULL "Reserved keyword used as symbol name" r.2)
  else if r.1 ≠ .T_SYMBOL then
    ((false, ""), scanerror .T_NULL "Symbol name expected" (rescantoken r.2))
  else ((true, String.mk ((tokensymbol r.2).data.take r.2.SYMBOLSIZE)), r.2)

/-- Get an element of an object reference (getelement); the leading period
has already been read. -/
def getelement (s : State) : State :=
  let r := getid s
  if r.1.1 = false then r.2
  else
    let index := findelement r.1.2 r.2
    if index < 0 then scanerror .T_NULL "Element is undefined" r.2
    else addopone .OP_ELEMADDR index r.2

/-- Define a symbol name to be of the specified symbol type (definesymbol). -/
def definesymbol (name : String) (symtype : SymType) (s : State) : State :=
  match symboltype name s with
  | .SYM_STATIC =>
    let s1 :=
      if symtype = .SYM_GLOBAL ∨ symtype = .SYM_STATIC then
        endscope name (decide (symtype = .SYM_GLOBAL)) s
      else s
    if symtype = .SYM_LOCAL then (addlocal name s1).2
    else addglobal name (decide (symtype = .SYM_STATIC)) s1
  | .SYM_UNDEFINED | .SYM_GLOBAL =>
    if symtype = .SYM_LOCAL then (addlocal name s).2
    else addglobal name (decide (symtype = .SYM_STATIC)) s
  | .SYM_LOCAL =>
    if symtype = .SYM_LOCAL then s
    else scanerror .T_COMMA "Variable is already defined" s
  | .SYM_PARAM => scanerror .T_COMMA "Variable is already defined" s

/-- Check a symbol name and generate code to reference it (usesymbol). -/
def usesymbol (name : String) (autodef : Bool) (s : State) : State :=
  match symboltype name s with
  | .SYM_LOCAL => addopone .OP_LOCALADDR (findlocal name s) s
  | .SYM_PARAM => addopone .OP_PARAMADDR (findparam name s) s
  | .SYM_GLOBAL | .SYM_STATIC => addopptr .OP_GLOBALADDR (globalptr (findglobal name s)) s
  | .SYM_UNDEFINED =>
    if fnamechar 0 s ≠ '*' ∨ autodef = false then
      scanerror .T_NULL "Symbol is undefined" s
    else
      let s1 := addglobal name false s
      addopptr .OP_GLOBALADDR (globalptr (findglobal name s1)) s1

/-- The tail `while (gettoken() == T_ASSIGN) getinitlist(); rescantoken();`
that follows a matrix or object creation and a brace assignment. -/
def initlisttail (self : Rec) : Nat → P Unit
  | 0 => fail
  | k + 1 => do
    let t ← eff gettoken
    if t = .T_ASSIGN then do
      let _ ← self .getinitlist
      initlisttail self k
    else
      act rescantoken

/-- Loop of getexprlist: further expressions after commas. -/
def getexprlist_loop (self : Rec) : Nat → Int → P Int
  | 0, _ => fail
  | k + 1, type => do
    let t ← eff gettoken
    if t = .T_COMMA then do
      act (addop .OP_POP)
      let type1 ← self .getopassignment
      getexprlist_loop self k type1
    else do
      act rescantoken
      return type

/-- Get an expression list, expressions separated by commas (getexprlist). -/
def getexprlist (fuel : Nat) (self : Rec) : P Int := do
  let type ← self .getopassignment
  getexprlist_loop self fuel type

/-- The switch of getopassignment from a compound assignment token to the
arithmetic opcode; none is the default case. -/
def opassignop (t : Tok) : Option Op :=
  match t with
  | .T_PLUSEQUALS => some .OP_ADD
  | .T_MINUSEQUALS => some .OP_SUB
  | .T_MULTEQUALS => some .OP_MUL
  | .T_DIVEQUALS => some .OP_DIV
  | .T_SLASHSLASHEQUALS => some .OP_QUO
  | .T_MODEQUALS => some .OP_MOD
  | .T_ANDEQUALS => some .OP_AND
  | .T_OREQUALS => some .OP_OR
  | .T_LSHIFTEQUALS => some .OP_LEFTSHIFT
  | .T_RSHIFTEQUALS => some .OP_RIGHTSHIFT
  | .T_POWEREQUALS => some .OP_POWER
  | .T_HASHEQUALS => some .OP_HASHOP
  | .T_TILDEEQUALS => some .OP_XOR
  | .T_BACKSLASHEQUALS => some .OP_SETMINUS
  | _ => none

/-- Right operand of a compound assignment: a brace initializer list that
reuses the duplicated value, or an assignment. -/
def getopassignment_rhs (fuel : Nat) (self : Rec) : P Unit := do
  let t ← eff gettoken
  if t = .T_LEFTBRACE then do
    act rescantoken
    act (addop .OP_DUPVALUE)
    let _ ← self .getinitlist
    initlisttail self fuel
  else do
    act rescantoken
    let _ ← self .getassignment
    return ()

/-- The `for(;;)` loop of getopassignment, entered with the opcode of the
operator just read. -/
def getopassignment_loop (fuel : Nat) (self : Rec) : Nat → Op → P Int
  | 0, _ => fail
  | k + 1, op => do
    act (addop .OP_DUPLICATE)
    getopassignment_rhs fuel self
    act (addop op)
    act (addop .OP_ASSIGN)
    let t ← eff gettoken
    match opassignop t with
    | some op1 => getopassignment_loop fuel self k op1
    | none => do
      act rescantoken
      return EXPR_ASSIGN

/-- Get an opassignment or possibly just an assignment or expression
(getopassignment). -/
def getopassignment (fuel : Nat) (self : Rec) : P Int := do
  let type ← self .getassignment
  let t ← eff gettoken
  match opassignop t with
  | none => do
    act rescantoken
    return type
  | some op =>
    if isrvalue type then do
      act (scanerror .T_NULL "Illegal assignment in getopassignment")
      let _ ← self .getopassignment
      return Int.lor EXPR_RVALUE EXPR_ASSIGN
    else do
      act writeindexop
      getopassignment_loop fuel self fuel op

/-- Second half of getassignment, after the left operand. -/
def getassignment_tail (fuel : Nat) (self : Rec) (type : Int) : P Int := do
  let t ← eff gettoken
  if t = .T_NUMBER ∨ t = .T_IMAGINARY then do
    act (fun s => addopone .OP_NUMBER (tokennumber s) s)
    act (scanerror .T_NULL "Missing operator")
    return Int.lor EXPR_RVALUE EXPR_CONST
  else if t = .T_STRING ∨ t = .T_SYMBOL ∨ t = .T_OLDVALUE ∨ t = .T_LEFTPAREN
      ∨ t = .T_PLUSPLUS ∨ t = .T_MINUSMINUS ∨ t = .T_NOT then do
    act (scanerror .T_NULL "Missing operator")
    return type
  else if t = .T_ASSIGN then
    if isrvalue type then do
      act (scanerror .T_SEMICOLON "Illegal assignment in getassignment")
      let _ ← self .getassignment
      return Int.lor EXPR_RVALUE EXPR_ASSIGN
    else do
      act writeindexop
      let t1 ← eff gettoken
      if t1 = .T_LEFTBRACE then do
        act rescantoken
        let _ ← self .getinitlist
        initlisttail self fuel
        return EXPR_ASSIGN
      else do
        act rescantoken
        let _ ← self .getassignment
        act (addop .OP_ASSIGN)
        return EXPR_ASSIGN
  else do
    act rescantoken
    return type

/-- Get an assignment (lvalue = ...) or possibly just an expression
(getassignment). -/
def getassignment (fuel : Nat) (self : Rec) : P Int := do
  let t ← eff gettoken
  if t = .T_COMMA ∨ t = .T_SEMICOLON ∨ t = .T_NEWLINE ∨ t = .T_RIGHTPAREN
      ∨ t = .T_RIGHTBRACKET ∨ t = .T_RIGHTBRACE ∨ t = .T_EOF then do
    act (addop .OP_UNDEF)
    act rescantoken
    return EXPR_RVALUE
  else do
    act rescantoken
    let type ← self .getaltcond
    getassignment_tail fuel self type

/-- Get a possible conditional result expression (getaltcond). -/
def getaltcond (self : Rec) : P Int := do
  let base ← eff (newlabels 2)
  let donelabel := base
  let altlab := base + 1
  let type ← self .getorcond
  let t ← eff gettoken
  if t ≠ .T_QUESTIONMARK then do
    act rescantoken
    return type
  else do
    act (clearlabel donelabel)
    act (clearlabel altlab)
    act (addoplabel .OP_JUMPZ altlab)
    let type1 ← self .getaltcond
    let t1 ← eff gettoken
    if t1 ≠ .T_COLON then do
      act (scanerror .T_SEMICOLON "Missing colon for conditional expression")
      return EXPR_RVALUE
    else do
      act (addoplabel .OP_JUMP donelabel)
      act (setlabel altlab)
      let type2 ← self .getaltcond
      act (setlabel donelabel)
      return Int.lor type1 type2

/-- End of getorcond and getandcond: the done label is placed when a jump
refers to it. -/
def finishcond (donelabel : Nat) (type : Int) : P Int := do
  act rescantoken
  let chained ← ask (fun s => decide ((getlabel donelabel s).l_chain ≥ 0))
  whenP chained (act (setlabel donelabel))
  return type

/-- Loop of getorcond. -/
def getorcond_loop (self : Rec) (donelabel : Nat) : Nat → Int → P Int
  | 0, _ => fail
  | k + 1, type => do
    let t ← eff gettoken
    if t = .T_OROR then do
      act (addoplabel .OP_CONDORJUMP donelabel)
      let type1 ← self .getandcond
      getorcond_loop self donelabel k (Int.lor type type1)
    else
      finishcond donelabel type

/-- Get a possible conditional or expression (getorcond). -/
def getorcond (fuel : Nat) (self : Rec) : P Int := do
  let donelabel ← eff (newlabels 1)
  act (clearlabel donelabel)
  let type ← self .getandcond
  getorcond_loop self donelabel fuel type

/-- Loop of getandcond. -/
def getandcond_loop (self : Rec) (donelabel : Nat) : Nat → Int → P Int
  | 0, _ => fail
  | k + 1, type => do
    let t ← eff gettoken
    if t = .T_ANDAND then do
      act (addoplabel .OP_CONDANDJUMP donelabel)
      let type1 ← self .getrelation
      getandcond_loop self donelabel k (Int.lor type type1)
    else
      finishcond donelabel type

/-- Get a possible conditional and expression (getandcond). -/
def getandcond (fuel : Nat) (self : Rec) : P Int := do
  let donelabel ← eff (newlabels 1)
  act (clearlabel donelabel)
  let type ← self .getrelation
  getandcond_loop self donelabel fuel type

/-- The switch of getrelation from a comparison token to its opcode. -/
def relationop (t : Tok) : Option Op :=
  match t with
  | .T_EQ => some .OP_EQ
  | .T_NE => some .OP_NE
  | .T_LT => some .OP_LT
  | .T_GT => some .OP_GT
  | .T_LE => some .OP_LE
  | .T_GE => some .OP_GE
  | _ => none

/-- Get a possible relation, or just an expression (getrelation). -/
def getrelation (self : Rec) : P Int := do
  let type ← self .getsum
  let t ← eff gettoken
  match relationop t with
  | none => do
    act rescantoken
    return type
  | some op => do
    let _ ← self .getsum
    act (addop op)
    return EXPR_RVALUE

/-- The switch of the loop of getsum. -/
def sumop (t : Tok) : Option Op :=
  match t with
  | .T_PLUS => some .OP_ADD
  | .T_MINUS => some .OP_SUB
  | _ => none

/-- Loop of getsum. -/
def getsum_loop (self : Rec) : Nat → Int → P Int
  | 0, _ => fail
  | k + 1, type => do
    let t ← eff gettoken
    match sumop t with
    | none => do
      act rescantoken
      return type
    | some op => do
      let _ ← self .getproduct
      act (addop op)
      getsum_loop self k EXPR_RVALUE

/-- Get an expression made up of sums of products (getsum). -/
def getsum (fuel : Nat) (self : Rec) : P Int := do
  let t ← eff gettoken
  if t = .T_PLUS then do
    let _ ← self .getproduct
    act (addop .OP_PLUS)
    getsum_loop self fuel EXPR_RVALUE
  else if t = .T_MINUS then do
    let _ ← self .getproduct
    act (addop .OP_NEGATE)
    getsum_loop self fuel EXPR_RVALUE
  else do
    act rescantoken
    let type ← self .getproduct
    getsum_loop self fuel type

/-- The switch of the loop of getproduct. -/
def productop (t : Tok) : Option Op :=
  match t with
  | .T_MULT => some .OP_MUL
  | .T_DIV => some .OP_DIV
  | .T_MOD => some .OP_MOD
  | .T_SLASHSLASH => some .OP_QUO
  | _ => none

/-- Loop of getproduct. -/
def getproduct_loop (self : Rec) : Nat → Int → P Int
  | 0, _ => fail
  | k + 1, type => do
    let t ← eff gettoken
    match productop t with
    | none => do
      act rescantoken
      return type
    | some op => do
      let _ ← self .getorexpr
      act (addop op)
      getproduct_loop self k EXPR_RVALUE

/-- Get the product of arithmetic or expressions (getproduct). -/
def getproduct (fuel : Nat) (self : Rec) : P Int := do
  let type ← self .getorexpr
  getproduct_loop self fuel type

/-- Loop of getorexpr. -/
def getorexpr_loop (self : Rec) : Nat → Int → P Int
  | 0, _ => fail
  | k + 1, type => do
    let t ← eff gettoken
    if t = .T_OR then do
      let _ ← self .getandexpr
      act (addop .OP_OR)
      getorexpr_loop self k EXPR_RVALUE
    else do
      act rescantoken
      return type

/-- Get an expression made up of arithmetic or operators (getorexpr). -/
def getorexpr (fuel : Nat) (self : Rec) : P Int := do
  let type ← self .getandexpr
  getorexpr_loop self fuel type

/-- The switch of the loop of getandexpr. -/
def andexprop (t : Tok) : Option Op :=
  match t with
  | .T_AND => some .OP_AND
  | .T_HASH => some .OP_HASHOP
  | .T_TILDE => some .OP_XOR
  | .T_BACKSLASH => some .OP_SETMINUS
  | _ => none

/-- Loop of getandexpr. -/
def getandexpr_loop (self : Rec) : Nat → Int → P Int
  | 0, _ => fail
  | k + 1, type => do
    let t ← eff gettoken
    match andexprop t with
    | none => do
      act rescantoken
      return type
    | some op => do
      let _ ← self .getshiftexpr
      act (addop op)
      getandexpr_loop self k EXPR_RVALUE

/-- Get an expression made up of arithmetic and operators (getandexpr). -/
def getandexpr (fuel : Nat) (self : Rec) : P Int := do
  let type ← self .getshiftexpr
  getandexpr_loop self fuel type

/-- The first switch of getshiftexpr: the unary operators. -/
def unaryop (t : Tok) : Option Op :=
  match t with
  | .T_PLUS => some .OP_PLUS
  | .T_MINUS => some .OP_NEGATE
  | .T_NOT => some .OP_NOT
  | .T_DIV => some .OP_INVERT
  | .T_BACKSLASH => some .OP_BACKSLASH
  | .T_TILDE => some .OP_COMP
  | .T_HASH => some .OP_CONTENT
  | _ => none

/-- The second switch of getshiftexpr: power and shifts. -/
def shiftop (t : Tok) : Option Op :=
  match t with
  | .T_POWER => some .OP_POWER
  | .T_LEFTSHIFT => some .OP_LEFTSHIFT
  | .T_RIGHTSHIFT => some .OP_RIGHTSHIFT
  | _ => none

/-- Get a shift or power expression (getshiftexpr). -/
def getshiftexpr (self : Rec) : P Int := do
  let t ← eff gettoken
  match unaryop t with
  | some op => do
    let _ ← self .getshiftexpr
    act (addop op)
    return EXPR_RVALUE
  | none => do
    act rescantoken
    let type ← self .getreference
    let t1 ← eff gettoken
    match shiftop t1 with
    | none => do
      act rescantoken
      return type
    | some op => do
      let _ ← self .getshiftexpr
      act (addop op)
      return EXPR_RVALUE

/-- Set an address or dereference indicator (getreference). -/
def getreference (self : Rec) : P Int := do
  let t ← eff gettoken
  if t = .T_ANDAND then do
    act (scanerror .T_NULL "Non-variable operand for &")
    let _ ← self .getreference
    act (addop .OP_PTR)
    return EXPR_RVALUE
  else if t = .T_AND then do
    let _ ← self .getreference
    act (addop .OP_PTR)
    return EXPR_RVALUE
  else if t = .T_MULT then do
    let _ ← self .getreference
    act (addop .OP_DEREF)
    return 0
  else if t = .T_POWER then do
    let _ ← self .getreference
    act (addop .OP_DEREF)
    act (addop .OP_DEREF)
    return 0
  else do
    act rescantoken
    self .getincdecexpr

/-- Inner loop of getincdecexpr after a postfix ++ or --; returns the token
that ended it. -/
def getincdecexpr_loop : Nat → P Tok
  | 0 => fail
  | k + 1 => do
    let tok ← eff gettoken
    if tok = .T_PLUSPLUS then do
      act (addop .OP_PREINC)
      getincdecexpr_loop k
    else if tok = .T_MINUSMINUS then do
      act (addop .OP_PREDEC)
      getincdecexpr_loop k
    else do
      act (addop .OP_POP)
      return tok

/-- End of getincdecexpr: the postfix factorial. -/
def getincdecexpr_end (tok : Tok) (type : Int) : P Int :=
  if tok = .T_NOT then do
    act (fun s => addopfunction .OP_CALL (getbuiltinfunc "fact" s) 1 s)
    let _ ← eff gettoken
    act rescantoken
    return EXPR_RVALUE
  else do
    act rescantoken
    return type

/-- Get an increment or decrement expression (getincdecexpr). -/
def getincdecexpr (fuel : Nat) (self : Rec) : P Int := do
  let type ← self .getterm
  let tok ← eff gettoken
  if tok = .T_PLUSPLUS ∨ tok = .T_MINUSMINUS then do
    whenP (isrvalue type) (act (scanerror .T_NULL "Bad ++ usage"))
    act writeindexop
    act (addop (if tok = .T_PLUSPLUS then .OP_POSTINC else .OP_POSTDEC))
    let tok1 ← getincdecexpr_loop fuel
    getincdecexpr_end tok1 (Int.lor EXPR_RVALUE EXPR_ASSIGN)
  else
    getincdecexpr_end tok type

/-- The postfix loop of getterm: subscripts and element references. -/
def getterm_loop (self : Rec) : Nat → P Int
  | 0 => fail
  | k + 1 => do
    let t ← eff gettoken
    if t = .T_LEFTBRACKET then do
      act rescantoken
      let _ ← self .getmatargs
      getterm_loop self k
    else if t = .T_PERIOD then do
      act getelement
      getterm_loop self k
    else if t = .T_LEFTPAREN then do
      act (scanerror .T_NULL "Function calls not allowed as expressions")
      act rescantoken
      return 0
    else do
      act rescantoken
      return 0

/-- Loop of the T_MAT case of getterm: further matrices after commas. -/
def getterm_mat (self : Rec) : Nat → P Int
  | 0 => fail
  | k + 1 => do
    let t ← eff gettoken
    if t = .T_COMMA then do
      act (addop .OP_POP)
      let _ ← self (.getonematrix .SYM_UNDEFINED)
      getterm_mat self k
    else do
      act rescantoken
      return EXPR_ASSIGN

/-- The switch of getterm; returns the type of term found. In the default
case the C code tests `iskeyword(type)` with `type` still 0, the code of
T_NULL. -/
def getterm_head (fuel : Nat) (self : Rec) : P Int := do
  let t ← eff gettoken
  if t = .T_NUMBER then do
    act (fun s => addopone .OP_NUMBER (tokennumber s) s)
    return Int.lor EXPR_RVALUE EXPR_CONST
  else if t = .T_IMAGINARY then do
    act (fun s => addopone .OP_IMAGINARY (tokennumber s) s)
    return Int.lor EXPR_RVALUE EXPR_CONST
  else if t = .T_OLDVALUE then do
    act (addop .OP_OLDVALUE)
    return 0
  else if t = .T_STRING then do
    act (fun s => addopone .OP_STRING (tokenstring s) s)
    return EXPR_RVALUE
  else if t = .T_PLUSPLUS then do
    let type ← self .getterm
    whenP (isrvalue type) (act (scanerror .T_NULL "Bad ++ usage"))
    act writeindexop
    act (addop .OP_PREINC)
    return EXPR_ASSIGN
  else if t = .T_MINUSMINUS then do
    let type ← self .getterm
    whenP (isrvalue type) (act (scanerror .T_NULL "Bad -- usage"))
    act writeindexop
    act (addop .OP_PREDEC)
    return EXPR_ASSIGN
  else if t = .T_LEFTPAREN then do
    let oldmode ← eff (tokenmode TM_DEFAULT)
    let type ← self .getexprlist
    let t1 ← eff gettoken
    whenP (t1 ≠ .T_RIGHTPAREN) (act (scanerror .T_SEMICOLON "Missing right parenthesis"))
    let _ ← eff (tokenmode oldmode)
    return type
  else if t = .T_MAT then do
    let _ ← self (.getonematrix .SYM_UNDEFINED)
    getterm_mat self fuel
  else if t = .T_OBJ then do
    let _ ← self (.getobjdeclaration .SYM_UNDEFINED)
    return EXPR_ASSIGN
  else if t = .T_SYMBOL then do
    act rescantoken
    self (.getidexpr true false)
  else if t = .T_LEFTBRACKET then do
    act (scanerror .T_NULL "Bad index usage")
    return 0
  else if t = .T_PERIOD then do
    act (scanerror .T_NULL "Bad element reference")
    return 0
  else if iskeyword .T_NULL then do
    act (scanerror .T_NULL "Expression contains reserved keyword")
    return 0
  else do
    act rescantoken
    act (scanerror .T_COMMA "Missing expression")
    return 0

/-- Get a single term (getterm). -/
def getterm (fuel : Nat) (self : Rec) : P Int := do
  let type ← getterm_head fuel self
  if type = 0 then getterm_loop self fuel
  else return type

/-- The loop of getidexpr collecting element references and matrix index
operations after the identifier. -/
def getidexpr_loop (self : Rec) (okmat : Bool) : Nat → P Int
  | 0 => fail
  | k + 1 => do
    let t ← eff gettoken
    if t = .T_LEFTBRACKET then do
      act rescantoken
      if okmat = false then return 0
      else do
        let _ ← self .getmatargs
        getidexpr_loop self okmat k
    else if t = .T_ARROW then do
      act (addop .OP_DEREF)
      act getelement
      getidexpr_loop self okmat k
    else if t = .T_PERIOD then do
      act getelement
      getidexpr_loop self okmat k
    else if t = .T_LEFTPAREN then do
      act (scanerror .T_NULL "Function calls not allowed as expressions")
      act rescantoken
      return 0
    else do
      act rescantoken
      return 0

/-- Read in an identifier expression (getidexpr). -/
def getidexpr (fuel : Nat) (self : Rec) (okmat autodef : Bool) : P Int := do
  let r ← eff getid
  if r.1 = false then return 0
  else do
    let t ← eff gettoken
    if t = .T_LEFTPAREN then do
      let oldmode ← eff (tokenmode TM_DEFAULT)
      let _ ← self (.getcallargs r.2)
      let _ ← eff (tokenmode oldmode)
      getidexpr_loop self okmat fuel
    else if t = .T_ASSIGN then do
      act rescantoken
      act (usesymbol r.2 true)
      getidexpr_loop self okmat fuel
    else do
      act rescantoken
      act (usesymbol r.2 autodef)
      getidexpr_loop self okmat fuel

/-- Loop of getmatargs over the indexes separated by commas. -/
def getmatargs_loop (self : Rec) : Nat → Int → P Int
  | 0, _ => fail
  | k + 1, dim => do
    let _ ← self .getopassignment
    let t ← eff gettoken
    if t = .T_RIGHTBRACKET then do
      act (addoptwo .OP_INDEXADDR dim 0)
      return 0
    else if t = .T_COMMA then getmatargs_loop self k (dim + 1)
    else do
      act rescantoken
      act (scanerror .T_NULL "Missing right bracket in array reference")
      return 0

/-- Read in a set of matrix index arguments (getmatargs). -/
def getmatargs (fuel : Nat) (self : Rec) : P Int := do
  let t ← eff gettoken
  if t ≠ .T_LEFTBRACKET then do
    act (scanerror .T_NULL "Matrix indexing expected")
    return 0
  else do
    let t1 ← eff gettoken
    if t1 = .T_LEFTBRACKET then do
      let _ ← self .getopassignment
      let t2 ← eff gettoken
      if t2 ≠ .T_RIGHTBRACKET then do
        act (scanerror .T_NULL "Bad fast index usage")
        return 0
      else do
        let t3 ← eff gettoken
        if t3 ≠ .T_RIGHTBRACKET then do
          act (scanerror .T_NULL "Bad fast index usage")
          return 0
        else do
          act (addop .OP_FIADDR)
          return 0
    else do
      act rescantoken
      getmatargs_loop self fuel 1

/-- Choice of the call opcode in getcallargs: CALL with the builtin index, or
USERCALL with the index of the user function. -/
def callee (name : String) (s : State) : (Op × Int) × State :=
  let index := getbuiltinfunc name s
  if index < 0 then
    let r := adduserfunc name s
    ((.OP_USERCALL, r.1), r.2)
  else ((.OP_CALL, index), s)

/-- Emit the call at the closing parenthesis. -/
def endcall (op : Op) (index argcount : Int) : P Int := do
  whenP (op = .OP_CALL) (act (builtincheck index argcount))
  act (addopfunction op index argcount)
  return 0

/-- Loop of getcallargs over the arguments. -/
def getcallargs_loop (self : Rec) (name : String) (op : Op) (index : Int) : Nat → Int → P Int
  | 0, _ => fail
  | k + 1, argcount0 => do
    let argcount := argcount0 + 1
    let t ← eff gettoken
    if t = .T_RIGHTPAREN then do
      act (addop .OP_UNDEF)
      endcall op index argcount
    else do
      act rescantoken
      let t1 ← eff gettoken
      if t1 = .T_COMMA then do
        act (addop .OP_UNDEF)
        getcallargs_loop self name op index k argcount
      else do
        act rescantoken
        let t2 ← eff gettoken
        let addrflag := decide (t2 = .T_BACKQUOTE)
        whenP (!addrflag) (act rescantoken)
        let _ ← self .getopassignment
        whenP addrflag (act writeindexop)
        whenP (!addrflag && decide (op ≠ .OP_CALL)) (act (addop .OP_GETVALUE))
        whenP (decide (name = "quomod") && decide (argcount > 2)) (act writeindexop)
        let t3 ← eff gettoken
        if t3 = .T_RIGHTPAREN then endcall op index argcount
        else if t3 = .T_COMMA then getcallargs_loop self name op index k argcount
        else do
          act (scanerror .T_SEMICOLON "Missing right parenthesis in function call")
          return 0

/-- Get arguments for a function call (getcallargs). -/
def getcallargs (fuel : Nat) (self : Rec) (name : String) : P Int := do
  let c ← eff (callee name)
  let t ← eff gettoken
  if t = .T_RIGHTPAREN then endcall c.1 c.2 0
  else do
    act rescantoken
    getcallargs_loop self name c.1 c.2 fuel 0

/-- One element of an initializer list: a nested list or an opassignment. -/
def getinitlist_elem (self : Rec) (t : Tok) (index : Int) : P Unit :=
  if t = .T_LEFTBRACE then do
    act rescantoken
    act (addop .OP_DUPLICATE)
    act (addopone .OP_ELEMADDR index)
    let _ ← self .getinitlist
    return ()
  else do
    act rescantoken
    let _ ← self .getopassignment
    return ()

/-- The loop `for (index = 0; ; index++)` of getinitlist. -/
def getinitlist_loop (self : Rec) (oldmode : Int) : Nat → Int → P Int
  | 0, _ => fail
  | k + 1, index => do
    let t ← eff gettoken
    if t = .T_COMMA ∨ t = .T_NEWLINE then getinitlist_loop self oldmode k (index + 1)
    else if t = .T_RIGHTBRACE then do
      let _ ← eff (tokenmode oldmode)
      return index
    else do
      getinitlist_elem self t index
      act (addopone .OP_ELEMINIT index)
      let t1 ← eff gettoken
      if t1 = .T_COMMA ∨ t1 = .T_NEWLINE then getinitlist_loop self oldmode k (index + 1)
      else if t1 = .T_RIGHTBRACE then do
        let _ ← eff (tokenmode oldmode)
        return index
      else do
        act (scanerror .T_SEMICOLON "Bad initialization list")
        let _ ← eff (tokenmode oldmode)
        return (-1)

/-- Get an optional initialization list for a matrix or object definition
(getinitlist). -/
def getinitlist (fuel : Nat) (self : Rec) : P Int := do
  let oldmode ← eff (tokenmode TM_DEFAULT)
  let t ← eff gettoken
  if t ≠ .T_LEFTBRACE then do
    act (scanerror .T_SEMICOLON "Missing brace for initialization list")
    let _ ← eff (tokenmode oldmode)
    return (-1)
  else
    getinitlist_loop self oldmode fuel 0

/-- The variable named in a matrix or object creation: an lvalue expression
in a statement, a symbol to be defined in a declaration. -/
def declname (self : Rec) (symtype : SymType) (okmat : Bool) : P Unit :=
  if symtype = .SYM_UNDEFINED then do
    act rescantoken
    let _ ← self (.getidexpr okmat true)
    return ()
  else do
    let name ← ask tokensymbol
    act (definesymbol name symtype)
    act (usesymbol name false)

/-- The loop `while (gettoken() == T_COMMA);`. -/
def skipcommas : Nat → P Unit
  | 0 => fail
  | k + 1 => do
    let t ← eff gettoken
    if t = .T_COMMA then skipcommas k
    else return ()

/-- Create one matrix (getonematrix). The index returned by addqconstant is
never negative, so the call of math_error is not reached. -/
def getonematrix (fuel : Nat) (self : Rec) (symtype : SymType) : P Int := do
  let t ← eff gettoken
  if t = .T_SYMBOL then do
    declname self symtype false
    skipcommas fuel
    act rescantoken
    let _ ← self (.getonematrix symtype)
    act (addop .OP_ASSIGN)
    return 0
  else do
    act rescantoken
    let t1 ← eff gettoken
    if t1 ≠ .T_LEFTBRACKET then do
      act rescantoken
      act (scanerror .T_SEMICOLON "Left-bracket expected")
      return 0
    else do
      let t2 ← eff gettoken
      if t2 = .T_RIGHTBRACKET then do
        act clearopt
        let patchpc ← ask (fun s => s.f_opcodes.length + 1)
        act (addopone .OP_NUMBER (-1))
        act clearopt
        act (addop .OP_ZERO)
        act (addopone .OP_MATCREATE 1)
        act (addop .OP_ZERO)
        act (addop .OP_INITFILL)
        let t3 ← eff gettoken
        let count ← (if t3 = .T_ASSIGN then self .getinitlist
                     else (do act rescantoken; return 0 : P Int))
        let index ← eff (addqconstant count)
        act (patchopcode patchpc index)
        return 0
      else do
        act rescantoken
        let _ ← self .creatematrix
        initlisttail self fuel
        return 0

/-- First switch of the loop of creatematrix: the bounds of one dimension. -/
def creatematrix_bound (self : Rec) : P Unit := do
  let t ← eff gettoken
  if t = .T_RIGHTBRACKET ∨ t = .T_COMMA then do
    act rescantoken
    act (addop .OP_ONE)
    act (addop .OP_SUB)
    act (addop .OP_ZERO)
  else if t = .T_COLON then do
    let _ ← self .getopassignment
    return ()
  else act rescantoken

/-- Element initializer of a matrix: a nested matrix or zero. -/
def creatematrix_elem (self : Rec) : P Unit := do
  let t ← eff gettoken
  if t = .T_LEFTBRACKET then do
    let _ ← self .creatematrix
    return ()
  else do
    act rescantoken
    act (addop .OP_ZERO)

/-- Loop of creatematrix over the dimensions. -/
def creatematrix_loop (self : Rec) : Nat → Int → P Int
  | 0, _ => fail
  | k + 1, dim => do
    let _ ← self .getopassignment
    creatematrix_bound self
    let t ← eff gettoken
    if t = .T_RIGHTBRACKET then do
      act (addopone .OP_MATCREATE dim)
      creatematrix_elem self
      act (addop .OP_INITFILL)
      return 0
    else if t = .T_COMMA then do
      let maxdim ← ask (fun s => s.MAXDIM)
      if dim + 1 ≤ maxdim then creatematrix_loop self k (dim + 1)
      else do
        act (scanerror .T_SEMICOLON "Only MAXDIM dimensions allowed")
        return 0
    else do
      act (scanerror .T_SEMICOLON "Illegal matrix definition")
      return 0

/-- Create a matrix with explicit bounds (creatematrix). -/
def creatematrix (fuel : Nat) (self : Rec) : P Int :=
  creatematrix_loop self fuel 1

/-- End of the element list of an object type: register the type and collect
the variables. -/
def getobjdeclaration_define (self : Rec) (name : String) (symtype : SymType)
    (oldmode : Int) (indices : List Int) : P Int := do
  let _ ← eff (tokenmode oldmode)
  act (defineobject name indices indices.length)
  let _ ← self (.getobjvars name symtype)
  return 0

/-- Error exit of the element list of an object type. -/
def getobjdeclaration_error (msg : String) (oldmode : Int) : P Int := do
  act (scanerror .T_SEMICOLON msg)
  let _ ← eff (tokenmode oldmode)
  return 0

/-- Loop of getobjdeclaration reading the element names; `indices` holds the
first `count` entries of the array. -/
def getobjdeclaration_loop (self : Rec) (name : String) (symtype : SymType) (oldmode : Int) :
    Nat → List Int → P Int
  | 0, _ => fail
  | k + 1, indices => do
    let t ← eff gettoken
    if t = .T_SYMBOL then do
      let maxindices ← ask (fun s => s.MAXINDICES)
      if indices.length = maxindices then
        getobjdeclaration_error "Too many elements in OBJ statement" oldmode
      else do
        let index ← eff (fun s => addelement (tokensymbol s) s)
        if indices.contains index then
          getobjdeclaration_error "Duplicate element name" oldmode
        else do
          let t1 ← eff gettoken
          if t1 = .T_COMMA then
            getobjdeclaration_loop self name symtype oldmode k (indices ++ [index])
          else do
            act rescantoken
            let t2 ← eff gettoken
            if t2 ≠ .T_RIGHTBRACE then
              getobjdeclaration_error "Bad object type definition" oldmode
            else
              getobjdeclaration_define self name symtype oldmode (indices ++ [index])
    else if t = .T_RIGHTBRACE then getobjdeclaration_define self name symtype oldmode indices
    else if t = .T_NEWLINE then getobjdeclaration_loop self name symtype oldmode k indices
    else getobjdeclaration_error "Bad object type definition" oldmode

/-- Read in an object declaration (getobjdeclaration). -/
def getobjdeclaration (fuel : Nat) (self : Rec) (symtype : SymType) : P Int := do
  let t ← eff gettoken
  if t ≠ .T_SYMBOL then do
    act (scanerror .T_SEMICOLON "Object type name missing")
    return 0
  else do
    let name ← ask (fun s => addliteral (tokensymbol s))
    let t1 ← eff gettoken
    if t1 ≠ .T_LEFTBRACE then do
      act rescantoken
      let _ ← self (.getobjvars name symtype)
      return 0
    else do
      let oldmode ← eff (tokenmode TM_DEFAULT)
      getobjdeclaration_loop self name symtype oldmode fuel []

/-- Create one object and assign it to the variables named before it
(getoneobj). -/
def getoneobj (fuel : Nat) (self : Rec) (index : Int) (symtype : SymType) : P Int := do
  let t ← eff gettoken
  if t = .T_SYMBOL then do
    declname self symtype true
    let _ ← self (.getoneobj index symtype)
    act (addop .OP_ASSIGN)
    return 0
  else do
    act rescantoken
    act (addopone .OP_OBJCREATE index)
    initlisttail self fuel
    return 0

/-- Loop of getobjvars over the variables separated by commas. -/
def getobjvars_loop (self : Rec) (index : Int) (symtype : SymType) : Nat → P Int
  | 0 => fail
  | k + 1 => do
    let _ ← self (.getoneobj index symtype)
    let t ← eff gettoken
    if t ≠ .T_COMMA then do
      act rescantoken
      return 0
    else do
      act (addop .OP_POP)
      getobjvars_loop self index symtype k

/-- Collect a set of variables for the specified object type (getobjvars). -/
def getobjvars (fuel : Nat) (self : Rec) (name : String) (symtype : SymType) : P Int := do
  let index ← ask (checkobject name)
  if index < 0 then do
    act (scanerror .T_SEMICOLON "Object has not been defined yet")
    return 0
  else
    getobjvars_loop self index symtype fuel

/-- Loop of getmatdeclaration. -/
def getmatdeclaration_loop (self : Rec) (symtype : SymType) : Nat → P Int
  | 0 => fail
  | k + 1 => do
    let t ← eff gettoken
    if t = .T_SYMBOL then do
      act rescantoken
      let _ ← self (.getonematrix symtype)
      act (addop .OP_POP)
      getmatdeclaration_loop self symtype k
    else if t = .T_COMMA then getmatdeclaration_loop self symtype k
    else do
      act rescantoken
      return 0

/-- Get a matrix declaration (getmatdeclaration). -/
def getmatdeclaration (fuel : Nat) (self : Rec) (symtype : SymType) : P Int :=
  getmatdeclaration_loop self symtype fuel

/-- Get a condition (getcondition). -/
def getcondition (self : Rec) : P Int := do
  let t ← eff gettoken
  if t ≠ .T_LEFTPAREN then do
    act (scanerror .T_SEMICOLON "Missing left parenthesis for condition")
    return 0
  else do
    let _ ← self .getexprlist
    let t1 ← eff gettoken
    if t1 ≠ .T_RIGHTPAREN then do
      act (scanerror .T_SEMICOLON "Missing right parenthesis for condition")
      return 0
    else return 0

/-- Modelled from the spec: the print mode of a plain print statement. -/
def PRINT_NORMAL : Int := 0

/-- The selectors of the show statement, recognized by their first four
characters. -/
def SHOWNAMES : List String :=
  ["buil", "real", "func", "objf", "conf", "objt", "file", "size", "erro", "cust",
   "bloc", "cons", "glob", "stat", "numb", "redc", "stri", "lite", "opco"]

/-- Modelled from the spec: stringindex gives the position, counted from one,
of the name in the list, zero when it is absent. -/
def stringindex (names : List String) (name : String) : Int :=
  if names.contains name then (names.indexOf name : Nat) + 1 else 0

/-- Read the show command (getshowstatement); messages printed to the user
are not modelled. -/
def getshowstatement (s : State) : State :=
  let r := gettoken s
  if r.1 = .T_SYMBOL then
    let arg := stringindex SHOWNAMES (String.mk ((tokensymbol r.2).data.take 4))
    if arg = 19 then
      let r1 := gettoken r.2
      if r1.1 ≠ .T_SYMBOL then
        scanerror .T_SEMICOLON "Function name expected" (rescantoken r1.2)
      else
        let u := adduserfunc (tokensymbol r1.2) r1.2
        addopone .OP_SHOW (u.1 + 19) u.2
    else if arg > 0 then addopone .OP_SHOW arg r.2
    else r.2
  else rescantoken r.2

/-- Get the body of a function, or a subbody of a function: the loop of
getbody. -/
def getbody_loop (self : Rec) (oldmode : Int)
    (contlabel breaklabel nextcaselabel defaultlabel : Option Nat) : Nat → P Int
  | 0 => fail
  | k + 1 => do
    let t ← eff gettoken
    if t = .T_RIGHTBRACE then do
      let _ ← eff (tokenmode oldmode)
      return 0
    else if t = .T_EOF then do
      act (scanerror .T_SEMICOLON "End-of-file in function body")
      return 0
    else do
      act rescantoken
      let _ ← self (.getstatement contlabel breaklabel nextcaselabel defaultlabel)
      getbody_loop self oldmode contlabel breaklabel nextcaselabel defaultlabel k

/-- Get the body of a function, or a subbody of a function (getbody). -/
def getbody (fuel : Nat) (self : Rec)
    (contlabel breaklabel nextcaselabel defaultlabel : Option Nat) : P Int := do
  let oldmode ← eff (tokenmode TM_DEFAULT)
  getbody_loop self oldmode contlabel breaklabel nextcaselabel defaultlabel fuel

/-- Loop of getdeclarations. -/
def getdeclarations_loop (self : Rec) (symtype : SymType) : Nat → P Int
  | 0 => fail
  | k + 1 => do
    let t ← eff gettoken
    if t = .T_COMMA then getdeclarations_loop self symtype k
    else if t = .T_NEWLINE ∨ t = .T_SEMICOLON ∨ t = .T_RIGHTBRACE then do
      act rescantoken
      return 0
    else if t = .T_SYMBOL then do
      act (fun s => addopone .OP_DEBUG (linenumber s) s)
      act rescantoken
      let _ ← self (.getsimpledeclaration symtype)
      getdeclarations_loop self symtype k
    else if t = .T_MAT then do
      act (fun s => addopone .OP_DEBUG (linenumber s) s)
      let _ ← self (.getmatdeclaration symtype)
      getdeclarations_loop self symtype k
    else if t = .T_OBJ then do
      act (fun s => addopone .OP_DEBUG (linenumber s) s)
      let _ ← self (.getobjdeclaration symtype)
      act (addop .OP_POP)
      getdeclarations_loop self symtype k
    else do
      act (scanerror .T_SEMICOLON "Bad syntax in declaration statement")
      return 0

/-- Get a line of possible local, global, or static variable declarations
(getdeclarations). -/
def getdeclarations (fuel : Nat) (self : Rec) (symtype : SymType) : P Int :=
  getdeclarations_loop self symtype fuel

/-- Loop of getsimpledeclaration. -/
def getsimpledeclaration_loop (self : Rec) (symtype : SymType) : Nat → P Int
  | 0 => fail
  | k + 1 => do
    let t ← eff gettoken
    if t = .T_SYMBOL then do
      act rescantoken
      let res ← self (.getonevariable symtype)
      whenP (res ≠ 0) (act (addop .OP_POP))
      getsimpledeclaration_loop self symtype k
    else if t = .T_COMMA then getsimpledeclaration_loop self symtype k
    else do
      act rescantoken
      return 0

/-- Get declaration of a sequence of simple identifiers
(getsimpledeclaration). -/
def getsimpledeclaration (fuel : Nat) (self : Rec) (symtype : SymType) : P Int :=
  getsimpledeclaration_loop self symtype fuel

/-- Get one variable in a sequence of simple identifiers (getonevariable). -/
def getonevariable (self : Rec) (symtype : SymType) : P Int := do
  let t ← eff gettoken
  if t = .T_SYMBOL then do
    let name ← ask (fun s => addliteral (tokensymbol s))
    let res ← self (.getonevariable symtype)
    act (definesymbol name symtype)
    whenP (res ≠ 0) (do
      act (usesymbol name false)
      act (addop .OP_ASSIGNBACK))
    return res
  else if t = .T_ASSIGN then do
    let _ ← self .getopassignment
    act rescantoken
    return 1
  else do
    act rescantoken
    return 0

/-- Get a simple assignment style body for a function declaration
(getsimplebody). -/
def getsimplebody (self : Rec) : P Int := do
  let _ ← eff (tokenmode TM_NEWLINES)
  let _ ← self .getexprlist
  act (addop .OP_RETURN)
  return 0

/-- The loop that ends most statements of getstatement: the terminator. -/
def getstatement_end : Nat → P Int
  | 0 => fail
  | k + 1 => do
    let t ← eff gettoken
    if t = .T_RIGHTBRACE ∨ t = .T_NEWLINE ∨ t = .T_EOF then do
      act rescantoken
      return 0
    else if t = .T_SEMICOLON then return 0
    else if t = .T_NUMBER ∨ t = .T_IMAGINARY then do
      act (fun s => addopone .OP_NUMBER (tokennumber s) s)
      act (scanerror .T_NULL "Unexpected number")
      getstatement_end k
    else do
      act (scanerror .T_NULL "Semicolon expected")
      return 0

/-- The default case of getstatement: an expression statement. -/
def getstatement_expr (fuel : Nat) (self : Rec) (contlabel breaklabel : Option Nat) :
    P Int := do
  act rescantoken
  let type ← self .getexprlist
  let c0 ← ask (fnamechar 0)
  if contlabel.isSome ∨ breaklabel.isSome ∨ c0 ≠ '*' then do
    act (addop .OP_POP)
    getstatement_end fuel
  else do
    act (addop .OP_SAVE)
    let c1 ← ask (fnamechar 1)
    if isassign type ∨ c1 ≠ Char.ofNat 0 then do
      act (addop .OP_POP)
      getstatement_end fuel
    else do
      act (addop .OP_PRINTRESULT)
      getstatement_end fuel

/-- The case T_SYMBOL of getstatement: a label definition, or else an
expression statement. -/
def getstatement_symbol (fuel : Nat) (self : Rec) (contlabel breaklabel : Option Nat) :
    P Int := do
  let colon ← eff nextcharcolon
  if colon then do
    act (fun s => definelabel (tokensymbol s) s)
    let t ← eff gettoken
    if t = .T_RIGHTBRACE then do
      act rescantoken
      return 0
    else do
      act rescantoken
      let _ ← self (.getstatement contlabel breaklabel none none)
      return 0
  else
    getstatement_expr fuel self contlabel breaklabel

/-- The case T_RETURN of getstatement. -/
def getstatement_return (fuel : Nat) (self : Rec) : P Int := do
  let t ← eff gettoken
  if t = .T_NEWLINE ∨ t = .T_SEMICOLON then do
    act (addop .OP_UNDEF)
    act (addop .OP_RETURN)
    return 0
  else do
    act rescantoken
    let _ ← self .getexprlist
    let c0 ← ask (fnamechar 0)
    whenP (c0 = '*') (act (addop .OP_SAVE))
    act (addop .OP_RETURN)
    getstatement_end fuel

/-- End of the short forms `if (c) continue`, `if (c) break`, `if (c) goto`. -/
def getstatement_ifend (self : Rec) (contlabel breaklabel : Option Nat) : P Int := do
  let t ← eff gettoken
  whenP (t ≠ .T_SEMICOLON) (act rescantoken)
  let t1 ← eff gettoken
  if t1 ≠ .T_ELSE then do
    act rescantoken
    return 0
  else do
    let _ ← self (.getstatement contlabel breaklabel none none)
    return 0

/-- The case T_IF of getstatement. -/
def getstatement_if (self : Rec) (contlabel breaklabel : Option Nat) (label1 label2 : Nat) :
    P Int := do
  act (clearlabel label1)
  act (clearlabel label2)
  let _ ← self .getcondition
  let t ← eff gettoken
  if t = .T_CONTINUE then
    match contlabel with
    | none => do
      act (scanerror .T_SEMICOLON "CONTINUE not within FOR, WHILE, or DO")
      return 0
    | some l => do
      act (addoplabel .OP_JUMPNZ l)
      getstatement_ifend self contlabel breaklabel
  else if t = .T_BREAK then
    match breaklabel with
    | none => do
      act (scanerror .T_SEMICOLON "BREAK not within FOR, WHILE, or DO")
      return 0
    | some l => do
      act (addoplabel .OP_JUMPNZ l)
      getstatement_ifend self contlabel breaklabel
  else if t = .T_GOTO then do
    let t1 ← eff gettoken
    if t1 ≠ .T_SYMBOL then do
      act (scanerror .T_SEMICOLON "Missing label in goto")
      return 0
    else do
      act (addop .OP_JUMPNZ)
      act (fun s => addlabel (tokensymbol s) s)
      getstatement_ifend self contlabel breaklabel
  else do
    act (addoplabel .OP_JUMPZ label1)
    act rescantoken
    let _ ← self (.getstatement contlabel breaklabel none none)
    let t1 ← eff gettoken
    if t1 ≠ .T_ELSE then do
      act (setlabel label1)
      act rescantoken
      return 0
    else do
      act (addoplabel .OP_JUMP label2)
      act (setlabel label1)
      let _ ← self (.getstatement contlabel breaklabel none none)
      act (setlabel label2)
      return 0

/-- Error exit of a loop or switch statement: the token mode is restored,
then the error is reported. -/
def getstatement_error (oldmode : Int) (msg : String) : P Int := do
  let _ ← eff (tokenmode oldmode)
  act (scanerror .T_SEMICOLON msg)
  return 0

/-- The case T_FOR of getstatement, from `setlabel(&label3)` on: the body.
`contlabel` is the local variable of that name, NULL_LABEL when neither
condition nor step is present. -/
def getstatement_for_body (self : Rec) (oldmode : Int) (label3 label4 : Nat)
    (contlabel : Option Nat) : P Int := do
  act (setlabel label3)
  let cont := match contlabel with
    | none => label3
    | some l => l
  let _ ← self (.getstatement (some cont) (some label4) none none)
  act (addoplabel .OP_JUMP cont)
  act (setlabel label4)
  let _ ← eff (tokenmode oldmode)
  return 0

/-- The case T_FOR of getstatement: the 'c' part, the step. -/
def getstatement_for_c (self : Rec) (oldmode : Int) (label1 label2 label3 label4 : Nat)
    (contlabel : Option Nat) : P Int := do
  let t ← eff gettoken
  if t ≠ .T_RIGHTPAREN then do
    let nocond ← ask (fun s => decide ((getlabel label1 s).l_offset ≤ 0))
    whenP nocond (act (addoplabel .OP_JUMP label3))
    act (setlabel label2)
    act rescantoken
    let _ ← self .getexprlist
    act (addop .OP_POP)
    let hascond ← ask (fun s => decide ((getlabel label1 s).l_offset > 0))
    whenP hascond (act (addoplabel .OP_JUMP label1))
    let t1 ← eff gettoken
    if t1 ≠ .T_RIGHTPAREN then getstatement_error oldmode "Right parenthesis expected"
    else getstatement_for_body self oldmode label3 label4 (some label2)
  else getstatement_for_body self oldmode label3 label4 contlabel

/-- The case T_FOR of getstatement: the 'b' part, the condition. -/
def getstatement_for_b (self : Rec) (oldmode : Int) (label1 label2 label3 label4 : Nat) :
    P Int := do
  let t ← eff gettoken
  if t ≠ .T_SEMICOLON then do
    act (setlabel label1)
    act rescantoken
    let _ ← self .getexprlist
    act (addoplabel .OP_JUMPNZ label3)
    act (addoplabel .OP_JUMP label4)
    let t1 ← eff gettoken
    if t1 ≠ .T_SEMICOLON then getstatement_error oldmode "Missing semicolon"
    else getstatement_for_c self oldmode label1 label2 label3 label4 (some label1)
  else getstatement_for_c self oldmode label1 label2 label3 label4 none

/-- The case T_FOR of getstatement. -/
def getstatement_for (self : Rec) (label1 label2 label3 label4 : Nat) : P Int := do
  let oldmode ← eff (tokenmode TM_DEFAULT)
  act (clearlabel label1)
  act (clearlabel label2)
  act (clearlabel label3)
  act (clearlabel label4)
  let t ← eff gettoken
  if t ≠ .T_LEFTPAREN then getstatement_error oldmode "Left parenthesis expected"
  else do
    let t1 ← eff gettoken
    if t1 ≠ .T_SEMICOLON then do
      act rescantoken
      let _ ← self .getexprlist
      act (addop .OP_POP)
      let t2 ← eff gettoken
      if t2 ≠ .T_SEMICOLON then getstatement_error oldmode "Missing semicolon"
      else getstatement_for_b self oldmode label1 label2 label3 label4
    else getstatement_for_b self oldmode label1 label2 label3 label4

/-- The case T_WHILE of getstatement. -/
def getstatement_while (self : Rec) (label1 label2 : Nat) : P Int := do
  let oldmode ← eff (tokenmode TM_DEFAULT)
  act (clearlabel label1)
  act (clearlabel label2)
  act (setlabel label1)
  let _ ← self .getcondition
  act (addoplabel .OP_JUMPZ label2)
  let _ ← self (.getstatement (some label1) (some label2) none none)
  act (addoplabel .OP_JUMP label1)
  act (setlabel label2)
  let _ ← eff (tokenmode oldmode)
  return 0

/-- The case T_DO of getstatement. -/
def getstatement_do (self : Rec) (label1 label2 label3 : Nat) : P Int := do
  let oldmode ← eff (tokenmode TM_DEFAULT)
  act (clearlabel label1)
  act (clearlabel label2)
  act (clearlabel label3)
  act (setlabel label3)
  let _ ← self (.getstatement (some label1) (some label2) none none)
  let t ← eff gettoken
  if t ≠ .T_WHILE then getstatement_error oldmode "WHILE keyword expected for DO statement"
  else do
    act (setlabel label1)
    let _ ← self .getcondition
    act (addoplabel .OP_JUMPNZ label3)
    act (setlabel label2)
    let _ ← eff (tokenmode oldmode)
    return 0

/-- The case T_SWITCH of getstatement. -/
def getstatement_switch (self : Rec) (contlabel : Option Nat) (label1 label2 label3 : Nat) :
    P Int := do
  let oldmode ← eff (tokenmode TM_DEFAULT)
  act (clearlabel label1)
  act (clearlabel label2)
  act (clearlabel label3)
  let _ ← self .getcondition
  let t ← eff gettoken
  if t ≠ .T_LEFTBRACE then
    getstatement_error oldmode "Missing left brace for switch statement"
  else do
    act (addoplabel .OP_JUMP label2)
    act rescantoken
    let _ ← self (.getstatement contlabel (some label1) (some label2) (some label3))
    act (addoplabel .OP_JUMP label1)
    act (setlabel label2)
    let hasdefault ← ask (fun s => decide ((getlabel label3 s).l_offset > 0))
    (if hasdefault then act (addoplabel .OP_JUMP label3) else act (addop .OP_POP) : P Unit)
    act (setlabel label1)
    let _ ← eff (tokenmode oldmode)
    return 0

/-- The case T_CASE of getstatement. -/
def getstatement_case (self : Rec) (contlabel breaklabel nextcaselabel defaultlabel : Option Nat)
    (label1 : Nat) : P Int :=
  match nextcaselabel with
  | none => do
    act (scanerror .T_SEMICOLON "CASE not within SWITCH statement")
    return 0
  | some nextcase => do
    act (clearlabel label1)
    act (addoplabel .OP_JUMP label1)
    act (setlabel nextcase)
    act (clearlabel nextcase)
    let _ ← self .getexprlist
    let t ← eff gettoken
    if t ≠ .T_COLON then do
      act (scanerror .T_SEMICOLON "Colon expected after CASE expression")
      return 0
    else do
      act (addoplabel .OP_CASEJUMP nextcase)
      act (setlabel label1)
      let _ ← self (.getstatement contlabel breaklabel nextcaselabel defaultlabel)
      return 0

/-- The case T_DEFAULT of getstatement. -/
def getstatement_default (self : Rec)
    (contlabel breaklabel nextcaselabel defaultlabel : Option Nat) (label1 : Nat) : P Int := do
  let t ← eff gettoken
  if t ≠ .T_COLON then do
    act (scanerror .T_SEMICOLON "Colon expected after DEFAULT keyword")
    return 0
  else
    match defaultlabel with
    | none => do
      act (scanerror .T_SEMICOLON "DEFAULT not within SWITCH statement")
      return 0
    | some dflt => do
      let placed ← ask (fun s => decide ((getlabel dflt s).l_offset > 0))
      if placed then do
        act (scanerror .T_SEMICOLON "Multiple DEFAULT clauses in SWITCH")
        return 0
      else do
        act (clearlabel label1)
        act (addoplabel .OP_JUMP label1)
        act (setlabel dflt)
        act (addop .OP_POP)
        act (setlabel label1)
        let _ ← self (.getstatement contlabel breaklabel nextcaselabel defaultlabel)
        return 0

/-- The case T_PRINT of getstatement. -/
def getstatement_print (self : Rec) : Nat → Bool → P Int
  | 0, _ => fail
  | k + 1, printeol => do
    let t ← eff gettoken
    if t = .T_RIGHTPAREN ∨ t = .T_RIGHTBRACKET ∨ t = .T_RIGHTBRACE ∨ t = .T_NEWLINE
        ∨ t = .T_EOF then do
      act rescantoken
      whenP printeol (act (addop .OP_PRINTEOL))
      return 0
    else if t = .T_SEMICOLON then do
      whenP printeol (act (addop .OP_PRINTEOL))
      return 0
    else if t = .T_COMMA then do
      act (addop .OP_PRINTSPACE)
      getstatement_print self k false
    else if t = .T_COLON then getstatement_print self k false
    else if t = .T_STRING then do
      act (fun s => addopone .OP_PRINTSTRING (tokenstring s) s)
      getstatement_print self k true
    else do
      act rescantoken
      let _ ← self .getopassignment
      act (addopone .OP_PRINT PRINT_NORMAL)
      getstatement_print self k true

/-- The cases T_QUIT and T_ABORT of getstatement. -/
def getstatement_quit (fuel : Nat) (op : Op) : P Int := do
  let t ← eff gettoken
  if t = .T_STRING then do
    act (fun s => addopone op (tokenstring s) s)
    getstatement_end fuel
  else do
    act (addopone op (-1))
    act rescantoken
    getstatement_end fuel

/-- Get a statement (getstatement). The five LABEL variables of the C
function (label, label1, ..., label4) are allocated on entry. -/
def getstatement (fuel : Nat) (self : Rec)
    (contlabel breaklabel nextcaselabel defaultlabel : Option Nat) : P Int := do
  let label ← eff (newlabels 5)
  let label1 := label + 1
  let label2 := label + 2
  let label3 := label + 3
  let label4 := label + 4
  act (fun s => addopone .OP_DEBUG (linenumber s) s)
  let t ← eff gettoken
  if t = .T_NEWLINE ∨ t = .T_SEMICOLON then return 0
  else if t = .T_GLOBAL then do
    let _ ← self (.getdeclarations .SYM_GLOBAL)
    getstatement_end fuel
  else if t = .T_STATIC then do
    act (clearlabel label)
    act (addoplabel .OP_INITSTATIC label)
    let _ ← self (.getdeclarations .SYM_STATIC)
    act (setlabel label)
    getstatement_end fuel
  else if t = .T_LOCAL then do
    let _ ← self (.getdeclarations .SYM_LOCAL)
    getstatement_end fuel
  else if t = .T_RIGHTBRACE then do
    act (scanerror .T_NULL "Extraneous right brace")
    return 0
  else if t = .T_CONTINUE then
    match contlabel with
    | none => do
      act (scanerror .T_SEMICOLON "CONTINUE not within FOR, WHILE, or DO")
      return 0
    | some l => do
      act (addoplabel .OP_JUMP l)
      getstatement_end fuel
  else if t = .T_BREAK then
    match breaklabel with
    | none => do
      act (scanerror .T_SEMICOLON "BREAK not within FOR, WHILE, or DO")
      return 0
    | some l => do
      act (addoplabel .OP_JUMP l)
      getstatement_end fuel
  else if t = .T_GOTO then do
    let t1 ← eff gettoken
    if t1 ≠ .T_SYMBOL then do
      act (scanerror .T_SEMICOLON "Missing label in goto")
      return 0
    else do
      act (addop .OP_JUMP)
      act (fun s => addlabel (tokensymbol s) s)
      getstatement_end fuel
  else if t = .T_RETURN then getstatement_return fuel self
  else if t = .T_LEFTBRACE then
    self (.getbody contlabel breaklabel nextcaselabel defaultlabel)
  else if t = .T_IF then getstatement_if self contlabel breaklabel label1 label2
  else if t = .T_FOR then getstatement_for self label1 label2 label3 label4
  else if t = .T_WHILE then getstatement_while self label1 label2
  else if t = .T_DO then getstatement_do self label1 label2 label3
  else if t = .T_SWITCH then getstatement_switch self contlabel label1 label2 label3
  else if t = .T_CASE then
    getstatement_case self contlabel breaklabel nextcaselabel defaultlabel label1
  else if t = .T_DEFAULT then
    getstatement_default self contlabel breaklabel nextcaselabel defaultlabel label1
  else if t = .T_ELSE then do
    act (scanerror .T_SEMICOLON "ELSE without preceeding IF")
    return 0
  else if t = .T_SHOW then do
    act getshowstatement
    getstatement_end fuel
  else if t = .T_PRINT then getstatement_print self fuel true
  else if t = .T_QUIT then getstatement_quit fuel .OP_QUIT
  else if t = .T_ABORT then getstatement_quit fuel .OP_ABORT
  else if t = .T_SYMBOL then getstatement_symbol fuel self contlabel breaklabel
  else getstatement_expr fuel self contlabel breaklabel

/-- Dispatch of a call to the body of the function called. -/
def body (fuel : Nat) (self : Rec) : Call → P Int
  | .getbody c b n d => getbody fuel self c b n d
  | .getdeclarations symtype => getdeclarations fuel self symtype
  | .getsimpledeclaration symtype => getsimpledeclaration fuel self symtype
  | .getonevariable symtype => getonevariable self symtype
  | .getstatement c b n d => getstatement fuel self c b n d
  | .getobjdeclaration symtype => getobjdeclaration fuel self symtype
  | .getoneobj index symtype => getoneobj fuel self index symtype
  | .getobjvars name symtype => getobjvars fuel self name symtype
  | .getmatdeclaration symtype => getmatdeclaration fuel self symtype
  | .getonematrix symtype => getonematrix fuel self symtype
  | .creatematrix => creatematrix fuel self
  | .getsimplebody => getsimplebody self
  | .getcondition => getcondition self
  | .getmatargs => getmatargs fuel self
  | .getcallargs name => getcallargs fuel self name
  | .getexprlist => getexprlist fuel self
  | .getopassignment => getopassignment fuel self
  | .getassignment => getassignment fuel self
  | .getaltcond => getaltcond self
  | .getorcond => getorcond fuel self
  | .getandcond => getandcond fuel self
  | .getrelation => getrelation self
  | .getsum => getsum fuel self
  | .getproduct => getproduct fuel self
  | .getorexpr => getorexpr fuel self
  | .getandexpr => getandexpr fuel self
  | .getshiftexpr => getshiftexpr self
  | .getreference => getreference self
  | .getincdecexpr => getincdecexpr fuel self
  | .getterm => getterm fuel self
  | .getidexpr okmat autodef => getidexpr fuel self okmat autodef
  | .getinitlist => getinitlist fuel self

/-- The parser functions with recursion depth and loop iterations bounded by
the first argument. -/
def run : Nat → Rec
  | 0 => fun _ => fail
  | n + 1 => body n (run n)

/-! ## Function definitions and the interactive driver -/

/-- Modelled from the spec: beginfunc starts the function under construction
with the given name: an empty opcode vector, no parameters, locals or named
labels. -/
def beginfunc (name : String) (nest : Bool) (s : State) : State :=
  log (.beginfunc name nest)
    { s with f_name := name, f_opcodes := [], lastindex := none, namedlabels := [],
             params := [], locals := [] }

/-- Modelled from the spec: endfunc completes the function under construction
and transfers it to the user-function table. -/
def endfunc (s : State) : State :=
  log .endfunc
    (if s.userfuncs.contains s.f_name then s
     else { s with userfuncs := s.userfuncs ++ [s.f_name] })

/-- Modelled from the spec: remove the named user function. -/
def rmuserfunc (name : String) (s : State) : State :=
  log (.rmuserfunc name) { s with userfuncs := s.userfuncs.filter (fun f => f != name) }

/-- Modelled from the spec: remove all user functions. -/
def rmalluserfunc (s : State) : State :=
  log .rmalluserfunc { s with userfuncs := [] }

/-- Modelled from the spec: hand the function to the VM for execution; the
VM is external, the call is only recorded. -/
def calculate (s : State) : State := log .calculate s

/-- Loop of evaluate over the statements of the line. -/
def evaluate_loop (self : Rec) : Nat → P Unit
  | 0 => fail
  | k + 1 => do
    let t ← eff gettoken
    if t = .T_SEMICOLON then evaluate_loop self k
    else if t = .T_NEWLINE ∨ t = .T_EOF then return ()
    else do
      act rescantoken
      let _ ← self (.getstatement none none none none)
      evaluate_loop self k

/-- The statements of evaluate: a body in braces, or statements up to the end
of the line. -/
def evaluate_statements (fuel : Nat) (self : Rec) (nestflag : Bool) : P Unit := do
  let t ← eff gettoken
  if t = .T_LEFTBRACE then do
    let _ ← self (.getbody none none none none)
    return ()
  else do
    whenP nestflag (do
      let _ ← eff (tokenmode TM_DEFAULT)
      return ())
    act rescantoken
    evaluate_loop self fuel

/-- Evaluate a line of statements (evaluate); returns TRUE if the line
compiled and was executed. -/
def evaluate (fuel : Nat) (nestflag : Bool) : P Bool := do
  act (beginfunc (if nestflag then "**" else "*") nestflag)
  evaluate_statements fuel (run fuel) nestflag
  act (addop .OP_UNDEF)
  act (addop .OP_RETURN)
  act checklabels
  let errorcount ← ask (fun s => s.errorcount)
  if errorcount ≠ 0 then return false
  else do
    act calculate
    return true

/-- Undefine one or more functions (ungetfunction). The message printed for a
builtin name is not modelled. -/
def ungetfunction : Nat → P Unit
  | 0 => fail
  | k + 1 => do
    let t ← eff gettoken
    if t = .T_COMMA then ungetfunction k
    else if t = .T_SYMBOL then do
      let name ← ask tokensymbol
      let type ← ask (getbuiltinfunc name)
      if type ≥ 0 then ungetfunction k
      else do
        act (rmuserfunc name)
        ungetfunction k
    else if t = .T_MULT then do
      act rmalluserfunc
      ungetfunction k
    else
      act rescantoken

/-- End of getfunction: the body of the function, then endfunc and the exit
of the function scope. -/
def getfunction_body (self : Rec) : P Unit := do
  let t ← eff gettoken
  if t = .T_ASSIGN then do
    let _ ← self .getsimplebody
    act endfunc
    act exitfuncscope
  else if t = .T_LEFTBRACE then do
    let _ ← self (.getbody none none none none)
    act endfunc
    act exitfuncscope
  else
    act (scanerror .T_NULL "Left brace or equals sign expected for function")

/-- The switch on symboltype in the parameter loop of getfunction: the
parameter is added, or reported as already defined; returns the new value of
the variable `index`. -/
def getfunction_addparam (name : String) (index : Int) (s : State) : Int × State :=
  match symboltype name s with
  | .SYM_UNDEFINED | .SYM_GLOBAL | .SYM_STATIC => addparam name s
  | _ => (index, scanerror .T_NULL "Parameter is already defined" s)

/-- The default value of a parameter in getfunction; returns the token read
after it. -/
def getfunction_default (self : Rec) (label : Nat) (index : Int) : P Tok := do
  act (clearlabel label)
  act (addopone .OP_PARAMADDR index)
  act (addoplabel .OP_JUMPNN label)
  let _ ← self .getopassignment
  act (addop .OP_ASSIGNPOP)
  act (setlabel label)
  eff gettoken

/-- The parameter loop of getfunction. -/
def getfunction_params (self : Rec) (label : Nat) : Nat → Int → P Unit
  | 0, _ => fail
  | k + 1, index => do
    let type ← eff gettoken
    if type = .T_RIGHTPAREN then getfunction_body self
    else if type ≠ .T_SYMBOL then
      act (scanerror .T_COMMA "Bad function definition")
    else do
      let name ← ask tokensymbol
      let index1 ← eff (getfunction_addparam name index)
      let type1 ← eff gettoken
      let type2 ← (if type1 = .T_ASSIGN then getfunction_default self label index1
                   else (pure type1 : P Tok))
      if type2 = .T_RIGHTPAREN then getfunction_body self
      else if type2 ≠ .T_COMMA then
        act (scanerror .T_COMMA "Bad function definition")
      else getfunction_params self label k index1

/-- Get a function declaration (getfunction). -/
def getfunction (fuel : Nat) : P Unit := do
  let label ← eff (newlabels 1)
  let _ ← eff (tokenmode TM_DEFAULT)
  let t ← eff gettoken
  if t ≠ .T_SYMBOL then
    act (scanerror .T_NULL "Function name was expected")
  else do
    let name ← ask tokensymbol
    let type ← ask (getbuiltinfunc name)
    if type ≥ 0 then
      act (scanerror .T_SEMICOLON "Using builtin function name")
    else do
      act (beginfunc name false)
      act enterfuncscope
      let t1 ← eff gettoken
      if t1 ≠ .T_LEFTPAREN then
        act (scanerror .T_SEMICOLON "Left parenthesis expected for function")
      else getfunction_params (run fuel) label fuel 0

/-! ## Sample inputs -/

/-- A token without payload. -/
def tk (t : Tok) : TOKEN := ⟨t, "", 0⟩

/-- A symbol token. -/
def sym (n : String) : TOKEN := ⟨.T_SYMBOL, n, 0⟩

/-- A number token; the payload is the index of the constant. -/
def num (i : Int) : TOKEN := ⟨.T_NUMBER, "", i⟩

/-- A state at the start of the compilation of function `fname` over the
given tokens: no code, no symbols, the constants 10, 20, 30 in the constant
table, the builtins fact and quomod. -/
def init (fname : String) (toks : List TOKEN) : State :=
  { input := toks, curtoken := tk .T_NULL, rescan := false, mode := TM_NEWLINES, linenum := 1,
    f_name := fname, f_opcodes := [], lastindex := none, labels := [], namedlabels := [],
    params := [], locals := [], globals := [], elements := [], objects := [],
    constants := [10, 20, 30], builtins := ["fact", "quomod"], userfuncs := [],
    MAXDIM := 4, MAXINDICES := 20, SYMBOLSIZE := 256, errorcount := 0, trace := [] }

/-! ## Descriptions used by the statements about compound assignment -/

/-- State reached by a computation; the given state when it does not return. -/
def after {α : Type} (r : Option (α × State)) (d : State) : State :=
  match r with
  | some x => x.2
  | none => d

/-- The compound assignment operators with their arithmetic opcodes, as the
specification lists them. -/
def opassigntable : List (Tok × Op) :=
  [(.T_PLUSEQUALS, .OP_ADD), (.T_MINUSEQUALS, .OP_SUB), (.T_MULTEQUALS, .OP_MUL),
   (.T_DIVEQUALS, .OP_DIV), (.T_SLASHSLASHEQUALS, .OP_QUO), (.T_MODEQUALS, .OP_MOD),
   (.T_ANDEQUALS, .OP_AND), (.T_OREQUALS, .OP_OR), (.T_LSHIFTEQUALS, .OP_LEFTSHIFT),
   (.T_RSHIFTEQUALS, .OP_RIGHTSHIFT), (.T_POWEREQUALS, .OP_POWER),
   (.T_HASHEQUALS, .OP_HASHOP), (.T_TILDEEQUALS, .OP_XOR),
   (.T_BACKSLASHEQUALS, .OP_SETMINUS)]

/-- The calls the specification lists for a chain of compound assignments:
for every operator, in source order, DUPLICATE, the code of the right operand,
the arithmetic opcode, ASSIGN. An item is an operator's opcode with the calls
made while its right operand is parsed. -/
def chainevents : List (Op × List Event) → List Event
  | [] => []
  | (op, rhs) :: rest =>
    [Event.addop .OP_DUPLICATE] ++ rhs ++ [Event.addop op, Event.addop .OP_ASSIGN]
      ++ chainevents rest

/-- The input read from state `s` on, where an operator with opcode `op` has
just been read, is a chain `rhs1 OP2= rhs2 ... OPk= rhsk` followed by a token
that is no compound assignment operator. The items list, for every operator,
its opcode and the calls made while its right operand is parsed (by
getassignment, or as a brace initializer list). The last argument is the
state after the chain. -/
inductive OpChain (n : Nat) : Op → State → List (Op × List Event) → State → Prop
  | last (op : Op) (s b : State) (r : List Event) :
      getopassignment_rhs n (run n) (addop .OP_DUPLICATE s) = some ((), b) →
      b.trace = (addop .OP_DUPLICATE s).trace ++ r →
      opassignop (gettoken (addop .OP_ASSIGN (addop op b))).1 = none →
      OpChain n op s [(op, r)] (rescantoken (gettoken (addop .OP_ASSIGN (addop op b))).2)
  | more (op op1 : Op) (s b sf : State) (r : List Event) (rest : List (Op × List Event)) :
      getopassignment_rhs n (run n) (addop .OP_DUPLICATE s) = some ((), b) →
      b.trace = (addop .OP_DUPLICATE s).trace ++ r →
      opassignop (gettoken (addop .OP_ASSIGN (addop op b))).1 = some op1 →
      OpChain n op1 (gettoken (addop .OP_ASSIGN (addop op b))).2 rest sf →
      OpChain n op s ((op, r) :: rest) sf

/-- Sample: `a += b += c ;` in the function `f`, with globals a, b, c. -/
def chainsample : State :=
  addglobal "c" false (addglobal "b" false (addglobal "a" false
    (init "f" [sym "a", tk .T_PLUSEQUALS, sym "b", tk .T_PLUSEQUALS, sym "c", tk .T_SEMICOLON])))

/-! ## Frame of the label storage -/

/-- The labels below `w` are left as they are (no label is removed). -/
def Frame (w : Nat) (s s1 : State) : Prop :=
  w ≤ s.labels.length → (w ≤ s1.labels.length ∧ ∀ l, l < w → getlabel l s1 = getlabel l s)

/-- The calls that cannot reach getstatement: all but getstatement and
getbody. -/
def exprcall : Call → Bool
  | .getstatement _ _ _ _ => false
  | .getbody _ _ _ _ => false
  | _ => true

/-- A computation that leaves the labels below `w` as they are. -/
def Pres (w : Nat) {α : Type} (m : P α) : Prop :=
  ∀ s a s1, m s = some (a, s1) → Frame w s s1

/-! ## Descriptions used by the statements about getstatement -/

/-- State of getstatement when it reads its first token: the five labels are
allocated and the DEBUG opcode is emitted. -/
def stmt_entry (s : State) : State :=
  addopone .OP_DEBUG (linenumber (newlabels 5 s).2) (newlabels 5 s).2

/-- State of the for statement when `(` is expected: the token `for` is read,
the token mode is DEFAULT and the four labels are cleared. -/
def for_start (s : State) : State :=
  clearlabel (s.labels.length + 4) (clearlabel (s.labels.length + 3)
    (clearlabel (s.labels.length + 2) (clearlabel (s.labels.length + 1)
      (tokenmode TM_DEFAULT (gettoken (stmt_entry s)).2).2)))

/-- State in which the condition of a for statement is parsed: `x` is the
state after the first semicolon; the label of the condition is placed. -/
def for_cond (l1 : Nat) (x : State) : State :=
  rescantoken (setlabel l1 (gettoken x).2)

/-- State in which the step of a for statement is parsed: `s8` is the state
after the condition; JUMPNZ to the body and JUMP to the break label are
emitted, the second semicolon is read and the label of the step is placed. -/
def for_step (l2 l3 l4 : Nat) (s8 : State) : State :=
  rescantoken (setlabel l2
    (gettoken (gettoken (addoplabel .OP_JUMP l4 (addoplabel .OP_JUMPNZ l3 s8))).2).2)

/-- State in which the body of a for statement is parsed: `s12` is the state
after the step; POP and JUMP to the condition are emitted, `)` is read and
the label of the body is placed. -/
def for_body (l1 l3 : Nat) (s12 : State) : State :=
  setlabel l3 (gettoken (addoplabel .OP_JUMP l1 (addop .OP_POP s12))).2

/-- State after a for statement: `s15` is the state after the body; JUMP to
the continue label is emitted, the break label is placed and the token mode
is restored. -/
def for_end (cont l4 : Nat) (oldmode : Int) (s15 : State) : State :=
  (tokenmode oldmode (setlabel l4 (addoplabel .OP_JUMP cont s15))).2

/-- Sample: the statement `for (a; b; c) d;` in a function f with the globals a, b, c, d. -/
def forsample : State :=
  addglobal "d" false (addglobal "c" false (addglobal "b" false (addglobal "a" false
    (init "f" [tk .T_FOR, tk .T_LEFTPAREN, sym "a", tk .T_SEMICOLON, sym "b", tk .T_SEMICOLON,
      sym "c", tk .T_RIGHTPAREN, sym "d", tk .T_SEMICOLON]))))

/-- Sample: the state after the initial expression of the for statement. -/
def forsample5 : State :=
  after (run 20 .getexprlist (rescantoken (gettoken (gettoken (for_start forsample)).2).2))
    forsample

/-- Sample: the state after the condition of the for statement. -/
def forsample8 : State :=
  after (run 20 .getexprlist (for_cond 1 (gettoken (addop .OP_POP forsample5)).2)) forsample

/-- Sample: the state after the step of the for statement. -/
def forsample12 : State :=
  after (run 20 .getexprlist (for_step 2 3 4 forsample8)) forsample

/-- Sample: the state after the body of the for statement. -/
def forsample15 : State :=
  after (run 20 (.getstatement (some 2) (some 4) none none) (for_body 1 3 forsample12)) forsample

/-- State of the T_FOR case when `(` is expected, for a case entered in
state `x` with the labels l1..l4: the token mode is DEFAULT and the four
labels are cleared. -/
def for_init (l1 l2 l3 l4 : Nat) (x : State) : State :=
  clearlabel l4 (clearlabel l3 (clearlabel l2 (clearlabel l1 (tokenmode TM_DEFAULT x).2)))

/-- Sample: the statement `for (; b; c) d;` in a function f with the globals b, c, d. -/
def forsample9 : State :=
  addglobal "d" false (addglobal "c" false (addglobal "b" false
    (init "f" [tk .T_FOR, tk .T_LEFTPAREN, tk .T_SEMICOLON, sym "b", tk .T_SEMICOLON,
      sym "c", tk .T_RIGHTPAREN, sym "d", tk .T_SEMICOLON])))

/-- State in which the expression of a case clause is parsed: `x` is the
state after the token `case`. -/
def case_expr (l1 nc : Nat) (x : State) : State :=
  clearlabel nc (setlabel nc (addoplabel .OP_JUMP l1 (clearlabel l1 x)))

/-- State in which the statement after `case expr:` is parsed: `s5` is the
state after the expression. -/
def case_body (l1 nc : Nat) (s5 : State) : State :=
  setlabel l1 (addoplabel .OP_CASEJUMP nc (gettoken s5).2)

/-- Sample: the clause `case 10: a;` in a function f with the global a; label
0 is the next-case label. -/
def casesample : State :=
  (newlabels 1 (addglobal "a" false
    (init "f" [tk .T_CASE, num 0, tk .T_COLON, sym "a", tk .T_SEMICOLON]))).2

/-- Sample: the state after the expression of the case clause. -/
def casesample5 : State :=
  after (run 20 .getexprlist (case_expr 2 0 (gettoken (stmt_entry casesample)).2)) casesample

/-- Sample: the state after the statement of the case clause. -/
def casesample9 : State :=
  after (run 20 (.getstatement none none (some 0) none) (case_body 2 0 casesample5)) casesample

/-- Sample: `switch (a) { case 10: case 10: b; }` in a function f with the
globals a and b. -/
def dupcasesample : State :=
  addglobal "b" false (addglobal "a" false
    (init "f" [tk .T_SWITCH, tk .T_LEFTPAREN, sym "a", tk .T_RIGHTPAREN, tk .T_LEFTBRACE,
      tk .T_CASE, num 0, tk .T_COLON, tk .T_CASE, num 0, tk .T_COLON, sym "b", tk .T_SEMICOLON,
      tk .T_RIGHTBRACE]))

/-- State in which the statement after `default:` is parsed: `x` is the state
after the colon. -/
def default_body (l1 dl : Nat) (x : State) : State :=
  setlabel l1 (addop .OP_POP (setlabel dl (addoplabel .OP_JUMP l1 (clearlabel l1 x))))

/-- Sample: the clause `default: a;` in a function f with the global a; label
0 is the default label, not placed. -/
def defaultsample : State :=
  (newlabels 1 (addglobal "a" false
    (init "f" [tk .T_DEFAULT, tk .T_COLON, sym "a", tk .T_SEMICOLON]))).2

/-- Sample: the state after the statement of the default clause. -/
def defaultsample9 : State :=
  after (run 20 (.getstatement none none none (some 0))
    (default_body 2 0 (gettoken (gettoken (stmt_entry defaultsample)).2).2)) defaultsample

/-- Sample: the clause `default: a;` met when the default label 0 is placed
at offset 1. -/
def defaultsample2 : State := setlabel 0 (addop .OP_POP defaultsample)

/-- Sample: `switch (a) { default: default: b; }` in a function f with the
globals a and b. -/
def dupdefaultsample : State :=
  addglobal "b" false (addglobal "a" false
    (init "f" [tk .T_SWITCH, tk .T_LEFTPAREN, sym "a", tk .T_RIGHTPAREN, tk .T_LEFTBRACE,
      tk .T_DEFAULT, tk .T_COLON, tk .T_DEFAULT, tk .T_COLON, sym "b", tk .T_SEMICOLON,
      tk .T_RIGHTBRACE]))

/-- State in which the condition of an if statement is parsed: `x` is the
state after the token `if`. -/
def if_cond (l1 l2 : Nat) (x : State) : State := clearlabel l2 (clearlabel l1 x)

/-- Sample: the statement `continue;` in a function f; label 0 exists. -/
def contsample : State :=
  (newlabels 1 (init "f" [tk .T_CONTINUE, tk .T_SEMICOLON])).2

/-- Sample: the statement `if (a) break;` in a function f with the global a;
label 0 exists. -/
def ifbreaksample : State :=
  (newlabels 1 (addglobal "a" false (init "f" [tk .T_IF, tk .T_LEFTPAREN, sym "a",
    tk .T_RIGHTPAREN, tk .T_BREAK, tk .T_SEMICOLON]))).2

/-- Sample: the state after the condition of `if (a) break;`. -/
def ifbreaksample3 : State :=
  after (run 20 .getcondition (if_cond 2 3 (gettoken (stmt_entry ifbreaksample)).2))
    ifbreaksample

/-- The tokens with a case of their own in the switch of getstatement; every
other token starts an expression statement. -/
def statementtokens : List Tok :=
  [.T_NEWLINE, .T_SEMICOLON, .T_GLOBAL, .T_STATIC, .T_LOCAL, .T_RIGHTBRACE, .T_CONTINUE,
   .T_BREAK, .T_GOTO, .T_RETURN, .T_LEFTBRACE, .T_IF, .T_FOR, .T_WHILE, .T_DO, .T_SWITCH,
   .T_CASE, .T_DEFAULT, .T_ELSE, .T_SHOW, .T_PRINT, .T_QUIT, .T_ABORT, .T_SYMBOL]

/-- The name of the current function begins with `*`. -/
def beginsstar (s : State) : Bool := decide (s.f_name.data.head? = some '*')

/-- The name of the current function is longer than one character. -/
def longname (s : State) : Bool := decide (1 < s.f_name.data.length)

/-- Sample: the statement `a;` in the function named `fname`, with the global a. -/
def exprsample (fname : String) : State :=
  addglobal "a" false (init fname [sym "a", tk .T_SEMICOLON])

/-- Sample: the state after the expression of `a;`. -/
def exprsample1 (fname : String) : State :=
  after (run 20 .getexprlist (rescantoken (gettoken (stmt_entry (exprsample fname))).2))
    (exprsample fname)

/-- Sample: the statement `return;` in the function named `fname`. -/
def returnsample (fname : String) : State :=
  init fname [tk .T_RETURN, tk .T_SEMICOLON]

/-- Sample: the statement `return a;` in the function named `fname`, with the
global a. -/
def returnexprsample (fname : String) : State :=
  addglobal "a" false (init fname [tk .T_RETURN, sym "a", tk .T_SEMICOLON])

/-- Sample: the state after the expression of `return a;`. -/
def returnexprsample1 (fname : String) : State :=
  after (run 20 .getexprlist (rescantoken
    (gettoken (gettoken (stmt_entry (returnexprsample fname))).2).2)) (returnexprsample fname)

/-- State in which the default value of a parameter is parsed: `x` is the
state after the token `=`, `i` the slot of the parameter. -/
def param_default (label : Nat) (i : Int) (x : State) : State :=
  addoplabel .OP_JUMPNN label (addopone .OP_PARAMADDR i (clearlabel label x))

/-- The end of an iteration of the parameter loop of getfunction, from the
token `t` read after the parameter: `)` ends the list, `,` continues it with
`k` iterations left. -/
def param_next (self : Rec) (label k : Nat) (index : Int) (t : Tok) : P Unit :=
  if t = .T_RIGHTPAREN then getfunction_body self
  else if t ≠ .T_COMMA then act (scanerror .T_COMMA "Bad function definition")
  else getfunction_params self label k index

/-- State of getfunction when the name of the function is read: the label is
allocated, the token mode is DEFAULT. -/
def func_name (s : State) : State :=
  (gettoken (tokenmode TM_DEFAULT (newlabels 1 s).2).2).2

/-- Sample: `fact(x) = x` after the keyword define; fact is a builtin. -/
def builtinsample : State :=
  init "*" [sym "fact", tk .T_LEFTPAREN, sym "x", tk .T_RIGHTPAREN, tk .T_ASSIGN, sym "x",
    tk .T_NEWLINE]

/-- Sample: `fact, g` after the keyword undefine, with the user functions g
and h. -/
def undefinesample : State :=
  { init "*" [sym "fact", tk .T_COMMA, sym "g", tk .T_NEWLINE] with userfuncs := ["g", "h"] }

/-- The name of the pseudo-function of evaluate. -/
def evalname (nestflag : Bool) : String := if nestflag then "**" else "*"

/-- State of evaluate after the statements (`s1`): UNDEF and RETURN are
appended and the labels are checked. -/
def eval_end (s1 : State) : State := checklabels (addop .OP_RETURN (addop .OP_UNDEF s1))

/-- Sample: the line `a` of the interactive input, with the global a. -/
def evalsample : State :=
  addglobal "a" false (init "" [sym "a", tk .T_NEWLINE])

/-- Sample: the line `goto x` of the interactive input; the label x is never
defined. -/
def evalbadsample : State :=
  init "" [tk .T_GOTO, sym "x", tk .T_NEWLINE]

/-- The scope calls among the events of a trace. -/
def scopeevents (t : List Event) : List Event :=
  t.filter (fun e => e = Event.enterfuncscope ∨ e = Event.exitfuncscope
    ∨ e = Event.enterfilescope ∨ e = Event.exitfilescope)

/-- Sample: `f x` after the keyword define: the parenthesis is missing. -/
def noparensample : State := init "*" [sym "f", sym "x", tk .T_NEWLINE]

/-- Sample: `f(x) = x` after the keyword define. -/
def definesample : State :=
  init "*" [sym "f", tk .T_LEFTPAREN, sym "x", tk .T_RIGHTPAREN, tk .T_ASSIGN, sym "x",
    tk .T_NEWLINE]

/-- Sample: the body `a; }` after the opening brace, in token mode NEWLINES. -/
def bodysample : State :=
  addglobal "a" false (init "f" [sym "a", tk .T_SEMICOLON, tk .T_RIGHTBRACE])

/-- Sample: the body `a;` after the opening brace, ended by the end of the
file, in token mode NEWLINES. -/
def bodyeofsample : State :=
  addglobal "a" false (init "f" [sym "a", tk .T_SEMICOLON])

/-- Sample: the expression `&10` (the number is the constant 0 of the table). -/
def addrsample : State := init "f" [tk .T_AND, num 0, tk .T_SEMICOLON]

/-- Sample: the state after the operand of `&10`. -/
def addrsample1 : State := after (run 20 .getreference (gettoken addrsample).2) addrsample

/-- State in which the first branch of `c ? t : f` is parsed: `s1` is the
state after the condition, `base` the first of the two labels of getaltcond. -/
def alt_then (base : Nat) (s1 : State) : State :=
  addoplabel .OP_JUMPZ (base + 1) (clearlabel (base + 1) (clearlabel base (gettoken s1).2))

/-- State in which the second branch of `c ? t : f` is parsed: `s2` is the
state after the first branch. -/
def alt_else (base : Nat) (s2 : State) : State :=
  setlabel (base + 1) (addoplabel .OP_JUMP base (gettoken s2).2)

/-- Sample: the expression `a ? b : c` in a function f with the globals a, b, c. -/
def altsample : State :=
  addglobal "c" false (addglobal "b" false (addglobal "a" false
    (init "f" [sym "a", tk .T_QUESTIONMARK, sym "b", tk .T_COLON, sym "c", tk .T_SEMICOLON])))

/-- Sample: the state after the condition of `a ? b : c`. -/
def altsample1 : State := after (run 20 .getorcond (newlabels 2 altsample).2) altsample

/-- Sample: the state after the first branch of `a ? b : c`. -/
def altsample2 : State := after (run 20 .getaltcond (alt_then 0 altsample1)) altsample

/-- Sample: the state after the second branch of `a ? b : c`. -/
def altsample3 : State := after (run 20 .getaltcond (alt_else 0 altsample2)) altsample

/-- The comparison operators with their opcodes, as the specification lists
them. -/
def relationtable : List (Tok × Op) :=
  [(.T_EQ, .OP_EQ), (.T_NE, .OP_NE), (.T_LT, .OP_LT), (.T_GT, .OP_GT), (.T_LE, .OP_LE),
   (.T_GE, .OP_GE)]

/-- Sample: the expression `a < b < c` in a function f with the globals a, b, c. -/
def relsample : State :=
  addglobal "c" false (addglobal "b" false (addglobal "a" false
    (init "f" [sym "a", tk .T_LT, sym "b", tk .T_LT, sym "c", tk .T_SEMICOLON])))

/-- Sample: the state after the first operand of `a < b < c`. -/
def relsample1 : State := after (run 20 .getsum relsample) relsample

/-- Sample: the state after the second operand of `a < b < c`. -/
def relsample2 : State := after (run 20 .getsum (gettoken relsample1).2) relsample

/-- Sample: the expression `a ^ b << c` in a function f with the globals a, b, c. -/
def shiftsample : State :=
  addglobal "c" false (addglobal "b" false (addglobal "a" false
    (init "f" [sym "a", tk .T_POWER, sym "b", tk .T_LEFTSHIFT, sym "c", tk .T_SEMICOLON])))

/-- Sample: the state after the operand a. -/
def shiftsample1 : State :=
  after (run 21 .getreference (rescantoken (gettoken shiftsample).2)) shiftsample

/-- Sample: the state after the operand b. -/
def shiftsample2 : State :=
  after (run 20 .getreference (rescantoken (gettoken (gettoken shiftsample1).2).2)) shiftsample

/-- Sample: the state after the operand c. -/
def shiftsample3 : State :=
  after (run 20 .getshiftexpr (gettoken shiftsample2).2) shiftsample

/-- Sample: `a += (b += c);` in the function f, with globals a, b, c. -/
def chainrightsample : State :=
  addglobal "c" false (addglobal "b" false (addglobal "a" false
    (init "f" [sym "a", tk .T_PLUSEQUALS, tk .T_LEFTPAREN, sym "b", tk .T_PLUSEQUALS, sym "c",
      tk .T_RIGHTPAREN, tk .T_SEMICOLON])))

/-- Sample: `(a += b) += c;` in the function f, with globals a, b, c. -/
def chainleftsample : State :=
  addglobal "c" false (addglobal "b" false (addglobal "a" false
    (init "f" [tk .T_LEFTPAREN, sym "a", tk .T_PLUSEQUALS, sym "b", tk .T_RIGHTPAREN,
      tk .T_PLUSEQUALS, sym "c", tk .T_SEMICOLON])))

/-- The input read from state `s` on, after an operand of a chain of `tok`
operators, is `tok A2 tok A3 ... tok Ak` followed by a token other than `tok`;
each operand is parsed by the call `c` after the conditional jump `op` to the
label `l`. The first Int is the kind accumulated so far, the list holds for
every further operand the calls made while it is parsed, the last two
arguments are the state after the last operand and the accumulated kind. -/
inductive CondChain (n : Nat) (tok : Tok) (op : Op) (c : Call) (l : Nat) :
    State → Int → List (List Event) → State → Int → Prop
  | last (s : State) (ty : Int) :
      (gettoken s).1 ≠ tok → CondChain n tok op c l s ty [] s ty
  | more (s b e : State) (ty ty1 tyf : Int) (r : List Event) (rest : List (List Event)) :
      (gettoken s).1 = tok →
      run n c (addoplabel op l (gettoken s).2) = some (ty1, b) →
      b.trace = (addoplabel op l (gettoken s).2).trace ++ r →
      CondChain n tok op c l b (Int.lor ty ty1) rest e tyf →
      CondChain n tok op c l s ty (r :: rest) e tyf

/-- The calls of a chain of conditional operators after the first operand:
for every further operand the conditional jump to the label, then the code of
the operand. -/
def condevents (op : Op) (l : Nat) : List (List Event) → List Event
  | [] => []
  | r :: rest => [Event.addoplabel op l] ++ r ++ condevents op l rest

/-- Sample: the expression `a && b && c` in a function f with the globals a, b, c. -/
def andsample : State :=
  addglobal "c" false (addglobal "b" false (addglobal "a" false
    (init "f" [sym "a", tk .T_ANDAND, sym "b", tk .T_ANDAND, sym "c", tk .T_SEMICOLON])))

/-- Sample: the state after the operand a of `a && b && c`. -/
def andsample1 : State :=
  after (run 20 .getrelation (clearlabel 0 (newlabels 1 andsample).2)) andsample

/-- Sample: the state after the operand b of `a && b && c`. -/
def andsample2 : State :=
  after (run 20 .getrelation (addoplabel .OP_CONDANDJUMP 0 (gettoken andsample1).2)) andsample

/-- Sample: the state after the operand c of `a && b && c`. -/
def andsample3 : State :=
  after (run 20 .getrelation (addoplabel .OP_CONDANDJUMP 0 (gettoken andsample2).2)) andsample

/-- What no call of the parser undoes: the error count and the length of the
code do not decrease, the trace is extended, and the offset of a label stays,
is cleared (-1), or becomes an offset not before the code present at the
start. With the flag false, moreover, writeindexop is not called. -/
def Mono (b : Bool) (s s1 : State) : Prop :=
  s.errorcount ≤ s1.errorcount
  ∧ s.f_opcodes.length ≤ s1.f_opcodes.length
  ∧ (∃ t, s1.trace = s.trace ++ t ∧ (b = false → Event.writeindexop ∉ t))
  ∧ ∀ l, (getlabel l s1).l_offset = (getlabel l s).l_offset
      ∨ (getlabel l s1).l_offset = -1
      ∨ (s.f_opcodes.length : Int) ≤ (getlabel l s1).l_offset

/-- Every result of the computation is related to its start by Mono. -/
def Keeps (b : Bool) {α : Type} (m : P α) : Prop :=
  ∀ s a s1, m s = some (a, s1) → Mono b s s1

/-- A label is placed: its offset is defined (not negative). -/
def placed (l : Nat) (s : State) : Bool := decide (0 ≤ (getlabel l s).l_offset)

/-- State in which the condition of a switch statement is parsed: `x` is the
state after the token `switch`; the token mode is DEFAULT and the three labels
are cleared. -/
def switch_cond (l1 l2 l3 : Nat) (x : State) : State :=
  clearlabel l3 (clearlabel l2 (clearlabel l1 (tokenmode TM_DEFAULT x).2))

/-- State in which the body of a switch statement is parsed: `s4` is the
state after the condition; the brace is read, JUMP to the next-case label is
emitted and the brace is pushed back. -/
def switch_body (l2 : Nat) (s4 : State) : State :=
  rescantoken (addoplabel .OP_JUMP l2 (gettoken s4).2)

/-- Sample: `switch (a) { default: b; }` in a function f with the globals a, b. -/
def switchsample : State :=
  addglobal "b" false (addglobal "a" false
    (init "f" [tk .T_SWITCH, tk .T_LEFTPAREN, sym "a", tk .T_RIGHTPAREN, tk .T_LEFTBRACE,
      tk .T_DEFAULT, tk .T_COLON, sym "b", tk .T_SEMICOLON, tk .T_RIGHTBRACE]))

/-- Sample: the state after the condition of the switch statement. -/
def switchsample4 : State :=
  after (run 30 .getcondition (switch_cond 1 2 3 (gettoken (stmt_entry switchsample)).2))
    switchsample

/-- Sample: the state after the body of the switch statement. -/
def switchsample7 : State :=
  after (run 30 (.getstatement none (some 1) (some 2) (some 3)) (switch_body 2 switchsample4))
    switchsample

/-- The tokens at which getassignment finds a missing expression. -/
def emptyexprtokens : List Tok :=
  [.T_COMMA, .T_SEMICOLON, .T_NEWLINE, .T_RIGHTPAREN, .T_RIGHTBRACKET, .T_RIGHTBRACE, .T_EOF]

/-- Sample: `10 += a;` in a function f with the global a. -/
def badopsample : State :=
  addglobal "a" false (init "f" [num 0, tk .T_PLUSEQUALS, sym "a", tk .T_SEMICOLON])

/-- Sample: `10 = a;` in a function f with the global a. -/
def badassignsample : State :=
  addglobal "a" false (init "f" [num 0, tk .T_ASSIGN, sym "a", tk .T_SEMICOLON])

/-- Sample: `10++;` in a function f. -/
def badincsample : State := init "f" [num 0, tk .T_PLUSPLUS, tk .T_SEMICOLON]

/-- Sample: `++10;` in a function f. -/
def badpreincsample : State := init "f" [tk .T_PLUSPLUS, num 0, tk .T_SEMICOLON]

/-- The end of an iteration of the argument loop of getcallargs, from the
token read after the argument: `)` emits the call, `,` continues the loop. -/
def callargs_next (self : Rec) (name : String) (op : Op) (index : Int) (k : Nat)
    (argcount : Int) : P Int := do
  let t3 ← eff gettoken
  if t3 = .T_RIGHTPAREN then endcall op index argcount
  else if t3 = .T_COMMA then getcallargs_loop self name op index k argcount
  else do
    act (scanerror .T_SEMICOLON "Missing right parenthesis in function call")
    return 0

/-- The calls made by getcallargs after an argument is parsed: writeindexop
for a backquote argument, GETVALUE for a plain argument of a user function,
writeindexop for an argument after the second of quomod. -/
def argevents (name : String) (op : Op) (addrflag : Bool) (argcount : Int) : List Event :=
  (if addrflag then [Event.writeindexop] else [])
  ++ (if !addrflag && decide (op ≠ .OP_CALL) then [Event.addop .OP_GETVALUE] else [])
  ++ (if decide (name = "quomod") && decide (argcount > 2) then [Event.writeindexop] else [])

/-- The end of an iteration of the loop of getinitlist, from the token read
after ELEMINIT on: `,` continues with the next position, `}` returns the
position. -/
def initlist_sep (self : Rec) (oldmode : Int) (k : Nat) (index : Int) : P Int := do
  let t1 ← eff gettoken
  if t1 = .T_COMMA ∨ t1 = .T_NEWLINE then getinitlist_loop self oldmode k (index + 1)
  else if t1 = .T_RIGHTBRACE then do
    let _ ← eff (tokenmode oldmode)
    return index
  else do
    act (scanerror .T_SEMICOLON "Bad initialization list")
    let _ ← eff (tokenmode oldmode)
    return (-1)

/-- Sample: the initializer list `{ 1 }`. -/
def scalarinitsample : State :=
  init "*" [tk .T_LEFTBRACE, num 1, tk .T_RIGHTBRACE, tk .T_SEMICOLON]

/-- Sample: the initializer list `{ { 1 } }` after the opening brace. -/
def nestedinitsample : State :=
  init "*" [tk .T_LEFTBRACE, num 1, tk .T_RIGHTBRACE, tk .T_RIGHTBRACE, tk .T_SEMICOLON]

/-- The input read from `s` on, at position `index` of an initializer list,
is `e1 , e2 , ... , em }`: elements that do not start with a brace, separated
by single commas, the last followed by the closing brace. The list holds, for
every element, the calls made while it is parsed by getopassignment; the last
two arguments are the state after the closing brace and the position of the
last element. -/
inductive FlatList (n : Nat) (oldmode : Int) :
    Int → State → List (List Event) → State → Int → Prop
  | last (index : Int) (s b : State) (ty : Int) (r : List Event) :
      (gettoken s).1 ∉ [Tok.T_COMMA, Tok.T_NEWLINE, Tok.T_RIGHTBRACE, Tok.T_LEFTBRACE] →
      run n .getopassignment (rescantoken (gettoken s).2) = some (ty, b) →
      b.trace = s.trace ++ r →
      (gettoken (addopone .OP_ELEMINIT index b)).1 = .T_RIGHTBRACE →
      FlatList n oldmode index s [r]
        (tokenmode oldmode (gettoken (addopone .OP_ELEMINIT index b)).2).2 index
  | more (index last : Int) (s b e : State) (ty : Int) (r : List Event)
      (rest : List (List Event)) :
      (gettoken s).1 ∉ [Tok.T_COMMA, Tok.T_NEWLINE, Tok.T_RIGHTBRACE, Tok.T_LEFTBRACE] →
      run n .getopassignment (rescantoken (gettoken s).2) = some (ty, b) →
      b.trace = s.trace ++ r →
      (gettoken (addopone .OP_ELEMINIT index b)).1 = .T_COMMA →
      FlatList n oldmode (index + 1) (gettoken (addopone .OP_ELEMINIT index b)).2 rest e last →
      FlatList n oldmode index s (r :: rest) e last

/-- The calls made for the elements of a flat initializer list from position
`i` on: the code of each element, then ELEMINIT with its position. -/
def initevents : Int → List (List Event) → List Event
  | _, [] => []
  | i, r :: rest => r ++ [Event.addopone .OP_ELEMINIT i] ++ initevents (i + 1) rest

/-- One dimension of a matrix declarator: a single upper bound, or the bounds
`lo : hi`; each bound is given by the calls made while it is parsed. -/
inductive Bound
  | upper (code : List Event)
  | range (lo hi : List Event)

/-- The calls made for one dimension: for a single upper bound its code, then
ONE, SUB, ZERO; for `lo : hi` the code of lo and the code of hi. -/
def boundevents : Bound → List Event
  | .upper r => r ++ [Event.addop .OP_ONE, Event.addop .OP_SUB, Event.addop .OP_ZERO]
  | .range lo hi => lo ++ hi

/-- The input read from `s` on is one dimension of a matrix declarator,
followed by `]` or `,` when it is a single bound; the last argument is the
state after the dimension. -/
inductive BoundOf (n : Nat) : State → Bound → State → Prop
  | upper (s b : State) (ty : Int) (r : List Event) :
      run n .getopassignment s = some (ty, b) → b.trace = s.trace ++ r →
      ((gettoken b).1 = .T_RIGHTBRACKET ∨ (gettoken b).1 = .T_COMMA) →
      BoundOf n s (.upper r)
        (addop .OP_ZERO (addop .OP_SUB (addop .OP_ONE (rescantoken (gettoken b).2))))
  | range (s b c : State) (ty ty2 : Int) (r r2 : List Event) :
      run n .getopassignment s = some (ty, b) → b.trace = s.trace ++ r →
      (gettoken b).1 = .T_COLON →
      run n .getopassignment (gettoken b).2 = some (ty2, c) → c.trace = b.trace ++ r2 →
      BoundOf n s (.range r r2) c

/-- The input read from `s` on, `dim` being the number of the dimension that
starts there, is a list of dimensions separated by commas. With the flag true
the list ends with `]`, no comma was read with the bound `M` of MAXDIM
reached, and the state given is the one after `]`; with the flag false a comma
was read after dimension number `M` or beyond, and the state given is the one
after that comma. The Int given is the number of the last dimension. -/
inductive MatDims (n : Nat) (M : Int) : Int → State → List Bound → State → Int → Bool → Prop
  | last (dim : Int) (s b : State) (bd : Bound) :
      BoundOf n s bd b → (gettoken b).1 = .T_RIGHTBRACKET →
      MatDims n M dim s [bd] (gettoken b).2 dim true
  | over (dim : Int) (s b : State) (bd : Bound) :
      BoundOf n s bd b → (gettoken b).1 = .T_COMMA → (gettoken b).2.MAXDIM = M →
      ¬ (dim + 1 ≤ M) →
      MatDims n M dim s [bd] (gettoken b).2 dim false
  | more (dim last : Int) (s b e : State) (bd : Bound) (rest : List Bound) (ok : Bool) :
      BoundOf n s bd b → (gettoken b).1 = .T_COMMA → (gettoken b).2.MAXDIM = M →
      dim + 1 ≤ M →
      MatDims n M (dim + 1) (gettoken b).2 rest e last ok →
      MatDims n M dim s (bd :: rest) e last ok

/-- The calls made for a list of dimensions. -/
def dimsevents : List Bound → List Event
  | [] => []
  | bd :: rest => boundevents bd ++ dimsevents rest

/-- The end of creatematrix after MATCREATE: the initial value of the elements
(a nested matrix when `[` follows, else ZERO), then INITFILL. -/
def matrix_fill (self : Rec) : P Int := do
  creatematrix_elem self
  act (addop .OP_INITFILL)
  return 0

/-- Sample: the dimensions `5, 1 : 2 ]` of a matrix declarator. -/
def dimsample : State :=
  init "*" [num 5, tk .T_COMMA, num 1, tk .T_COLON, num 2, tk .T_RIGHTBRACKET, tk .T_SEMICOLON]

/-- Sample: the state after a dimension read from `s` that is a single bound. -/
def dimsample_upper (s : State) : State :=
  addop .OP_ZERO (addop .OP_SUB (addop .OP_ONE
    (rescantoken (gettoken (after (run 20 .getopassignment s) s)).2)))

/-- Sample: the state after the second dimension `1 : 2` of `dimsample`. -/
def dimsample2 : State :=
  after (run 20 .getopassignment
    (gettoken (after (run 20 .getopassignment (gettoken (dimsample_upper dimsample)).2)
      dimsample)).2) dimsample

/-- Sample: five dimensions `0, 0, 0, 0, 0 ]`, with MAXDIM = 4. -/
def dimsample5 : State :=
  init "*" [num 0, tk .T_COMMA, num 0, tk .T_COMMA, num 0, tk .T_COMMA, num 0, tk .T_COMMA,
    num 0, tk .T_RIGHTBRACKET, tk .T_SEMICOLON]

/-- How the element list of an object type ends: with the closing brace, with
a name whose element index was met before, or with a name beyond the bound on
the number of elements. -/
inductive ObjEnd
  | defined | duplicate | toomany
  deriving DecidableEq

/-- The input read from `s` on, `indices` being the element indices collected
so far, is a list of element names separated by commas. The lists given are
the names read and the element indices collected at the end: the index that
addelement returns for each name, in source order. The list ends with the
closing brace (defined; the state given is the one after the brace), with a
name whose index is among those collected (duplicate; state after
addelement), or with a name read when `M` = MAXINDICES indices are collected
(toomany; state after the name). -/
inductive FieldList (M : Nat) : List Int → State → List String → List Int → State → ObjEnd → Prop
  | close (indices : List Int) (s : State) :
      (gettoken s).1 = .T_RIGHTBRACE →
      FieldList M indices s [] indices (gettoken s).2 .defined
  | last (indices : List Int) (s : State) :
      (gettoken s).1 = .T_SYMBOL → (gettoken s).2.MAXINDICES = M → indices.length < M →
      indices.contains (addelement (tokensymbol (gettoken s).2) (gettoken s).2).1 = false →
      (gettoken (addelement (tokensymbol (gettoken s).2) (gettoken s).2).2).1 = .T_RIGHTBRACE →
      FieldList M indices s [tokensymbol (gettoken s).2]
        (indices ++ [(addelement (tokensymbol (gettoken s).2) (gettoken s).2).1])
        (gettoken (rescantoken
          (gettoken (addelement (tokensymbol (gettoken s).2) (gettoken s).2).2).2)).2 .defined
  | dup (indices : List Int) (s : State) :
      (gettoken s).1 = .T_SYMBOL → (gettoken s).2.MAXINDICES = M → indices.length < M →
      indices.contains (addelement (tokensymbol (gettoken s).2) (gettoken s).2).1 = true →
      FieldList M indices s [tokensymbol (gettoken s).2] indices
        (addelement (tokensymbol (gettoken s).2) (gettoken s).2).2 .duplicate
  | over (indices : List Int) (s : State) :
      (gettoken s).1 = .T_SYMBOL → (gettoken s).2.MAXINDICES = M → indices.length = M →
      FieldList M indices s [] indices (gettoken s).2 .toomany
  | more (indices all : List Int) (s e : State) (names : List String) (o : ObjEnd) :
      (gettoken s).1 = .T_SYMBOL → (gettoken s).2.MAXINDICES = M → indices.length < M →
      indices.contains (addelement (tokensymbol (gettoken s).2) (gettoken s).2).1 = false →
      (gettoken (addelement (tokensymbol (gettoken s).2) (gettoken s).2).2).1 = .T_COMMA →
      FieldList M (indices ++ [(addelement (tokensymbol (gettoken s).2) (gettoken s).2).1])
        (gettoken (addelement (tokensymbol (gettoken s).2) (gettoken s).2).2).2 names all e o →
      FieldList M indices s (tokensymbol (gettoken s).2 :: names) all e o

/-- What getobjdeclaration does at the end of the element list: at the closing
brace it restores the token mode, calls defineobject with the indices
collected and goes on to the variable list; otherwise it reports the error,
restores the token mode and returns. -/
def objend (self : Rec) (name : String) (symtype : SymType) : ObjEnd → P Int
  | .defined => do
    let _ ← self (.getobjvars name symtype)
    return 0
  | _ => pure 0

/-- The state in which `objend` starts. -/
def objend_state (name : String) (oldmode : Int) (all : List Int) (e : State) : ObjEnd → State
  | .defined => defineobject name all all.length (tokenmode oldmode e).2
  | .duplicate => (tokenmode oldmode (scanerror .T_SEMICOLON "Duplicate element name" e)).2
  | .toomany =>
    (tokenmode oldmode (scanerror .T_SEMICOLON "Too many elements in OBJ statement" e)).2

/-- The calls made at the end of the element list. -/
def objend_events (name : String) (oldmode : Int) (all : List Int) : ObjEnd → List Event
  | .defined => [Event.tokenmode oldmode, Event.defineobject name all all.length]
  | .duplicate => [Event.scanerror .T_SEMICOLON "Duplicate element name", Event.tokenmode oldmode]
  | .toomany => [Event.scanerror .T_SEMICOLON "Too many elements in OBJ statement",
      Event.tokenmode oldmode]

/-- Sample: `obj point { x, y } ;`, after the keyword obj. -/
def objsample : State :=
  init "*" [sym "point", tk .T_LEFTBRACE, sym "x", tk .T_COMMA, sym "y", tk .T_RIGHTBRACE,
    tk .T_SEMICOLON]

/-- Sample: `obj point { x, x } ;`, after the keyword obj. -/
def objdupsample : State :=
  init "*" [sym "point", tk .T_LEFTBRACE, sym "x", tk .T_COMMA, sym "x", tk .T_RIGHTBRACE,
    tk .T_SEMICOLON]

/-- The state in which the element list of an object declaration read from `s`
on starts: after the type name, the opening brace and the change of the token
mode. -/
def objfields (s : State) : State := (tokenmode TM_DEFAULT (gettoken (gettoken s).2).2).2

/-- Sample: `( a ) -> x ;` in a function f, with the global a and the element
name x. -/
def arrowparensample : State :=
  (addelement "x" (addglobal "a" false (init "f" [tk .T_LEFTPAREN, sym "a", tk .T_RIGHTPAREN,
    tk .T_ARROW, sym "x", tk .T_SEMICOLON]))).2

/-- Sample: `a -> x ;` in a function f, with the global a and the element
name x. -/
def arrowidsample : State :=
  (addelement "x" (addglobal "a" false (init "f" [sym "a", tk .T_ARROW, sym "x",
    tk .T_SEMICOLON]))).2

/-- Sample: `( a ) . x ;` in a function f, with the global a and the element
name x. -/
def dotparensample : State :=
  (addelement "x" (addglobal "a" false (init "f" [tk .T_LEFTPAREN, sym "a", tk .T_RIGHTPAREN,
    tk .T_PERIOD, sym "x", tk .T_SEMICOLON]))).2

/-- Sample: `a = b += c ;` in the function `f`, with globals a, b, c. -/
def assignopsample : State :=
  addglobal "c" false (addglobal "b" false (addglobal "a" false
    (init "f" [sym "a", tk .T_ASSIGN, sym "b", tk .T_PLUSEQUALS, sym "c", tk .T_SEMICOLON])))

/-- Sample: `( a = b ) += c ;` in the function `f`, with globals a, b, c. -/
def parenassignsample : State :=
  addglobal "c" false (addglobal "b" false (addglobal "a" false
    (init "f" [tk .T_LEFTPAREN, sym "a", tk .T_ASSIGN, sym "b", tk .T_RIGHTPAREN,
      tk .T_PLUSEQUALS, sym "c", tk .T_SEMICOLON])))

/-- Sample: `a = b = c ;` in the function `f`, with globals a, b, c. -/
def assignchainsample : State :=
  addglobal "c" false (addglobal "b" false (addglobal "a" false
    (init "f" [sym "a", tk .T_ASSIGN, sym "b", tk .T_ASSIGN, sym "c", tk .T_SEMICOLON])))

/-- State of the sample `a = b += c ;` after the left operand `a`. -/
def assignopsample1 : State :=
  after (run 19 .getaltcond (rescantoken (gettoken assignopsample).2)) assignopsample

/-- State of the sample `a = b += c ;` after the right operand `b` of `=`. -/
def assignopsample2 : State :=
  after (run 19 .getassignment
    (rescantoken (gettoken (writeindexop (gettoken assignopsample1).2)).2)) assignopsample

/-- State of the sample `a = b += c ;` after the right operand `c` of `+=`. -/
def assignopsample3 : State :=
  after (getopassignment_rhs 20 (run 20) (addop .OP_DUPLICATE
    (writeindexop (gettoken (addop .OP_ASSIGN assignopsample2)).2))) assignopsample

/-- The tokens read from the first state on are the given names, one symbol
after the other; the last argument is the state in front of the token that
follows the names. -/
inductive NameSeq : State → List String → State → Prop
  | done (s : State) : NameSeq s [] s
  | name (s s1 : State) (names : List String) :
      (gettoken s).1 = .T_SYMBOL → NameSeq (gettoken s).2 names s1 →
      NameSeq s (addliteral (tokensymbol (gettoken s).2) :: names) s1

/-- The names of a subsequence that ends with an initializer are defined and
assigned from the last one back to the first one. -/
def assignback (symtype : SymType) : List String → State → State
  | [], e => e
  | name :: rest, e =>
    addop .OP_ASSIGNBACK
      (usesymbol name false (definesymbol name symtype (assignback symtype rest e)))

/-- The names of a subsequence without initializer are defined from the last
one back to the first one. -/
def defineall (symtype : SymType) : List String → State → State
  | [], e => e
  | name :: rest, e => definesymbol name symtype (defineall symtype rest e)

/-- The words that address a defined name: what usesymbol emits for it. -/
def addrcode (name : String) (s : State) : List Word :=
  match symboltype name s with
  | .SYM_LOCAL => [.op .OP_LOCALADDR, .arg (findlocal name s)]
  | .SYM_PARAM => [.op .OP_PARAMADDR, .arg (findparam name s)]
  | _ => [.op .OP_GLOBALADDR, .ptr (globalptr (findglobal name s))]

/-- The words emitted while the names are assigned: for the last name first,
its address and ASSIGNBACK. -/
def backcode (symtype : SymType) : List String → State → List Word
  | [], _ => []
  | name :: rest, e =>
    backcode symtype rest e
      ++ addrcode name (definesymbol name symtype (assignback symtype rest e))
      ++ [.op .OP_ASSIGNBACK]

/-- Sample: `a b = a , c ;` after the keyword `local` in the function `f`, with
the global a. -/
def declsample : State :=
  addglobal "a" false
    (init "f" [sym "a", sym "b", tk .T_ASSIGN, sym "a", tk .T_COMMA, sym "c", tk .T_SEMICOLON])

/-- State of the sample declaration in front of its `=`. -/
def declsample1 : State :=
  (gettoken (gettoken (rescantoken (gettoken declsample).2)).2).2

/-- State of the sample declaration after its initializer. -/
def declsample2 : State :=
  after (run 20 .getopassignment (gettoken declsample1).2) declsample

/-- Whether the argument that starts at the state is prefixed by a backquote
(addrflag of getcallargs). -/
def argflag (s : State) : Bool :=
  decide ((gettoken (rescantoken (gettoken (rescantoken (gettoken s).2)).2)).1 = .T_BACKQUOTE)

/-- The state in which getcallargs calls getopassignment for the argument that
starts at the state: behind the backquote, if there is one. -/
def argstart (s : State) : State :=
  if (gettoken (rescantoken (gettoken (rescantoken (gettoken s).2)).2)).1 = .T_BACKQUOTE
  then (gettoken (rescantoken (gettoken (rescantoken (gettoken s).2)).2)).2
  else rescantoken (gettoken (rescantoken (gettoken (rescantoken (gettoken s).2)).2)).2

/-- What getcallargs does after the code of an argument: writeindexop for a
backquote argument, GETVALUE for a plain argument of a user function,
writeindexop for an argument after the second of quomod. -/
def argdone (name : String) (op : Op) (addrflag : Bool) (argcount : Int) (s : State) : State :=
  let s1 := if addrflag then writeindexop s else s
  let s2 := if !addrflag && decide (op ≠ .OP_CALL) then addop .OP_GETVALUE s1 else s1
  if decide (name = "quomod") && decide (argcount > 2) then writeindexop s2 else s2

/-- An argument position of a call: empty, or an argument with its backquote
flag and the calls made while it is parsed. -/
inductive ArgPos
  | empty
  | arg (addrflag : Bool) (code : List Event)
  deriving DecidableEq, Repr

/-- The calls made for an argument position, which is the one with the given
number: one UNDEF for an empty position. -/
def posevents (name : String) (op : Op) (argcount : Int) : ArgPos → List Event
  | .empty => [Event.addop .OP_UNDEF]
  | .arg addrflag code => code ++ argevents name op addrflag argcount

/-- The calls made for the argument positions that follow the first `done`
ones. -/
def listevents (name : String) (op : Op) : Int → List ArgPos → List Event
  | _, [] => []
  | done, p :: rest => posevents name op (done + 1) p ++ listevents name op (done + 1) rest

/-- The calls made at the closing parenthesis. -/
def callevents (op : Op) (index argcount : Int) : List Event :=
  (if op = .OP_CALL then [Event.builtincheck index argcount] else [])
    ++ [Event.addopfunction op index argcount]

/-- The input read from the state on, after `done` argument positions, is a
list of argument positions separated by commas and closed by `)`: a position
is empty when it starts with `,` or `)`, and is parsed by getopassignment
otherwise. The number is the count of the commas read between the positions,
the last argument is the state at the closing parenthesis. -/
inductive ArgList (n : Nat) (name : String) (op : Op) :
    Int → State → List ArgPos → Nat → State → Prop
  | close (done : Int) (s : State) :
      (gettoken s).1 = .T_RIGHTPAREN →
      ArgList n name op done s [.empty] 0 (addop .OP_UNDEF (gettoken s).2)
  | comma (done : Int) (s e : State) (rest : List ArgPos) (commas : Nat) :
      (gettoken s).1 ≠ .T_RIGHTPAREN →
      (gettoken (rescantoken (gettoken s).2)).1 = .T_COMMA →
      ArgList n name op (done + 1) (addop .OP_UNDEF (gettoken (rescantoken (gettoken s).2)).2)
        rest commas e →
      ArgList n name op done s (.empty :: rest) (commas + 1) e
  | last (done : Int) (s s1 : State) (r : Int) (code : List Event) :
      (gettoken s).1 ≠ .T_RIGHTPAREN →
      (gettoken (rescantoken (gettoken s).2)).1 ≠ .T_COMMA →
      run n .getopassignment (argstart s) = some (r, s1) →
      s1.trace = s.trace ++ code →
      (gettoken (argdone name op (argflag s) (done + 1) s1)).1 = .T_RIGHTPAREN →
      ArgList n name op done s [.arg (argflag s) code] 0
        (gettoken (argdone name op (argflag s) (done + 1) s1)).2
  | more (done : Int) (s s1 e : State) (r : Int) (code : List Event) (rest : List ArgPos)
      (commas : Nat) :
      (gettoken s).1 ≠ .T_RIGHTPAREN →
      (gettoken (rescantoken (gettoken s).2)).1 ≠ .T_COMMA →
      run n .getopassignment (argstart s) = some (r, s1) →
      s1.trace = s.trace ++ code →
      (gettoken (argdone name op (argflag s) (done + 1) s1)).1 = .T_COMMA →
      ArgList n name op (done + 1) (gettoken (argdone name op (argflag s) (done + 1) s1)).2
        rest commas e →
      ArgList n name op done s (.arg (argflag s) code :: rest) (commas + 1) e

/-- Sample: the arguments of a call, `a`, an empty position, `b` with a
backquote in front and an empty position before the closing parenthesis, in
the function `f` with globals a and b. -/
def callsample : State :=
  addglobal "b" false (addglobal "a" false
    (init "f" [sym "a", tk .T_COMMA, tk .T_COMMA, tk .T_BACKQUOTE, sym "b", tk .T_COMMA,
      tk .T_RIGHTPAREN, tk .T_SEMICOLON]))

/-- State of the sample call at its first argument position. -/
def callsample0 : State := rescantoken (gettoken (callee "g" callsample).2).2

/-- State of the sample call after the code of the first argument. -/
def callsample1 : State := after (run 20 .getopassignment (argstart callsample0)) callsample

/-- State of the sample call at its third argument position. -/
def callsample2 : State :=
  addop .OP_UNDEF (gettoken (rescantoken (gettoken (gettoken
    (argdone "g" .OP_USERCALL (argflag callsample0) 1 callsample1)).2).2)).2

/-- State of the sample call after the code of the third argument. -/
def callsample3 : State := after (run 20 .getopassignment (argstart callsample2)) callsample

/-- State in which the condition of a while statement is parsed: `x` is the
state after the token `while`; the token mode is DEFAULT, the two labels are
cleared and the continue label is placed. -/
def while_cond (l1 l2 : Nat) (x : State) : State :=
  setlabel l1 (clearlabel l2 (clearlabel l1 (tokenmode TM_DEFAULT x).2))

/-- State in which the body of a do statement is parsed: `x` is the state
after the token `do`; the token mode is DEFAULT, the three labels are cleared
and the label of the top is placed. -/
def do_body (l1 l2 l3 : Nat) (x : State) : State :=
  setlabel l3 (clearlabel l3 (clearlabel l2 (clearlabel l1 (tokenmode TM_DEFAULT x).2)))

/-- Sample: `while (a) continue;` in a function f with the global a. -/
def whilesample : State :=
  addglobal "a" false
    (init "f" [tk .T_WHILE, tk .T_LEFTPAREN, sym "a", tk .T_RIGHTPAREN, tk .T_CONTINUE,
      tk .T_SEMICOLON])

/-- Sample: `do continue; while (a);` in a function f with the global a. -/
def dosample : State :=
  addglobal "a" false
    (init "f" [tk .T_DO, tk .T_CONTINUE, tk .T_SEMICOLON, tk .T_WHILE, tk .T_LEFTPAREN, sym "a",
      tk .T_RIGHTPAREN, tk .T_SEMICOLON])

/-- Sample: the state after the condition of the while statement. -/
def whilesample4 : State :=
  after (run 30 .getcondition (while_cond 1 2 (gettoken (stmt_entry whilesample)).2)) whilesample

/-- Sample: the state after the body of the while statement. -/
def whilesample7 : State :=
  after (run 30 (.getstatement (some 1) (some 2) none none) (addoplabel .OP_JUMPZ 2 whilesample4))
    whilesample

/-- Sample: the state after the body of the do statement. -/
def dosample7 : State :=
  after (run 30 (.getstatement (some 1) (some 2) none none)
    (do_body 1 2 3 (gettoken (stmt_entry dosample)).2)) dosample

/-- Sample: the state after the condition of the do statement. -/
def dosample4 : State :=
  after (run 30 .getcondition (setlabel 1 (gettoken dosample7).2)) dosample

/-- Sample: the state after the condition of `for (; b; c) d;`. -/
def forsample9a : State :=
  after (run 20 .getexprlist
    (for_cond 1 (gettoken (gettoken (for_start forsample9)).2).2)) forsample9

/-- Sample: the state after the step of `for (; b; c) d;`. -/
def forsample9b : State :=
  after (run 20 .getexprlist (for_step 2 3 4 forsample9a)) forsample9

/-- Sample: the state after the body of `for (; b; c) d;`. -/
def forsample9c : State :=
  after (run 20 (.getstatement (some 2) (some 4) none none) (for_body 1 3 forsample9b))
    forsample9

/-- State of getfunction after beginfunc and enterfuncscope, when `(` is
expected. -/
def func_scope (s : State) : State :=
  enterfuncscope (beginfunc (tokensymbol (func_name s)) false (func_name s))

/-- The calls made for the parameters of a function definition; an item is
the name of a parameter, its slot and, when it has a default value, the calls
made while the default expression is parsed. -/
def paramevents (label : Nat) : List (String × Int × Option (List Event)) → List Event
  | [] => []
  | (name, _, none) :: rest => [Event.addparam name] ++ paramevents label rest
  | (name, slot, some code) :: rest =>
    [Event.addparam name, Event.clearlabel label, Event.addopone .OP_PARAMADDR slot,
      Event.addoplabel .OP_JUMPNN label] ++ code
      ++ [Event.addop .OP_ASSIGNPOP, Event.setlabel label] ++ paramevents label rest

/-- The input read from the state on, after the `(` of a function definition,
is a list of parameters separated by commas and closed by `)`; every name is
one that addparam accepts, and its slot is the value addparam returns. The
last argument is the state after the closing parenthesis. -/
inductive ParamList (n label : Nat) :
    State → List (String × Int × Option (List Event)) → State → Prop
  | close (x : State) :
      (gettoken x).1 = .T_RIGHTPAREN → ParamList n label x [] (gettoken x).2
  | plain_last (x : State) :
      (gettoken x).1 = .T_SYMBOL →
      (symboltype (tokensymbol (gettoken x).2) (gettoken x).2 = .SYM_UNDEFINED
        ∨ symboltype (tokensymbol (gettoken x).2) (gettoken x).2 = .SYM_GLOBAL
        ∨ symboltype (tokensymbol (gettoken x).2) (gettoken x).2 = .SYM_STATIC) →
      (gettoken (addparam (tokensymbol (gettoken x).2) (gettoken x).2).2).1 = .T_RIGHTPAREN →
      ParamList n label x
        [(tokensymbol (gettoken x).2, (addparam (tokensymbol (gettoken x).2) (gettoken x).2).1,
          none)]
        (gettoken (addparam (tokensymbol (gettoken x).2) (gettoken x).2).2).2
  | plain_more (x e : State) (rest : List (String × Int × Option (List Event))) :
      (gettoken x).1 = .T_SYMBOL →
      (symboltype (tokensymbol (gettoken x).2) (gettoken x).2 = .SYM_UNDEFINED
        ∨ symboltype (tokensymbol (gettoken x).2) (gettoken x).2 = .SYM_GLOBAL
        ∨ symboltype (tokensymbol (gettoken x).2) (gettoken x).2 = .SYM_STATIC) →
      (gettoken (addparam (tokensymbol (gettoken x).2) (gettoken x).2).2).1 = .T_COMMA →
      ParamList n label (gettoken (addparam (tokensymbol (gettoken x).2) (gettoken x).2).2).2
        rest e →
      ParamList n label x
        ((tokensymbol (gettoken x).2, (addparam (tokensymbol (gettoken x).2) (gettoken x).2).1,
          none) :: rest) e
  | default_last (x s7 : State) (ty : Int) (code : List Event) :
      (gettoken x).1 = .T_SYMBOL →
      (symboltype (tokensymbol (gettoken x).2) (gettoken x).2 = .SYM_UNDEFINED
        ∨ symboltype (tokensymbol (gettoken x).2) (gettoken x).2 = .SYM_GLOBAL
        ∨ symboltype (tokensymbol (gettoken x).2) (gettoken x).2 = .SYM_STATIC) →
      (gettoken (addparam (tokensymbol (gettoken x).2) (gettoken x).2).2).1 = .T_ASSIGN →
      run n .getopassignment (param_default label
          (addparam (tokensymbol (gettoken x).2) (gettoken x).2).1
          (gettoken (addparam (tokensymbol (gettoken x).2) (gettoken x).2).2).2)
        = some (ty, s7) →
      s7.trace = (param_default label
          (addparam (tokensymbol (gettoken x).2) (gettoken x).2).1
          (gettoken (addparam (tokensymbol (gettoken x).2) (gettoken x).2).2).2).trace
        ++ code →
      (gettoken (setlabel label (addop .OP_ASSIGNPOP s7))).1 = .T_RIGHTPAREN →
      ParamList n label x
        [(tokensymbol (gettoken x).2, (addparam (tokensymbol (gettoken x).2) (gettoken x).2).1,
          some code)]
        (gettoken (setlabel label (addop .OP_ASSIGNPOP s7))).2
  | default_more (x s7 e : State) (ty : Int) (code : List Event)
      (rest : List (String × Int × Option (List Event))) :
      (gettoken x).1 = .T_SYMBOL →
      (symboltype (tokensymbol (gettoken x).2) (gettoken x).2 = .SYM_UNDEFINED
        ∨ symboltype (tokensymbol (gettoken x).2) (gettoken x).2 = .SYM_GLOBAL
        ∨ symboltype (tokensymbol (gettoken x).2) (gettoken x).2 = .SYM_STATIC) →
      (gettoken (addparam (tokensymbol (gettoken x).2) (gettoken x).2).2).1 = .T_ASSIGN →
      run n .getopassignment (param_default label
          (addparam (tokensymbol (gettoken x).2) (gettoken x).2).1
          (gettoken (addparam (tokensymbol (gettoken x).2) (gettoken x).2).2).2)
        = some (ty, s7) →
      s7.trace = (param_default label
          (addparam (tokensymbol (gettoken x).2) (gettoken x).2).1
          (gettoken (addparam (tokensymbol (gettoken x).2) (gettoken x).2).2).2).trace
        ++ code →
      (gettoken (setlabel label (addop .OP_ASSIGNPOP s7))).1 = .T_COMMA →
      ParamList n label (gettoken (setlabel label (addop .OP_ASSIGNPOP s7))).2 rest e →
      ParamList n label x
        ((tokensymbol (gettoken x).2, (addparam (tokensymbol (gettoken x).2) (gettoken x).2).1,
          some code) :: rest) e

/-- Sample: `g(a = 10, b) = a` after the keyword define. -/
def funcsample : State :=
  init "*" [sym "g", tk .T_LEFTPAREN, sym "a", tk .T_ASSIGN, num 0, tk .T_COMMA, sym "b",
    tk .T_RIGHTPAREN, tk .T_ASSIGN, sym "a", tk .T_NEWLINE]

/-- State of the sample definition after the default value of a. -/
def funcsample7 : State :=
  after (run 20 .getopassignment (param_default 0 0
    (gettoken (addparam "a" (gettoken (gettoken (func_scope funcsample)).2).2).2).2))
    funcsample

/-- State in which the right operand of `=` is parsed: `sa` is the state after
the left operand; `=` is read, writeindexop is called and the token after `=`
is read and pushed back. -/
def assign_rhs (sa : State) : State :=
  rescantoken (gettoken (writeindexop (gettoken sa).2)).2

/-- State of the sample `a = b = c ;` after the operand a. -/
def assignchainsample1 : State :=
  after (run 20 .getaltcond (rescantoken (gettoken assignchainsample).2)) assignchainsample

/-- State of the sample `a = b = c ;` after the operand b. -/
def assignchainsample2 : State :=
  after (run 19 .getaltcond (rescantoken (gettoken (assign_rhs assignchainsample1)).2))
    assignchainsample

/-- State of the sample `a = b = c ;` after the operand c. -/
def assignchainsample3 : State :=
  after (run 19 .getassignment (assign_rhs assignchainsample2)) assignchainsample

/-- The input read from `s` on, at position `index` of an initializer list:
elements that do not start with a brace, each at its position, between commas
(or newlines) of which any number may be empty positions, up to the closing
brace. The list holds, for every element, its position and the calls made
while it is parsed by getopassignment; the number counts the iterations of the
loop; the last two arguments are the state after the closing brace and the
value returned. -/
inductive InitItems (n : Nat) (oldmode : Int) :
    Int → State → List (Int × List Event) → Nat → State → Int → Prop
  | skip (index last : Int) (s e : State) (items : List (Int × List Event)) (steps : Nat) :
      ((gettoken s).1 = .T_COMMA ∨ (gettoken s).1 = .T_NEWLINE) →
      InitItems n oldmode (index + 1) (gettoken s).2 items steps e last →
      InitItems n oldmode index s items (steps + 1) e last
  | close (index : Int) (s : State) :
      (gettoken s).1 = .T_RIGHTBRACE →
      InitItems n oldmode index s [] 1 (tokenmode oldmode (gettoken s).2).2 index
  | last (index : Int) (s b : State) (ty : Int) (r : List Event) :
      (gettoken s).1 ∉ [Tok.T_COMMA, Tok.T_NEWLINE, Tok.T_RIGHTBRACE, Tok.T_LEFTBRACE] →
      run n .getopassignment (rescantoken (gettoken s).2) = some (ty, b) →
      b.trace = s.trace ++ r →
      (gettoken (addopone .OP_ELEMINIT index b)).1 = .T_RIGHTBRACE →
      InitItems n oldmode index s [(index, r)] 1
        (tokenmode oldmode (gettoken (addopone .OP_ELEMINIT index b)).2).2 index
  | more (index last : Int) (s b e : State) (ty : Int) (r : List Event)
      (rest : List (Int × List Event)) (steps : Nat) :
      (gettoken s).1 ∉ [Tok.T_COMMA, Tok.T_NEWLINE, Tok.T_RIGHTBRACE, Tok.T_LEFTBRACE] →
      run n .getopassignment (rescantoken (gettoken s).2) = some (ty, b) →
      b.trace = s.trace ++ r →
      ((gettoken (addopone .OP_ELEMINIT index b)).1 = .T_COMMA
        ∨ (gettoken (addopone .OP_ELEMINIT index b)).1 = .T_NEWLINE) →
      InitItems n oldmode (index + 1) (gettoken (addopone .OP_ELEMINIT index b)).2 rest steps
        e last →
      InitItems n oldmode index s ((index, r) :: rest) (steps + 1) e last

/-- The calls made for the elements of an initializer list: the code of each
element, then ELEMINIT with its position. -/
def itemevents : List (Int × List Event) → List Event
  | [] => []
  | (i, r) :: rest => r ++ [Event.addopone .OP_ELEMINIT i] ++ itemevents rest

/-- State of getinitlist after the opening brace: the token mode is DEFAULT. -/
def initlist_open (s : State) : State := (gettoken (tokenmode TM_DEFAULT s).2).2

/-- Sample: the initializer list `{ 1, 2, 3 }`. -/
def flatlistsample : State :=
  init "*" [tk .T_LEFTBRACE, num 1, tk .T_COMMA, num 2, tk .T_COMMA, num 3, tk .T_RIGHTBRACE,
    tk .T_SEMICOLON]

/-- Sample: the initializer list `{ , , 7 , }`. -/
def commalistsample : State :=
  init "*" [tk .T_LEFTBRACE, tk .T_COMMA, tk .T_COMMA, num 0, tk .T_COMMA, tk .T_RIGHTBRACE,
    tk .T_SEMICOLON]

/-- Sample: the initializer list `{ , , 7 }`. -/
def leadlistsample : State :=
  init "*" [tk .T_LEFTBRACE, tk .T_COMMA, tk .T_COMMA, num 0, tk .T_RIGHTBRACE,
    tk .T_SEMICOLON]

/-- State of the sample `{ 1, 2, 3 }` after the first element. -/
def flatlistsample1 : State :=
  after (run 20 .getopassignment (rescantoken (gettoken (initlist_open flatlistsample)).2))
    flatlistsample

/-- State of the sample `{ 1, 2, 3 }` in which the second element is read. -/
def flatlistsample2 : State := (gettoken (addopone .OP_ELEMINIT 0 flatlistsample1)).2

/-- State of the sample `{ 1, 2, 3 }` after the second element. -/
def flatlistsample3 : State :=
  after (run 20 .getopassignment (rescantoken (gettoken flatlistsample2).2)) flatlistsample

/-- State of the sample `{ 1, 2, 3 }` in which the third element is read. -/
def flatlistsample4 : State := (gettoken (addopone .OP_ELEMINIT 1 flatlistsample3)).2

/-- State of the sample `{ 1, 2, 3 }` after the third element. -/
def flatlistsample5 : State :=
  after (run 20 .getopassignment (rescantoken (gettoken flatlistsample4).2)) flatlistsample

/-- State of the sample `{ , , 7 }` in which the element is read. -/
def leadlistsample2 : State := (gettoken (gettoken (initlist_open leadlistsample)).2).2

/-- State of the sample `{ , , 7 }` after the element. -/
def leadlistsample3 : State :=
  after (run 20 .getopassignment (rescantoken (gettoken leadlistsample2).2)) leadlistsample

/-- Sample: the declaration `a b = a ;` after the keyword `local` in the
function `f`, with the global a. -/
def declsample_one : State :=
  addglobal "a" false
    (init "f" [sym "a", sym "b", tk .T_ASSIGN, sym "a", tk .T_SEMICOLON])

/-- State of the sample `a b = a ;` in front of its `=`. -/
def declsample_one1 : State :=
  (gettoken (gettoken (rescantoken (gettoken declsample_one).2)).2).2

/-- State of the sample `a b = a ;` after its initializer. -/
def declsample_one2 : State :=
  after (run 20 .getopassignment (gettoken declsample_one1).2) declsample_one

/-- Sample: the declaration `a b ;` after the keyword `local` in the function
`f`, with the global a. -/
def declsample_plain : State :=
  addglobal "a" false (init "f" [sym "a", sym "b", tk .T_SEMICOLON])

/-! ## Basic facts about the parser monad -/

@[simp] theorem P_pure {α : Type} (a : α) (s : State) : (pure a : P α) s = some (a, s) := rfl

@[simp] theorem P_bind {α β : Type} (m : P α) (f : α → P β) (s : State) :
    (m >>= f) s = match m s with
      | none => none
      | some (a, s1) => f a s1 := rfl

@[simp] theorem act_apply (f : State → State) (s : State) : act f s = some ((), f s) := rfl

@[simp] theorem eff_apply {α : Type} (f : State → α × State) (s : State) :
    eff f s = some (f s) := rfl

@[simp] theorem ask_apply {α : Type} (f : State → α) (s : State) : ask f s = some (f s, s) := rfl

@[simp] theorem fail_apply {α : Type} (s : State) : (fail : P α) s = none := rfl

@[simp] theorem whenP_true (m : P Unit) : whenP true m = m := rfl

@[simp] theorem whenP_false (m : P Unit) : whenP false m = pure () := rfl

theorem run_succ (n : Nat) (c : Call) : run (n + 1) c = body n (run n) c := rfl

theorem run_zero (c : Call) (s : State) : run 0 c s = none := rfl

/-! ## Initializer lists of unbounded matrices -/

/-- C1: on the declaration `mat a[] = {10, 20, 30}` getinitlist returns 2, the
index of the last element, not the number 3 of elements, and getonematrix
patches the operand of the placeholder NUMBER opcode (slot 3) with the
constant-table index of the number 2; no error is reported. -/
theorem C1_getinitlist_returns_last_index :
    (run 40 .getinitlist (init "*" [tk .T_LEFTBRACE, num 0, tk .T_COMMA, num 1, tk .T_COMMA,
        num 2, tk .T_RIGHTBRACE, tk .T_SEMICOLON])).map (fun r => r.1) = some 2 ∧
    (run 40 (.getonematrix .SYM_GLOBAL) (init "*" [sym "a", tk .T_LEFTBRACKET,
        tk .T_RIGHTBRACKET, tk .T_ASSIGN, tk .T_LEFTBRACE, num 0, tk .T_COMMA, num 1,
        tk .T_COMMA, num 2, tk .T_RIGHTBRACE, tk .T_SEMICOLON])).map
      (fun r => (r.2.f_opcodes.getD 2 (.arg 0), r.2.f_opcodes.getD 3 (.arg 0),
                 r.2.constants.getD 3 0, r.2.errorcount))
      = some (.op .OP_NUMBER, .arg 3, 2, 0) := by
  decide!

/-! ## Symbol definition and use -/

theorem addlocal_trace (name : String) (s : State) :
    (addlocal name s).2.trace = s.trace ++ [.addlocal name] := by
  unfold addlocal
  split <;> rfl

theorem addlocal_errorcount (name : String) (s : State) :
    (addlocal name s).2.errorcount = s.errorcount := by
  unfold addlocal
  split <;> rfl

/-- C3: definesymbol(name, T) with T one of LOCAL, GLOBAL, STATIC, for a name
classified UNDEFINED, GLOBAL or STATIC: no error is reported and the name is
added as T, by addlocal(name) when T is LOCAL and by addglobal(name, T =
STATIC) otherwise; endscope(name, T = GLOBAL) is called, before the add,
exactly when the name was STATIC and T is GLOBAL or STATIC. -/
theorem C3_definesymbol_adds (name : String) (T : SymType) (s : State)
    (hT : T = .SYM_LOCAL ∨ T = .SYM_GLOBAL ∨ T = .SYM_STATIC)
    (hold : symboltype name s = .SYM_UNDEFINED ∨ symboltype name s = .SYM_GLOBAL
      ∨ symboltype name s = .SYM_STATIC) :
    definesymbol name T s =
        (if T = .SYM_LOCAL then
          (addlocal name s).2
        else
          addglobal name (decide (T = .SYM_STATIC))
            (if symboltype name s = .SYM_STATIC then endscope name (decide (T = .SYM_GLOBAL)) s
             else s))
    ∧ (definesymbol name T s).errorcount = s.errorcount
    ∧ (definesymbol name T s).trace =
        s.trace
          ++ (if symboltype name s = .SYM_STATIC ∧ (T = .SYM_GLOBAL ∨ T = .SYM_STATIC) then
                [Event.endscope name (decide (T = .SYM_GLOBAL))]
              else [])
          ++ [if T = .SYM_LOCAL then Event.addlocal name
              else Event.addglobal name (decide (T = .SYM_STATIC))] := by
  rcases hT with hT | hT | hT <;> rcases hold with h | h | h <;>
    simp [definesymbol, h, hT, addlocal_trace, addlocal_errorcount, addglobal, endscope, log]

/-- Witness of C3: a static `x` redefined as a global. -/
theorem C3_definesymbol_adds_witness :
    (definesymbol "x" .SYM_GLOBAL (addglobal "x" true (init "f" []))).trace
      = [Event.addglobal "x" true, Event.endscope "x" true, Event.addglobal "x" false] := by
  have h := (C3_definesymbol_adds "x" .SYM_GLOBAL (addglobal "x" true (init "f" []))
    (by decide) (by decide)).2.2
  rw [h]
  decide

/-- C4: definesymbol(name, T) for a name classified LOCAL with T = LOCAL does
nothing; for a name classified LOCAL with another T, or classified PARAM, it
reports the error "already defined" and changes neither the symbol store nor
the code, and calls nothing else. -/
theorem C4_definesymbol_already_defined (name : String) (T : SymType) (s : State)
    (hold : symboltype name s = .SYM_LOCAL ∨ symboltype name s = .SYM_PARAM) :
    (symboltype name s = .SYM_LOCAL ∧ T = .SYM_LOCAL → definesymbol name T s = s)
    ∧ (¬ (symboltype name s = .SYM_LOCAL ∧ T = .SYM_LOCAL) →
        definesymbol name T s = scanerror .T_COMMA "Variable is already defined" s
        ∧ (definesymbol name T s).errorcount = s.errorcount + 1
        ∧ (definesymbol name T s).trace
            = s.trace ++ [Event.scanerror .T_COMMA "Variable is already defined"]
        ∧ (definesymbol name T s).params = s.params
        ∧ (definesymbol name T s).locals = s.locals
        ∧ (definesymbol name T s).globals = s.globals
        ∧ (definesymbol name T s).f_opcodes = s.f_opcodes) := by
  rcases hold with h | h
  · constructor
    · intro hh
      simp [definesymbol, h, hh.2]
    · intro hh
      have hT : T ≠ .SYM_LOCAL := fun e => hh ⟨h, e⟩
      simp only [definesymbol, h, hT, if_false]
      simp only [scanerror, log]
      refine ⟨trivial, ?_, ?_, ?_, ?_, ?_, ?_⟩ <;> (simp; try (split <;> rfl))
  · constructor
    · intro hh
      rw [h] at hh
      exact absurd hh.1 (by decide)
    · intro _
      simp only [definesymbol, h]
      simp only [scanerror, log]
      refine ⟨trivial, ?_, ?_, ?_, ?_, ?_, ?_⟩ <;> (simp; try (split <;> rfl))

/-- Witness of C4: a parameter `x` declared global. -/
theorem C4_definesymbol_already_defined_witness :
    (definesymbol "x" .SYM_GLOBAL (addparam "x" (init "f" [])).2).errorcount = 1 := by
  have h := ((C4_definesymbol_already_defined "x" .SYM_GLOBAL (addparam "x" (init "f" [])).2
    (by decide)).2 (by decide)).2.1
  rw [h]
  decide

/-- C5: usesymbol(name, autodef) for a name classified LOCAL, PARAM, GLOBAL or
STATIC emits exactly one opcode: LOCALADDR(findlocal(name)),
PARAMADDR(findparam(name)), or GLOBALADDR(findglobal(name)) for GLOBAL and
STATIC alike; it reports no error and adds no symbol, whatever autodef and the
name of the current function are. -/
theorem C5_usesymbol_defined (name : String) (autodef : Bool) (s : State)
    (h : symboltype name s ≠ .SYM_UNDEFINED) :
    usesymbol name autodef s =
        (if symboltype name s = .SYM_LOCAL then
          addopone .OP_LOCALADDR (findlocal name s) s
        else if symboltype name s = .SYM_PARAM then
          addopone .OP_PARAMADDR (findparam name s) s
        else addopptr .OP_GLOBALADDR (globalptr (findglobal name s)) s)
    ∧ (usesymbol name autodef s).f_opcodes =
        s.f_opcodes ++
          (if symboltype name s = .SYM_LOCAL then
            [Word.op .OP_LOCALADDR, Word.arg (findlocal name s)]
          else if symboltype name s = .SYM_PARAM then
            [Word.op .OP_PARAMADDR, Word.arg (findparam name s)]
          else [Word.op .OP_GLOBALADDR, Word.ptr (globalptr (findglobal name s))])
    ∧ (usesymbol name autodef s).trace =
        s.trace ++
          [if symboltype name s = .SYM_LOCAL then
            Event.addopone .OP_LOCALADDR (findlocal name s)
          else if symboltype name s = .SYM_PARAM then
            Event.addopone .OP_PARAMADDR (findparam name s)
          else Event.addopptr .OP_GLOBALADDR (globalptr (findglobal name s))]
    ∧ (usesymbol name autodef s).errorcount = s.errorcount
    ∧ (usesymbol name autodef s).params = s.params
    ∧ (usesymbol name autodef s).locals = s.locals
    ∧ (usesymbol name autodef s).globals = s.globals := by
  cases hk : symboltype name s <;>
    simp [usesymbol, hk, addopone, addopptr, emitwords, log] at h ⊢

/-- Witness of C5: a parameter used in a named function. -/
theorem C5_usesymbol_defined_witness :
    (usesymbol "x" true (addparam "x" (init "f" [])).2).f_opcodes
      = [Word.op .OP_PARAMADDR, Word.arg 0] := by
  have h := (C5_usesymbol_defined "x" true (addparam "x" (init "f" [])).2 (by decide)).2.1
  rw [h]
  decide

/-- C6: usesymbol(name, autodef) for a name classified UNDEFINED: when the
name of the current function begins with `*` and autodef is true, the name is
added as a non-static global and GLOBALADDR of it is emitted, without error;
in every other case the error "undefined" is reported, no opcode is emitted
and no symbol is added. -/
theorem C6_usesymbol_undefined (name : String) (autodef : Bool) (s : State)
    (h : symboltype name s = .SYM_UNDEFINED) :
    (fnamechar 0 s = '*' ∧ autodef = true →
        usesymbol name autodef s = addopptr .OP_GLOBALADDR name (addglobal name false s)
        ∧ (usesymbol name autodef s).trace =
            s.trace ++ [Event.addglobal name false, Event.addopptr .OP_GLOBALADDR name]
        ∧ (usesymbol name autodef s).f_opcodes =
            s.f_opcodes ++ [Word.op .OP_GLOBALADDR, Word.ptr name]
        ∧ (usesymbol name autodef s).globals = (name, false) :: s.globals
        ∧ (usesymbol name autodef s).errorcount = s.errorcount)
    ∧ (¬ (fnamechar 0 s = '*' ∧ autodef = true) →
        usesymbol name autodef s = scanerror .T_NULL "Symbol is undefined" s
        ∧ (usesymbol name autodef s).trace =
            s.trace ++ [Event.scanerror .T_NULL "Symbol is undefined"]
        ∧ (usesymbol name autodef s).errorcount = s.errorcount + 1
        ∧ (usesymbol name autodef s).f_opcodes = s.f_opcodes
        ∧ (usesymbol name autodef s).params = s.params
        ∧ (usesymbol name autodef s).locals = s.locals
        ∧ (usesymbol name autodef s).globals = s.globals) := by
  constructor
  · rintro ⟨h0, h1⟩
    simp [usesymbol, h, h0, h1, addopptr, addglobal, emitwords, log, findglobal, globalptr]
  · intro hn
    have hc : fnamechar 0 s ≠ '*' ∨ autodef = false := by
      by_cases h0 : fnamechar 0 s = '*'
      · right
        cases autodef
        · rfl
        · exact absurd ⟨h0, rfl⟩ hn
      · left
        exact h0
    simp [usesymbol, h, hc, scanerror, log]

/-- Witness of C6: an undefined name with autodef in the interactive
function. -/
theorem C6_usesymbol_undefined_witness :
    (usesymbol "x" true (init "*" [])).f_opcodes = [Word.op .OP_GLOBALADDR, Word.ptr "x"] := by
  have h := ((C6_usesymbol_undefined "x" true (init "*" []) (by decide)).1 (by decide)).2.2.1
  rw [h]
  decide

/-! ## Identifiers as terms -/

theorem gettoken_curtoken (s : State) : (gettoken s).2.curtoken.t_type = (gettoken s).1 := by
  unfold gettoken
  split <;> rfl

theorem gettoken_rescantoken (s : State) :
    gettoken (rescantoken s) = (s.curtoken.t_type, { s with rescan := false }) := by
  simp [gettoken, rescantoken]

/-- C7: an identifier parsed as a term (getterm calls getidexpr(TRUE, FALSE))
and not followed by `(` is resolved by usesymbol with autodef true exactly
when the token right after it is `=`. Hence an undefined name is added as a
global, without error, exactly when the current function is the interactive
one (name beginning with `*`) and the next token is `=`; after any other token
(`+`, `+=`, `[`, ...) and in every named function the error "undefined" is
reported. -/
theorem C7_identifier_autodef (n : Nat) (s s1 s2 : State) (t : Tok)
    (hsym : (gettoken s).1 = .T_SYMBOL)
    (hs1 : (gettoken (rescantoken (gettoken s).2)).2 = s1)
    (ht : gettoken s1 = (t, s2))
    (hcall : t ≠ .T_LEFTPAREN) :
    run (n + 2) .getterm s =
        (getidexpr_loop (run n) true n >>= fun type =>
          if type = 0 then getterm_loop (run (n + 1)) (n + 1) else pure type)
        (usesymbol (String.mk ((tokensymbol s1).data.take s1.SYMBOLSIZE))
          (decide (t = .T_ASSIGN)) (rescantoken s2))
    ∧ (symboltype (String.mk ((tokensymbol s1).data.take s1.SYMBOLSIZE)) (rescantoken s2)
          = .SYM_UNDEFINED →
        usesymbol (String.mk ((tokensymbol s1).data.take s1.SYMBOLSIZE))
            (decide (t = .T_ASSIGN)) (rescantoken s2) =
          if fnamechar 0 s2 = '*' ∧ t = .T_ASSIGN then
            addopptr .OP_GLOBALADDR (String.mk ((tokensymbol s1).data.take s1.SYMBOLSIZE))
              (addglobal (String.mk ((tokensymbol s1).data.take s1.SYMBOLSIZE)) false
                (rescantoken s2))
          else scanerror .T_NULL "Symbol is undefined" (rescantoken s2)) := by
  have hcur : (gettoken (rescantoken (gettoken s).2)).1 = .T_SYMBOL := by
    rw [gettoken_rescantoken, gettoken_curtoken, hsym]
  have hid : getid (rescantoken (gettoken s).2)
      = ((true, String.mk ((tokensymbol s1).data.take s1.SYMBOLSIZE)), s1) := by
    simp [getid, hcur, hs1, iskeyword]
  constructor
  · rw [run_succ]
    simp only [body, getterm, getterm_head, P_bind, eff_apply, hsym]
    simp [run_succ, body, getidexpr, hid, ht, hcall]
    by_cases hA : t = .T_ASSIGN
    · simp [hA]
    · simp [hA]
  · intro hu
    by_cases hA : t = .T_ASSIGN <;> by_cases h0 : fnamechar 0 s2 = '*' <;>
      simp [usesymbol, hu, hA, h0, fnamechar, rescantoken, findglobal, addglobal, globalptr, log] at *

/-- Witness of C7: `x = 10` in the interactive function defines the global
`x` without error. -/
theorem C7_identifier_autodef_witness :
    (run 5 .getterm (init "*" [sym "x", tk .T_ASSIGN, num 0, tk .T_SEMICOLON])).map
      (fun r => (r.1, r.2.globals, r.2.errorcount)) = some (0, [("x", false)], 0) := by
  rw [(C7_identifier_autodef 3 (init "*" [sym "x", tk .T_ASSIGN, num 0, tk .T_SEMICOLON])
    _ (gettoken (gettoken (rescantoken (gettoken
        (init "*" [sym "x", tk .T_ASSIGN, num 0, tk .T_SEMICOLON])).2)).2).2
    .T_ASSIGN (by decide) rfl (Prod.ext (by decide) rfl) (by decide)).1]
  decide!

/-! ## Compound assignment -/

@[simp] theorem gettoken_trace (s : State) : (gettoken s).2.trace = s.trace := by
  unfold gettoken
  split <;> rfl

@[simp] theorem rescantoken_trace (s : State) : (rescantoken s).trace = s.trace := rfl

@[simp] theorem addop_trace (op : Op) (s : State) :
    (addop op s).trace = s.trace ++ [Event.addop op] := rfl

@[simp] theorem writeindexop_trace (s : State) :
    (writeindexop s).trace = s.trace ++ [Event.writeindexop] := by
  unfold writeindexop
  split <;> rfl

theorem opchain_loop (n : Nat) (op : Op) (s sf : State) (items : List (Op × List Event))
    (h : OpChain n op s items sf) :
    ∀ k, items.length ≤ k →
      getopassignment_loop n (run n) k op s = some (EXPR_ASSIGN, sf)
      ∧ sf.trace = s.trace ++ chainevents items := by
  induction h with
  | last op s b r hrhs htr hend =>
    intro k hk
    cases k with
    | zero => simp at hk
    | succ k =>
      simp [getopassignment_loop, hrhs, hend, htr, chainevents]
  | more op op1 s b sf r rest hrhs htr hnext _ ih =>
    intro k hk
    cases k with
    | zero => simp at hk
    | succ k =>
      have hk1 : rest.length ≤ k := by simpa using hk
      obtain ⟨h1, h2⟩ := ih k hk1
      simp [getopassignment_loop, hrhs, hnext, h1, h2, htr, chainevents]

theorem opassignop_table (t : Tok) (o : Op) :
    opassignop t = some o ↔ (t, o) ∈ opassigntable := by
  cases t <;> simp [opassignop, opassigntable, eq_comm]

/-- C2: for an input `lv OP= rhs ...` where lv parses (by getassignment) with
a kind lacking RVALUE and OP= is a compound assignment operator,
getopassignment calls writeindexop once and then, for every operator of the
chain in source order, emits DUPLICATE, the code of the right operand, the
arithmetic opcode of the operator and ASSIGN; it returns exactly the kind
ASSIGN. The operators and their opcodes are the fourteen of the table. -/
theorem C2_compound_assignment (n : Nat) (s s1 sf : State) (type : Int) (op : Op)
    (items : List (Op × List Event))
    (hlv : run n .getassignment s = some (type, s1))
    (hkind : isrvalue type = false)
    (hop : opassignop (gettoken s1).1 = some op)
    (hchain : OpChain n op (writeindexop (gettoken s1).2) items sf)
    (hlen : items.length ≤ n) :
    run (n + 1) .getopassignment s = some (EXPR_ASSIGN, sf)
    ∧ sf.trace = s1.trace ++ [Event.writeindexop] ++ chainevents items
    ∧ (∀ t o, opassignop t = some o ↔ (t, o) ∈ opassigntable) := by
  obtain ⟨h1, h2⟩ := opchain_loop n op _ sf items hchain n hlen
  refine ⟨?_, ?_, opassignop_table⟩
  · rw [run_succ]
    simp [body, getopassignment, hlv, hop, hkind, h1]
  · rw [h2]
    simp


/-- Witness of C2: the chain `a += b += c`. -/
theorem C2_compound_assignment_witness :
    (run 21 .getopassignment chainsample).map (fun r => (r.1, r.2.f_opcodes))
      = some (EXPR_ASSIGN,
          [Word.op .OP_GLOBALADDR, Word.ptr "a",
           Word.op .OP_DUPLICATE, Word.op .OP_GLOBALADDR, Word.ptr "b",
           Word.op .OP_ADD, Word.op .OP_ASSIGN,
           Word.op .OP_DUPLICATE, Word.op .OP_GLOBALADDR, Word.ptr "c",
           Word.op .OP_ADD, Word.op .OP_ASSIGN]) := by
  have h := C2_compound_assignment 20 chainsample
    (after (run 20 .getassignment chainsample) chainsample)
    _ 0 .OP_ADD
    [(.OP_ADD, [Event.clearlabel 6, Event.clearlabel 7, Event.addopptr .OP_GLOBALADDR "b"]),
     (.OP_ADD, [Event.clearlabel 10, Event.clearlabel 11, Event.addopptr .OP_GLOBALADDR "c"])]
    (by decide!) (by decide) (by decide!)
    (OpChain.more .OP_ADD .OP_ADD _
      (after (getopassignment_rhs 20 (run 20) (addop .OP_DUPLICATE (writeindexop
        (gettoken (after (run 20 .getassignment chainsample) chainsample)).2)))
        chainsample) _ _ _
      (by decide!) (by decide!) (by decide!)
      (OpChain.last .OP_ADD _
        (after (getopassignment_rhs 20 (run 20) (addop .OP_DUPLICATE
          (gettoken (addop .OP_ASSIGN (addop .OP_ADD
            (after (getopassignment_rhs 20 (run 20) (addop .OP_DUPLICATE (writeindexop
              (gettoken (after (run 20 .getassignment chainsample) chainsample)).2)))
              chainsample)))).2)) chainsample) _
        (by decide!) (by decide!) (by decide!)))
    (by decide)
  rw [h.1]
  decide!

/-! ## The expression parser leaves the labels of its callers alone -/

theorem Frame.refl (w : Nat) (s : State) : Frame w s s := fun h => ⟨h, fun _ _ => rfl⟩

theorem Frame.trans {w : Nat} {s s1 s2 : State} (h1 : Frame w s s1) (h2 : Frame w s1 s2) :
    Frame w s s2 := by
  intro h
  obtain ⟨a, b⟩ := h1 h
  obtain ⟨c, d⟩ := h2 a
  exact ⟨c, fun l hl => (d l hl).trans (b l hl)⟩

theorem Frame.of_labels {w : Nat} {s s1 : State} (h : s1.labels = s.labels) : Frame w s s1 := by
  intro hw
  refine ⟨by rw [h]; exact hw, fun l _ => ?_⟩
  simp [getlabel, h]

theorem Pres_pure (w : Nat) {α : Type} (a : α) : Pres w (pure a : P α) := by
  intro s b s1 h
  simp at h
  rw [← h.2]
  exact Frame.refl w s

theorem Pres_bind (w : Nat) {α β : Type} (m : P α) (f : α → P β)
    (hm : Pres w m) (hf : ∀ a, Pres w (f a)) : Pres w (m >>= f) := by
  intro s b s2 h
  simp only [P_bind] at h
  cases hms : m s with
  | none => simp [hms] at h
  | some r =>
    obtain ⟨a, s1⟩ := r
    simp only [hms] at h
    exact Frame.trans (hm s a s1 hms) (hf a s1 b s2 h)

theorem Pres_act (w : Nat) (f : State → State) (h : ∀ s, Frame w s (f s)) : Pres w (act f) := by
  intro s a s1 hh
  simp at hh
  rw [← hh]
  exact h s

theorem Pres_eff (w : Nat) {α : Type} (f : State → α × State) (h : ∀ s, Frame w s (f s).2) :
    Pres w (eff f) := by
  intro s a s1 hh
  simp at hh
  have := h s
  rw [hh] at this
  exact this

theorem Pres_ask (w : Nat) {α : Type} (f : State → α) : Pres w (ask f) := by
  intro s a s1 hh
  simp at hh
  rw [← hh.2]
  exact Frame.refl w s

theorem Pres_fail (w : Nat) {α : Type} : Pres w (fail : P α) := by
  intro s a s1 hh
  simp at hh

theorem Pres_whenP (w : Nat) (c : Bool) (m : P Unit) (h : Pres w m) : Pres w (whenP c m) := by
  cases c
  · exact Pres_pure w ()
  · exact h


theorem Pres_newlabels (w k : Nat) {α : Type} (g : Nat → P α)
    (h : ∀ base, w ≤ base → Pres w (g base)) : Pres w (eff (newlabels k) >>= g) := by
  intro s a s1 hh hw
  simp [newlabels] at hh
  have h1 := h s.labels.length hw _ a s1 hh
  have h2 := h1 (by simp; omega)
  refine ⟨h2.1, fun l hl => ?_⟩
  rw [h2.2 l hl]
  simp [getlabel, List.getD_eq_getElem?_getD, List.getElem?_append_left (lt_of_lt_of_le hl hw)]


theorem Pres_ite (w : Nat) {α : Type} (c : Prop) [Decidable c] (a b : P α)
    (ha : Pres w a) (hb : Pres w b) : Pres w (if c then a else b) := by
  split
  · exact ha
  · exact hb

@[simp] theorem labels_gettoken (s : State) : (gettoken s).2.labels = s.labels := by
  unfold gettoken
  split <;> rfl

@[simp] theorem labels_rescantoken (s : State) : (rescantoken s).labels = s.labels := rfl

@[simp] theorem labels_tokenmode (m : Int) (s : State) : (tokenmode m s).2.labels = s.labels := rfl

@[simp] theorem labels_scanerror (t : Tok) (m : String) (s : State) :
    (scanerror t m s).labels = s.labels := by
  unfold scanerror
  simp only [log]
  split <;> (try split) <;> rfl

@[simp] theorem labels_addop (op : Op) (s : State) : (addop op s).labels = s.labels := rfl

@[simp] theorem labels_addopone (op : Op) (a : Int) (s : State) :
    (addopone op a s).labels = s.labels := rfl

@[simp] theorem labels_addoptwo (op : Op) (a b : Int) (s : State) :
    (addoptwo op a b s).labels = s.labels := by
  unfold addoptwo
  simp only [log]
  split <;> rfl

@[simp] theorem labels_addopptr (op : Op) (g : String) (s : State) :
    (addopptr op g s).labels = s.labels := rfl

@[simp] theorem labels_addopfunction (op : Op) (a b : Int) (s : State) :
    (addopfunction op a b s).labels = s.labels := rfl

@[simp] theorem labels_writeindexop (s : State) : (writeindexop s).labels = s.labels := by
  unfold writeindexop
  split <;> rfl

@[simp] theorem labels_clearopt (s : State) : (clearopt s).labels = s.labels := rfl

@[simp] theorem labels_patchopcode (pc : Nat) (v : Int) (s : State) :
    (patchopcode pc v s).labels = s.labels := rfl

@[simp] theorem labels_addlocal (name : String) (s : State) :
    (addlocal name s).2.labels = s.labels := by
  unfold addlocal
  split <;> rfl

@[simp] theorem labels_addglobal (name : String) (b : Bool) (s : State) :
    (addglobal name b s).labels = s.labels := rfl

@[simp] theorem labels_endscope (name : String) (b : Bool) (s : State) :
    (endscope name b s).labels = s.labels := rfl

@[simp] theorem labels_addelement (name : String) (s : State) :
    (addelement name s).2.labels = s.labels := by
  unfold addelement
  split <;> rfl

@[simp] theorem labels_defineobject (name : String) (l : List Int) (c : Int) (s : State) :
    (defineobject name l c s).labels = s.labels := by
  unfold defineobject
  simp only [log]
  split <;> rfl

@[simp] theorem labels_adduserfunc (name : String) (s : State) :
    (adduserfunc name s).2.labels = s.labels := by
  unfold adduserfunc
  split <;> rfl

@[simp] theorem labels_builtincheck (a b : Int) (s : State) :
    (builtincheck a b s).labels = s.labels := rfl

@[simp] theorem labels_addqconstant (q : Int) (s : State) :
    (addqconstant q s).2.labels = s.labels := by
  unfold addqconstant
  split <;> rfl

@[simp] theorem labels_getid (s : State) : (getid s).2.labels = s.labels := by
  unfold getid
  simp only []
  split <;> (try split) <;> simp

@[simp] theorem labels_getelement (s : State) : (getelement s).labels = s.labels := by
  unfold getelement
  simp only []
  split <;> (try split) <;> simp

@[simp] theorem labels_definesymbol (name : String) (t : SymType) (s : State) :
    (definesymbol name t s).labels = s.labels := by
  unfold definesymbol
  split <;> (try split) <;> (try split) <;> simp

@[simp] theorem labels_usesymbol (name : String) (b : Bool) (s : State) :
    (usesymbol name b s).labels = s.labels := by
  unfold usesymbol
  split <;> (try split) <;> simp

@[simp] theorem labels_callee (name : String) (s : State) :
    (callee name s).2.labels = s.labels := by
  unfold callee
  simp only []
  split <;> simp

theorem frame_label_set (w l : Nat) (s s1 : State) (v : LABEL) (hl : w ≤ l)
    (h : s1.labels = s.labels.set l v) : Frame w s s1 := by
  intro hw
  refine ⟨by rw [h]; simpa using hw, fun k hk => ?_⟩
  have : l ≠ k := by omega
  simp [getlabel, h, List.getD_eq_getElem?_getD, List.getElem?_set_ne this]

theorem frame_clearlabel (w l : Nat) (hl : w ≤ l) (s : State) : Frame w s (clearlabel l s) :=
  frame_label_set w l s _ _ hl rfl

theorem frame_setlabel (w l : Nat) (hl : w ≤ l) (s : State) : Frame w s (setlabel l s) :=
  frame_label_set w l s _ _ hl rfl

theorem frame_addoplabel (w l : Nat) (op : Op) (hl : w ≤ l) (s : State) :
    Frame w s (addoplabel op l s) := by
  unfold addoplabel uselabel
  simp only [log]
  split
  · exact Frame.of_labels rfl
  · exact frame_label_set w l s _ _ hl rfl

theorem pres_finishcond (w : Nat) (donelabel : Nat) (hd : w ≤ donelabel) (type : Int) :
    Pres w (finishcond donelabel type) := by
  unfold finishcond
  repeat (first
    | exact hself _ rfl
    | refine Pres_ite w _ _ _ ?_ ?_
    | refine Pres_newlabels w _ _ (fun _ _ => ?_)
    | refine Pres_bind w _ _ ?_ (fun _ => ?_)
    | split
    | exact Pres_pure w _
    | exact Pres_fail w
    | exact Pres_ask w _
    | refine Pres_whenP w _ _ ?_
    | exact Pres_act w _ (fun s => frame_clearlabel w _ (by omega) s)
    | exact Pres_act w _ (fun s => frame_setlabel w _ (by omega) s)
    | exact Pres_act w _ (fun s => frame_addoplabel w _ _ (by omega) s)
    | exact Pres_act w _ (fun s => Frame.of_labels (by simp; done))
    | exact Pres_eff w _ (fun s => Frame.of_labels (by simp; done)))

theorem pres_getincdecexpr_end (w : Nat) (tok : Tok) (type : Int) :
    Pres w (getincdecexpr_end tok type) := by
  unfold getincdecexpr_end
  repeat (first
    | exact hself _ rfl
    | refine Pres_ite w _ _ _ ?_ ?_
    | refine Pres_newlabels w _ _ (fun _ _ => ?_)
    | refine Pres_bind w _ _ ?_ (fun _ => ?_)
    | split
    | exact Pres_pure w _
    | exact Pres_fail w
    | exact Pres_ask w _
    | refine Pres_whenP w _ _ ?_
    | exact Pres_act w _ (fun s => frame_clearlabel w _ (by omega) s)
    | exact Pres_act w _ (fun s => frame_setlabel w _ (by omega) s)
    | exact Pres_act w _ (fun s => frame_addoplabel w _ _ (by omega) s)
    | exact Pres_act w _ (fun s => Frame.of_labels (by simp; done))
    | exact Pres_eff w _ (fun s => Frame.of_labels (by simp; done)))

theorem pres_endcall (w : Nat) (op : Op) (index argcount : Int) :
    Pres w (endcall op index argcount) := by
  unfold endcall
  repeat (first
    | exact hself _ rfl
    | refine Pres_ite w _ _ _ ?_ ?_
    | refine Pres_newlabels w _ _ (fun _ _ => ?_)
    | refine Pres_bind w _ _ ?_ (fun _ => ?_)
    | split
    | exact Pres_pure w _
    | exact Pres_fail w
    | exact Pres_ask w _
    | refine Pres_whenP w _ _ ?_
    | exact Pres_act w _ (fun s => frame_clearlabel w _ (by omega) s)
    | exact Pres_act w _ (fun s => frame_setlabel w _ (by omega) s)
    | exact Pres_act w _ (fun s => frame_addoplabel w _ _ (by omega) s)
    | exact Pres_act w _ (fun s => Frame.of_labels (by simp; done))
    | exact Pres_eff w _ (fun s => Frame.of_labels (by simp; done)))

theorem pres_getobjdeclaration_error (w : Nat) (msg : String) (oldmode : Int) :
    Pres w (getobjdeclaration_error msg oldmode) := by
  unfold getobjdeclaration_error
  repeat (first
    | exact hself _ rfl
    | refine Pres_ite w _ _ _ ?_ ?_
    | refine Pres_newlabels w _ _ (fun _ _ => ?_)
    | refine Pres_bind w _ _ ?_ (fun _ => ?_)
    | split
    | exact Pres_pure w _
    | exact Pres_fail w
    | exact Pres_ask w _
    | refine Pres_whenP w _ _ ?_
    | exact Pres_act w _ (fun s => frame_clearlabel w _ (by omega) s)
    | exact Pres_act w _ (fun s => frame_setlabel w _ (by omega) s)
    | exact Pres_act w _ (fun s => frame_addoplabel w _ _ (by omega) s)
    | exact Pres_act w _ (fun s => Frame.of_labels (by simp; done))
    | exact Pres_eff w _ (fun s => Frame.of_labels (by simp; done)))

theorem pres_getobjdeclaration_define (w : Nat) (self : Rec) (name : String) (symtype : SymType) (oldmode : Int) (indices : List Int) (hself : ∀ c, exprcall c = true → Pres w (self c)) :
    Pres w (getobjdeclaration_define self name symtype oldmode indices) := by
  unfold getobjdeclaration_define
  repeat (first
    | exact hself _ rfl
    | refine Pres_ite w _ _ _ ?_ ?_
    | refine Pres_newlabels w _ _ (fun _ _ => ?_)
    | refine Pres_bind w _ _ ?_ (fun _ => ?_)
    | split
    | exact Pres_pure w _
    | exact Pres_fail w
    | exact Pres_ask w _
    | refine Pres_whenP w _ _ ?_
    | exact Pres_act w _ (fun s => frame_clearlabel w _ (by omega) s)
    | exact Pres_act w _ (fun s => frame_setlabel w _ (by omega) s)
    | exact Pres_act w _ (fun s => frame_addoplabel w _ _ (by omega) s)
    | exact Pres_act w _ (fun s => Frame.of_labels (by simp; done))
    | exact Pres_eff w _ (fun s => Frame.of_labels (by simp; done)))

theorem pres_getinitlist_elem (w : Nat) (self : Rec) (t : Tok) (index : Int) (hself : ∀ c, exprcall c = true → Pres w (self c)) :
    Pres w (getinitlist_elem self t index) := by
  unfold getinitlist_elem
  repeat (first
    | exact hself _ rfl
    | refine Pres_ite w _ _ _ ?_ ?_
    | refine Pres_newlabels w _ _ (fun _ _ => ?_)
    | refine Pres_bind w _ _ ?_ (fun _ => ?_)
    | split
    | exact Pres_pure w _
    | exact Pres_fail w
    | exact Pres_ask w _
    | refine Pres_whenP w _ _ ?_
    | exact Pres_act w _ (fun s => frame_clearlabel w _ (by omega) s)
    | exact Pres_act w _ (fun s => frame_setlabel w _ (by omega) s)
    | exact Pres_act w _ (fun s => frame_addoplabel w _ _ (by omega) s)
    | exact Pres_act w _ (fun s => Frame.of_labels (by simp; done))
    | exact Pres_eff w _ (fun s => Frame.of_labels (by simp; done)))

theorem pres_declname (w : Nat) (self : Rec) (symtype : SymType) (okmat : Bool) (hself : ∀ c, exprcall c = true → Pres w (self c)) :
    Pres w (declname self symtype okmat) := by
  unfold declname
  repeat (first
    | exact hself _ rfl
    | refine Pres_ite w _ _ _ ?_ ?_
    | refine Pres_newlabels w _ _ (fun _ _ => ?_)
    | refine Pres_bind w _ _ ?_ (fun _ => ?_)
    | split
    | exact Pres_pure w _
    | exact Pres_fail w
    | exact Pres_ask w _
    | refine Pres_whenP w _ _ ?_
    | exact Pres_act w _ (fun s => frame_clearlabel w _ (by omega) s)
    | exact Pres_act w _ (fun s => frame_setlabel w _ (by omega) s)
    | exact Pres_act w _ (fun s => frame_addoplabel w _ _ (by omega) s)
    | exact Pres_act w _ (fun s => Frame.of_labels (by simp; done))
    | exact Pres_eff w _ (fun s => Frame.of_labels (by simp; done)))

theorem pres_creatematrix_bound (w : Nat) (self : Rec) (hself : ∀ c, exprcall c = true → Pres w (self c)) :
    Pres w (creatematrix_bound self) := by
  unfold creatematrix_bound
  repeat (first
    | exact hself _ rfl
    | refine Pres_ite w _ _ _ ?_ ?_
    | refine Pres_newlabels w _ _ (fun _ _ => ?_)
    | refine Pres_bind w _ _ ?_ (fun _ => ?_)
    | split
    | exact Pres_pure w _
    | exact Pres_fail w
    | exact Pres_ask w _
    | refine Pres_whenP w _ _ ?_
    | exact Pres_act w _ (fun s => frame_clearlabel w _ (by omega) s)
    | exact Pres_act w _ (fun s => frame_setlabel w _ (by omega) s)
    | exact Pres_act w _ (fun s => frame_addoplabel w _ _ (by omega) s)
    | exact Pres_act w _ (fun s => Frame.of_labels (by simp; done))
    | exact Pres_eff w _ (fun s => Frame.of_labels (by simp; done)))

theorem pres_creatematrix_elem (w : Nat) (self : Rec) (hself : ∀ c, exprcall c = true → Pres w (self c)) :
    Pres w (creatematrix_elem self) := by
  unfold creatematrix_elem
  repeat (first
    | exact hself _ rfl
    | refine Pres_ite w _ _ _ ?_ ?_
    | refine Pres_newlabels w _ _ (fun _ _ => ?_)
    | refine Pres_bind w _ _ ?_ (fun _ => ?_)
    | split
    | exact Pres_pure w _
    | exact Pres_fail w
    | exact Pres_ask w _
    | refine Pres_whenP w _ _ ?_
    | exact Pres_act w _ (fun s => frame_clearlabel w _ (by omega) s)
    | exact Pres_act w _ (fun s => frame_setlabel w _ (by omega) s)
    | exact Pres_act w _ (fun s => frame_addoplabel w _ _ (by omega) s)
    | exact Pres_act w _ (fun s => Frame.of_labels (by simp; done))
    | exact Pres_eff w _ (fun s => Frame.of_labels (by simp; done)))

theorem pres_initlisttail (w : Nat) (self : Rec) (hself : ∀ c, exprcall c = true → Pres w (self c)) (k : Nat) :
    Pres w (initlisttail self k) := by
  induction k with
  | zero =>
    exact Pres_fail w
  | succ k ih =>
    unfold initlisttail
    repeat (first
      | exact hself _ rfl
      | exact ih _
      | exact ih
      | refine Pres_ite w _ _ _ ?_ ?_
      | refine Pres_newlabels w _ _ (fun _ _ => ?_)
      | refine Pres_bind w _ _ ?_ (fun _ => ?_)
      | split
      | exact Pres_pure w _
      | exact Pres_fail w
      | exact Pres_ask w _
      | refine Pres_whenP w _ _ ?_
      | exact Pres_act w _ (fun s => frame_clearlabel w _ (by omega) s)
      | exact Pres_act w _ (fun s => frame_setlabel w _ (by omega) s)
      | exact Pres_act w _ (fun s => frame_addoplabel w _ _ (by omega) s)
      | exact Pres_act w _ (fun s => Frame.of_labels (by simp; done))
      | exact Pres_eff w _ (fun s => Frame.of_labels (by simp; done)))

theorem pres_getopassignment_rhs (w : Nat) (fuel : Nat) (self : Rec) (hself : ∀ c, exprcall c = true → Pres w (self c)) :
    Pres w (getopassignment_rhs fuel self) := by
  unfold getopassignment_rhs
  repeat (first
    | exact hself _ rfl
    | exact pres_initlisttail w _ hself _
    | refine Pres_ite w _ _ _ ?_ ?_
    | refine Pres_newlabels w _ _ (fun _ _ => ?_)
    | refine Pres_bind w _ _ ?_ (fun _ => ?_)
    | split
    | exact Pres_pure w _
    | exact Pres_fail w
    | exact Pres_ask w _
    | refine Pres_whenP w _ _ ?_
    | exact Pres_act w _ (fun s => frame_clearlabel w _ (by omega) s)
    | exact Pres_act w _ (fun s => frame_setlabel w _ (by omega) s)
    | exact Pres_act w _ (fun s => frame_addoplabel w _ _ (by omega) s)
    | exact Pres_act w _ (fun s => Frame.of_labels (by simp; done))
    | exact Pres_eff w _ (fun s => Frame.of_labels (by simp; done)))

theorem pres_getexprlist_loop (w : Nat) (self : Rec) (hself : ∀ c, exprcall c = true → Pres w (self c)) (k : Nat) :
    ∀ (type : Int), Pres w (getexprlist_loop self k type) := by
  induction k with
  | zero =>
    intro _
    exact Pres_fail w
  | succ k ih =>
    intro _
    unfold getexprlist_loop
    repeat (first
      | exact hself _ rfl
      | exact ih _
      | exact ih
      | refine Pres_ite w _ _ _ ?_ ?_
      | refine Pres_newlabels w _ _ (fun _ _ => ?_)
      | refine Pres_bind w _ _ ?_ (fun _ => ?_)
      | split
      | exact Pres_pure w _
      | exact Pres_fail w
      | exact Pres_ask w _
      | refine Pres_whenP w _ _ ?_
      | exact Pres_act w _ (fun s => frame_clearlabel w _ (by omega) s)
      | exact Pres_act w _ (fun s => frame_setlabel w _ (by omega) s)
      | exact Pres_act w _ (fun s => frame_addoplabel w _ _ (by omega) s)
      | exact Pres_act w _ (fun s => Frame.of_labels (by simp; done))
      | exact Pres_eff w _ (fun s => Frame.of_labels (by simp; done)))

theorem pres_getopassignment_loop (w : Nat) (fuel : Nat) (self : Rec) (hself : ∀ c, exprcall c = true → Pres w (self c)) (k : Nat) :
    ∀ (op : Op), Pres w (getopassignment_loop fuel self k op) := by
  induction k with
  | zero =>
    intro _
    exact Pres_fail w
  | succ k ih =>
    intro _
    unfold getopassignment_loop
    repeat (first
      | exact hself _ rfl
      | exact ih _
      | exact ih
      | exact pres_getopassignment_rhs w _ _ hself
      | refine Pres_ite w _ _ _ ?_ ?_
      | refine Pres_newlabels w _ _ (fun _ _ => ?_)
      | refine Pres_bind w _ _ ?_ (fun _ => ?_)
      | split
      | exact Pres_pure w _
      | exact Pres_fail w
      | exact Pres_ask w _
      | refine Pres_whenP w _ _ ?_
      | exact Pres_act w _ (fun s => frame_clearlabel w _ (by omega) s)
      | exact Pres_act w _ (fun s => frame_setlabel w _ (by omega) s)
      | exact Pres_act w _ (fun s => frame_addoplabel w _ _ (by omega) s)
      | exact Pres_act w _ (fun s => Frame.of_labels (by simp; done))
      | exact Pres_eff w _ (fun s => Frame.of_labels (by simp; done)))

theorem pres_getorcond_loop (w : Nat) (self : Rec) (donelabel : Nat) (hd : w ≤ donelabel) (hself : ∀ c, exprcall c = true → Pres w (self c)) (k : Nat) :
    ∀ (type : Int), Pres w (getorcond_loop self donelabel k type) := by
  induction k with
  | zero =>
    intro _
    exact Pres_fail w
  | succ k ih =>
    intro _
    unfold getorcond_loop
    repeat (first
      | exact hself _ rfl
      | exact ih _
      | exact ih
      | exact pres_finishcond w _ hd _
      | refine Pres_ite w _ _ _ ?_ ?_
      | refine Pres_newlabels w _ _ (fun _ _ => ?_)
      | refine Pres_bind w _ _ ?_ (fun _ => ?_)
      | split
      | exact Pres_pure w _
      | exact Pres_fail w
      | exact Pres_ask w _
      | refine Pres_whenP w _ _ ?_
      | exact Pres_act w _ (fun s => frame_clearlabel w _ (by omega) s)
      | exact Pres_act w _ (fun s => frame_setlabel w _ (by omega) s)
      | exact Pres_act w _ (fun s => frame_addoplabel w _ _ (by omega) s)
      | exact Pres_act w _ (fun s => Frame.of_labels (by simp; done))
      | exact Pres_eff w _ (fun s => Frame.of_labels (by simp; done)))

theorem pres_getandcond_loop (w : Nat) (self : Rec) (donelabel : Nat) (hd : w ≤ donelabel) (hself : ∀ c, exprcall c = true → Pres w (self c)) (k : Nat) :
    ∀ (type : Int), Pres w (getandcond_loop self donelabel k type) := by
  induction k with
  | zero =>
    intro _
    exact Pres_fail w
  | succ k ih =>
    intro _
    unfold getandcond_loop
    repeat (first
      | exact hself _ rfl
      | exact ih _
      | exact ih
      | exact pres_finishcond w _ hd _
      | refine Pres_ite w _ _ _ ?_ ?_
      | refine Pres_newlabels w _ _ (fun _ _ => ?_)
      | refine Pres_bind w _ _ ?_ (fun _ => ?_)
      | split
      | exact Pres_pure w _
      | exact Pres_fail w
      | exact Pres_ask w _
      | refine Pres_whenP w _ _ ?_
      | exact Pres_act w _ (fun s => frame_clearlabel w _ (by omega) s)
      | exact Pres_act w _ (fun s => frame_setlabel w _ (by omega) s)
      | exact Pres_act w _ (fun s => frame_addoplabel w _ _ (by omega) s)
      | exact Pres_act w _ (fun s => Frame.of_labels (by simp; done))
      | exact Pres_eff w _ (fun s => Frame.of_labels (by simp; done)))

theorem pres_getsum_loop (w : Nat) (self : Rec) (hself : ∀ c, exprcall c = true → Pres w (self c)) (k : Nat) :
    ∀ (type : Int), Pres w (getsum_loop self k type) := by
  induction k with
  | zero =>
    intro _
    exact Pres_fail w
  | succ k ih =>
    intro _
    unfold getsum_loop
    repeat (first
      | exact hself _ rfl
      | exact ih _
      | exact ih
      | refine Pres_ite w _ _ _ ?_ ?_
      | refine Pres_newlabels w _ _ (fun _ _ => ?_)
      | refine Pres_bind w _ _ ?_ (fun _ => ?_)
      | split
      | exact Pres_pure w _
      | exact Pres_fail w
      | exact Pres_ask w _
      | refine Pres_whenP w _ _ ?_
      | exact Pres_act w _ (fun s => frame_clearlabel w _ (by omega) s)
      | exact Pres_act w _ (fun s => frame_setlabel w _ (by omega) s)
      | exact Pres_act w _ (fun s => frame_addoplabel w _ _ (by omega) s)
      | exact Pres_act w _ (fun s => Frame.of_labels (by simp; done))
      | exact Pres_eff w _ (fun s => Frame.of_labels (by simp; done)))

theorem pres_getproduct_loop (w : Nat) (self : Rec) (hself : ∀ c, exprcall c = true → Pres w (self c)) (k : Nat) :
    ∀ (type : Int), Pres w (getproduct_loop self k type) := by
  induction k with
  | zero =>
    intro _
    exact Pres_fail w
  | succ k ih =>
    intro _
    unfold getproduct_loop
    repeat (first
      | exact hself _ rfl
      | exact ih _
      | exact ih
      | refine Pres_ite w _ _ _ ?_ ?_
      | refine Pres_newlabels w _ _ (fun _ _ => ?_)
      | refine Pres_bind w _ _ ?_ (fun _ => ?_)
      | split
      | exact Pres_pure w _
      | exact Pres_fail w
      | exact Pres_ask w _
      | refine Pres_whenP w _ _ ?_
      | exact Pres_act w _ (fun s => frame_clearlabel w _ (by omega) s)
      | exact Pres_act w _ (fun s => frame_setlabel w _ (by omega) s)
      | exact Pres_act w _ (fun s => frame_addoplabel w _ _ (by omega) s)
      | exact Pres_act w _ (fun s => Frame.of_labels (by simp; done))
      | exact Pres_eff w _ (fun s => Frame.of_labels (by simp; done)))

theorem pres_getorexpr_loop (w : Nat) (self : Rec) (hself : ∀ c, exprcall c = true → Pres w (self c)) (k : Nat) :
    ∀ (type : Int), Pres w (getorexpr_loop self k type) := by
  induction k with
  | zero =>
    intro _
    exact Pres_fail w
  | succ k ih =>
    intro _
    unfold getorexpr_loop
    repeat (first
      | exact hself _ rfl
      | exact ih _
      | exact ih
      | refine Pres_ite w _ _ _ ?_ ?_
      | refine Pres_newlabels w _ _ (fun _ _ => ?_)
      | refine Pres_bind w _ _ ?_ (fun _ => ?_)
      | split
      | exact Pres_pure w _
      | exact Pres_fail w
      | exact Pres_ask w _
      | refine Pres_whenP w _ _ ?_
      | exact Pres_act w _ (fun s => frame_clearlabel w _ (by omega) s)
      | exact Pres_act w _ (fun s => frame_setlabel w _ (by omega) s)
      | exact Pres_act w _ (fun s => frame_addoplabel w _ _ (by omega) s)
      | exact Pres_act w _ (fun s => Frame.of_labels (by simp; done))
      | exact Pres_eff w _ (fun s => Frame.of_labels (by simp; done)))

theorem pres_getandexpr_loop (w : Nat) (self : Rec) (hself : ∀ c, exprcall c = true → Pres w (self c)) (k : Nat) :
    ∀ (type : Int), Pres w (getandexpr_loop self k type) := by
  induction k with
  | zero =>
    intro _
    exact Pres_fail w
  | succ k ih =>
    intro _
    unfold getandexpr_loop
    repeat (first
      | exact hself _ rfl
      | exact ih _
      | exact ih
      | refine Pres_ite w _ _ _ ?_ ?_
      | refine Pres_newlabels w _ _ (fun _ _ => ?_)
      | refine Pres_bind w _ _ ?_ (fun _ => ?_)
      | split
      | exact Pres_pure w _
      | exact Pres_fail w
      | exact Pres_ask w _
      | refine Pres_whenP w _ _ ?_
      | exact Pres_act w _ (fun s => frame_clearlabel w _ (by omega) s)
      | exact Pres_act w _ (fun s => frame_setlabel w _ (by omega) s)
      | exact Pres_act w _ (fun s => frame_addoplabel w _ _ (by omega) s)
      | exact Pres_act w _ (fun s => Frame.of_labels (by simp; done))
      | exact Pres_eff w _ (fun s => Frame.of_labels (by simp; done)))

theorem pres_getincdecexpr_loop (w : Nat)  (k : Nat) :
    Pres w (getincdecexpr_loop k) := by
  induction k with
  | zero =>
    exact Pres_fail w
  | succ k ih =>
    unfold getincdecexpr_loop
    repeat (first
      | exact hself _ rfl
      | exact ih _
      | exact ih
      | refine Pres_ite w _ _ _ ?_ ?_
      | refine Pres_newlabels w _ _ (fun _ _ => ?_)
      | refine Pres_bind w _ _ ?_ (fun _ => ?_)
      | split
      | exact Pres_pure w _
      | exact Pres_fail w
      | exact Pres_ask w _
      | refine Pres_whenP w _ _ ?_
      | exact Pres_act w _ (fun s => frame_clearlabel w _ (by omega) s)
      | exact Pres_act w _ (fun s => frame_setlabel w _ (by omega) s)
      | exact Pres_act w _ (fun s => frame_addoplabel w _ _ (by omega) s)
      | exact Pres_act w _ (fun s => Frame.of_labels (by simp; done))
      | exact Pres_eff w _ (fun s => Frame.of_labels (by simp; done)))

theorem pres_getterm_loop (w : Nat) (self : Rec) (hself : ∀ c, exprcall c = true → Pres w (self c)) (k : Nat) :
    Pres w (getterm_loop self k) := by
  induction k with
  | zero =>
    exact Pres_fail w
  | succ k ih =>
    unfold getterm_loop
    repeat (first
      | exact hself _ rfl
      | exact ih _
      | exact ih
      | refine Pres_ite w _ _ _ ?_ ?_
      | refine Pres_newlabels w _ _ (fun _ _ => ?_)
      | refine Pres_bind w _ _ ?_ (fun _ => ?_)
      | split
      | exact Pres_pure w _
      | exact Pres_fail w
      | exact Pres_ask w _
      | refine Pres_whenP w _ _ ?_
      | exact Pres_act w _ (fun s => frame_clearlabel w _ (by omega) s)
      | exact Pres_act w _ (fun s => frame_setlabel w _ (by omega) s)
      | exact Pres_act w _ (fun s => frame_addoplabel w _ _ (by omega) s)
      | exact Pres_act w _ (fun s => Frame.of_labels (by simp; done))
      | exact Pres_eff w _ (fun s => Frame.of_labels (by simp; done)))

theorem pres_getterm_mat (w : Nat) (self : Rec) (hself : ∀ c, exprcall c = true → Pres w (self c)) (k : Nat) :
    Pres w (getterm_mat self k) := by
  induction k with
  | zero =>
    exact Pres_fail w
  | succ k ih =>
    unfold getterm_mat
    repeat (first
      | exact hself _ rfl
      | exact ih _
      | exact ih
      | refine Pres_ite w _ _ _ ?_ ?_
      | refine Pres_newlabels w _ _ (fun _ _ => ?_)
      | refine Pres_bind w _ _ ?_ (fun _ => ?_)
      | split
      | exact Pres_pure w _
      | exact Pres_fail w
      | exact Pres_ask w _
      | refine Pres_whenP w _ _ ?_
      | exact Pres_act w _ (fun s => frame_clearlabel w _ (by omega) s)
      | exact Pres_act w _ (fun s => frame_setlabel w _ (by omega) s)
      | exact Pres_act w _ (fun s => frame_addoplabel w _ _ (by omega) s)
      | exact Pres_act w _ (fun s => Frame.of_labels (by simp; done))
      | exact Pres_eff w _ (fun s => Frame.of_labels (by simp; done)))

theorem pres_getidexpr_loop (w : Nat) (self : Rec) (okmat : Bool) (hself : ∀ c, exprcall c = true → Pres w (self c)) (k : Nat) :
    Pres w (getidexpr_loop self okmat k) := by
  induction k with
  | zero =>
    exact Pres_fail w
  | succ k ih =>
    unfold getidexpr_loop
    repeat (first
      | exact hself _ rfl
      | exact ih _
      | exact ih
      | refine Pres_ite w _ _ _ ?_ ?_
      | refine Pres_newlabels w _ _ (fun _ _ => ?_)
      | refine Pres_bind w _ _ ?_ (fun _ => ?_)
      | split
      | exact Pres_pure w _
      | exact Pres_fail w
      | exact Pres_ask w _
      | refine Pres_whenP w _ _ ?_
      | exact Pres_act w _ (fun s => frame_clearlabel w _ (by omega) s)
      | exact Pres_act w _ (fun s => frame_setlabel w _ (by omega) s)
      | exact Pres_act w _ (fun s => frame_addoplabel w _ _ (by omega) s)
      | exact Pres_act w _ (fun s => Frame.of_labels (by simp; done))
      | exact Pres_eff w _ (fun s => Frame.of_labels (by simp; done)))

theorem pres_getmatargs_loop (w : Nat) (self : Rec) (hself : ∀ c, exprcall c = true → Pres w (self c)) (k : Nat) :
    ∀ (dim : Int), Pres w (getmatargs_loop self k dim) := by
  induction k with
  | zero =>
    intro _
    exact Pres_fail w
  | succ k ih =>
    intro _
    unfold getmatargs_loop
    repeat (first
      | exact hself _ rfl
      | exact ih _
      | exact ih
      | refine Pres_ite w _ _ _ ?_ ?_
      | refine Pres_newlabels w _ _ (fun _ _ => ?_)
      | refine Pres_bind w _ _ ?_ (fun _ => ?_)
      | split
      | exact Pres_pure w _
      | exact Pres_fail w
      | exact Pres_ask w _
      | refine Pres_whenP w _ _ ?_
      | exact Pres_act w _ (fun s => frame_clearlabel w _ (by omega) s)
      | exact Pres_act w _ (fun s => frame_setlabel w _ (by omega) s)
      | exact Pres_act w _ (fun s => frame_addoplabel w _ _ (by omega) s)
      | exact Pres_act w _ (fun s => Frame.of_labels (by simp; done))
      | exact Pres_eff w _ (fun s => Frame.of_labels (by simp; done)))

theorem pres_getcallargs_loop (w : Nat) (self : Rec) (name : String) (op : Op) (index : Int) (hself : ∀ c, exprcall c = true → Pres w (self c)) (k : Nat) :
    ∀ (argcount : Int), Pres w (getcallargs_loop self name op index k argcount) := by
  induction k with
  | zero =>
    intro _
    exact Pres_fail w
  | succ k ih =>
    intro _
    unfold getcallargs_loop
    repeat (first
      | exact hself _ rfl
      | exact ih _
      | exact ih
      | exact pres_endcall w _ _ _
      | refine Pres_ite w _ _ _ ?_ ?_
      | refine Pres_newlabels w _ _ (fun _ _ => ?_)
      | refine Pres_bind w _ _ ?_ (fun _ => ?_)
      | split
      | exact Pres_pure w _
      | exact Pres_fail w
      | exact Pres_ask w _
      | refine Pres_whenP w _ _ ?_
      | exact Pres_act w _ (fun s => frame_clearlabel w _ (by omega) s)
      | exact Pres_act w _ (fun s => frame_setlabel w _ (by omega) s)
      | exact Pres_act w _ (fun s => frame_addoplabel w _ _ (by omega) s)
      | exact Pres_act w _ (fun s => Frame.of_labels (by simp; done))
      | exact Pres_eff w _ (fun s => Frame.of_labels (by simp; done)))

theorem pres_getinitlist_loop (w : Nat) (self : Rec) (oldmode : Int) (hself : ∀ c, exprcall c = true → Pres w (self c)) (k : Nat) :
    ∀ (index : Int), Pres w (getinitlist_loop self oldmode k index) := by
  induction k with
  | zero =>
    intro _
    exact Pres_fail w
  | succ k ih =>
    intro _
    unfold getinitlist_loop
    repeat (first
      | exact hself _ rfl
      | exact ih _
      | exact ih
      | exact pres_getinitlist_elem w _ _ _ hself
      | refine Pres_ite w _ _ _ ?_ ?_
      | refine Pres_newlabels w _ _ (fun _ _ => ?_)
      | refine Pres_bind w _ _ ?_ (fun _ => ?_)
      | split
      | exact Pres_pure w _
      | exact Pres_fail w
      | exact Pres_ask w _
      | refine Pres_whenP w _ _ ?_
      | exact Pres_act w _ (fun s => frame_clearlabel w _ (by omega) s)
      | exact Pres_act w _ (fun s => frame_setlabel w _ (by omega) s)
      | exact Pres_act w _ (fun s => frame_addoplabel w _ _ (by omega) s)
      | exact Pres_act w _ (fun s => Frame.of_labels (by simp; done))
      | exact Pres_eff w _ (fun s => Frame.of_labels (by simp; done)))

theorem pres_skipcommas (w : Nat)  (k : Nat) :
    Pres w (skipcommas k) := by
  induction k with
  | zero =>
    exact Pres_fail w
  | succ k ih =>
    unfold skipcommas
    repeat (first
      | exact hself _ rfl
      | exact ih _
      | exact ih
      | refine Pres_ite w _ _ _ ?_ ?_
      | refine Pres_newlabels w _ _ (fun _ _ => ?_)
      | refine Pres_bind w _ _ ?_ (fun _ => ?_)
      | split
      | exact Pres_pure w _
      | exact Pres_fail w
      | exact Pres_ask w _
      | refine Pres_whenP w _ _ ?_
      | exact Pres_act w _ (fun s => frame_clearlabel w _ (by omega) s)
      | exact Pres_act w _ (fun s => frame_setlabel w _ (by omega) s)
      | exact Pres_act w _ (fun s => frame_addoplabel w _ _ (by omega) s)
      | exact Pres_act w _ (fun s => Frame.of_labels (by simp; done))
      | exact Pres_eff w _ (fun s => Frame.of_labels (by simp; done)))

theorem pres_creatematrix_loop (w : Nat) (self : Rec) (hself : ∀ c, exprcall c = true → Pres w (self c)) (k : Nat) :
    ∀ (dim : Int), Pres w (creatematrix_loop self k dim) := by
  induction k with
  | zero =>
    intro _
    exact Pres_fail w
  | succ k ih =>
    intro _
    unfold creatematrix_loop
    repeat (first
      | exact hself _ rfl
      | exact ih _
      | exact ih
      | exact pres_creatematrix_bound w _ hself
      | exact pres_creatematrix_elem w _ hself
      | refine Pres_ite w _ _ _ ?_ ?_
      | refine Pres_newlabels w _ _ (fun _ _ => ?_)
      | refine Pres_bind w _ _ ?_ (fun _ => ?_)
      | split
      | exact Pres_pure w _
      | exact Pres_fail w
      | exact Pres_ask w _
      | refine Pres_whenP w _ _ ?_
      | exact Pres_act w _ (fun s => frame_clearlabel w _ (by omega) s)
      | exact Pres_act w _ (fun s => frame_setlabel w _ (by omega) s)
      | exact Pres_act w _ (fun s => frame_addoplabel w _ _ (by omega) s)
      | exact Pres_act w _ (fun s => Frame.of_labels (by simp; done))
      | exact Pres_eff w _ (fun s => Frame.of_labels (by simp; done)))

theorem pres_getobjdeclaration_loop (w : Nat) (self : Rec) (name : String) (symtype : SymType) (oldmode : Int) (hself : ∀ c, exprcall c = true → Pres w (self c)) (k : Nat) :
    ∀ (indices : List Int), Pres w (getobjdeclaration_loop self name symtype oldmode k indices) := by
  induction k with
  | zero =>
    intro _
    exact Pres_fail w
  | succ k ih =>
    intro _
    unfold getobjdeclaration_loop
    repeat (first
      | exact hself _ rfl
      | exact ih _
      | exact ih
      | exact pres_getobjdeclaration_error w _ _
      | exact pres_getobjdeclaration_define w _ _ _ _ _ hself
      | refine Pres_ite w _ _ _ ?_ ?_
      | refine Pres_newlabels w _ _ (fun _ _ => ?_)
      | refine Pres_bind w _ _ ?_ (fun _ => ?_)
      | split
      | exact Pres_pure w _
      | exact Pres_fail w
      | exact Pres_ask w _
      | refine Pres_whenP w _ _ ?_
      | exact Pres_act w _ (fun s => frame_clearlabel w _ (by omega) s)
      | exact Pres_act w _ (fun s => frame_setlabel w _ (by omega) s)
      | exact Pres_act w _ (fun s => frame_addoplabel w _ _ (by omega) s)
      | exact Pres_act w _ (fun s => Frame.of_labels (by simp; done))
      | exact Pres_eff w _ (fun s => Frame.of_labels (by simp; done)))

theorem pres_getobjvars_loop (w : Nat) (self : Rec) (index : Int) (symtype : SymType) (hself : ∀ c, exprcall c = true → Pres w (self c)) (k : Nat) :
    Pres w (getobjvars_loop self index symtype k) := by
  induction k with
  | zero =>
    exact Pres_fail w
  | succ k ih =>
    unfold getobjvars_loop
    repeat (first
      | exact hself _ rfl
      | exact ih _
      | exact ih
      | refine Pres_ite w _ _ _ ?_ ?_
      | refine Pres_newlabels w _ _ (fun _ _ => ?_)
      | refine Pres_bind w _ _ ?_ (fun _ => ?_)
      | split
      | exact Pres_pure w _
      | exact Pres_fail w
      | exact Pres_ask w _
      | refine Pres_whenP w _ _ ?_
      | exact Pres_act w _ (fun s => frame_clearlabel w _ (by omega) s)
      | exact Pres_act w _ (fun s => frame_setlabel w _ (by omega) s)
      | exact Pres_act w _ (fun s => frame_addoplabel w _ _ (by omega) s)
      | exact Pres_act w _ (fun s => Frame.of_labels (by simp; done))
      | exact Pres_eff w _ (fun s => Frame.of_labels (by simp; done)))

theorem pres_getmatdeclaration_loop (w : Nat) (self : Rec) (symtype : SymType) (hself : ∀ c, exprcall c = true → Pres w (self c)) (k : Nat) :
    Pres w (getmatdeclaration_loop self symtype k) := by
  induction k with
  | zero =>
    exact Pres_fail w
  | succ k ih =>
    unfold getmatdeclaration_loop
    repeat (first
      | exact hself _ rfl
      | exact ih _
      | exact ih
      | refine Pres_ite w _ _ _ ?_ ?_
      | refine Pres_newlabels w _ _ (fun _ _ => ?_)
      | refine Pres_bind w _ _ ?_ (fun _ => ?_)
      | split
      | exact Pres_pure w _
      | exact Pres_fail w
      | exact Pres_ask w _
      | refine Pres_whenP w _ _ ?_
      | exact Pres_act w _ (fun s => frame_clearlabel w _ (by omega) s)
      | exact Pres_act w _ (fun s => frame_setlabel w _ (by omega) s)
      | exact Pres_act w _ (fun s => frame_addoplabel w _ _ (by omega) s)
      | exact Pres_act w _ (fun s => Frame.of_labels (by simp; done))
      | exact Pres_eff w _ (fun s => Frame.of_labels (by simp; done)))

theorem pres_getdeclarations_loop (w : Nat) (self : Rec) (symtype : SymType) (hself : ∀ c, exprcall c = true → Pres w (self c)) (k : Nat) :
    Pres w (getdeclarations_loop self symtype k) := by
  induction k with
  | zero =>
    exact Pres_fail w
  | succ k ih =>
    unfold getdeclarations_loop
    repeat (first
      | exact hself _ rfl
      | exact ih _
      | exact ih
      | refine Pres_ite w _ _ _ ?_ ?_
      | refine Pres_newlabels w _ _ (fun _ _ => ?_)
      | refine Pres_bind w _ _ ?_ (fun _ => ?_)
      | split
      | exact Pres_pure w _
      | exact Pres_fail w
      | exact Pres_ask w _
      | refine Pres_whenP w _ _ ?_
      | exact Pres_act w _ (fun s => frame_clearlabel w _ (by omega) s)
      | exact Pres_act w _ (fun s => frame_setlabel w _ (by omega) s)
      | exact Pres_act w _ (fun s => frame_addoplabel w _ _ (by omega) s)
      | exact Pres_act w _ (fun s => Frame.of_labels (by simp; done))
      | exact Pres_eff w _ (fun s => Frame.of_labels (by simp; done)))

theorem pres_getsimpledeclaration_loop (w : Nat) (self : Rec) (symtype : SymType) (hself : ∀ c, exprcall c = true → Pres w (self c)) (k : Nat) :
    Pres w (getsimpledeclaration_loop self symtype k) := by
  induction k with
  | zero =>
    exact Pres_fail w
  | succ k ih =>
    unfold getsimpledeclaration_loop
    repeat (first
      | exact hself _ rfl
      | exact ih _
      | exact ih
      | refine Pres_ite w _ _ _ ?_ ?_
      | refine Pres_newlabels w _ _ (fun _ _ => ?_)
      | refine Pres_bind w _ _ ?_ (fun _ => ?_)
      | split
      | exact Pres_pure w _
      | exact Pres_fail w
      | exact Pres_ask w _
      | refine Pres_whenP w _ _ ?_
      | exact Pres_act w _ (fun s => frame_clearlabel w _ (by omega) s)
      | exact Pres_act w _ (fun s => frame_setlabel w _ (by omega) s)
      | exact Pres_act w _ (fun s => frame_addoplabel w _ _ (by omega) s)
      | exact Pres_act w _ (fun s => Frame.of_labels (by simp; done))
      | exact Pres_eff w _ (fun s => Frame.of_labels (by simp; done)))

theorem pres_getassignment_tail (w : Nat) (fuel : Nat) (self : Rec) (type : Int) (hself : ∀ c, exprcall c = true → Pres w (self c)) :
    Pres w (getassignment_tail fuel self type) := by
  unfold getassignment_tail
  repeat (first
    | exact hself _ rfl
    | exact pres_initlisttail w _ hself _
    | refine Pres_ite w _ _ _ ?_ ?_
    | refine Pres_newlabels w _ _ (fun _ _ => ?_)
    | refine Pres_bind w _ _ ?_ (fun _ => ?_)
    | split
    | exact Pres_pure w _
    | exact Pres_fail w
    | exact Pres_ask w _
    | refine Pres_whenP w _ _ ?_
    | exact Pres_act w _ (fun s => frame_clearlabel w _ (by omega) s)
    | exact Pres_act w _ (fun s => frame_setlabel w _ (by omega) s)
    | exact Pres_act w _ (fun s => frame_addoplabel w _ _ (by omega) s)
    | exact Pres_act w _ (fun s => Frame.of_labels (by simp; done))
    | exact Pres_eff w _ (fun s => Frame.of_labels (by simp; done)))

theorem pres_getterm_head (w : Nat) (fuel : Nat) (self : Rec) (hself : ∀ c, exprcall c = true → Pres w (self c)) :
    Pres w (getterm_head fuel self) := by
  unfold getterm_head
  repeat (first
    | exact hself _ rfl
    | exact pres_getterm_mat w _ hself _
    | refine Pres_ite w _ _ _ ?_ ?_
    | refine Pres_newlabels w _ _ (fun _ _ => ?_)
    | refine Pres_bind w _ _ ?_ (fun _ => ?_)
    | split
    | exact Pres_pure w _
    | exact Pres_fail w
    | exact Pres_ask w _
    | refine Pres_whenP w _ _ ?_
    | exact Pres_act w _ (fun s => frame_clearlabel w _ (by omega) s)
    | exact Pres_act w _ (fun s => frame_setlabel w _ (by omega) s)
    | exact Pres_act w _ (fun s => frame_addoplabel w _ _ (by omega) s)
    | exact Pres_act w _ (fun s => Frame.of_labels (by simp; done))
    | exact Pres_eff w _ (fun s => Frame.of_labels (by simp; done)))

theorem pres_getdeclarations (w : Nat) (fuel : Nat) (self : Rec) (symtype : SymType) (hself : ∀ c, exprcall c = true → Pres w (self c)) :
    Pres w (getdeclarations fuel self symtype) := by
  unfold getdeclarations
  repeat (first
    | exact hself _ rfl
    | exact pres_getdeclarations_loop w _ _ hself _
    | refine Pres_ite w _ _ _ ?_ ?_
    | refine Pres_newlabels w _ _ (fun _ _ => ?_)
    | refine Pres_bind w _ _ ?_ (fun _ => ?_)
    | split
    | exact Pres_pure w _
    | exact Pres_fail w
    | exact Pres_ask w _
    | refine Pres_whenP w _ _ ?_
    | exact Pres_act w _ (fun s => frame_clearlabel w _ (by omega) s)
    | exact Pres_act w _ (fun s => frame_setlabel w _ (by omega) s)
    | exact Pres_act w _ (fun s => frame_addoplabel w _ _ (by omega) s)
    | exact Pres_act w _ (fun s => Frame.of_labels (by simp; done))
    | exact Pres_eff w _ (fun s => Frame.of_labels (by simp; done)))

theorem pres_getsimpledeclaration (w : Nat) (fuel : Nat) (self : Rec) (symtype : SymType) (hself : ∀ c, exprcall c = true → Pres w (self c)) :
    Pres w (getsimpledeclaration fuel self symtype) := by
  unfold getsimpledeclaration
  repeat (first
    | exact hself _ rfl
    | exact pres_getsimpledeclaration_loop w _ _ hself _
    | refine Pres_ite w _ _ _ ?_ ?_
    | refine Pres_newlabels w _ _ (fun _ _ => ?_)
    | refine Pres_bind w _ _ ?_ (fun _ => ?_)
    | split
    | exact Pres_pure w _
    | exact Pres_fail w
    | exact Pres_ask w _
    | refine Pres_whenP w _ _ ?_
    | exact Pres_act w _ (fun s => frame_clearlabel w _ (by omega) s)
    | exact Pres_act w _ (fun s => frame_setlabel w _ (by omega) s)
    | exact Pres_act w _ (fun s => frame_addoplabel w _ _ (by omega) s)
    | exact Pres_act w _ (fun s => Frame.of_labels (by simp; done))
    | exact Pres_eff w _ (fun s => Frame.of_labels (by simp; done)))

theorem pres_getonevariable (w : Nat) (self : Rec) (symtype : SymType) (hself : ∀ c, exprcall c = true → Pres w (self c)) :
    Pres w (getonevariable self symtype) := by
  unfold getonevariable
  repeat (first
    | exact hself _ rfl
    | refine Pres_ite w _ _ _ ?_ ?_
    | refine Pres_newlabels w _ _ (fun _ _ => ?_)
    | refine Pres_bind w _ _ ?_ (fun _ => ?_)
    | split
    | exact Pres_pure w _
    | exact Pres_fail w
    | exact Pres_ask w _
    | refine Pres_whenP w _ _ ?_
    | exact Pres_act w _ (fun s => frame_clearlabel w _ (by omega) s)
    | exact Pres_act w _ (fun s => frame_setlabel w _ (by omega) s)
    | exact Pres_act w _ (fun s => frame_addoplabel w _ _ (by omega) s)
    | exact Pres_act w _ (fun s => Frame.of_labels (by simp; done))
    | exact Pres_eff w _ (fun s => Frame.of_labels (by simp; done)))

theorem pres_getobjdeclaration (w : Nat) (fuel : Nat) (self : Rec) (symtype : SymType) (hself : ∀ c, exprcall c = true → Pres w (self c)) :
    Pres w (getobjdeclaration fuel self symtype) := by
  unfold getobjdeclaration
  repeat (first
    | exact hself _ rfl
    | exact pres_getobjdeclaration_loop w _ _ _ _ hself _ _
    | refine Pres_ite w _ _ _ ?_ ?_
    | refine Pres_newlabels w _ _ (fun _ _ => ?_)
    | refine Pres_bind w _ _ ?_ (fun _ => ?_)
    | split
    | exact Pres_pure w _
    | exact Pres_fail w
    | exact Pres_ask w _
    | refine Pres_whenP w _ _ ?_
    | exact Pres_act w _ (fun s => frame_clearlabel w _ (by omega) s)
    | exact Pres_act w _ (fun s => frame_setlabel w _ (by omega) s)
    | exact Pres_act w _ (fun s => frame_addoplabel w _ _ (by omega) s)
    | exact Pres_act w _ (fun s => Frame.of_labels (by simp; done))
    | exact Pres_eff w _ (fun s => Frame.of_labels (by simp; done)))

theorem pres_getoneobj (w : Nat) (fuel : Nat) (self : Rec) (index : Int) (symtype : SymType) (hself : ∀ c, exprcall c = true → Pres w (self c)) :
    Pres w (getoneobj fuel self index symtype) := by
  unfold getoneobj
  repeat (first
    | exact hself _ rfl
    | exact pres_declname w _ _ _ hself
    | exact pres_initlisttail w _ hself _
    | refine Pres_ite w _ _ _ ?_ ?_
    | refine Pres_newlabels w _ _ (fun _ _ => ?_)
    | refine Pres_bind w _ _ ?_ (fun _ => ?_)
    | split
    | exact Pres_pure w _
    | exact Pres_fail w
    | exact Pres_ask w _
    | refine Pres_whenP w _ _ ?_
    | exact Pres_act w _ (fun s => frame_clearlabel w _ (by omega) s)
    | exact Pres_act w _ (fun s => frame_setlabel w _ (by omega) s)
    | exact Pres_act w _ (fun s => frame_addoplabel w _ _ (by omega) s)
    | exact Pres_act w _ (fun s => Frame.of_labels (by simp; done))
    | exact Pres_eff w _ (fun s => Frame.of_labels (by simp; done)))

theorem pres_getobjvars (w : Nat) (fuel : Nat) (self : Rec) (name : String) (symtype : SymType) (hself : ∀ c, exprcall c = true → Pres w (self c)) :
    Pres w (getobjvars fuel self name symtype) := by
  unfold getobjvars
  repeat (first
    | exact hself _ rfl
    | exact pres_getobjvars_loop w _ _ _ hself _
    | refine Pres_ite w _ _ _ ?_ ?_
    | refine Pres_newlabels w _ _ (fun _ _ => ?_)
    | refine Pres_bind w _ _ ?_ (fun _ => ?_)
    | split
    | exact Pres_pure w _
    | exact Pres_fail w
    | exact Pres_ask w _
    | refine Pres_whenP w _ _ ?_
    | exact Pres_act w _ (fun s => frame_clearlabel w _ (by omega) s)
    | exact Pres_act w _ (fun s => frame_setlabel w _ (by omega) s)
    | exact Pres_act w _ (fun s => frame_addoplabel w _ _ (by omega) s)
    | exact Pres_act w _ (fun s => Frame.of_labels (by simp; done))
    | exact Pres_eff w _ (fun s => Frame.of_labels (by simp; done)))

theorem pres_getmatdeclaration (w : Nat) (fuel : Nat) (self : Rec) (symtype : SymType) (hself : ∀ c, exprcall c = true → Pres w (self c)) :
    Pres w (getmatdeclaration fuel self symtype) := by
  unfold getmatdeclaration
  repeat (first
    | exact hself _ rfl
    | exact pres_getmatdeclaration_loop w _ _ hself _
    | refine Pres_ite w _ _ _ ?_ ?_
    | refine Pres_newlabels w _ _ (fun _ _ => ?_)
    | refine Pres_bind w _ _ ?_ (fun _ => ?_)
    | split
    | exact Pres_pure w _
    | exact Pres_fail w
    | exact Pres_ask w _
    | refine Pres_whenP w _ _ ?_
    | exact Pres_act w _ (fun s => frame_clearlabel w _ (by omega) s)
    | exact Pres_act w _ (fun s => frame_setlabel w _ (by omega) s)
    | exact Pres_act w _ (fun s => frame_addoplabel w _ _ (by omega) s)
    | exact Pres_act w _ (fun s => Frame.of_labels (by simp; done))
    | exact Pres_eff w _ (fun s => Frame.of_labels (by simp; done)))

theorem pres_getonematrix (w : Nat) (fuel : Nat) (self : Rec) (symtype : SymType) (hself : ∀ c, exprcall c = true → Pres w (self c)) :
    Pres w (getonematrix fuel self symtype) := by
  unfold getonematrix
  repeat (first
    | exact hself _ rfl
    | exact pres_declname w _ _ _ hself
    | exact pres_skipcommas w _
    | exact pres_initlisttail w _ hself _
    | refine Pres_ite w _ _ _ ?_ ?_
    | refine Pres_newlabels w _ _ (fun _ _ => ?_)
    | refine Pres_bind w _ _ ?_ (fun _ => ?_)
    | split
    | exact Pres_pure w _
    | exact Pres_fail w
    | exact Pres_ask w _
    | refine Pres_whenP w _ _ ?_
    | exact Pres_act w _ (fun s => frame_clearlabel w _ (by omega) s)
    | exact Pres_act w _ (fun s => frame_setlabel w _ (by omega) s)
    | exact Pres_act w _ (fun s => frame_addoplabel w _ _ (by omega) s)
    | exact Pres_act w _ (fun s => Frame.of_labels (by simp; done))
    | exact Pres_eff w _ (fun s => Frame.of_labels (by simp; done)))

theorem pres_creatematrix (w : Nat) (fuel : Nat) (self : Rec) (hself : ∀ c, exprcall c = true → Pres w (self c)) :
    Pres w (creatematrix fuel self) := by
  unfold creatematrix
  repeat (first
    | exact hself _ rfl
    | exact pres_creatematrix_loop w _ hself _ _
    | refine Pres_ite w _ _ _ ?_ ?_
    | refine Pres_newlabels w _ _ (fun _ _ => ?_)
    | refine Pres_bind w _ _ ?_ (fun _ => ?_)
    | split
    | exact Pres_pure w _
    | exact Pres_fail w
    | exact Pres_ask w _
    | refine Pres_whenP w _ _ ?_
    | exact Pres_act w _ (fun s => frame_clearlabel w _ (by omega) s)
    | exact Pres_act w _ (fun s => frame_setlabel w _ (by omega) s)
    | exact Pres_act w _ (fun s => frame_addoplabel w _ _ (by omega) s)
    | exact Pres_act w _ (fun s => Frame.of_labels (by simp; done))
    | exact Pres_eff w _ (fun s => Frame.of_labels (by simp; done)))

theorem pres_getsimplebody (w : Nat) (self : Rec) (hself : ∀ c, exprcall c = true → Pres w (self c)) :
    Pres w (getsimplebody self) := by
  unfold getsimplebody
  repeat (first
    | exact hself _ rfl
    | refine Pres_ite w _ _ _ ?_ ?_
    | refine Pres_newlabels w _ _ (fun _ _ => ?_)
    | refine Pres_bind w _ _ ?_ (fun _ => ?_)
    | split
    | exact Pres_pure w _
    | exact Pres_fail w
    | exact Pres_ask w _
    | refine Pres_whenP w _ _ ?_
    | exact Pres_act w _ (fun s => frame_clearlabel w _ (by omega) s)
    | exact Pres_act w _ (fun s => frame_setlabel w _ (by omega) s)
    | exact Pres_act w _ (fun s => frame_addoplabel w _ _ (by omega) s)
    | exact Pres_act w _ (fun s => Frame.of_labels (by simp; done))
    | exact Pres_eff w _ (fun s => Frame.of_labels (by simp; done)))

theorem pres_getcondition (w : Nat) (self : Rec) (hself : ∀ c, exprcall c = true → Pres w (self c)) :
    Pres w (getcondition self) := by
  unfold getcondition
  repeat (first
    | exact hself _ rfl
    | refine Pres_ite w _ _ _ ?_ ?_
    | refine Pres_newlabels w _ _ (fun _ _ => ?_)
    | refine Pres_bind w _ _ ?_ (fun _ => ?_)
    | split
    | exact Pres_pure w _
    | exact Pres_fail w
    | exact Pres_ask w _
    | refine Pres_whenP w _ _ ?_
    | exact Pres_act w _ (fun s => frame_clearlabel w _ (by omega) s)
    | exact Pres_act w _ (fun s => frame_setlabel w _ (by omega) s)
    | exact Pres_act w _ (fun s => frame_addoplabel w _ _ (by omega) s)
    | exact Pres_act w _ (fun s => Frame.of_labels (by simp; done))
    | exact Pres_eff w _ (fun s => Frame.of_labels (by simp; done)))

theorem pres_getmatargs (w : Nat) (fuel : Nat) (self : Rec) (hself : ∀ c, exprcall c = true → Pres w (self c)) :
    Pres w (getmatargs fuel self) := by
  unfold getmatargs
  repeat (first
    | exact hself _ rfl
    | exact pres_getmatargs_loop w _ hself _ _
    | refine Pres_ite w _ _ _ ?_ ?_
    | refine Pres_newlabels w _ _ (fun _ _ => ?_)
    | refine Pres_bind w _ _ ?_ (fun _ => ?_)
    | split
    | exact Pres_pure w _
    | exact Pres_fail w
    | exact Pres_ask w _
    | refine Pres_whenP w _ _ ?_
    | exact Pres_act w _ (fun s => frame_clearlabel w _ (by omega) s)
    | exact Pres_act w _ (fun s => frame_setlabel w _ (by omega) s)
    | exact Pres_act w _ (fun s => frame_addoplabel w _ _ (by omega) s)
    | exact Pres_act w _ (fun s => Frame.of_labels (by simp; done))
    | exact Pres_eff w _ (fun s => Frame.of_labels (by simp; done)))

theorem pres_getcallargs (w : Nat) (fuel : Nat) (self : Rec) (name : String) (hself : ∀ c, exprcall c = true → Pres w (self c)) :
    Pres w (getcallargs fuel self name) := by
  unfold getcallargs
  repeat (first
    | exact hself _ rfl
    | exact pres_endcall w _ _ _
    | exact pres_getcallargs_loop w _ _ _ _ hself _ _
    | refine Pres_ite w _ _ _ ?_ ?_
    | refine Pres_newlabels w _ _ (fun _ _ => ?_)
    | refine Pres_bind w _ _ ?_ (fun _ => ?_)
    | split
    | exact Pres_pure w _
    | exact Pres_fail w
    | exact Pres_ask w _
    | refine Pres_whenP w _ _ ?_
    | exact Pres_act w _ (fun s => frame_clearlabel w _ (by omega) s)
    | exact Pres_act w _ (fun s => frame_setlabel w _ (by omega) s)
    | exact Pres_act w _ (fun s => frame_addoplabel w _ _ (by omega) s)
    | exact Pres_act w _ (fun s => Frame.of_labels (by simp; done))
    | exact Pres_eff w _ (fun s => Frame.of_labels (by simp; done)))

theorem pres_getexprlist (w : Nat) (fuel : Nat) (self : Rec) (hself : ∀ c, exprcall c = true → Pres w (self c)) :
    Pres w (getexprlist fuel self) := by
  unfold getexprlist
  repeat (first
    | exact hself _ rfl
    | exact pres_getexprlist_loop w _ hself _ _
    | refine Pres_ite w _ _ _ ?_ ?_
    | refine Pres_newlabels w _ _ (fun _ _ => ?_)
    | refine Pres_bind w _ _ ?_ (fun _ => ?_)
    | split
    | exact Pres_pure w _
    | exact Pres_fail w
    | exact Pres_ask w _
    | refine Pres_whenP w _ _ ?_
    | exact Pres_act w _ (fun s => frame_clearlabel w _ (by omega) s)
    | exact Pres_act w _ (fun s => frame_setlabel w _ (by omega) s)
    | exact Pres_act w _ (fun s => frame_addoplabel w _ _ (by omega) s)
    | exact Pres_act w _ (fun s => Frame.of_labels (by simp; done))
    | exact Pres_eff w _ (fun s => Frame.of_labels (by simp; done)))

theorem pres_getopassignment (w : Nat) (fuel : Nat) (self : Rec) (hself : ∀ c, exprcall c = true → Pres w (self c)) :
    Pres w (getopassignment fuel self) := by
  unfold getopassignment
  repeat (first
    | exact hself _ rfl
    | exact pres_getopassignment_loop w _ _ hself _ _
    | refine Pres_ite w _ _ _ ?_ ?_
    | refine Pres_newlabels w _ _ (fun _ _ => ?_)
    | refine Pres_bind w _ _ ?_ (fun _ => ?_)
    | split
    | exact Pres_pure w _
    | exact Pres_fail w
    | exact Pres_ask w _
    | refine Pres_whenP w _ _ ?_
    | exact Pres_act w _ (fun s => frame_clearlabel w _ (by omega) s)
    | exact Pres_act w _ (fun s => frame_setlabel w _ (by omega) s)
    | exact Pres_act w _ (fun s => frame_addoplabel w _ _ (by omega) s)
    | exact Pres_act w _ (fun s => Frame.of_labels (by simp; done))
    | exact Pres_eff w _ (fun s => Frame.of_labels (by simp; done)))

theorem pres_getassignment (w : Nat) (fuel : Nat) (self : Rec) (hself : ∀ c, exprcall c = true → Pres w (self c)) :
    Pres w (getassignment fuel self) := by
  unfold getassignment
  repeat (first
    | exact hself _ rfl
    | exact pres_getassignment_tail w _ _ _ hself
    | refine Pres_ite w _ _ _ ?_ ?_
    | refine Pres_newlabels w _ _ (fun _ _ => ?_)
    | refine Pres_bind w _ _ ?_ (fun _ => ?_)
    | split
    | exact Pres_pure w _
    | exact Pres_fail w
    | exact Pres_ask w _
    | refine Pres_whenP w _ _ ?_
    | exact Pres_act w _ (fun s => frame_clearlabel w _ (by omega) s)
    | exact Pres_act w _ (fun s => frame_setlabel w _ (by omega) s)
    | exact Pres_act w _ (fun s => frame_addoplabel w _ _ (by omega) s)
    | exact Pres_act w _ (fun s => Frame.of_labels (by simp; done))
    | exact Pres_eff w _ (fun s => Frame.of_labels (by simp; done)))

theorem pres_getaltcond (w : Nat) (self : Rec) (hself : ∀ c, exprcall c = true → Pres w (self c)) :
    Pres w (getaltcond self) := by
  unfold getaltcond
  repeat (first
    | exact hself _ rfl
    | refine Pres_ite w _ _ _ ?_ ?_
    | refine Pres_newlabels w _ _ (fun _ _ => ?_)
    | refine Pres_bind w _ _ ?_ (fun _ => ?_)
    | split
    | exact Pres_pure w _
    | exact Pres_fail w
    | exact Pres_ask w _
    | refine Pres_whenP w _ _ ?_
    | exact Pres_act w _ (fun s => frame_clearlabel w _ (by omega) s)
    | exact Pres_act w _ (fun s => frame_setlabel w _ (by omega) s)
    | exact Pres_act w _ (fun s => frame_addoplabel w _ _ (by omega) s)
    | exact Pres_act w _ (fun s => Frame.of_labels (by simp; done))
    | exact Pres_eff w _ (fun s => Frame.of_labels (by simp; done)))

theorem pres_getorcond (w : Nat) (fuel : Nat) (self : Rec) (hself : ∀ c, exprcall c = true → Pres w (self c)) :
    Pres w (getorcond fuel self) := by
  unfold getorcond
  repeat (first
    | exact hself _ rfl
    | exact pres_getorcond_loop w _ _ (by omega) hself _ _
    | refine Pres_ite w _ _ _ ?_ ?_
    | refine Pres_newlabels w _ _ (fun _ _ => ?_)
    | refine Pres_bind w _ _ ?_ (fun _ => ?_)
    | split
    | exact Pres_pure w _
    | exact Pres_fail w
    | exact Pres_ask w _
    | refine Pres_whenP w _ _ ?_
    | exact Pres_act w _ (fun s => frame_clearlabel w _ (by omega) s)
    | exact Pres_act w _ (fun s => frame_setlabel w _ (by omega) s)
    | exact Pres_act w _ (fun s => frame_addoplabel w _ _ (by omega) s)
    | exact Pres_act w _ (fun s => Frame.of_labels (by simp; done))
    | exact Pres_eff w _ (fun s => Frame.of_labels (by simp; done)))

theorem pres_getandcond (w : Nat) (fuel : Nat) (self : Rec) (hself : ∀ c, exprcall c = true → Pres w (self c)) :
    Pres w (getandcond fuel self) := by
  unfold getandcond
  repeat (first
    | exact hself _ rfl
    | exact pres_getandcond_loop w _ _ (by omega) hself _ _
    | refine Pres_ite w _ _ _ ?_ ?_
    | refine Pres_newlabels w _ _ (fun _ _ => ?_)
    | refine Pres_bind w _ _ ?_ (fun _ => ?_)
    | split
    | exact Pres_pure w _
    | exact Pres_fail w
    | exact Pres_ask w _
    | refine Pres_whenP w _ _ ?_
    | exact Pres_act w _ (fun s => frame_clearlabel w _ (by omega) s)
    | exact Pres_act w _ (fun s => frame_setlabel w _ (by omega) s)
    | exact Pres_act w _ (fun s => frame_addoplabel w _ _ (by omega) s)
    | exact Pres_act w _ (fun s => Frame.of_labels (by simp; done))
    | exact Pres_eff w _ (fun s => Frame.of_labels (by simp; done)))

theorem pres_getrelation (w : Nat) (self : Rec) (hself : ∀ c, exprcall c = true → Pres w (self c)) :
    Pres w (getrelation self) := by
  unfold getrelation
  repeat (first
    | exact hself _ rfl
    | refine Pres_ite w _ _ _ ?_ ?_
    | refine Pres_newlabels w _ _ (fun _ _ => ?_)
    | refine Pres_bind w _ _ ?_ (fun _ => ?_)
    | split
    | exact Pres_pure w _
    | exact Pres_fail w
    | exact Pres_ask w _
    | refine Pres_whenP w _ _ ?_
    | exact Pres_act w _ (fun s => frame_clearlabel w _ (by omega) s)
    | exact Pres_act w _ (fun s => frame_setlabel w _ (by omega) s)
    | exact Pres_act w _ (fun s => frame_addoplabel w _ _ (by omega) s)
    | exact Pres_act w _ (fun s => Frame.of_labels (by simp; done))
    | exact Pres_eff w _ (fun s => Frame.of_labels (by simp; done)))

theorem pres_getsum (w : Nat) (fuel : Nat) (self : Rec) (hself : ∀ c, exprcall c = true → Pres w (self c)) :
    Pres w (getsum fuel self) := by
  unfold getsum
  repeat (first
    | exact hself _ rfl
    | exact pres_getsum_loop w _ hself _ _
    | refine Pres_ite w _ _ _ ?_ ?_
    | refine Pres_newlabels w _ _ (fun _ _ => ?_)
    | refine Pres_bind w _ _ ?_ (fun _ => ?_)
    | split
    | exact Pres_pure w _
    | exact Pres_fail w
    | exact Pres_ask w _
    | refine Pres_whenP w _ _ ?_
    | exact Pres_act w _ (fun s => frame_clearlabel w _ (by omega) s)
    | exact Pres_act w _ (fun s => frame_setlabel w _ (by omega) s)
    | exact Pres_act w _ (fun s => frame_addoplabel w _ _ (by omega) s)
    | exact Pres_act w _ (fun s => Frame.of_labels (by simp; done))
    | exact Pres_eff w _ (fun s => Frame.of_labels (by simp; done)))

theorem pres_getproduct (w : Nat) (fuel : Nat) (self : Rec) (hself : ∀ c, exprcall c = true → Pres w (self c)) :
    Pres w (getproduct fuel self) := by
  unfold getproduct
  repeat (first
    | exact hself _ rfl
    | exact pres_getproduct_loop w _ hself _ _
    | refine Pres_ite w _ _ _ ?_ ?_
    | refine Pres_newlabels w _ _ (fun _ _ => ?_)
    | refine Pres_bind w _ _ ?_ (fun _ => ?_)
    | split
    | exact Pres_pure w _
    | exact Pres_fail w
    | exact Pres_ask w _
    | refine Pres_whenP w _ _ ?_
    | exact Pres_act w _ (fun s => frame_clearlabel w _ (by omega) s)
    | exact Pres_act w _ (fun s => frame_setlabel w _ (by omega) s)
    | exact Pres_act w _ (fun s => frame_addoplabel w _ _ (by omega) s)
    | exact Pres_act w _ (fun s => Frame.of_labels (by simp; done))
    | exact Pres_eff w _ (fun s => Frame.of_labels (by simp; done)))

theorem pres_getorexpr (w : Nat) (fuel : Nat) (self : Rec) (hself : ∀ c, exprcall c = true → Pres w (self c)) :
    Pres w (getorexpr fuel self) := by
  unfold getorexpr
  repeat (first
    | exact hself _ rfl
    | exact pres_getorexpr_loop w _ hself _ _
    | refine Pres_ite w _ _ _ ?_ ?_
    | refine Pres_newlabels w _ _ (fun _ _ => ?_)
    | refine Pres_bind w _ _ ?_ (fun _ => ?_)
    | split
    | exact Pres_pure w _
    | exact Pres_fail w
    | exact Pres_ask w _
    | refine Pres_whenP w _ _ ?_
    | exact Pres_act w _ (fun s => frame_clearlabel w _ (by omega) s)
    | exact Pres_act w _ (fun s => frame_setlabel w _ (by omega) s)
    | exact Pres_act w _ (fun s => frame_addoplabel w _ _ (by omega) s)
    | exact Pres_act w _ (fun s => Frame.of_labels (by simp; done))
    | exact Pres_eff w _ (fun s => Frame.of_labels (by simp; done)))

theorem pres_getandexpr (w : Nat) (fuel : Nat) (self : Rec) (hself : ∀ c, exprcall c = true → Pres w (self c)) :
    Pres w (getandexpr fuel self) := by
  unfold getandexpr
  repeat (first
    | exact hself _ rfl
    | exact pres_getandexpr_loop w _ hself _ _
    | refine Pres_ite w _ _ _ ?_ ?_
    | refine Pres_newlabels w _ _ (fun _ _ => ?_)
    | refine Pres_bind w _ _ ?_ (fun _ => ?_)
    | split
    | exact Pres_pure w _
    | exact Pres_fail w
    | exact Pres_ask w _
    | refine Pres_whenP w _ _ ?_
    | exact Pres_act w _ (fun s => frame_clearlabel w _ (by omega) s)
    | exact Pres_act w _ (fun s => frame_setlabel w _ (by omega) s)
    | exact Pres_act w _ (fun s => frame_addoplabel w _ _ (by omega) s)
    | exact Pres_act w _ (fun s => Frame.of_labels (by simp; done))
    | exact Pres_eff w _ (fun s => Frame.of_labels (by simp; done)))

theorem pres_getshiftexpr (w : Nat) (self : Rec) (hself : ∀ c, exprcall c = true → Pres w (self c)) :
    Pres w (getshiftexpr self) := by
  unfold getshiftexpr
  repeat (first
    | exact hself _ rfl
    | refine Pres_ite w _ _ _ ?_ ?_
    | refine Pres_newlabels w _ _ (fun _ _ => ?_)
    | refine Pres_bind w _ _ ?_ (fun _ => ?_)
    | split
    | exact Pres_pure w _
    | exact Pres_fail w
    | exact Pres_ask w _
    | refine Pres_whenP w _ _ ?_
    | exact Pres_act w _ (fun s => frame_clearlabel w _ (by omega) s)
    | exact Pres_act w _ (fun s => frame_setlabel w _ (by omega) s)
    | exact Pres_act w _ (fun s => frame_addoplabel w _ _ (by omega) s)
    | exact Pres_act w _ (fun s => Frame.of_labels (by simp; done))
    | exact Pres_eff w _ (fun s => Frame.of_labels (by simp; done)))

theorem pres_getreference (w : Nat) (self : Rec) (hself : ∀ c, exprcall c = true → Pres w (self c)) :
    Pres w (getreference self) := by
  unfold getreference
  repeat (first
    | exact hself _ rfl
    | refine Pres_ite w _ _ _ ?_ ?_
    | refine Pres_newlabels w _ _ (fun _ _ => ?_)
    | refine Pres_bind w _ _ ?_ (fun _ => ?_)
    | split
    | exact Pres_pure w _
    | exact Pres_fail w
    | exact Pres_ask w _
    | refine Pres_whenP w _ _ ?_
    | exact Pres_act w _ (fun s => frame_clearlabel w _ (by omega) s)
    | exact Pres_act w _ (fun s => frame_setlabel w _ (by omega) s)
    | exact Pres_act w _ (fun s => frame_addoplabel w _ _ (by omega) s)
    | exact Pres_act w _ (fun s => Frame.of_labels (by simp; done))
    | exact Pres_eff w _ (fun s => Frame.of_labels (by simp; done)))

theorem pres_getincdecexpr (w : Nat) (fuel : Nat) (self : Rec) (hself : ∀ c, exprcall c = true → Pres w (self c)) :
    Pres w (getincdecexpr fuel self) := by
  unfold getincdecexpr
  repeat (first
    | exact hself _ rfl
    | exact pres_getincdecexpr_loop w _
    | exact pres_getincdecexpr_end w _ _
    | refine Pres_ite w _ _ _ ?_ ?_
    | refine Pres_newlabels w _ _ (fun _ _ => ?_)
    | refine Pres_bind w _ _ ?_ (fun _ => ?_)
    | split
    | exact Pres_pure w _
    | exact Pres_fail w
    | exact Pres_ask w _
    | refine Pres_whenP w _ _ ?_
    | exact Pres_act w _ (fun s => frame_clearlabel w _ (by omega) s)
    | exact Pres_act w _ (fun s => frame_setlabel w _ (by omega) s)
    | exact Pres_act w _ (fun s => frame_addoplabel w _ _ (by omega) s)
    | exact Pres_act w _ (fun s => Frame.of_labels (by simp; done))
    | exact Pres_eff w _ (fun s => Frame.of_labels (by simp; done)))

theorem pres_getterm (w : Nat) (fuel : Nat) (self : Rec) (hself : ∀ c, exprcall c = true → Pres w (self c)) :
    Pres w (getterm fuel self) := by
  unfold getterm
  repeat (first
    | exact hself _ rfl
    | exact pres_getterm_head w _ _ hself
    | exact pres_getterm_loop w _ hself _
    | refine Pres_ite w _ _ _ ?_ ?_
    | refine Pres_newlabels w _ _ (fun _ _ => ?_)
    | refine Pres_bind w _ _ ?_ (fun _ => ?_)
    | split
    | exact Pres_pure w _
    | exact Pres_fail w
    | exact Pres_ask w _
    | refine Pres_whenP w _ _ ?_
    | exact Pres_act w _ (fun s => frame_clearlabel w _ (by omega) s)
    | exact Pres_act w _ (fun s => frame_setlabel w _ (by omega) s)
    | exact Pres_act w _ (fun s => frame_addoplabel w _ _ (by omega) s)
    | exact Pres_act w _ (fun s => Frame.of_labels (by simp; done))
    | exact Pres_eff w _ (fun s => Frame.of_labels (by simp; done)))

theorem pres_getidexpr (w : Nat) (fuel : Nat) (self : Rec) (okmat autodef : Bool) (hself : ∀ c, exprcall c = true → Pres w (self c)) :
    Pres w (getidexpr fuel self okmat autodef) := by
  unfold getidexpr
  repeat (first
    | exact hself _ rfl
    | exact pres_getidexpr_loop w _ _ hself _
    | refine Pres_ite w _ _ _ ?_ ?_
    | refine Pres_newlabels w _ _ (fun _ _ => ?_)
    | refine Pres_bind w _ _ ?_ (fun _ => ?_)
    | split
    | exact Pres_pure w _
    | exact Pres_fail w
    | exact Pres_ask w _
    | refine Pres_whenP w _ _ ?_
    | exact Pres_act w _ (fun s => frame_clearlabel w _ (by omega) s)
    | exact Pres_act w _ (fun s => frame_setlabel w _ (by omega) s)
    | exact Pres_act w _ (fun s => frame_addoplabel w _ _ (by omega) s)
    | exact Pres_act w _ (fun s => Frame.of_labels (by simp; done))
    | exact Pres_eff w _ (fun s => Frame.of_labels (by simp; done)))

theorem pres_getinitlist (w : Nat) (fuel : Nat) (self : Rec) (hself : ∀ c, exprcall c = true → Pres w (self c)) :
    Pres w (getinitlist fuel self) := by
  unfold getinitlist
  repeat (first
    | exact hself _ rfl
    | exact pres_getinitlist_loop w _ _ hself _ _
    | refine Pres_ite w _ _ _ ?_ ?_
    | refine Pres_newlabels w _ _ (fun _ _ => ?_)
    | refine Pres_bind w _ _ ?_ (fun _ => ?_)
    | split
    | exact Pres_pure w _
    | exact Pres_fail w
    | exact Pres_ask w _
    | refine Pres_whenP w _ _ ?_
    | exact Pres_act w _ (fun s => frame_clearlabel w _ (by omega) s)
    | exact Pres_act w _ (fun s => frame_setlabel w _ (by omega) s)
    | exact Pres_act w _ (fun s => frame_addoplabel w _ _ (by omega) s)
    | exact Pres_act w _ (fun s => Frame.of_labels (by simp; done))
    | exact Pres_eff w _ (fun s => Frame.of_labels (by simp; done)))

theorem pres_body (w : Nat) (fuel : Nat) (self : Rec) (hself : ∀ c, exprcall c = true → Pres w (self c)) (c : Call)
    (hc : exprcall c = true) : Pres w (body fuel self c) := by
  cases c with
  | getbody _ _ _ _ => simp [exprcall] at hc
  | getstatement _ _ _ _ => simp [exprcall] at hc
  | getdeclarations symtype => exact pres_getdeclarations w _ _ _ hself
  | getsimpledeclaration symtype => exact pres_getsimpledeclaration w _ _ _ hself
  | getonevariable symtype => exact pres_getonevariable w _ _ hself
  | getobjdeclaration symtype => exact pres_getobjdeclaration w _ _ _ hself
  | getoneobj index symtype => exact pres_getoneobj w _ _ _ _ hself
  | getobjvars name symtype => exact pres_getobjvars w _ _ _ _ hself
  | getmatdeclaration symtype => exact pres_getmatdeclaration w _ _ _ hself
  | getonematrix symtype => exact pres_getonematrix w _ _ _ hself
  | creatematrix  => exact pres_creatematrix w _ _ hself
  | getsimplebody  => exact pres_getsimplebody w _ hself
  | getcondition  => exact pres_getcondition w _ hself
  | getmatargs  => exact pres_getmatargs w _ _ hself
  | getcallargs name => exact pres_getcallargs w _ _ _ hself
  | getexprlist  => exact pres_getexprlist w _ _ hself
  | getopassignment  => exact pres_getopassignment w _ _ hself
  | getassignment  => exact pres_getassignment w _ _ hself
  | getaltcond  => exact pres_getaltcond w _ hself
  | getorcond  => exact pres_getorcond w _ _ hself
  | getandcond  => exact pres_getandcond w _ _ hself
  | getrelation  => exact pres_getrelation w _ hself
  | getsum  => exact pres_getsum w _ _ hself
  | getproduct  => exact pres_getproduct w _ _ hself
  | getorexpr  => exact pres_getorexpr w _ _ hself
  | getandexpr  => exact pres_getandexpr w _ _ hself
  | getshiftexpr  => exact pres_getshiftexpr w _ hself
  | getreference  => exact pres_getreference w _ hself
  | getincdecexpr  => exact pres_getincdecexpr w _ _ hself
  | getterm  => exact pres_getterm w _ _ hself
  | getidexpr okmat autodef => exact pres_getidexpr w _ _ _ _ hself
  | getinitlist  => exact pres_getinitlist w _ _ hself

theorem pres_run (w : Nat) (n : Nat) : ∀ c, exprcall c = true → Pres w (run n c) := by
  induction n with
  | zero =>
    intro c _
    exact Pres_fail w
  | succ n ih =>
    intro c hc
    exact pres_body w n (run n) ih c hc

/-- A call that cannot reach getstatement leaves every label that exists when
it starts as it is. -/
theorem run_label (n : Nat) (c : Call) (hc : exprcall c = true) (s s1 : State) (r : Int)
    (h : run n c s = some (r, s1)) (l : Nat) (hl : l < s.labels.length) :
    getlabel l s1 = getlabel l s :=
  (pres_run (l + 1) n c hc s r s1 h (by omega)).2 l (by omega)

/-! ## The for statement -/

@[simp] theorem trace_tokenmode (m : Int) (s : State) :
    (tokenmode m s).2.trace = s.trace ++ [Event.tokenmode m] := rfl

@[simp] theorem trace_clearlabel (l : Nat) (s : State) :
    (clearlabel l s).trace = s.trace ++ [Event.clearlabel l] := rfl

@[simp] theorem trace_setlabel (l : Nat) (s : State) :
    (setlabel l s).trace = s.trace ++ [Event.setlabel l] := rfl

@[simp] theorem trace_addoplabel (op : Op) (l : Nat) (s : State) :
    (addoplabel op l s).trace = s.trace ++ [Event.addoplabel op l] := by
  unfold addoplabel uselabel
  simp only [log]
  split <;> rfl

@[simp] theorem trace_addopone (op : Op) (a : Int) (s : State) :
    (addopone op a s).trace = s.trace ++ [Event.addopone op a] := rfl

@[simp] theorem trace_newlabels (k : Nat) (s : State) : (newlabels k s).2.trace = s.trace := rfl

@[simp] theorem mode_gettoken (s : State) : (gettoken s).2.mode = s.mode := by
  unfold gettoken
  split <;> rfl

theorem getlabel_congr {s s1 : State} (h : s1.labels = s.labels) (l : Nat) :
    getlabel l s1 = getlabel l s := by
  simp [getlabel, h]

theorem getlabel_set_ne (l k : Nat) (v : LABEL) (s s1 : State) (h : s1.labels = s.labels.set k v)
    (hne : k ≠ l) : getlabel l s1 = getlabel l s := by
  simp [getlabel, h, List.getD_eq_getElem?_getD, List.getElem?_set_ne hne]

theorem getlabel_set_self (l : Nat) (v : LABEL) (s s1 : State) (h : s1.labels = s.labels.set l v)
    (hl : l < s.labels.length) : getlabel l s1 = v := by
  simp [getlabel, h, List.getD_eq_getElem?_getD, hl]

theorem labels_addoplabel (op : Op) (l : Nat) (s : State) :
    (addoplabel op l s).labels = s.labels ∨
    ∃ v : LABEL, v.l_offset = (getlabel l s).l_offset ∧ (addoplabel op l s).labels = s.labels.set l v := by
  unfold addoplabel uselabel
  simp only [log]
  split
  · left; rfl
  · right
    exact ⟨⟨(getlabel l s).l_offset, ((emitwords [Word.op op] s).f_opcodes.length : Int)⟩,
      rfl, rfl⟩

theorem offset_addoplabel (op : Op) (k l : Nat) (s : State) :
    (getlabel l (addoplabel op k s)).l_offset = (getlabel l s).l_offset := by
  rcases labels_addoplabel op k s with h | ⟨v, hv, h⟩
  · rw [getlabel_congr h]
  · by_cases hkl : k = l
    · subst hkl
      by_cases hl : k < s.labels.length
      · rw [getlabel_set_self k v s _ h hl, hv]
      · have hk : s.labels.length ≤ k := by omega
        have e1 : (s.labels.set k v)[k]? = none :=
          List.getElem?_eq_none (by simpa using hk)
        have e2 : s.labels[k]? = none := List.getElem?_eq_none hk
        simp [getlabel, h, List.getD_eq_getElem?_getD, e1, e2]
    · rw [getlabel_set_ne l k v s _ h hkl]

@[simp] theorem length_labels_addoplabel (op : Op) (l : Nat) (s : State) :
    (addoplabel op l s).labels.length = s.labels.length := by
  rcases labels_addoplabel op l s with h | ⟨v, _, h⟩ <;> simp [h]

@[simp] theorem length_labels_setlabel (l : Nat) (s : State) :
    (setlabel l s).labels.length = s.labels.length := by
  simp [setlabel, log]

@[simp] theorem length_labels_clearlabel (l : Nat) (s : State) :
    (clearlabel l s).labels.length = s.labels.length := by
  simp [clearlabel, log]

@[simp] theorem length_labels_newlabels (k : Nat) (s : State) :
    (newlabels k s).2.labels.length = s.labels.length + k := by
  simp [newlabels]

theorem offset_setlabel_ne (k l : Nat) (s : State) (h : k ≠ l) :
    getlabel l (setlabel k s) = getlabel l s :=
  getlabel_set_ne l k _ s _ rfl h

theorem getlabel_setlabel_self (l : Nat) (s : State) (hl : l < s.labels.length) :
    getlabel l (setlabel l s) = ⟨s.f_opcodes.length, -1⟩ :=
  getlabel_set_self l _ s _ rfl hl

@[simp] theorem f_opcodes_gettoken (s : State) : (gettoken s).2.f_opcodes = s.f_opcodes := by
  unfold gettoken
  split <;> rfl

@[simp] theorem f_opcodes_rescantoken (s : State) : (rescantoken s).f_opcodes = s.f_opcodes := rfl

@[simp] theorem f_opcodes_addop (op : Op) (s : State) :
    (addop op s).f_opcodes = s.f_opcodes ++ [Word.op op] := rfl

/-- The labels existing before a call that cannot reach getstatement still
exist after it. -/
theorem run_labels_length (n : Nat) (c : Call) (hc : exprcall c = true) (s s1 : State) (r : Int)
    (h : run n c s = some (r, s1)) : s.labels.length ≤ s1.labels.length :=
  (pres_run s.labels.length n c hc s r s1 h (le_refl _)).1


theorem getstatement_for_eq (n : Nat) (c b nc d : Option Nat) (s : State)
    (h : (gettoken (stmt_entry s)).1 = .T_FOR) :
    run (n + 1) (.getstatement c b nc d) s
      = getstatement_for (run n) (s.labels.length + 1) (s.labels.length + 2)
          (s.labels.length + 3) (s.labels.length + 4) (gettoken (stmt_entry s)).2 := by
  rw [run_succ]
  simp only [stmt_entry] at h
  simp [body, getstatement, h, stmt_entry]
  rfl

/-- C8: for `for (init; cond; step) body` with the three sections present and
no parse error, getstatement calls the emitter in this order: the code of
init, POP; the label of the condition is placed, the code of cond, JUMPNZ to
the body label, JUMP to the break label; the label of the step is placed, the
code of step, POP, JUMP to the condition label; the body label is placed, the
body is compiled with the step label as continue label and the break label;
JUMP to the step label; the break label is placed. -/
theorem C8_for_statement (n : Nat) (c b nc d : Option Nat) (s s5 s8 s12 s15 : State)
    (ty1 ty2 ty3 r : Int) (initT condT stepT bodyT : List Event)
    (hfor : (gettoken (stmt_entry s)).1 = .T_FOR)
    (hparen : (gettoken (for_start s)).1 = .T_LEFTPAREN)
    (hinit0 : (gettoken (gettoken (for_start s)).2).1 ≠ .T_SEMICOLON)
    (hinit : run n .getexprlist (rescantoken (gettoken (gettoken (for_start s)).2).2)
      = some (ty1, s5))
    (hinitT : s5.trace = (for_start s).trace ++ initT)
    (hsemi1 : (gettoken (addop .OP_POP s5)).1 = .T_SEMICOLON)
    (hcond0 : (gettoken (gettoken (addop .OP_POP s5)).2).1 ≠ .T_SEMICOLON)
    (hcond : run n .getexprlist (for_cond (s.labels.length + 1) (gettoken (addop .OP_POP s5)).2)
      = some (ty2, s8))
    (hcondT : s8.trace = (for_cond (s.labels.length + 1) (gettoken (addop .OP_POP s5)).2).trace
      ++ condT)
    (hsemi2 : (gettoken (addoplabel .OP_JUMP (s.labels.length + 4)
      (addoplabel .OP_JUMPNZ (s.labels.length + 3) s8))).1 = .T_SEMICOLON)
    (hstep0 : (gettoken (gettoken (addoplabel .OP_JUMP (s.labels.length + 4)
      (addoplabel .OP_JUMPNZ (s.labels.length + 3) s8))).2).1 ≠ .T_RIGHTPAREN)
    (hstep : run n .getexprlist
      (for_step (s.labels.length + 2) (s.labels.length + 3) (s.labels.length + 4) s8)
      = some (ty3, s12))
    (hstepT : s12.trace =
      (for_step (s.labels.length + 2) (s.labels.length + 3) (s.labels.length + 4) s8).trace
      ++ stepT)
    (hparen2 : (gettoken (addoplabel .OP_JUMP (s.labels.length + 1) (addop .OP_POP s12))).1
      = .T_RIGHTPAREN)
    (hbody : run n (.getstatement (some (s.labels.length + 2)) (some (s.labels.length + 4))
        none none) (for_body (s.labels.length + 1) (s.labels.length + 3) s12) = some (r, s15))
    (hbodyT : s15.trace = (for_body (s.labels.length + 1) (s.labels.length + 3) s12).trace
      ++ bodyT) :
    run (n + 1) (.getstatement c b nc d) s
      = some (0, for_end (s.labels.length + 2) (s.labels.length + 4) s.mode s15)
    ∧ (for_end (s.labels.length + 2) (s.labels.length + 4) s.mode s15).trace =
        s.trace
        ++ [Event.addopone .OP_DEBUG (linenumber s), Event.tokenmode TM_DEFAULT,
            Event.clearlabel (s.labels.length + 1), Event.clearlabel (s.labels.length + 2),
            Event.clearlabel (s.labels.length + 3), Event.clearlabel (s.labels.length + 4)]
        ++ initT ++ [Event.addop .OP_POP]
        ++ [Event.setlabel (s.labels.length + 1)] ++ condT
        ++ [Event.addoplabel .OP_JUMPNZ (s.labels.length + 3),
            Event.addoplabel .OP_JUMP (s.labels.length + 4)]
        ++ [Event.setlabel (s.labels.length + 2)] ++ stepT
        ++ [Event.addop .OP_POP, Event.addoplabel .OP_JUMP (s.labels.length + 1)]
        ++ [Event.setlabel (s.labels.length + 3)] ++ bodyT
        ++ [Event.addoplabel .OP_JUMP (s.labels.length + 2),
            Event.setlabel (s.labels.length + 4), Event.tokenmode s.mode] := by
  have hmode : (gettoken (stmt_entry s)).2.mode = s.mode := by
    simp [stmt_entry, addopone, emitwords, log, newlabels]
  have hlen0 : (for_start s).labels.length = s.labels.length + 5 := by
    simp [for_start, stmt_entry, addopone, emitwords, log, tokenmode]
  have hlen5 : s.labels.length + 5 ≤ s5.labels.length := by
    have := run_labels_length n .getexprlist rfl _ s5 ty1 hinit
    simpa [hlen0] using this
  have hlenc : (for_cond (s.labels.length + 1) (gettoken (addop .OP_POP s5)).2).labels.length
      = s5.labels.length := by
    simp [for_cond]
  have hoffc : getlabel (s.labels.length + 1)
      (for_cond (s.labels.length + 1) (gettoken (addop .OP_POP s5)).2)
      = ⟨(s5.f_opcodes.length + 1 : Nat), -1⟩ := by
    unfold for_cond
    rw [getlabel_congr (labels_rescantoken _), getlabel_setlabel_self _ _ (by simp; omega)]
    simp
  have hoff8 : (getlabel (s.labels.length + 1) s8).l_offset = ((s5.f_opcodes.length + 1 : Nat) : Int) := by
    rw [run_label n .getexprlist rfl _ s8 ty2 hcond _ (by rw [hlenc]; omega), hoffc]
  have hlen8 : s.labels.length + 5 ≤ s8.labels.length := by
    have := run_labels_length n .getexprlist rfl _ s8 ty2 hcond
    rw [hlenc] at this
    omega
  have hoff12 : (getlabel (s.labels.length + 1) s12).l_offset
      = ((s5.f_opcodes.length + 1 : Nat) : Int) := by
    rw [run_label n .getexprlist rfl _ s12 ty3 hstep _ (by simp [for_step]; omega)]
    unfold for_step
    rw [getlabel_congr (labels_rescantoken _), offset_setlabel_ne _ _ _ (by omega),
      getlabel_congr (labels_gettoken _), getlabel_congr (labels_gettoken _),
      offset_addoplabel, offset_addoplabel, hoff8]
  constructor
  · rw [getstatement_for_eq n c b nc d s hfor]
    have hstart : clearlabel (s.labels.length + 4) (clearlabel (s.labels.length + 3)
        (clearlabel (s.labels.length + 2) (clearlabel (s.labels.length + 1)
          (tokenmode TM_DEFAULT (gettoken (stmt_entry s)).2).2))) = for_start s := rfl
    have hpos : ¬ ((s5.f_opcodes.length + 1 : Nat) : Int) ≤ 0 := by omega
    have hpos2 : (0 : Int) < ((s5.f_opcodes.length + 1 : Nat) : Int) := by omega
    have hno : (getlabel (s.labels.length + 1) (gettoken (gettoken (addoplabel .OP_JUMP
        (s.labels.length + 4) (addoplabel .OP_JUMPNZ (s.labels.length + 3) s8))).2).2).l_offset
        = ((s5.f_opcodes.length + 1 : Nat) : Int) := by
      rw [getlabel_congr (labels_gettoken _), getlabel_congr (labels_gettoken _),
        offset_addoplabel, offset_addoplabel, hoff8]
    have hyes : (getlabel (s.labels.length + 1) (addop .OP_POP s12)).l_offset
        = ((s5.f_opcodes.length + 1 : Nat) : Int) := by
      rw [getlabel_congr (labels_addop _ _), hoff12]
    simp only [for_cond, for_step, for_body, for_end] at *
    simp only [getstatement_for, getstatement_for_b, getstatement_for_c, getstatement_for_body,
      P_bind, eff_apply, act_apply, ask_apply, hstart, hparen, hinit0, hinit, hsemi1, hcond0,
      hcond, hsemi2, hstep0, hstep, hparen2, hbody, hno, hyes, hpos, hpos2, ne_eq,
      not_true_eq_false, not_false_eq_true, if_true, if_false, decide_True, decide_False,
      whenP_true, whenP_false, P_pure, hmode]
    have hold : (tokenmode TM_DEFAULT (gettoken (stmt_entry s)).2).1 = s.mode := by
      simp [tokenmode, stmt_entry, addopone, emitwords, log, newlabels]
    rw [hold]
  · have h0 : (for_start s).trace = s.trace ++ [Event.addopone .OP_DEBUG (linenumber s),
        Event.tokenmode TM_DEFAULT, Event.clearlabel (s.labels.length + 1),
        Event.clearlabel (s.labels.length + 2), Event.clearlabel (s.labels.length + 3),
        Event.clearlabel (s.labels.length + 4)] := by
      simp [for_start, stmt_entry, trace_tokenmode, trace_clearlabel, trace_addopone,
        trace_newlabels, linenumber, newlabels]
    simp only [for_end, for_body, for_step, for_cond, trace_tokenmode, trace_setlabel,
      trace_addoplabel, hbodyT, gettoken_trace, rescantoken_trace, addop_trace, hstepT, hcondT,
      hinitT, h0, List.append_assoc, List.cons_append, List.nil_append, List.singleton_append]

theorem C8_for_statement_witness :
    (run 21 (.getstatement none none none none) forsample).map (fun r => (r.1, r.2.f_opcodes))
      = some (0,
          [Word.op .OP_DEBUG, Word.arg 1,
           Word.op .OP_GLOBALADDR, Word.ptr "a", Word.op .OP_POP,
           Word.op .OP_GLOBALADDR, Word.ptr "b", Word.op .OP_JUMPNZ, Word.arg 16,
           Word.op .OP_JUMP, Word.arg 23,
           Word.op .OP_GLOBALADDR, Word.ptr "c", Word.op .OP_POP, Word.op .OP_JUMP, Word.arg 5,
           Word.op .OP_DEBUG, Word.arg 1, Word.op .OP_GLOBALADDR, Word.ptr "d", Word.op .OP_POP,
           Word.op .OP_JUMP, Word.arg 11]) := by
  have h := C8_for_statement 20 none none none none forsample forsample5 forsample8
    forsample12 forsample15 0 0 0 0
    [Event.clearlabel 7, Event.clearlabel 8, Event.addopptr .OP_GLOBALADDR "a"]
    [Event.clearlabel 11, Event.clearlabel 12, Event.addopptr .OP_GLOBALADDR "b"]
    [Event.clearlabel 15, Event.clearlabel 16, Event.addopptr .OP_GLOBALADDR "c"]
    [Event.addopone .OP_DEBUG 1, Event.clearlabel 24, Event.clearlabel 25,
     Event.addopptr .OP_GLOBALADDR "d", Event.addop .OP_POP]
    (by decide!) (by decide!) (by decide!) (by decide!) (by decide!) (by decide!) (by decide!)
    (by decide!) (by decide!) (by decide!) (by decide!) (by decide!) (by decide!) (by decide!)
    (by decide!) (by decide!)
  rw [h.1]
  decide!

@[simp] theorem f_opcodes_clearlabel (l : Nat) (s : State) :
    (clearlabel l s).f_opcodes = s.f_opcodes := rfl

@[simp] theorem f_opcodes_tokenmode (m : Int) (s : State) :
    (tokenmode m s).2.f_opcodes = s.f_opcodes := rfl

@[simp] theorem labels_length_tokenmode (m : Int) (s : State) :
    (tokenmode m s).2.labels = s.labels := rfl

/-- The T_FOR case of getstatement for `( ; cond ; step ) body`, entered in
state `x` with the labels l1..l4, when the label of the condition is placed at
an offset greater than 0: the condition label is placed, the code of cond,
JUMPNZ to the body label, JUMP to the break label; the step label is placed,
the code of step, POP, JUMP to the condition label; the body label is placed,
the body; JUMP to the step label; the break label is placed. -/
theorem getstatement_for_without_init (n l1 l2 l3 l4 : Nat) (x s8 s12 s15 : State)
    (ty2 ty3 r : Int) (condT stepT bodyT : List Event)
    (hl1 : l1 < x.labels.length) (h12 : l1 ≠ l2)
    (hpos : 0 < (getlabel l1 (for_cond l1 (gettoken (gettoken (for_init l1 l2 l3 l4 x)).2).2)).l_offset)
    (hparen : (gettoken (for_init l1 l2 l3 l4 x)).1 = .T_LEFTPAREN)
    (hinit0 : (gettoken (gettoken (for_init l1 l2 l3 l4 x)).2).1 = .T_SEMICOLON)
    (hcond0 : (gettoken (gettoken (gettoken (for_init l1 l2 l3 l4 x)).2).2).1 ≠ .T_SEMICOLON)
    (hcond : run n .getexprlist (for_cond l1 (gettoken (gettoken (for_init l1 l2 l3 l4 x)).2).2)
      = some (ty2, s8))
    (hcondT : s8.trace = (for_cond l1 (gettoken (gettoken (for_init l1 l2 l3 l4 x)).2).2).trace
      ++ condT)
    (hsemi2 : (gettoken (addoplabel .OP_JUMP l4 (addoplabel .OP_JUMPNZ l3 s8))).1 = .T_SEMICOLON)
    (hstep0 : (gettoken (gettoken (addoplabel .OP_JUMP l4
      (addoplabel .OP_JUMPNZ l3 s8))).2).1 ≠ .T_RIGHTPAREN)
    (hstep : run n .getexprlist (for_step l2 l3 l4 s8) = some (ty3, s12))
    (hstepT : s12.trace = (for_step l2 l3 l4 s8).trace ++ stepT)
    (hparen2 : (gettoken (addoplabel .OP_JUMP l1 (addop .OP_POP s12))).1 = .T_RIGHTPAREN)
    (hbody : run n (.getstatement (some l2) (some l4) none none) (for_body l1 l3 s12)
      = some (r, s15))
    (hbodyT : s15.trace = (for_body l1 l3 s12).trace ++ bodyT) :
    getstatement_for (run n) l1 l2 l3 l4 x = some (0, for_end l2 l4 x.mode s15)
    ∧ (for_end l2 l4 x.mode s15).trace =
        x.trace
        ++ [Event.tokenmode TM_DEFAULT, Event.clearlabel l1, Event.clearlabel l2,
            Event.clearlabel l3, Event.clearlabel l4]
        ++ [Event.setlabel l1] ++ condT
        ++ [Event.addoplabel .OP_JUMPNZ l3, Event.addoplabel .OP_JUMP l4]
        ++ [Event.setlabel l2] ++ stepT
        ++ [Event.addop .OP_POP, Event.addoplabel .OP_JUMP l1]
        ++ [Event.setlabel l3] ++ bodyT
        ++ [Event.addoplabel .OP_JUMP l2, Event.setlabel l4, Event.tokenmode x.mode] := by
  have hlen0 : (for_init l1 l2 l3 l4 x).labels.length = x.labels.length := by
    simp [for_init]
  have hlenc : (for_cond l1 (gettoken (gettoken (for_init l1 l2 l3 l4 x)).2).2).labels.length
      = x.labels.length := by
    simp [for_cond, hlen0]
  have hoff8 : (getlabel l1 s8).l_offset
      = (getlabel l1 (for_cond l1 (gettoken (gettoken (for_init l1 l2 l3 l4 x)).2).2)).l_offset := by
    rw [run_label n .getexprlist rfl _ s8 ty2 hcond _ (by rw [hlenc]; omega)]
  have hlen8 : x.labels.length ≤ s8.labels.length := by
    have := run_labels_length n .getexprlist rfl _ s8 ty2 hcond
    rw [hlenc] at this
    omega
  have hoff12 : (getlabel l1 s12).l_offset = (getlabel l1 s8).l_offset := by
    rw [run_label n .getexprlist rfl _ s12 ty3 hstep _ (by simp [for_step]; omega)]
    unfold for_step
    rw [getlabel_congr (labels_rescantoken _), offset_setlabel_ne _ _ _ (Ne.symm h12),
      getlabel_congr (labels_gettoken _), getlabel_congr (labels_gettoken _),
      offset_addoplabel, offset_addoplabel]
  have hno : ¬ (getlabel l1 (gettoken (gettoken (addoplabel .OP_JUMP l4
      (addoplabel .OP_JUMPNZ l3 s8))).2).2).l_offset ≤ 0 := by
    rw [getlabel_congr (labels_gettoken _), getlabel_congr (labels_gettoken _),
      offset_addoplabel, offset_addoplabel, hoff8]
    omega
  have hyes : (getlabel l1 (addop .OP_POP s12)).l_offset > 0 := by
    rw [getlabel_congr (labels_addop _ _), hoff12, hoff8]
    exact hpos
  have hold : (tokenmode TM_DEFAULT x).1 = x.mode := rfl
  constructor
  · have hstart : clearlabel l4 (clearlabel l3 (clearlabel l2 (clearlabel l1
        (tokenmode TM_DEFAULT x).2))) = for_init l1 l2 l3 l4 x := rfl
    simp only [for_cond, for_step, for_body, for_end] at *
    simp only [getstatement_for, getstatement_for_b, getstatement_for_c, getstatement_for_body,
      P_bind, eff_apply, act_apply, ask_apply, hstart, hparen, hinit0, hcond0,
      hcond, hsemi2, hstep0, hstep, hparen2, hbody, hno, hyes, ne_eq,
      not_true_eq_false, not_false_eq_true, if_true, if_false, decide_True, decide_False,
      whenP_true, whenP_false, P_pure, hold]
  · have h0 : (for_init l1 l2 l3 l4 x).trace = x.trace ++ [Event.tokenmode TM_DEFAULT,
        Event.clearlabel l1, Event.clearlabel l2, Event.clearlabel l3, Event.clearlabel l4] := by
      simp [for_init, trace_tokenmode, trace_clearlabel]
    simp only [for_end, for_body, for_step, for_cond, trace_tokenmode, trace_setlabel,
      trace_addoplabel, hbodyT, gettoken_trace, rescantoken_trace, addop_trace, hstepT, hcondT,
      h0, List.append_assoc, List.cons_append, List.nil_append, List.singleton_append]

/-! ## The clauses of a switch -/

theorem getstatement_case_eq (n : Nat) (c b nc d : Option Nat) (s : State)
    (h : (gettoken (stmt_entry s)).1 = .T_CASE) :
    run (n + 1) (.getstatement c b nc d) s
      = getstatement_case (run n) c b nc d (s.labels.length + 1) (gettoken (stmt_entry s)).2 := by
  rw [run_succ]
  simp only [stmt_entry] at h
  simp [body, getstatement, h, stmt_entry]
  rfl

@[simp] theorem trace_scanerror (skip : Tok) (msg : String) (s : State) :
    (scanerror skip msg s).trace = s.trace ++ [Event.scanerror skip msg] := by
  unfold scanerror
  simp only [log]
  split
  · rfl
  · split <;> rfl

@[simp] theorem errorcount_scanerror (skip : Tok) (msg : String) (s : State) :
    (scanerror skip msg s).errorcount = s.errorcount + 1 := by
  unfold scanerror
  simp only [log]
  split
  · rfl
  · split <;> rfl

@[simp] theorem trace_stmt_entry (s : State) :
    (stmt_entry s).trace = s.trace ++ [Event.addopone .OP_DEBUG (linenumber s)] := by
  simp [stmt_entry, linenumber, newlabels]

/-- C11: a clause `case expr:` with a next-case label emits JUMP to a fresh
label, places the next-case label and clears it again, then the code of expr,
CASEJUMP to the (cleared) next-case label, places the fresh label, and
compiles the following statement with the same four labels. -/
theorem C11_case_clause (n : Nat) (c b d : Option Nat) (nc : Nat) (s s5 s9 : State)
    (ty r : Int) (exprT bodyT : List Event)
    (hcase : (gettoken (stmt_entry s)).1 = .T_CASE)
    (hexpr : run n .getexprlist (case_expr (s.labels.length + 1) nc (gettoken (stmt_entry s)).2)
      = some (ty, s5))
    (hexprT : s5.trace
      = (case_expr (s.labels.length + 1) nc (gettoken (stmt_entry s)).2).trace ++ exprT)
    (hcolon : (gettoken s5).1 = .T_COLON)
    (hbody : run n (.getstatement c b (some nc) d) (case_body (s.labels.length + 1) nc s5)
      = some (r, s9))
    (hbodyT : s9.trace = (case_body (s.labels.length + 1) nc s5).trace ++ bodyT)
    (hnc : nc < s.labels.length) :
    run (n + 1) (.getstatement c b (some nc) d) s = some (0, s9)
    ∧ getlabel nc (case_expr (s.labels.length + 1) nc (gettoken (stmt_entry s)).2) = ⟨-1, -1⟩
    ∧ s9.trace = s.trace
        ++ [Event.addopone .OP_DEBUG (linenumber s)]
        ++ [Event.clearlabel (s.labels.length + 1),
            Event.addoplabel .OP_JUMP (s.labels.length + 1),
            Event.setlabel nc, Event.clearlabel nc]
        ++ exprT
        ++ [Event.addoplabel .OP_CASEJUMP nc, Event.setlabel (s.labels.length + 1)]
        ++ bodyT := by
  refine ⟨?_, ?_, ?_⟩
  · rw [getstatement_case_eq n c b (some nc) d s hcase]
    simp only [case_expr, case_body] at hexpr hbody
    simp [getstatement_case, hexpr, hcolon, hbody]
  · exact getlabel_set_self nc _ _ _ rfl (by simp [stmt_entry]; omega)
  · simp [hbodyT, case_body, hexprT, case_expr]

@[simp] theorem errorcount_gettoken (s : State) : (gettoken s).2.errorcount = s.errorcount := by
  unfold gettoken
  split <;> rfl

@[simp] theorem errorcount_clearlabel (l : Nat) (s : State) :
    (clearlabel l s).errorcount = s.errorcount := rfl

@[simp] theorem errorcount_setlabel (l : Nat) (s : State) :
    (setlabel l s).errorcount = s.errorcount := rfl

@[simp] theorem errorcount_addoplabel (op : Op) (l : Nat) (s : State) :
    (addoplabel op l s).errorcount = s.errorcount := by
  unfold addoplabel uselabel
  simp only [log]
  split <;> rfl

@[simp] theorem errorcount_stmt_entry (s : State) : (stmt_entry s).errorcount = s.errorcount := rfl

theorem C11_case_clause_witness :
    (run 21 (.getstatement none none (some 0) none) casesample).map
        (fun r => (r.1, r.2.f_opcodes))
      = some (0,
          [Word.op .OP_DEBUG, Word.arg 1, Word.op .OP_JUMP, Word.arg 8,
           Word.op .OP_NUMBER, Word.arg 0, Word.op .OP_CASEJUMP, Word.arg (-1),
           Word.op .OP_DEBUG, Word.arg 1, Word.op .OP_GLOBALADDR, Word.ptr "a",
           Word.op .OP_POP]) := by
  have h := C11_case_clause 20 none none none 0 casesample casesample5 casesample9 3 0
    [Event.clearlabel 8, Event.clearlabel 9, Event.addopone .OP_NUMBER 0]
    [Event.addopone .OP_DEBUG 1, Event.clearlabel 17, Event.clearlabel 18,
     Event.addopptr .OP_GLOBALADDR "a", Event.addop .OP_POP]
    (by decide!) (by decide!) (by decide!) (by decide!) (by decide!) (by decide!) (by decide)
  rw [h.1]
  decide!

/-- C13 (amended): a case clause inside a switch reports no diagnostic of its
own, whatever its constant and whatever the clauses before it: when its
expression and the statement after it report nothing, the error count is
unchanged. -/
theorem C13_case_reports_no_duplicate (n : Nat) (c b d : Option Nat) (nc : Nat)
    (s s5 s9 : State) (ty r : Int)
    (hcase : (gettoken (stmt_entry s)).1 = .T_CASE)
    (hexpr : run n .getexprlist (case_expr (s.labels.length + 1) nc (gettoken (stmt_entry s)).2)
      = some (ty, s5))
    (he : s5.errorcount
      = (case_expr (s.labels.length + 1) nc (gettoken (stmt_entry s)).2).errorcount)
    (hcolon : (gettoken s5).1 = .T_COLON)
    (hbody : run n (.getstatement c b (some nc) d) (case_body (s.labels.length + 1) nc s5)
      = some (r, s9))
    (hb : s9.errorcount = (case_body (s.labels.length + 1) nc s5).errorcount) :
    run (n + 1) (.getstatement c b (some nc) d) s = some (0, s9)
    ∧ s9.errorcount = s.errorcount := by
  constructor
  · rw [getstatement_case_eq n c b (some nc) d s hcase]
    simp only [case_expr, case_body] at hexpr hbody
    simp [getstatement_case, hexpr, hcolon, hbody]
  · simp [hb, case_body, he, case_expr]

theorem C13_case_reports_no_duplicate_witness :
    (run 21 (.getstatement none none (some 0) none) casesample).map
        (fun r => (r.1, r.2.errorcount)) = some (0, 0) := by
  have h := C13_case_reports_no_duplicate 20 none none none 0 casesample casesample5
    casesample9 3 0 (by decide!) (by decide!) (by decide!) (by decide!) (by decide!) (by decide!)
  rw [h.1]
  decide!

/-- C13, counterexample: `switch (a) { case 10: case 10: b; }` compiles with
error count 0; each of the two clauses emits its own comparison. -/
theorem C13_duplicate_case_accepted :
    (run 30 (.getstatement none none none none) dupcasesample).map
        (fun r => (r.1, r.2.errorcount, r.2.input, r.2.f_opcodes))
      = some (0, 0, [],
          [Word.op .OP_DEBUG, Word.arg 1, Word.op .OP_GLOBALADDR, Word.ptr "a",
           Word.op .OP_JUMP, Word.arg 12, Word.op .OP_DEBUG, Word.arg 1,
           Word.op .OP_DEBUG, Word.arg 1, Word.op .OP_JUMP, Word.arg 16,
           Word.op .OP_NUMBER, Word.arg 0, Word.op .OP_CASEJUMP, Word.arg 20,
           Word.op .OP_DEBUG, Word.arg 1, Word.op .OP_JUMP, Word.arg 24,
           Word.op .OP_NUMBER, Word.arg 0, Word.op .OP_CASEJUMP, Word.arg 31,
           Word.op .OP_DEBUG, Word.arg 1, Word.op .OP_GLOBALADDR, Word.ptr "b",
           Word.op .OP_POP, Word.op .OP_JUMP, Word.arg 32, Word.op .OP_POP]) := by
  decide!

/-! ## The default clause -/

theorem getstatement_default_eq (n : Nat) (c b nc d : Option Nat) (s : State)
    (h : (gettoken (stmt_entry s)).1 = .T_DEFAULT) :
    run (n + 1) (.getstatement c b nc d) s
      = getstatement_default (run n) c b nc d (s.labels.length + 1)
          (gettoken (stmt_entry s)).2 := by
  rw [run_succ]
  simp only [stmt_entry] at h
  simp [body, getstatement, h, stmt_entry]
  rfl

theorem getlabel_stmt_entry (l : Nat) (s : State) (hl : l < s.labels.length) :
    getlabel l (stmt_entry s) = getlabel l s := by
  simp [getlabel, stmt_entry, addopone, emitwords, log, newlabels, List.getD_eq_getElem?_getD,
    List.getElem?_append_left hl]

@[simp] theorem f_opcodes_stmt_entry (s : State) :
    (stmt_entry s).f_opcodes = s.f_opcodes ++ [Word.op .OP_DEBUG, Word.arg (linenumber s)] := by
  simp [stmt_entry, addopone, emitwords, log, newlabels, linenumber]

@[simp] theorem f_opcodes_scanerror (skip : Tok) (msg : String) (s : State) :
    (scanerror skip msg s).f_opcodes = s.f_opcodes := by
  unfold scanerror
  simp only [log]
  split
  · rfl
  · split <;> rfl

theorem length_f_opcodes_addoplabel (op : Op) (l : Nat) (s : State) :
    (addoplabel op l s).f_opcodes.length = s.f_opcodes.length + 2 := by
  unfold addoplabel uselabel
  simp only [log]
  split <;> simp [emitwords]

/-- C12: after `default:` with a default label, the first clause (label not
yet placed) emits JUMP to a fresh label, places the default label, emits POP,
places the fresh label and compiles the following statement; the default
label is then placed at an offset greater than 0. A clause met when the
default label is placed reports "Multiple DEFAULT clauses in SWITCH" and
emits nothing after the DEBUG opcode of the statement. -/
theorem C12_default_clause (n : Nat) (c b nc : Option Nat) (dl : Nat) (s s9 : State) (r : Int)
    (bodyT : List Event)
    (hdef : (gettoken (stmt_entry s)).1 = .T_DEFAULT)
    (hcolon : (gettoken (gettoken (stmt_entry s)).2).1 = .T_COLON)
    (hdl : dl < s.labels.length) :
    ((getlabel dl s).l_offset ≤ 0 →
      run n (.getstatement c b nc (some dl))
        (default_body (s.labels.length + 1) dl (gettoken (gettoken (stmt_entry s)).2).2)
        = some (r, s9) →
      s9.trace = (default_body (s.labels.length + 1) dl
        (gettoken (gettoken (stmt_entry s)).2).2).trace ++ bodyT →
      run (n + 1) (.getstatement c b nc (some dl)) s = some (0, s9)
      ∧ s9.trace = s.trace
          ++ [Event.addopone .OP_DEBUG (linenumber s)]
          ++ [Event.clearlabel (s.labels.length + 1),
              Event.addoplabel .OP_JUMP (s.labels.length + 1),
              Event.setlabel dl, Event.addop .OP_POP, Event.setlabel (s.labels.length + 1)]
          ++ bodyT
      ∧ 0 < (getlabel dl (default_body (s.labels.length + 1) dl
          (gettoken (gettoken (stmt_entry s)).2).2)).l_offset)
    ∧ (0 < (getlabel dl s).l_offset →
      run (n + 1) (.getstatement c b nc (some dl)) s
        = some (0, scanerror .T_SEMICOLON "Multiple DEFAULT clauses in SWITCH"
            (gettoken (gettoken (stmt_entry s)).2).2)
      ∧ (scanerror .T_SEMICOLON "Multiple DEFAULT clauses in SWITCH"
            (gettoken (gettoken (stmt_entry s)).2).2).trace
          = s.trace ++ [Event.addopone .OP_DEBUG (linenumber s),
              Event.scanerror .T_SEMICOLON "Multiple DEFAULT clauses in SWITCH"]
      ∧ (scanerror .T_SEMICOLON "Multiple DEFAULT clauses in SWITCH"
            (gettoken (gettoken (stmt_entry s)).2).2).f_opcodes
          = s.f_opcodes ++ [Word.op .OP_DEBUG, Word.arg (linenumber s)]
      ∧ (scanerror .T_SEMICOLON "Multiple DEFAULT clauses in SWITCH"
            (gettoken (gettoken (stmt_entry s)).2).2).errorcount = s.errorcount + 1) := by
  have hlab : getlabel dl (gettoken (gettoken (stmt_entry s)).2).2 = getlabel dl s := by
    rw [getlabel_congr (labels_gettoken _), getlabel_congr (labels_gettoken _),
      getlabel_stmt_entry dl s hdl]
  constructor
  · intro hoff hbody hbodyT
    have hno : ¬ (0 < (getlabel dl (gettoken (gettoken (stmt_entry s)).2).2).l_offset) := by
      rw [hlab]; omega
    refine ⟨?_, ?_, ?_⟩
    · rw [getstatement_default_eq n c b nc (some dl) s hdef]
      simp only [default_body] at hbody
      simp [getstatement_default, hcolon, hno, hbody]
    · simp [hbodyT, default_body]
    · unfold default_body
      rw [offset_setlabel_ne _ _ _ (by omega), getlabel_congr (labels_addop _ _),
        getlabel_setlabel_self _ _ (by simp [stmt_entry]; omega)]
      simp [length_f_opcodes_addoplabel]
      omega
  · intro hoff
    have hyes : 0 < (getlabel dl (gettoken (gettoken (stmt_entry s)).2).2).l_offset := by
      rw [hlab]; exact hoff
    refine ⟨?_, ?_, ?_, ?_⟩
    · rw [getstatement_default_eq n c b nc (some dl) s hdef]
      simp [getstatement_default, hcolon, hyes]
    · simp
    · simp
    · simp

theorem C12_default_clause_witness :
    (run 21 (.getstatement none none none (some 0)) defaultsample).map
        (fun r => (r.1, r.2.errorcount, r.2.f_opcodes))
      = some (0, 0,
          [Word.op .OP_DEBUG, Word.arg 1, Word.op .OP_JUMP, Word.arg 5, Word.op .OP_POP,
           Word.op .OP_DEBUG, Word.arg 1, Word.op .OP_GLOBALADDR, Word.ptr "a",
           Word.op .OP_POP])
    ∧ (run 21 (.getstatement none none none (some 0)) defaultsample2).map
        (fun r => (r.1, r.2.errorcount, r.2.f_opcodes))
      = some (0, 1, [Word.op .OP_POP, Word.op .OP_DEBUG, Word.arg 1]) := by
  have h1 := (C12_default_clause 20 none none none 0 defaultsample defaultsample9 0
    [Event.addopone .OP_DEBUG 1, Event.clearlabel 13, Event.clearlabel 14,
     Event.addopptr .OP_GLOBALADDR "a", Event.addop .OP_POP]
    (by decide!) (by decide!) (by decide)).1 (by decide!) (by decide!) (by decide!)
  have h2 := (C12_default_clause 20 none none none 0 defaultsample2 defaultsample9 0 []
    (by decide!) (by decide!) (by decide)).2 (by decide!)
  rw [h1.1, h2.1]
  constructor <;> decide!

/-! ## Jumps to the labels of the enclosing statement -/

theorem getstatement_if_eq (n : Nat) (c b nc d : Option Nat) (s : State)
    (h : (gettoken (stmt_entry s)).1 = .T_IF) :
    run (n + 1) (.getstatement c b nc d) s
      = getstatement_if (run n) c b (s.labels.length + 1) (s.labels.length + 2)
          (gettoken (stmt_entry s)).2 := by
  rw [run_succ]
  simp only [stmt_entry] at h
  simp [body, getstatement, h, stmt_entry]
  rfl

theorem getstatement_continue_eq (n : Nat) (c b nc d : Option Nat) (s : State)
    (h : (gettoken (stmt_entry s)).1 = .T_CONTINUE) :
    run (n + 1) (.getstatement c b nc d) s
      = (match c with
         | none => some (0, scanerror .T_SEMICOLON "CONTINUE not within FOR, WHILE, or DO"
             (gettoken (stmt_entry s)).2)
         | some l => getstatement_end n (addoplabel .OP_JUMP l (gettoken (stmt_entry s)).2)) := by
  rw [run_succ]
  simp only [stmt_entry] at h
  cases c <;> simp [body, getstatement, h, stmt_entry]

theorem getstatement_break_eq (n : Nat) (c b nc d : Option Nat) (s : State)
    (h : (gettoken (stmt_entry s)).1 = .T_BREAK) :
    run (n + 1) (.getstatement c b nc d) s
      = (match b with
         | none => some (0, scanerror .T_SEMICOLON "BREAK not within FOR, WHILE, or DO"
             (gettoken (stmt_entry s)).2)
         | some l => getstatement_end n (addoplabel .OP_JUMP l (gettoken (stmt_entry s)).2)) := by
  rw [run_succ]
  simp only [stmt_entry] at h
  cases b <;> simp [body, getstatement, h, stmt_entry]

@[simp] theorem f_opcodes_gettoken_stmt_entry (s : State) :
    (gettoken (stmt_entry s)).2.f_opcodes
      = s.f_opcodes ++ [Word.op .OP_DEBUG, Word.arg (linenumber s)] := by
  simp

/-- C14: getstatement reports an error and emits no jump when it reads
`continue` without continue label, `break` without break label, `case`
without next-case label or `default:` without default label; with the label
present `continue` and `break` emit exactly JUMP to it; in the forms
`if (c) continue` and `if (c) break` the same holds with JUMPNZ. -/
theorem C14_jumps_need_labels (n : Nat) (c b nc d : Option Nat) (l : Nat) (s s3 : State)
    (ty : Int) :
    -- continue
    ((gettoken (stmt_entry s)).1 = .T_CONTINUE →
      (run (n + 1) (.getstatement none b nc d) s
          = some (0, scanerror .T_SEMICOLON "CONTINUE not within FOR, WHILE, or DO"
              (gettoken (stmt_entry s)).2)
        ∧ (scanerror .T_SEMICOLON "CONTINUE not within FOR, WHILE, or DO"
              (gettoken (stmt_entry s)).2).f_opcodes
            = s.f_opcodes ++ [Word.op .OP_DEBUG, Word.arg (linenumber s)])
      ∧ (run (n + 1) (.getstatement (some l) b nc d) s
          = getstatement_end n (addoplabel .OP_JUMP l (gettoken (stmt_entry s)).2)
        ∧ (addoplabel .OP_JUMP l (gettoken (stmt_entry s)).2).trace
            = s.trace ++ [Event.addopone .OP_DEBUG (linenumber s), Event.addoplabel .OP_JUMP l]))
    -- break
    ∧ ((gettoken (stmt_entry s)).1 = .T_BREAK →
      (run (n + 1) (.getstatement c none nc d) s
          = some (0, scanerror .T_SEMICOLON "BREAK not within FOR, WHILE, or DO"
              (gettoken (stmt_entry s)).2)
        ∧ (scanerror .T_SEMICOLON "BREAK not within FOR, WHILE, or DO"
              (gettoken (stmt_entry s)).2).f_opcodes
            = s.f_opcodes ++ [Word.op .OP_DEBUG, Word.arg (linenumber s)])
      ∧ (run (n + 1) (.getstatement c (some l) nc d) s
          = getstatement_end n (addoplabel .OP_JUMP l (gettoken (stmt_entry s)).2)
        ∧ (addoplabel .OP_JUMP l (gettoken (stmt_entry s)).2).trace
            = s.trace ++ [Event.addopone .OP_DEBUG (linenumber s), Event.addoplabel .OP_JUMP l]))
    -- case
    ∧ ((gettoken (stmt_entry s)).1 = .T_CASE →
      run (n + 1) (.getstatement c b none d) s
          = some (0, scanerror .T_SEMICOLON "CASE not within SWITCH statement"
              (gettoken (stmt_entry s)).2)
        ∧ (scanerror .T_SEMICOLON "CASE not within SWITCH statement"
              (gettoken (stmt_entry s)).2).f_opcodes
            = s.f_opcodes ++ [Word.op .OP_DEBUG, Word.arg (linenumber s)])
    -- default
    ∧ ((gettoken (stmt_entry s)).1 = .T_DEFAULT →
      (gettoken (gettoken (stmt_entry s)).2).1 = .T_COLON →
      run (n + 1) (.getstatement c b nc none) s
          = some (0, scanerror .T_SEMICOLON "DEFAULT not within SWITCH statement"
              (gettoken (gettoken (stmt_entry s)).2).2)
        ∧ (scanerror .T_SEMICOLON "DEFAULT not within SWITCH statement"
              (gettoken (gettoken (stmt_entry s)).2).2).f_opcodes
            = s.f_opcodes ++ [Word.op .OP_DEBUG, Word.arg (linenumber s)])
    -- if (c) continue
    ∧ ((gettoken (stmt_entry s)).1 = .T_IF →
      run n .getcondition (if_cond (s.labels.length + 1) (s.labels.length + 2)
        (gettoken (stmt_entry s)).2) = some (ty, s3) →
      (gettoken s3).1 = .T_CONTINUE →
      (run (n + 1) (.getstatement none b nc d) s
          = some (0, scanerror .T_SEMICOLON "CONTINUE not within FOR, WHILE, or DO"
              (gettoken s3).2)
        ∧ (scanerror .T_SEMICOLON "CONTINUE not within FOR, WHILE, or DO"
              (gettoken s3).2).f_opcodes = s3.f_opcodes)
      ∧ (run (n + 1) (.getstatement (some l) b nc d) s
          = getstatement_ifend (run n) (some l) b (addoplabel .OP_JUMPNZ l (gettoken s3).2)
        ∧ (addoplabel .OP_JUMPNZ l (gettoken s3).2).trace
            = s3.trace ++ [Event.addoplabel .OP_JUMPNZ l]))
    -- if (c) break
    ∧ ((gettoken (stmt_entry s)).1 = .T_IF →
      run n .getcondition (if_cond (s.labels.length + 1) (s.labels.length + 2)
        (gettoken (stmt_entry s)).2) = some (ty, s3) →
      (gettoken s3).1 = .T_BREAK →
      (run (n + 1) (.getstatement c none nc d) s
          = some (0, scanerror .T_SEMICOLON "BREAK not within FOR, WHILE, or DO"
              (gettoken s3).2)
        ∧ (scanerror .T_SEMICOLON "BREAK not within FOR, WHILE, or DO"
              (gettoken s3).2).f_opcodes = s3.f_opcodes)
      ∧ (run (n + 1) (.getstatement c (some l) nc d) s
          = getstatement_ifend (run n) c (some l) (addoplabel .OP_JUMPNZ l (gettoken s3).2)
        ∧ (addoplabel .OP_JUMPNZ l (gettoken s3).2).trace
            = s3.trace ++ [Event.addoplabel .OP_JUMPNZ l])) := by
  refine ⟨?_, ?_, ?_, ?_, ?_, ?_⟩
  · intro h
    exact ⟨⟨getstatement_continue_eq n none b nc d s h, by simp⟩,
      ⟨getstatement_continue_eq n (some l) b nc d s h, by simp⟩⟩
  · intro h
    exact ⟨⟨getstatement_break_eq n c none nc d s h, by simp⟩,
      ⟨getstatement_break_eq n c (some l) nc d s h, by simp⟩⟩
  · intro h
    refine ⟨?_, by simp⟩
    rw [getstatement_case_eq n c b none d s h]
    simp [getstatement_case]
  · intro h hc
    refine ⟨?_, by simp⟩
    rw [getstatement_default_eq n c b nc none s h]
    simp [getstatement_default, hc]
  · intro h hcond ht
    simp only [if_cond] at hcond
    refine ⟨⟨?_, by simp⟩, ⟨?_, by simp⟩⟩
    · rw [getstatement_if_eq n none b nc d s h]
      simp [getstatement_if, hcond, ht]
    · rw [getstatement_if_eq n (some l) b nc d s h]
      simp [getstatement_if, hcond, ht]
  · intro h hcond ht
    simp only [if_cond] at hcond
    refine ⟨⟨?_, by simp⟩, ⟨?_, by simp⟩⟩
    · rw [getstatement_if_eq n c none nc d s h]
      simp [getstatement_if, hcond, ht]
    · rw [getstatement_if_eq n c (some l) nc d s h]
      simp [getstatement_if, hcond, ht]

theorem C14_jumps_need_labels_witness :
    (run 21 (.getstatement none none none none) contsample).map
        (fun r => (r.2.errorcount, r.2.f_opcodes))
      = some (1, [Word.op .OP_DEBUG, Word.arg 1])
    ∧ (run 21 (.getstatement (some 0) none none none) contsample).map
        (fun r => (r.2.errorcount, r.2.f_opcodes))
      = some (0, [Word.op .OP_DEBUG, Word.arg 1, Word.op .OP_JUMP, Word.arg (-1)])
    ∧ (run 21 (.getstatement none none none none) ifbreaksample).map
        (fun r => (r.2.errorcount, r.2.f_opcodes))
      = some (1, [Word.op .OP_DEBUG, Word.arg 1, Word.op .OP_GLOBALADDR, Word.ptr "a"])
    ∧ (run 21 (.getstatement none (some 0) none none) ifbreaksample).map
        (fun r => (r.2.errorcount, r.2.f_opcodes))
      = some (0, [Word.op .OP_DEBUG, Word.arg 1, Word.op .OP_GLOBALADDR, Word.ptr "a",
          Word.op .OP_JUMPNZ, Word.arg (-1)]) := by
  have h1 := (C14_jumps_need_labels 20 none none none none 0 contsample contsample 0).1
    (by decide!)
  have h2 := (C14_jumps_need_labels 20 none none none none 0 ifbreaksample ifbreaksample3
    0).2.2.2.2.2 (by decide!) (by decide!) (by decide!)
  rw [h1.1.1, h1.2.1, h2.1.1, h2.2.1]
  refine ⟨?_, ?_, ?_, ?_⟩ <;> decide!

/-! ## Expression statements -/

theorem getstatement_expr_eq (n : Nat) (c b nc d : Option Nat) (s : State)
    (h : (gettoken (stmt_entry s)).1 ∉ statementtokens) :
    run (n + 1) (.getstatement c b nc d) s
      = getstatement_expr n (run n) c b (gettoken (stmt_entry s)).2 := by
  rw [run_succ]
  simp only [stmt_entry] at h
  simp [statementtokens] at h
  simp [body, getstatement, h, stmt_entry]

theorem getstatement_symbol_eq (n : Nat) (c b nc d : Option Nat) (s : State)
    (h : (gettoken (stmt_entry s)).1 = .T_SYMBOL)
    (hc : (nextcharcolon (gettoken (stmt_entry s)).2).1 = false) :
    run (n + 1) (.getstatement c b nc d) s
      = getstatement_expr n (run n) c b (gettoken (stmt_entry s)).2 := by
  have hc2 : (nextcharcolon (gettoken (stmt_entry s)).2).2 = (gettoken (stmt_entry s)).2 := by
    revert hc
    unfold nextcharcolon
    split
    · split <;> simp
    · simp
  rw [run_succ]
  simp only [stmt_entry] at h hc hc2
  simp [body, getstatement, h, stmt_entry, getstatement_symbol, hc, hc2]

theorem fnamechar_zero (s : State) : fnamechar 0 s = '*' ↔ beginsstar s = true := by
  unfold fnamechar beginsstar
  cases h : s.f_name.data with
  | nil => simp
  | cons a l => simp

theorem fnamechar_one (s : State) (hname : Char.ofNat 0 ∉ s.f_name.data) :
    fnamechar 1 s ≠ Char.ofNat 0 ↔ longname s = true := by
  unfold fnamechar longname
  cases h : s.f_name.data with
  | nil => simp
  | cons a l =>
    cases l with
    | nil => simp
    | cons b l2 =>
      rw [h] at hname
      simp at hname
      simp
      exact fun e => hname.2.1 e.symm

/-- C15: after the code of a bare expression statement getstatement emits
POP alone if a continue label or a break label is in force or the name of the
current function does not begin with `*`; otherwise SAVE followed by POP when
the kind of the expression has ASSIGN or the name is longer than one
character, and SAVE followed by PRINTRESULT in the remaining case. The
terminator of the statement is read after that. -/
theorem C15_expression_statement (n : Nat) (c b nc d : Option Nat) (s s1 : State) (type : Int)
    (hdisp : (gettoken (stmt_entry s)).1 ∉ statementtokens
      ∨ ((gettoken (stmt_entry s)).1 = .T_SYMBOL
          ∧ (nextcharcolon (gettoken (stmt_entry s)).2).1 = false))
    (hexpr : run n .getexprlist (rescantoken (gettoken (stmt_entry s)).2) = some (type, s1))
    (hname : Char.ofNat 0 ∉ s1.f_name.data) :
    ((c.isSome = true ∨ b.isSome = true ∨ beginsstar s1 = false) →
      run (n + 1) (.getstatement c b nc d) s = getstatement_end n (addop .OP_POP s1))
    ∧ (c = none → b = none → beginsstar s1 = true →
        (isassign type = true ∨ longname s1 = true) →
      run (n + 1) (.getstatement c b nc d) s
        = getstatement_end n (addop .OP_POP (addop .OP_SAVE s1)))
    ∧ (c = none → b = none → beginsstar s1 = true →
        isassign type = false → longname s1 = false →
      run (n + 1) (.getstatement c b nc d) s
        = getstatement_end n (addop .OP_PRINTRESULT (addop .OP_SAVE s1))) := by
  have hd : run (n + 1) (.getstatement c b nc d) s
      = getstatement_expr n (run n) c b (gettoken (stmt_entry s)).2 := by
    rcases hdisp with h | ⟨h, hc⟩
    · exact getstatement_expr_eq n c b nc d s h
    · exact getstatement_symbol_eq n c b nc d s h hc
  have h0 := fnamechar_zero s1
  have h1 := fnamechar_one s1 hname
  have hsave : (addop .OP_SAVE s1).f_name = s1.f_name := rfl
  have h1s : fnamechar 1 (addop .OP_SAVE s1) = fnamechar 1 s1 := rfl
  rw [hd]
  refine ⟨?_, ?_, ?_⟩
  · intro h
    have hcond : c.isSome = true ∨ b.isSome = true ∨ fnamechar 0 s1 ≠ '*' := by
      rcases h with h | h | h
      · exact Or.inl h
      · exact Or.inr (Or.inl h)
      · refine Or.inr (Or.inr ?_)
        intro e
        rw [h0.mp e] at h
        exact Bool.noConfusion h
    simp [getstatement_expr, hexpr, hcond]
  · intro hc hb hs ha
    subst hc hb
    have e0 : fnamechar 0 s1 = '*' := h0.mpr hs
    have hcond : isassign type = true ∨ fnamechar 1 s1 ≠ Char.ofNat 0 := by
      rcases ha with ha | ha
      · exact Or.inl ha
      · exact Or.inr (h1.mpr ha)
    simp [getstatement_expr, hexpr, e0, h1s, hcond]
  · intro hc hb hs ha hl
    subst hc hb
    have e0 : fnamechar 0 s1 = '*' := h0.mpr hs
    have e1 : fnamechar 1 s1 = Char.ofNat 0 := by
      by_contra hne
      rw [h1.mp hne] at hl
      exact Bool.noConfusion hl
    simp [getstatement_expr, hexpr, e0, h1s, e1, ha]

theorem C15_expression_statement_witness :
    (run 21 (.getstatement none none none none) (exprsample "f")).map (fun r => r.2.f_opcodes)
      = some [Word.op .OP_DEBUG, Word.arg 1, Word.op .OP_GLOBALADDR, Word.ptr "a",
          Word.op .OP_POP]
    ∧ (run 21 (.getstatement none none none none) (exprsample "**")).map
        (fun r => r.2.f_opcodes)
      = some [Word.op .OP_DEBUG, Word.arg 1, Word.op .OP_GLOBALADDR, Word.ptr "a",
          Word.op .OP_SAVE, Word.op .OP_POP]
    ∧ (run 21 (.getstatement none none none none) (exprsample "*")).map
        (fun r => r.2.f_opcodes)
      = some [Word.op .OP_DEBUG, Word.arg 1, Word.op .OP_GLOBALADDR, Word.ptr "a",
          Word.op .OP_SAVE, Word.op .OP_PRINTRESULT] := by
  have h1 := (C15_expression_statement 20 none none none none (exprsample "f")
    (exprsample1 "f") 0 (by decide!) (by decide!) (by decide!)).1 (by decide!)
  have h2 := (C15_expression_statement 20 none none none none (exprsample "**")
    (exprsample1 "**") 0 (by decide!) (by decide!) (by decide!)).2.1 rfl rfl (by decide!)
    (by decide!)
  have h3 := (C15_expression_statement 20 none none none none (exprsample "*")
    (exprsample1 "*") 0 (by decide!) (by decide!) (by decide!)).2.2 rfl rfl (by decide!)
    (by decide!) (by decide!)
  rw [h1, h2, h3]
  refine ⟨?_, ?_, ?_⟩ <;> decide!

/-! ## The return statement -/

theorem getstatement_return_eq (n : Nat) (c b nc d : Option Nat) (s : State)
    (h : (gettoken (stmt_entry s)).1 = .T_RETURN) :
    run (n + 1) (.getstatement c b nc d) s
      = getstatement_return n (run n) (gettoken (stmt_entry s)).2 := by
  rw [run_succ]
  simp only [stmt_entry] at h
  simp [body, getstatement, h, stmt_entry]

/-- C16 (amended): a return statement without expression emits UNDEF, RETURN
and no SAVE, whatever the name of the function; a return statement with an
expression emits SAVE immediately before RETURN when the name of the current
function begins with `*`, and RETURN alone otherwise. -/
theorem C16_return_statement (n : Nat) (c b nc d : Option Nat) (s s1 : State) (type : Int)
    (hret : (gettoken (stmt_entry s)).1 = .T_RETURN) :
    (((gettoken (gettoken (stmt_entry s)).2).1 = .T_NEWLINE
        ∨ (gettoken (gettoken (stmt_entry s)).2).1 = .T_SEMICOLON) →
      run (n + 1) (.getstatement c b nc d) s
        = some (0, addop .OP_RETURN (addop .OP_UNDEF (gettoken (gettoken (stmt_entry s)).2).2))
      ∧ (addop .OP_RETURN (addop .OP_UNDEF (gettoken (gettoken (stmt_entry s)).2).2)).f_opcodes
        = s.f_opcodes ++ [Word.op .OP_DEBUG, Word.arg (linenumber s), Word.op .OP_UNDEF,
            Word.op .OP_RETURN])
    ∧ ((gettoken (gettoken (stmt_entry s)).2).1 ≠ .T_NEWLINE →
       (gettoken (gettoken (stmt_entry s)).2).1 ≠ .T_SEMICOLON →
       run n .getexprlist (rescantoken (gettoken (gettoken (stmt_entry s)).2).2)
         = some (type, s1) →
       (beginsstar s1 = true →
         run (n + 1) (.getstatement c b nc d) s
           = getstatement_end n (addop .OP_RETURN (addop .OP_SAVE s1)))
       ∧ (beginsstar s1 = false →
         run (n + 1) (.getstatement c b nc d) s = getstatement_end n (addop .OP_RETURN s1))) := by
  rw [getstatement_return_eq n c b nc d s hret]
  constructor
  · intro h
    refine ⟨?_, by simp [addop, emitwords, log]⟩
    simp [getstatement_return, h]
  · intro h1 h2 hexpr
    have h0 := fnamechar_zero s1
    constructor
    · intro hs
      have e0 : fnamechar 0 s1 = '*' := h0.mpr hs
      simp [getstatement_return, h1, h2, hexpr, e0]
    · intro hs
      have e0 : ¬ fnamechar 0 s1 = '*' := by
        intro e
        rw [h0.mp e] at hs
        exact Bool.noConfusion hs
      simp [getstatement_return, h1, h2, hexpr, e0]

theorem C16_return_statement_witness :
    (run 21 (.getstatement none none none none) (returnexprsample "*")).map
        (fun r => r.2.f_opcodes)
      = some [Word.op .OP_DEBUG, Word.arg 1, Word.op .OP_GLOBALADDR, Word.ptr "a",
          Word.op .OP_SAVE, Word.op .OP_RETURN]
    ∧ (run 21 (.getstatement none none none none) (returnexprsample "f")).map
        (fun r => r.2.f_opcodes)
      = some [Word.op .OP_DEBUG, Word.arg 1, Word.op .OP_GLOBALADDR, Word.ptr "a",
          Word.op .OP_RETURN] := by
  have h1 := ((C16_return_statement 20 none none none none (returnexprsample "*")
    (returnexprsample1 "*") 0 (by decide!)).2 (by decide!) (by decide!) (by decide!)).1
    (by decide!)
  have h2 := ((C16_return_statement 20 none none none none (returnexprsample "f")
    (returnexprsample1 "f") 0 (by decide!)).2 (by decide!) (by decide!) (by decide!)).2
    (by decide!)
  rw [h1, h2]
  constructor <;> decide!

/-- C16, counterexample: `return;` in the interactive function `*` emits
DEBUG, UNDEF, RETURN: no SAVE precedes the RETURN opcode. -/
theorem C16_return_without_expression :
    (run 21 (.getstatement none none none none) (returnsample "*")).map
        (fun r => (r.2.f_name, r.2.f_opcodes))
      = some ("*", [Word.op .OP_DEBUG, Word.arg 1, Word.op .OP_UNDEF, Word.op .OP_RETURN]) := by
  decide!

/-! ## Parameters of a function definition -/

@[simp] theorem trace_addparam (name : String) (s : State) :
    (addparam name s).2.trace = s.trace ++ [Event.addparam name] := by
  unfold addparam
  split <;> rfl

@[simp] theorem f_opcodes_addparam (name : String) (s : State) :
    (addparam name s).2.f_opcodes = s.f_opcodes := by
  unfold addparam
  split <;> rfl

/-- One iteration of the parameter loop of getfunction for a name that
addparam accepts: with `= default` the calls are addparam, clearlabel,
PARAMADDR with the slot, JUMPNN to the label, the default, ASSIGNPOP and
setlabel; without `=` only addparam; the loop goes on with the slot addparam
returned. -/
theorem getfunction_params_step (n k label : Nat) (index : Int) (x s7 : State) (ty : Int)
    (exprT : List Event)
    (hsym : (gettoken x).1 = .T_SYMBOL)
    (hnew : symboltype (tokensymbol (gettoken x).2) (gettoken x).2 = .SYM_UNDEFINED
      ∨ symboltype (tokensymbol (gettoken x).2) (gettoken x).2 = .SYM_GLOBAL
      ∨ symboltype (tokensymbol (gettoken x).2) (gettoken x).2 = .SYM_STATIC) :
    ((gettoken (addparam (tokensymbol (gettoken x).2) (gettoken x).2).2).1 = .T_ASSIGN →
      run n .getopassignment (param_default label
          (addparam (tokensymbol (gettoken x).2) (gettoken x).2).1
          (gettoken (addparam (tokensymbol (gettoken x).2) (gettoken x).2).2).2)
        = some (ty, s7) →
      s7.trace = (param_default label
          (addparam (tokensymbol (gettoken x).2) (gettoken x).2).1
          (gettoken (addparam (tokensymbol (gettoken x).2) (gettoken x).2).2).2).trace
        ++ exprT →
      getfunction_params (run n) label (k + 1) index x
        = param_next (run n) label k (addparam (tokensymbol (gettoken x).2) (gettoken x).2).1
            (gettoken (setlabel label (addop .OP_ASSIGNPOP s7))).1
            (gettoken (setlabel label (addop .OP_ASSIGNPOP s7))).2
      ∧ (setlabel label (addop .OP_ASSIGNPOP s7)).trace
        = x.trace ++ [Event.addparam (tokensymbol (gettoken x).2), Event.clearlabel label,
            Event.addopone .OP_PARAMADDR
              (addparam (tokensymbol (gettoken x).2) (gettoken x).2).1,
            Event.addoplabel .OP_JUMPNN label]
          ++ exprT ++ [Event.addop .OP_ASSIGNPOP, Event.setlabel label])
    ∧ ((gettoken (addparam (tokensymbol (gettoken x).2) (gettoken x).2).2).1 ≠ .T_ASSIGN →
      getfunction_params (run n) label (k + 1) index x
        = param_next (run n) label k (addparam (tokensymbol (gettoken x).2) (gettoken x).2).1
            (gettoken (addparam (tokensymbol (gettoken x).2) (gettoken x).2).2).1
            (gettoken (addparam (tokensymbol (gettoken x).2) (gettoken x).2).2).2
      ∧ (gettoken (addparam (tokensymbol (gettoken x).2) (gettoken x).2).2).2.f_opcodes
        = x.f_opcodes
      ∧ (gettoken (addparam (tokensymbol (gettoken x).2) (gettoken x).2).2).2.trace
        = x.trace ++ [Event.addparam (tokensymbol (gettoken x).2)]) := by
  have hadd : getfunction_addparam (tokensymbol (gettoken x).2) index (gettoken x).2
      = addparam (tokensymbol (gettoken x).2) (gettoken x).2 := by
    unfold getfunction_addparam
    rcases hnew with h | h | h <;> rw [h]
  constructor
  · intro hassign hexpr hexprT
    constructor
    · simp only [param_default] at hexpr
      simp [getfunction_params, hsym, hadd, hassign, getfunction_default, hexpr, param_next]
    · simp [hexprT, param_default]
  · intro hassign
    refine ⟨?_, by simp, by simp⟩
    simp [getfunction_params, hsym, hadd, hassign, param_next]

/-! ## Builtin names in define and undefine -/

@[simp] theorem userfuncs_gettoken (s : State) : (gettoken s).2.userfuncs = s.userfuncs := by
  unfold gettoken
  split <;> rfl

@[simp] theorem userfuncs_scanerror (skip : Tok) (msg : String) (s : State) :
    (scanerror skip msg s).userfuncs = s.userfuncs := by
  unfold scanerror
  simp only [log]
  split
  · rfl
  · split <;> rfl

@[simp] theorem f_name_gettoken (s : State) : (gettoken s).2.f_name = s.f_name := by
  unfold gettoken
  split <;> rfl

@[simp] theorem f_name_scanerror (skip : Tok) (msg : String) (s : State) :
    (scanerror skip msg s).f_name = s.f_name := by
  unfold scanerror
  simp only [log]
  split
  · rfl
  · split <;> rfl

/-- C18: `define name` with a builtin name is rejected: getfunction reports
"Using builtin function name" and returns; the only collaborator calls are
tokenmode and scanerror (no beginfunc, enterfuncscope or endfunc), the
function under construction and the table of user functions are unchanged.
In ungetfunction a builtin name is skipped without a call of rmuserfunc. -/
theorem C18_builtin_name_rejected (fuel k : Nat) (s u : State)
    (hsym : (gettoken (tokenmode TM_DEFAULT (newlabels 1 s).2).2).1 = .T_SYMBOL)
    (hb : getbuiltinfunc (tokensymbol (func_name s)) (func_name s) ≥ 0)
    (husym : (gettoken u).1 = .T_SYMBOL)
    (hub : getbuiltinfunc (tokensymbol (gettoken u).2) (gettoken u).2 ≥ 0) :
    getfunction fuel s
      = some ((), scanerror .T_SEMICOLON "Using builtin function name" (func_name s))
    ∧ (scanerror .T_SEMICOLON "Using builtin function name" (func_name s)).trace
      = s.trace ++ [Event.tokenmode TM_DEFAULT,
          Event.scanerror .T_SEMICOLON "Using builtin function name"]
    ∧ (scanerror .T_SEMICOLON "Using builtin function name" (func_name s)).userfuncs
      = s.userfuncs
    ∧ (scanerror .T_SEMICOLON "Using builtin function name" (func_name s)).f_name = s.f_name
    ∧ ungetfunction (k + 1) u = ungetfunction k (gettoken u).2
    ∧ (gettoken u).2.trace = u.trace ∧ (gettoken u).2.userfuncs = u.userfuncs := by
  refine ⟨?_, ?_, ?_, ?_, ?_, ?_, ?_⟩
  · simp only [func_name] at hb
    simp [getfunction, hsym, hb, func_name]
  · simp [func_name]
  · simp [func_name, tokenmode, log, newlabels]
  · simp [func_name, tokenmode, log, newlabels]
  · simp [ungetfunction, husym, hub]
  · simp
  · simp

theorem C18_builtin_name_rejected_witness :
    (getfunction 20 builtinsample).map
        (fun r => (r.2.errorcount, r.2.userfuncs, r.2.f_name, r.2.trace))
      = some (1, [], "*", [Event.tokenmode TM_DEFAULT,
          Event.scanerror .T_SEMICOLON "Using builtin function name"])
    ∧ (ungetfunction 20 undefinesample).map (fun r => (r.2.userfuncs, r.2.trace))
      = some (["h"], [Event.rmuserfunc "g"]) := by
  have h := C18_builtin_name_rejected 20 19 builtinsample undefinesample
    (by decide!) (by decide!) (by decide!) (by decide!)
  rw [h.1, h.2.2.2.2.1]
  constructor <;> decide!

/-! ## The interactive driver -/

theorem f_opcodes_checknamed (l : List (String × Nat)) (s : State) :
    (checknamed l s).f_opcodes = s.f_opcodes := by
  induction l generalizing s with
  | nil => rfl
  | cons p rest ih =>
    simp only [checknamed]
    rw [ih]
    split <;> simp

theorem f_opcodes_checklabels (s : State) : (checklabels s).f_opcodes = s.f_opcodes := by
  unfold checklabels
  rw [f_opcodes_checknamed]
  rfl

/-- C19: evaluate(nestflag) begins a function named `**` when nestflag is
true and `*` otherwise, appends UNDEF, RETURN after the compiled statements
as the last two opcodes, then checks the labels; it calls calculate and
returns TRUE when the error count is zero at that point, and returns FALSE
without calling calculate otherwise. -/
theorem C19_evaluate (fuel : Nat) (nestflag : Bool) (s s1 : State)
    (hst : evaluate_statements fuel (run fuel) nestflag (beginfunc (evalname nestflag) nestflag s)
      = some ((), s1)) :
    (beginfunc (evalname nestflag) nestflag s).f_name = (if nestflag then "**" else "*")
    ∧ (eval_end s1).f_opcodes = s1.f_opcodes ++ [Word.op .OP_UNDEF, Word.op .OP_RETURN]
    ∧ ((eval_end s1).errorcount = 0 →
        evaluate fuel nestflag s = some (true, calculate (eval_end s1))
        ∧ (calculate (eval_end s1)).trace = (eval_end s1).trace ++ [Event.calculate]
        ∧ (calculate (eval_end s1)).f_opcodes
            = s1.f_opcodes ++ [Word.op .OP_UNDEF, Word.op .OP_RETURN])
    ∧ ((eval_end s1).errorcount ≠ 0 → evaluate fuel nestflag s = some (false, eval_end s1)) := by
  have hcode : (eval_end s1).f_opcodes
      = s1.f_opcodes ++ [Word.op .OP_UNDEF, Word.op .OP_RETURN] := by
    simp [eval_end, f_opcodes_checklabels, addop, emitwords, log]
  have hst2 : evaluate_statements fuel (run fuel) nestflag
      (beginfunc (if nestflag then "**" else "*") nestflag s) = some ((), s1) := hst
  refine ⟨rfl, hcode, ?_, ?_⟩
  · intro h0
    simp only [eval_end] at h0
    refine ⟨?_, rfl, ?_⟩
    · simp [evaluate, hst2, h0, eval_end]
    · exact hcode
  · intro h0
    simp only [eval_end] at h0
    simp [evaluate, hst2, h0, eval_end]

theorem C19_evaluate_witness :
    (evaluate 20 false evalsample).map (fun r => (r.1, r.2.f_name, r.2.f_opcodes))
      = some (true, "*",
          [Word.op .OP_DEBUG, Word.arg 1, Word.op .OP_GLOBALADDR, Word.ptr "a",
           Word.op .OP_SAVE, Word.op .OP_PRINTRESULT, Word.op .OP_UNDEF, Word.op .OP_RETURN])
    ∧ (evaluate 20 true evalbadsample).map (fun r => (r.1, r.2.f_name, r.2.trace.getLast?))
      = some (false, "**", some (Event.scanerror .T_NULL "Label was never defined")) := by
  have h1 := (C19_evaluate 20 false evalsample
    (after (evaluate_statements 20 (run 20) false (beginfunc "*" false evalsample)) evalsample)
    (by decide!)).2.2.1 (by decide!)
  have h2 := (C19_evaluate 20 true evalbadsample
    (after (evaluate_statements 20 (run 20) true (beginfunc "**" true evalbadsample))
      evalbadsample)
    (by decide!)).2.2.2 (by decide!)
  rw [h1.1, h2]
  constructor <;> decide!

/-! ## Scope discipline of getfunction -/

/-- C20: `define f x` (no parenthesis after the name): getfunction enters the
function scope, reports "Left parenthesis expected for function" and returns
without leaving the scope; the definition `define f(x) = x` enters and leaves
it. -/
theorem C20_getfunction_error_leaves_scope :
    (getfunction 20 noparensample).map (fun r => (r.2.errorcount, scopeevents r.2.trace))
      = some (1, [Event.enterfuncscope])
    ∧ (getfunction 20 definesample).map (fun r => (r.2.errorcount, scopeevents r.2.trace))
      = some (0, [Event.enterfuncscope, Event.exitfuncscope]) := by
  constructor <;> decide!

/-! ## Token mode of getbody -/

/-- C21: getbody entered in mode NEWLINES returns in mode NEWLINES after the
closing brace, but in mode DEFAULT after "End-of-file in function body": the
path of T_EOF does not restore the saved token mode. -/
theorem C21_getbody_eof_keeps_mode :
    bodysample.mode = TM_NEWLINES ∧ bodyeofsample.mode = TM_NEWLINES
    ∧ (run 21 (.getbody none none none none) bodysample).map
        (fun r => (r.2.errorcount, r.2.mode)) = some (0, TM_NEWLINES)
    ∧ (run 21 (.getbody none none none none) bodyeofsample).map
        (fun r => (r.2.errorcount, r.2.mode, r.2.trace.getLast?))
      = some (1, TM_DEFAULT,
          some (Event.scanerror .T_SEMICOLON "End-of-file in function body")) := by
  refine ⟨rfl, rfl, ?_, ?_⟩ <;> decide!

/-! ## The address operator -/

/-- C25 (amended): prefix `&` applies to any operand: getreference emits the
code of the operand, then PTR, returns RVALUE and reports nothing of its own,
whatever the kind of the operand; only the token `&&` in this position is
reported ("Non-variable operand for &"), before the operand is read. -/
theorem C25_address_of_any_operand (n : Nat) (s s1 : State) (type : Int) :
    ((gettoken s).1 = .T_AND →
      run n .getreference (gettoken s).2 = some (type, s1) →
      run (n + 1) .getreference s = some (EXPR_RVALUE, addop .OP_PTR s1)
      ∧ (addop .OP_PTR s1).errorcount = s1.errorcount
      ∧ (addop .OP_PTR s1).trace = s1.trace ++ [Event.addop .OP_PTR])
    ∧ ((gettoken s).1 = .T_ANDAND →
      run n .getreference (scanerror .T_NULL "Non-variable operand for &" (gettoken s).2)
        = some (type, s1) →
      run (n + 1) .getreference s = some (EXPR_RVALUE, addop .OP_PTR s1)
      ∧ (scanerror .T_NULL "Non-variable operand for &" (gettoken s).2).errorcount
        = s.errorcount + 1) := by
  constructor
  · intro ht h
    refine ⟨?_, rfl, by simp⟩
    rw [run_succ]
    simp [body, getreference, ht, h]
  · intro ht h
    refine ⟨?_, by simp⟩
    rw [run_succ]
    simp [body, getreference, ht, h]

theorem C25_address_of_any_operand_witness :
    (run 21 .getreference addrsample).map (fun r => (r.1, r.2.f_opcodes))
      = some (EXPR_RVALUE, [Word.op .OP_NUMBER, Word.arg 0, Word.op .OP_PTR]) := by
  have h := (C25_address_of_any_operand 20 addrsample addrsample1 3).1 (by decide!) (by decide!)
  rw [h.1]
  decide!

/-- C25, counterexample: `&10` applies `&` to a numeric literal, an operand of
kind RVALUE|CONST; getreference reports nothing: the error count stays 0. -/
theorem C25_address_of_literal_accepted :
    (run 20 .getreference (gettoken addrsample).2).map (fun r => isrvalue r.1) = some true
    ∧ (run 21 .getreference addrsample).map (fun r => (r.1, r.2.errorcount, r.2.f_opcodes))
      = some (EXPR_RVALUE, 0, [Word.op .OP_NUMBER, Word.arg 0, Word.op .OP_PTR]) := by
  constructor <;> decide!

/-! ## Conditional expressions -/

/-- C26: for `c ? t : f` getaltcond emits the code of c, JUMPZ to the
alternate label, the code of t, JUMP to the done label, places the alternate
label, the code of f, places the done label; both branches are parsed by
getaltcond and the kind returned is the bitwise or of their kinds. Without
`?` nothing is emitted after the operand and its kind is returned. -/
theorem C26_conditional_expression (n : Nat) (s s1 s2 s3 : State) (tc tt tf : Int)
    (condT thenT elseT : List Event)
    (hc : run n .getorcond (newlabels 2 s).2 = some (tc, s1))
    (hcT : s1.trace = s.trace ++ condT) :
    ((gettoken s1).1 ≠ .T_QUESTIONMARK →
      run (n + 1) .getaltcond s = some (tc, rescantoken (gettoken s1).2)
      ∧ (rescantoken (gettoken s1).2).trace = s1.trace
      ∧ (rescantoken (gettoken s1).2).f_opcodes = s1.f_opcodes)
    ∧ ((gettoken s1).1 = .T_QUESTIONMARK →
      run n .getaltcond (alt_then s.labels.length s1) = some (tt, s2) →
      s2.trace = (alt_then s.labels.length s1).trace ++ thenT →
      (gettoken s2).1 = .T_COLON →
      run n .getaltcond (alt_else s.labels.length s2) = some (tf, s3) →
      s3.trace = (alt_else s.labels.length s2).trace ++ elseT →
      run (n + 1) .getaltcond s = some (Int.lor tt tf, setlabel s.labels.length s3)
      ∧ (setlabel s.labels.length s3).trace = s.trace ++ condT
          ++ [Event.clearlabel s.labels.length, Event.clearlabel (s.labels.length + 1),
              Event.addoplabel .OP_JUMPZ (s.labels.length + 1)]
          ++ thenT
          ++ [Event.addoplabel .OP_JUMP s.labels.length, Event.setlabel (s.labels.length + 1)]
          ++ elseT ++ [Event.setlabel s.labels.length]) := by
  have hbase : (newlabels 2 s).1 = s.labels.length := rfl
  constructor
  · intro hq
    refine ⟨?_, by simp, by simp⟩
    rw [run_succ]
    simp [body, getaltcond, hc, hq]
  · intro hq ht htT hcolon hf hfT
    constructor
    · simp only [alt_then, alt_else] at ht hf
      rw [run_succ]
      simp [body, getaltcond, hc, hq, hbase, ht, hcolon, hf]
    · simp [hfT, alt_else, htT, alt_then, hcT]

theorem C26_conditional_expression_witness :
    (run 21 .getaltcond altsample).map (fun r => (r.1, r.2.f_opcodes))
      = some (0,
          [Word.op .OP_GLOBALADDR, Word.ptr "a", Word.op .OP_JUMPZ, Word.arg 8,
           Word.op .OP_GLOBALADDR, Word.ptr "b", Word.op .OP_JUMP, Word.arg 10,
           Word.op .OP_GLOBALADDR, Word.ptr "c"]) := by
  have h := (C26_conditional_expression 20 altsample altsample1 altsample2 altsample3 0 0 0
    [Event.clearlabel 2, Event.clearlabel 3, Event.addopptr .OP_GLOBALADDR "a"]
    [Event.clearlabel 6, Event.clearlabel 7, Event.addopptr .OP_GLOBALADDR "b"]
    [Event.clearlabel 10, Event.clearlabel 11, Event.addopptr .OP_GLOBALADDR "c"]
    (by decide!) (by decide!)).2 (by decide!) (by decide!) (by decide!) (by decide!)
    (by decide!) (by decide!)
  rw [h.1]
  decide!

/-! ## Relations -/

theorem relationop_table (t : Tok) (o : Op) :
    relationop t = some o ↔ (t, o) ∈ relationtable := by
  cases t <;> simp [relationop, relationtable, eq_comm]

@[simp] theorem input_addop (op : Op) (s : State) : (addop op s).input = s.input := rfl

@[simp] theorem rescan_addop (op : Op) (s : State) : (addop op s).rescan = s.rescan := rfl

@[simp] theorem curtoken_addop (op : Op) (s : State) : (addop op s).curtoken = s.curtoken := rfl

/-- C28: for `a OP b` with a comparison operator getrelation emits the code
of a, the code of b and the one opcode of the operator, and returns RVALUE;
it reads no token after the second operand, so a further comparison operator
stays in the token stream; without a comparison operator the kind of the sum
is returned unchanged and the token is pushed back. -/
theorem C28_relation (n : Nat) (s s1 s2 : State) (ta tb : Int) (op : Op) (bT : List Event)
    (ha : run n .getsum s = some (ta, s1)) :
    (relationop (gettoken s1).1 = some op →
      run n .getsum (gettoken s1).2 = some (tb, s2) →
      s2.trace = s1.trace ++ bT →
      run (n + 1) .getrelation s = some (EXPR_RVALUE, addop op s2)
      ∧ (addop op s2).trace = s1.trace ++ bT ++ [Event.addop op]
      ∧ (addop op s2).input = s2.input ∧ (addop op s2).rescan = s2.rescan
      ∧ (addop op s2).curtoken = s2.curtoken)
    ∧ (relationop (gettoken s1).1 = none →
      run (n + 1) .getrelation s = some (ta, rescantoken (gettoken s1).2)
      ∧ (rescantoken (gettoken s1).2).f_opcodes = s1.f_opcodes)
    ∧ (∀ t o, relationop t = some o ↔ (t, o) ∈ relationtable) := by
  refine ⟨?_, ?_, relationop_table⟩
  · intro hop hb hbT
    refine ⟨?_, by simp [hbT], by simp, by simp, by simp⟩
    rw [run_succ]
    simp [body, getrelation, ha, hop, hb]
  · intro hop
    refine ⟨?_, by simp⟩
    rw [run_succ]
    simp [body, getrelation, ha, hop]

theorem C28_relation_witness :
    (run 21 .getrelation relsample).map
        (fun r => (r.1, r.2.f_opcodes, (gettoken r.2).1, r.2.input))
      = some (EXPR_RVALUE,
          [Word.op .OP_GLOBALADDR, Word.ptr "a", Word.op .OP_GLOBALADDR, Word.ptr "b",
           Word.op .OP_LT],
          .T_LT, [sym "c", tk .T_SEMICOLON]) := by
  have h := (C28_relation 20 relsample relsample1 relsample2 0 0 .OP_LT
    [Event.addopptr .OP_GLOBALADDR "b"] (by decide!)).1 (by decide!) (by decide!) (by decide!)
  rw [h.1]
  decide!

/-! ## Power and shifts -/

/-- C30: the binary operators of getshiftexpr associate to the right: for
`a OP1 b OP2 c` the code of a, of b and of c is emitted, then the opcode of
OP2, then the opcode of OP1, and the kind returned is RVALUE. -/
theorem C30_shift_right_associative (n : Nat) (s s1 s2 s3 : State) (ta tb tc : Int)
    (op1 op2 : Op) (bT cT : List Event)
    (hu1 : unaryop (gettoken s).1 = none)
    (ha : run (n + 1) .getreference (rescantoken (gettoken s).2) = some (ta, s1))
    (hop1 : shiftop (gettoken s1).1 = some op1)
    (hu2 : unaryop (gettoken (gettoken s1).2).1 = none)
    (hb : run n .getreference (rescantoken (gettoken (gettoken s1).2).2) = some (tb, s2))
    (hbT : s2.trace = s1.trace ++ bT)
    (hop2 : shiftop (gettoken s2).1 = some op2)
    (hc : run n .getshiftexpr (gettoken s2).2 = some (tc, s3))
    (hcT : s3.trace = s2.trace ++ cT) :
    run (n + 2) .getshiftexpr s = some (EXPR_RVALUE, addop op1 (addop op2 s3))
    ∧ (addop op1 (addop op2 s3)).trace
        = s1.trace ++ bT ++ cT ++ [Event.addop op2, Event.addop op1] := by
  constructor
  · have hinner : run (n + 1) .getshiftexpr (gettoken s1).2
        = some (EXPR_RVALUE, addop op2 s3) := by
      rw [run_succ]
      simp [body, getshiftexpr, hu2, hb, hop2, hc]
    rw [run_succ]
    simp [body, getshiftexpr, hu1, ha, hop1, hinner]
  · simp [hcT, hbT]

theorem C30_shift_right_associative_witness :
    (run 22 .getshiftexpr shiftsample).map (fun r => (r.1, r.2.f_opcodes))
      = some (EXPR_RVALUE,
          [Word.op .OP_GLOBALADDR, Word.ptr "a", Word.op .OP_GLOBALADDR, Word.ptr "b",
           Word.op .OP_GLOBALADDR, Word.ptr "c", Word.op .OP_LEFTSHIFT, Word.op .OP_POWER]) := by
  have h := C30_shift_right_associative 20 shiftsample shiftsample1 shiftsample2 shiftsample3
    0 0 0 .OP_POWER .OP_LEFTSHIFT
    [Event.addopptr .OP_GLOBALADDR "b"] [Event.addopptr .OP_GLOBALADDR "c"]
    (by decide!) (by decide!) (by decide!) (by decide!) (by decide!) (by decide!) (by decide!)
    (by decide!) (by decide!)
  rw [h.1]
  decide!

/-! ## Chains of compound assignments -/

/-- A chain `a OP1= b OP2= c` is compiled from left to right: after the lvalue
a, writeindexop, then DUPLICATE, the code of b (parsed by getassignment, which
stops before OP2=), the opcode of OP1, ASSIGN, then DUPLICATE, the code of c,
the opcode of OP2, ASSIGN. -/
theorem compound_pair_layout (n : Nat) (s s1 b1 b2 : State) (type : Int) (op1 op2 : Op)
    (r1 r2 : List Event)
    (hn : 2 ≤ n)
    (hlv : run n .getassignment s = some (type, s1))
    (hkind : isrvalue type = false)
    (hop1 : opassignop (gettoken s1).1 = some op1)
    (hb : getopassignment_rhs n (run n) (addop .OP_DUPLICATE (writeindexop (gettoken s1).2))
      = some ((), b1))
    (hbT : b1.trace = (addop .OP_DUPLICATE (writeindexop (gettoken s1).2)).trace ++ r1)
    (hop2 : opassignop (gettoken (addop .OP_ASSIGN (addop op1 b1))).1 = some op2)
    (hc : getopassignment_rhs n (run n)
        (addop .OP_DUPLICATE (gettoken (addop .OP_ASSIGN (addop op1 b1))).2) = some ((), b2))
    (hcT : b2.trace
      = (addop .OP_DUPLICATE (gettoken (addop .OP_ASSIGN (addop op1 b1))).2).trace ++ r2)
    (hend : opassignop (gettoken (addop .OP_ASSIGN (addop op2 b2))).1 = none) :
    run (n + 1) .getopassignment s
      = some (EXPR_ASSIGN, rescantoken (gettoken (addop .OP_ASSIGN (addop op2 b2))).2)
    ∧ (rescantoken (gettoken (addop .OP_ASSIGN (addop op2 b2))).2).trace
      = s1.trace ++ [Event.writeindexop, Event.addop .OP_DUPLICATE] ++ r1
        ++ [Event.addop op1, Event.addop .OP_ASSIGN, Event.addop .OP_DUPLICATE] ++ r2
        ++ [Event.addop op2, Event.addop .OP_ASSIGN] := by
  have hchain : OpChain n op1 (writeindexop (gettoken s1).2) [(op1, r1), (op2, r2)]
      (rescantoken (gettoken (addop .OP_ASSIGN (addop op2 b2))).2) :=
    OpChain.more op1 op2 _ b1 _ r1 _ hb hbT hop2 (OpChain.last op2 _ b2 r2 hc hcT hend)
  obtain ⟨h1, h2⟩ := opchain_loop n op1 _ _ _ hchain n (by simpa using hn)
  constructor
  · rw [run_succ]
    simp [body, getopassignment, hlv, hop1, hkind, h1]
  · rw [h2]
    simp [chainevents]

/-- C29, counterexample: `a += b += c` compiles to a, DUPLICATE, b, ADD,
ASSIGN, DUPLICATE, c, ADD, ASSIGN, but `a += (b += c)` to a, DUPLICATE, b,
DUPLICATE, c, ADD, ASSIGN, ADD, ASSIGN. -/
theorem C29_chain_is_not_right_associative :
    (run 21 .getopassignment chainsample).map (fun r => r.2.f_opcodes)
      = some [Word.op .OP_GLOBALADDR, Word.ptr "a", Word.op .OP_DUPLICATE,
          Word.op .OP_GLOBALADDR, Word.ptr "b", Word.op .OP_ADD, Word.op .OP_ASSIGN,
          Word.op .OP_DUPLICATE, Word.op .OP_GLOBALADDR, Word.ptr "c", Word.op .OP_ADD,
          Word.op .OP_ASSIGN]
    ∧ (run 60 .getopassignment chainrightsample).map (fun r => r.2.f_opcodes)
      = some [Word.op .OP_GLOBALADDR, Word.ptr "a", Word.op .OP_DUPLICATE,
          Word.op .OP_GLOBALADDR, Word.ptr "b", Word.op .OP_DUPLICATE,
          Word.op .OP_GLOBALADDR, Word.ptr "c", Word.op .OP_ADD, Word.op .OP_ASSIGN,
          Word.op .OP_ADD, Word.op .OP_ASSIGN]
    ∧ (run 21 .getopassignment chainsample).map (fun r => r.2.f_opcodes)
      ≠ (run 60 .getopassignment chainrightsample).map (fun r => r.2.f_opcodes) := by
  refine ⟨?_, ?_, ?_⟩ <;> decide!

/-! ## Chains of && and || -/

theorem getlabel_addoplabel_unplaced (op : Op) (l : Nat) (s : State)
    (hl : l < s.labels.length) (hoff : (getlabel l s).l_offset < 0) :
    getlabel l (addoplabel op l s) = ⟨(getlabel l s).l_offset, (s.f_opcodes.length + 1 : Nat)⟩ := by
  unfold addoplabel uselabel
  have hlab : getlabel l (emitwords [Word.op op] s) = getlabel l s := rfl
  simp only [log, hlab]
  rw [if_neg (by omega)]
  simp [getlabel, emitwords, List.getD_eq_getElem?_getD, hl]

/-- The label of a chain: unchanged without operator, referenced (chain not
negative, still unplaced) after at least one. -/
theorem condchain_label (n : Nat) (tok : Tok) (op : Op) (c : Call) (hc : exprcall c = true)
    (l : Nat) (s e : State) (ty tyf : Int) (items : List (List Event))
    (h : CondChain n tok op c l s ty items e tyf) :
    l < s.labels.length → (getlabel l s).l_offset < 0 →
    l < e.labels.length
    ∧ (items = [] → e = s)
    ∧ (items ≠ [] → 0 ≤ (getlabel l e).l_chain ∧ (getlabel l e).l_offset < 0) := by
  induction h with
  | last s ty _ =>
    intro hl _
    exact ⟨hl, fun _ => rfl, fun h => absurd rfl h⟩
  | more s b e ty ty1 tyf r rest htok hrun _ _ ih =>
    intro hl hoff
    have hl1 : l < (gettoken s).2.labels.length := by rw [labels_gettoken]; exact hl
    have hoff1 : (getlabel l (gettoken s).2).l_offset < 0 := by
      rw [getlabel_congr (labels_gettoken _)]; exact hoff
    have hlab := getlabel_addoplabel_unplaced op l _ hl1 hoff1
    have hl2 : l < (addoplabel op l (gettoken s).2).labels.length := by simpa using hl1
    have hb : getlabel l b = getlabel l (addoplabel op l (gettoken s).2) :=
      run_label n c hc _ b ty1 hrun l hl2
    have hlb : l < b.labels.length :=
      lt_of_lt_of_le hl2 (run_labels_length n c hc _ b ty1 hrun)
    have hoffb : (getlabel l b).l_offset < 0 := by rw [hb, hlab]; exact hoff1
    obtain ⟨h1, h2, h3⟩ := ih hlb hoffb
    refine ⟨h1, fun h => absurd h (List.cons_ne_nil _ _), fun _ => ?_⟩
    by_cases hr : rest = []
    · rw [h2 hr, hb, hlab]
      constructor
      · show (0 : Int) ≤ (((gettoken s).2.f_opcodes.length + 1 : Nat) : Int)
        omega
      · exact hoff1
    · exact h3 hr

theorem andchain_loop (n l : Nat) (s e : State) (ty tyf : Int) (items : List (List Event))
    (h : CondChain n .T_ANDAND .OP_CONDANDJUMP .getrelation l s ty items e tyf) :
    ∀ k, items.length < k →
      getandcond_loop (run n) l k ty s = finishcond l tyf (gettoken e).2
      ∧ e.trace = s.trace ++ condevents .OP_CONDANDJUMP l items := by
  induction h with
  | last s ty hend =>
    intro k hk
    cases k with
    | zero => simp at hk
    | succ k => simp [getandcond_loop, hend, condevents]
  | more s b e ty ty1 tyf r rest htok hrun htr _ ih =>
    intro k hk
    cases k with
    | zero => simp at hk
    | succ k =>
      have hk1 : rest.length < k := by simpa using hk
      obtain ⟨h1, h2⟩ := ih k hk1
      simp [getandcond_loop, htok, hrun, h1, h2, htr, condevents]

theorem orchain_loop (n l : Nat) (s e : State) (ty tyf : Int) (items : List (List Event))
    (h : CondChain n .T_OROR .OP_CONDORJUMP .getandcond l s ty items e tyf) :
    ∀ k, items.length < k →
      getorcond_loop (run n) l k ty s = finishcond l tyf (gettoken e).2
      ∧ e.trace = s.trace ++ condevents .OP_CONDORJUMP l items := by
  induction h with
  | last s ty hend =>
    intro k hk
    cases k with
    | zero => simp at hk
    | succ k => simp [getorcond_loop, hend, condevents]
  | more s b e ty ty1 tyf r rest htok hrun htr _ ih =>
    intro k hk
    cases k with
    | zero => simp at hk
    | succ k =>
      have hk1 : rest.length < k := by simpa using hk
      obtain ⟨h1, h2⟩ := ih k hk1
      simp [getorcond_loop, htok, hrun, h1, h2, htr, condevents]

/-- The end of a chain: the label is placed exactly when a jump refers to it. -/
theorem finishcond_chain (n : Nat) (tok : Tok) (op : Op) (c : Call) (hc : exprcall c = true)
    (l : Nat) (s e : State) (ty tyf : Int) (items : List (List Event))
    (h : CondChain n tok op c l s ty items e tyf)
    (hl : l < s.labels.length) (hoff : getlabel l s = ⟨-1, -1⟩) :
    (items = [] → finishcond l tyf (gettoken e).2 = some (tyf, rescantoken (gettoken e).2))
    ∧ (items ≠ [] →
        finishcond l tyf (gettoken e).2 = some (tyf, setlabel l (rescantoken (gettoken e).2))) := by
  have hoff1 : (getlabel l s).l_offset < 0 := by rw [hoff]; decide
  obtain ⟨_, h2, h3⟩ := condchain_label n tok op c hc l s e ty tyf items h hl hoff1
  have hg : getlabel l (rescantoken (gettoken e).2) = getlabel l e := by
    rw [getlabel_congr (labels_rescantoken _), getlabel_congr (labels_gettoken _)]
  constructor
  · intro hi
    have hno : ¬ (0 ≤ (getlabel l (rescantoken (gettoken e).2)).l_chain) := by
      rw [hg, h2 hi, hoff]; decide
    simp [finishcond, hno]
  · intro hi
    have hyes : 0 ≤ (getlabel l (rescantoken (gettoken e).2)).l_chain := by
      rw [hg]; exact (h3 hi).1
    simp [finishcond, hyes]

/-- C27: for operands A1 && A2 && ... && Ak getandcond emits the code of A1,
then for every further operand CONDANDJUMP to one label L and the code of the
operand, and places L immediately after the code of the last operand; for a
single operand no jump is emitted and no label is placed. The same holds for
getorcond with `||` and CONDORJUMP, its operands being parsed by getandcond. -/
theorem C27_cond_chains (n : Nat) (s s1 e : State) (ty tyf : Int) (r1 : List Event)
    (items : List (List Event)) (hlen : items.length < n) :
    (run n .getrelation (clearlabel s.labels.length (newlabels 1 s).2) = some (ty, s1) →
      s1.trace = (clearlabel s.labels.length (newlabels 1 s).2).trace ++ r1 →
      CondChain n .T_ANDAND .OP_CONDANDJUMP .getrelation s.labels.length s1 ty items e tyf →
      (items = [] →
        run (n + 1) .getandcond s = some (tyf, rescantoken (gettoken e).2)
        ∧ (rescantoken (gettoken e).2).trace
          = s.trace ++ [Event.clearlabel s.labels.length] ++ r1)
      ∧ (items ≠ [] →
        run (n + 1) .getandcond s
          = some (tyf, setlabel s.labels.length (rescantoken (gettoken e).2))
        ∧ (setlabel s.labels.length (rescantoken (gettoken e).2)).trace
          = s.trace ++ [Event.clearlabel s.labels.length] ++ r1
            ++ condevents .OP_CONDANDJUMP s.labels.length items
            ++ [Event.setlabel s.labels.length]))
    ∧ (run n .getandcond (clearlabel s.labels.length (newlabels 1 s).2) = some (ty, s1) →
      s1.trace = (clearlabel s.labels.length (newlabels 1 s).2).trace ++ r1 →
      CondChain n .T_OROR .OP_CONDORJUMP .getandcond s.labels.length s1 ty items e tyf →
      (items = [] →
        run (n + 1) .getorcond s = some (tyf, rescantoken (gettoken e).2)
        ∧ (rescantoken (gettoken e).2).trace
          = s.trace ++ [Event.clearlabel s.labels.length] ++ r1)
      ∧ (items ≠ [] →
        run (n + 1) .getorcond s
          = some (tyf, setlabel s.labels.length (rescantoken (gettoken e).2))
        ∧ (setlabel s.labels.length (rescantoken (gettoken e).2)).trace
          = s.trace ++ [Event.clearlabel s.labels.length] ++ r1
            ++ condevents .OP_CONDORJUMP s.labels.length items
            ++ [Event.setlabel s.labels.length])) := by
  have hbase : (newlabels 1 s).1 = s.labels.length := rfl
  have hl0 : s.labels.length < (clearlabel s.labels.length (newlabels 1 s).2).labels.length := by
    simp
  have hlab0 : getlabel s.labels.length (clearlabel s.labels.length (newlabels 1 s).2)
      = ⟨-1, -1⟩ :=
    getlabel_set_self _ _ _ _ rfl (by simp)
  have ht0 : (clearlabel s.labels.length (newlabels 1 s).2).trace
      = s.trace ++ [Event.clearlabel s.labels.length] := by simp
  constructor
  · intro hfirst hfT hchain
    have hl1 : s.labels.length < s1.labels.length :=
      lt_of_lt_of_le hl0 (run_labels_length n .getrelation rfl _ s1 ty hfirst)
    have hlab1 : getlabel s.labels.length s1 = ⟨-1, -1⟩ := by
      rw [run_label n .getrelation rfl _ s1 ty hfirst _ hl0, hlab0]
    obtain ⟨hloop, htr⟩ := andchain_loop n _ s1 e ty tyf items hchain n hlen
    obtain ⟨f1, f2⟩ := finishcond_chain n .T_ANDAND .OP_CONDANDJUMP .getrelation rfl _ s1 e ty tyf items hchain hl1 hlab1
    constructor
    · intro hi
      constructor
      · rw [run_succ]
        simp [body, getandcond, hbase, hfirst, hloop, f1 hi]
      · simp [htr, hfT, ht0, hi, condevents]
    · intro hi
      constructor
      · rw [run_succ]
        simp [body, getandcond, hbase, hfirst, hloop, f2 hi]
      · simp [htr, hfT, ht0]
  · intro hfirst hfT hchain
    have hl1 : s.labels.length < s1.labels.length :=
      lt_of_lt_of_le hl0 (run_labels_length n .getandcond rfl _ s1 ty hfirst)
    have hlab1 : getlabel s.labels.length s1 = ⟨-1, -1⟩ := by
      rw [run_label n .getandcond rfl _ s1 ty hfirst _ hl0, hlab0]
    obtain ⟨hloop, htr⟩ := orchain_loop n _ s1 e ty tyf items hchain n hlen
    obtain ⟨f1, f2⟩ := finishcond_chain n .T_OROR .OP_CONDORJUMP .getandcond rfl _ s1 e ty tyf items hchain hl1 hlab1
    constructor
    · intro hi
      constructor
      · rw [run_succ]
        simp [body, getorcond, hbase, hfirst, hloop, f1 hi]
      · simp [htr, hfT, ht0, hi, condevents]
    · intro hi
      constructor
      · rw [run_succ]
        simp [body, getorcond, hbase, hfirst, hloop, f2 hi]
      · simp [htr, hfT, ht0]

theorem C27_cond_chains_witness :
    (run 21 .getandcond andsample).map (fun r => (r.1, r.2.f_opcodes))
      = some (0,
          [Word.op .OP_GLOBALADDR, Word.ptr "a", Word.op .OP_CONDANDJUMP, Word.arg 10,
           Word.op .OP_GLOBALADDR, Word.ptr "b", Word.op .OP_CONDANDJUMP, Word.arg 10,
           Word.op .OP_GLOBALADDR, Word.ptr "c"]) := by
  have h := ((C27_cond_chains 20 andsample andsample1 andsample3 0 0
    [Event.addopptr .OP_GLOBALADDR "a"]
    [[Event.addopptr .OP_GLOBALADDR "b"], [Event.addopptr .OP_GLOBALADDR "c"]]
    (by decide)).1 (by decide!) (by decide!)
    (CondChain.more andsample1 andsample2 andsample3 0 0 0 _ _ (by decide!) (by decide!)
      (by decide!)
      (CondChain.more andsample2 andsample3 andsample3 0 0 0 _ _ (by decide!) (by decide!)
        (by decide!) (CondChain.last andsample3 0 (by decide!))))).2 (by decide)
  rw [h.1]
  decide!

/-! ## What the parser never undoes -/

theorem Mono_refl (b : Bool) (s : State) : Mono b s s :=
  ⟨le_refl _, le_refl _, ⟨[], by simp, fun _ => by simp⟩, fun _ => Or.inl rfl⟩

theorem Mono_trans {b : Bool} {s s1 s2 : State} (h1 : Mono b s s1) (h2 : Mono b s1 s2) :
    Mono b s s2 := by
  obtain ⟨e1, c1, ⟨t1, ht1, w1⟩, l1⟩ := h1
  obtain ⟨e2, c2, ⟨t2, ht2, w2⟩, l2⟩ := h2
  refine ⟨le_trans e1 e2, le_trans c1 c2, ⟨t1 ++ t2, by rw [ht2, ht1, List.append_assoc], ?_⟩, ?_⟩
  · intro hb
    simp only [List.mem_append, not_or]
    exact ⟨w1 hb, w2 hb⟩
  · intro l
    rcases l2 l with h | h | h
    · rw [h]
      exact l1 l
    · exact Or.inr (Or.inl h)
    · refine Or.inr (Or.inr (le_trans ?_ h))
      exact_mod_cast c1

/-- A step that leaves the labels alone. -/
theorem Mono_of_labels (b : Bool) {s s1 : State} (t : List Event)
    (hl : s1.labels = s.labels) (he : s.errorcount ≤ s1.errorcount)
    (hc : s.f_opcodes.length ≤ s1.f_opcodes.length)
    (ht : s1.trace = s.trace ++ t) (hw : Event.writeindexop ∉ t) : Mono b s s1 :=
  ⟨he, hc, ⟨t, ht, fun _ => hw⟩, fun l => Or.inl (by rw [getlabel_congr hl])⟩

theorem Mono_weaken {s s1 : State} (h : Mono false s s1) : Mono true s s1 := by
  obtain ⟨e1, c1, ⟨t1, ht1, _⟩, l1⟩ := h
  exact ⟨e1, c1, ⟨t1, ht1, fun hb => absurd hb (by decide)⟩, l1⟩

theorem Keeps_pure (b : Bool) {α : Type} (a : α) : Keeps b (pure a : P α) := by
  intro s a1 s1 h
  simp at h
  rw [← h.2]
  exact Mono_refl b s

theorem Keeps_bind (b : Bool) {α β : Type} (m : P α) (f : α → P β)
    (hm : Keeps b m) (hf : ∀ a, Keeps b (f a)) : Keeps b (m >>= f) := by
  intro s r s2 h
  rw [P_bind] at h
  cases hms : m s with
  | none => rw [hms] at h; simp at h
  | some p =>
    rw [hms] at h
    exact Mono_trans (hm s p.1 p.2 hms) (hf p.1 p.2 r s2 h)

theorem Keeps_act (b : Bool) (f : State → State) (h : ∀ s, Mono b s (f s)) : Keeps b (act f) := by
  intro s a s1 hs
  simp at hs
  rw [← hs]
  exact h s

theorem Keeps_eff (b : Bool) {α : Type} (f : State → α × State) (h : ∀ s, Mono b s (f s).2) :
    Keeps b (eff f) := by
  intro s a s1 hs
  simp at hs
  have e : s1 = (f s).2 := by rw [hs]
  rw [e]
  exact h s

theorem Keeps_ask (b : Bool) {α : Type} (f : State → α) : Keeps b (ask f) := by
  intro s a s1 hs
  simp at hs
  rw [← hs.2]
  exact Mono_refl b s

theorem Keeps_fail (b : Bool) {α : Type} : Keeps b (fail : P α) := by
  intro s a s1 hs
  simp at hs

theorem Keeps_whenP (b : Bool) (c : Bool) (m : P Unit) (h : Keeps b m) :
    Keeps b (whenP c m) := by
  cases c
  · exact Keeps_pure b ()
  · exact h

theorem Keeps_ite (b : Bool) {α : Type} (c : Prop) [Decidable c] (x y : P α)
    (hx : Keeps b x) (hy : Keeps b y) : Keeps b (if c then x else y) := by
  split
  · exact hx
  · exact hy

theorem getlabel_set_cases (l k : Nat) (v : LABEL) (s s1 : State)
    (h : s1.labels = s.labels.set k v) : getlabel l s1 = getlabel l s ∨ getlabel l s1 = v := by
  by_cases hkl : k = l
  · by_cases hl : l < s.labels.length
    · exact Or.inr (getlabel_set_self l v s s1 (hkl ▸ h) hl)
    · left
      have e : s.labels.set k v = s.labels := by
        apply List.ext_getElem?
        intro i
        by_cases hi : k = i
        · subst hi
          have h1 : s.labels[k]? = none := List.getElem?_eq_none (by omega)
          have h2 : (s.labels.set k v)[k]? = none :=
            List.getElem?_eq_none (by simp; omega)
          rw [h1, h2]
        · rw [List.getElem?_set_ne hi]
      exact getlabel_congr (h.trans e) l
  · exact Or.inl (getlabel_set_ne l k v s s1 h hkl)

theorem getlabel_append (l : Nat) (s s1 : State) (k : Nat)
    (h : s1.labels = s.labels ++ List.replicate k ⟨-1, -1⟩) :
    getlabel l s1 = getlabel l s ∨ (getlabel l s1).l_offset = -1 := by
  unfold getlabel
  rw [h]
  by_cases hl : l < s.labels.length
  · left
    simp [List.getD_eq_getElem?_getD, List.getElem?_append_left hl]
  · right
    rw [List.getD_eq_getElem?_getD, List.getElem?_append_right (by omega)]
    by_cases h2 : l - s.labels.length < k
    · simp [List.getElem?_replicate, h2]
    · simp [List.getElem?_replicate, h2]

theorem length_fixchain (k : Nat) (n o : Int) (code : List Word) :
    (fixchain k n o code).length = code.length := by
  induction k generalizing n code with
  | zero => rfl
  | succ k ih =>
    simp only [fixchain]
    split
    · rfl
    · split
      · rw [ih]; simp
      · simp

@[simp] theorem mono_gettoken (b : Bool) (s : State) : Mono b s (gettoken s).2 := by
  refine Mono_of_labels b [] (by simp) ?_ ?_ (by simp) (by simp)
  · unfold gettoken; split <;> exact le_refl _
  · unfold gettoken; split <;> exact le_refl _

@[simp] theorem mono_rescantoken (b : Bool) (s : State) : Mono b s (rescantoken s) :=
  Mono_of_labels b [] rfl (le_refl _) (le_refl _) (by simp [rescantoken]) (by simp)

@[simp] theorem mono_tokenmode (b : Bool) (m : Int) (s : State) : Mono b s (tokenmode m s).2 :=
  Mono_of_labels b [Event.tokenmode m] rfl (le_refl _) (le_refl _) rfl (by simp)

@[simp] theorem mono_scanerror (b : Bool) (t : Tok) (m : String) (s : State) :
    Mono b s (scanerror t m s) :=
  Mono_of_labels b [Event.scanerror t m] (by simp) (by simp) (by simp) (by simp) (by simp)

@[simp] theorem mono_addop (b : Bool) (op : Op) (s : State) : Mono b s (addop op s) :=
  Mono_of_labels b [Event.addop op] rfl (le_refl _) (by simp) rfl (by simp)

@[simp] theorem mono_addopone (b : Bool) (op : Op) (a : Int) (s : State) :
    Mono b s (addopone op a s) :=
  Mono_of_labels b [Event.addopone op a] rfl (le_refl _) (by simp [addopone, emitwords, log])
    rfl (by simp)

@[simp] theorem mono_addoptwo (b : Bool) (op : Op) (a c : Int) (s : State) :
    Mono b s (addoptwo op a c s) := by
  refine Mono_of_labels b [Event.addoptwo op a c] (by simp) ?_ ?_ ?_ (by simp)
  · unfold addoptwo; simp only [log]; split <;> exact le_refl _
  · unfold addoptwo; simp only [log]; split <;> simp [emitwords]
  · unfold addoptwo; simp only [log]; split <;> rfl

@[simp] theorem mono_addopptr (b : Bool) (op : Op) (g : String) (s : State) :
    Mono b s (addopptr op g s) :=
  Mono_of_labels b [Event.addopptr op g] rfl (le_refl _) (by simp [addopptr, emitwords, log])
    rfl (by simp)

@[simp] theorem mono_addopfunction (b : Bool) (op : Op) (a c : Int) (s : State) :
    Mono b s (addopfunction op a c s) :=
  Mono_of_labels b [Event.addopfunction op a c] rfl (le_refl _)
    (by simp [addopfunction, emitwords, log]) rfl (by simp)

theorem mono_writeindexop (s : State) : Mono true s (writeindexop s) := by
  refine ⟨?_, ?_, ⟨[Event.writeindexop], by simp, fun h => absurd h (by decide)⟩,
    fun l => Or.inl (by rw [getlabel_congr (labels_writeindexop s)])⟩
  · unfold writeindexop; simp only [log]; split <;> exact le_refl _
  · unfold writeindexop; simp only [log]; split <;> simp

@[simp] theorem mono_clearopt (b : Bool) (s : State) : Mono b s (clearopt s) :=
  Mono_of_labels b [Event.clearopt] rfl (le_refl _) (le_refl _) rfl (by simp)

@[simp] theorem mono_patchopcode (b : Bool) (pc : Nat) (v : Int) (s : State) :
    Mono b s (patchopcode pc v s) :=
  Mono_of_labels b [Event.patch pc v] rfl (le_refl _) (by simp [patchopcode, log]) rfl (by simp)

@[simp] theorem mono_newlabels (b : Bool) (k : Nat) (s : State) : Mono b s (newlabels k s).2 := by
  refine ⟨le_refl _, le_refl _, ⟨[], by simp, fun _ => by simp⟩, fun l => ?_⟩
  rcases getlabel_append l s (newlabels k s).2 k rfl with h | h
  · exact Or.inl (by rw [h])
  · exact Or.inr (Or.inl h)

@[simp] theorem mono_clearlabel (b : Bool) (k : Nat) (s : State) : Mono b s (clearlabel k s) := by
  refine ⟨le_refl _, le_refl _, ⟨[Event.clearlabel k], rfl, fun _ => by simp⟩, fun l => ?_⟩
  rcases getlabel_set_cases l k ⟨-1, -1⟩ s (clearlabel k s) rfl with h | h
  · exact Or.inl (by rw [h])
  · exact Or.inr (Or.inl (by rw [h]))

@[simp] theorem mono_setlabel (b : Bool) (k : Nat) (s : State) : Mono b s (setlabel k s) := by
  refine ⟨le_refl _, ?_, ⟨[Event.setlabel k], rfl, fun _ => by simp⟩, fun l => ?_⟩
  · simp [setlabel, log, length_fixchain]
  · rcases getlabel_set_cases l k ⟨s.f_opcodes.length, -1⟩ s (setlabel k s) rfl with h | h
    · exact Or.inl (by rw [h])
    · exact Or.inr (Or.inr (by rw [h]))

@[simp] theorem mono_addoplabel (b : Bool) (op : Op) (k : Nat) (s : State) :
    Mono b s (addoplabel op k s) := by
  refine ⟨by simp, by rw [length_f_opcodes_addoplabel]; omega,
    ⟨[Event.addoplabel op k], by simp, fun _ => by simp⟩,
    fun l => Or.inl (offset_addoplabel op k l s)⟩

theorem uselabel_facts (k : Nat) (s : State) :
    (uselabel k s).errorcount = s.errorcount
    ∧ s.f_opcodes.length ≤ (uselabel k s).f_opcodes.length
    ∧ (uselabel k s).trace = s.trace
    ∧ ∀ l, (getlabel l (uselabel k s)).l_offset = (getlabel l s).l_offset := by
  by_cases h : (getlabel k s).l_offset ≥ 0
  · have e : uselabel k s = emitwords [Word.arg (getlabel k s).l_offset] s := by
      simp [uselabel, h]
    rw [e]
    exact ⟨rfl, by simp [emitwords], rfl, fun l => rfl⟩
  · have e : (uselabel k s).labels
        = s.labels.set k ⟨(getlabel k s).l_offset, (s.f_opcodes.length : Int)⟩ := by
      simp [uselabel, h, emitwords]
    refine ⟨by simp [uselabel, h, emitwords], by simp [uselabel, h, emitwords],
      by simp [uselabel, h, emitwords], fun l => ?_⟩
    by_cases hkl : k = l
    · subst hkl
      rcases getlabel_set_cases k k _ s (uselabel k s) e with h1 | h1
      · rw [h1]
      · rw [h1]
    · rw [getlabel_set_ne l k _ s (uselabel k s) e hkl]

@[simp] theorem mono_addlabel (b : Bool) (name : String) (s : State) :
    Mono b s (addlabel name s) := by
  unfold addlabel
  split
  · rename_i l _
    obtain ⟨h1, h2, h3, h4⟩ := uselabel_facts l s
    exact ⟨by simp [log, h1], by simpa [log] using h2,
      ⟨[Event.addlabel name], by simp [log, h3], fun _ => by simp⟩,
      fun k => Or.inl (h4 k)⟩
  · obtain ⟨h1, h2, h3, h4⟩ := uselabel_facts (newlabel s).1
      { (newlabel s).2 with
        namedlabels := (newlabel s).2.namedlabels ++ [(name, (newlabel s).1)] }
    refine ⟨by simp only [log]; rw [h1]; exact le_refl _, by simpa [log] using h2,
      ⟨[Event.addlabel name], by simp only [log]; rw [h3]; rfl, fun _ => by simp⟩, fun k => ?_⟩
    have h5 := h4 k
    rcases getlabel_append k s (newlabel s).2 1 rfl with h | h
    · left
      show (getlabel k (uselabel _ _)).l_offset = _
      rw [h5, ← h]
      rfl
    · right; left
      show (getlabel k (uselabel _ _)).l_offset = _
      rw [h5, ← h]
      rfl

@[simp] theorem mono_definelabel (b : Bool) (name : String) (s : State) :
    Mono b s (definelabel name s) := by
  have hlog : Mono b s (log (Event.definelabel name) s) :=
    Mono_of_labels b [Event.definelabel name] rfl (le_refl _) (le_refl _) rfl (by simp)
  unfold definelabel
  split
  · split
    · exact Mono_trans hlog (mono_scanerror b _ _ _)
    · exact Mono_trans hlog (mono_setlabel b _ _)
  · refine Mono_trans (?_ : Mono b s (log (Event.definelabel name)
        { (newlabel s).2 with
          namedlabels := (newlabel s).2.namedlabels ++ [(name, (newlabel s).1)] }))
      (mono_setlabel b _ _)
    refine ⟨le_refl _, le_refl _, ⟨[Event.definelabel name], rfl, fun _ => by simp⟩, fun k => ?_⟩
    rcases getlabel_append k s (newlabel s).2 1 rfl with h | h
    · exact Or.inl (by rw [← h]; rfl)
    · exact Or.inr (Or.inl (by rw [← h]; rfl))

@[simp] theorem mono_addlocal (b : Bool) (name : String) (s : State) :
    Mono b s (addlocal name s).2 := by
  unfold addlocal
  split <;>
    exact Mono_of_labels b [Event.addlocal name] rfl (le_refl _) (le_refl _) rfl (by simp)

@[simp] theorem mono_addglobal (b : Bool) (name : String) (st : Bool) (s : State) :
    Mono b s (addglobal name st s) :=
  Mono_of_labels b [Event.addglobal name st] rfl (le_refl _) (le_refl _) rfl (by simp)

@[simp] theorem mono_endscope (b : Bool) (name : String) (g : Bool) (s : State) :
    Mono b s (endscope name g s) :=
  Mono_of_labels b [Event.endscope name g] rfl (le_refl _) (le_refl _) rfl (by simp)

@[simp] theorem mono_addelement (b : Bool) (name : String) (s : State) :
    Mono b s (addelement name s).2 := by
  unfold addelement
  split <;>
    exact Mono_of_labels b [Event.addelement name] rfl (le_refl _) (le_refl _) rfl (by simp)

@[simp] theorem mono_defineobject (b : Bool) (name : String) (l : List Int) (c : Int)
    (s : State) : Mono b s (defineobject name l c s) := by
  unfold defineobject
  split <;>
    exact Mono_of_labels b [Event.defineobject name l c] rfl (le_refl _) (le_refl _) rfl
      (by simp)

@[simp] theorem mono_adduserfunc (b : Bool) (name : String) (s : State) :
    Mono b s (adduserfunc name s).2 := by
  unfold adduserfunc
  split <;>
    exact Mono_of_labels b [Event.adduserfunc name] rfl (le_refl _) (le_refl _) rfl (by simp)

@[simp] theorem mono_builtincheck (b : Bool) (i a : Int) (s : State) :
    Mono b s (builtincheck i a s) :=
  Mono_of_labels b [Event.builtincheck i a] rfl (le_refl _) (le_refl _) rfl (by simp)

@[simp] theorem mono_addqconstant (b : Bool) (q : Int) (s : State) :
    Mono b s (addqconstant q s).2 := by
  unfold addqconstant
  split <;>
    exact Mono_of_labels b [Event.addqconstant q] rfl (le_refl _) (le_refl _) rfl (by simp)

@[simp] theorem mono_nextcharcolon (b : Bool) (s : State) : Mono b s (nextcharcolon s).2 := by
  unfold nextcharcolon
  split
  · split
    · exact Mono_of_labels b [] rfl (le_refl _) (le_refl _) (by simp) (by simp)
    · exact Mono_refl b s
  · exact Mono_refl b s

@[simp] theorem mono_getid (b : Bool) (s : State) : Mono b s (getid s).2 := by
  unfold getid
  simp only
  split
  · exact Mono_trans (mono_gettoken b s) (mono_scanerror b _ _ _)
  · split
    · exact Mono_trans (mono_gettoken b s)
        (Mono_trans (mono_rescantoken b _) (mono_scanerror b _ _ _))
    · exact mono_gettoken b s

@[simp] theorem mono_getelement (b : Bool) (s : State) : Mono b s (getelement s) := by
  unfold getelement
  simp only
  split
  · exact mono_getid b s
  · split
    · exact Mono_trans (mono_getid b s) (mono_scanerror b _ _ _)
    · exact Mono_trans (mono_getid b s) (mono_addopone b _ _ _)

@[simp] theorem mono_definesymbol (b : Bool) (name : String) (t : SymType) (s : State) :
    Mono b s (definesymbol name t s) := by
  unfold definesymbol
  split <;> (try simp only) <;> (try split) <;> (try split) <;>
    first
    | exact Mono_refl b s
    | exact mono_scanerror b _ _ _
    | exact mono_addlocal b _ _
    | exact mono_addglobal b _ _ _
    | exact Mono_trans (mono_endscope b _ _ _) (mono_addlocal b _ _)
    | exact Mono_trans (mono_endscope b _ _ _) (mono_addglobal b _ _ _)

@[simp] theorem mono_usesymbol (b : Bool) (name : String) (a : Bool) (s : State) :
    Mono b s (usesymbol name a s) := by
  unfold usesymbol
  split <;> (try split) <;>
    first
    | exact mono_addopone b _ _ _
    | exact mono_addopptr b _ _ _
    | exact mono_scanerror b _ _ _
    | exact Mono_trans (mono_addglobal b _ _ _) (mono_addopptr b _ _ _)

@[simp] theorem mono_callee (b : Bool) (name : String) (s : State) :
    Mono b s (callee name s).2 := by
  unfold callee
  simp only
  split
  · exact mono_adduserfunc b _ _
  · exact Mono_refl b s

@[simp] theorem mono_getshowstatement (b : Bool) (s : State) :
    Mono b s (getshowstatement s) := by
  unfold getshowstatement
  simp only
  split
  · split
    · split
      · exact Mono_trans (mono_gettoken b s) (Mono_trans (mono_gettoken b _)
          (Mono_trans (mono_rescantoken b _) (mono_scanerror b _ _ _)))
      · exact Mono_trans (mono_gettoken b s) (Mono_trans (mono_gettoken b _)
          (Mono_trans (mono_adduserfunc b _ _) (mono_addopone b _ _ _)))
    · split
      · exact Mono_trans (mono_gettoken b s) (mono_addopone b _ _ _)
      · exact mono_gettoken b s
  · exact Mono_trans (mono_gettoken b s) (mono_rescantoken b _)

theorem keeps_finishcond (b : Bool) (donelabel : Nat) (type : Int) :
    Keeps b (finishcond donelabel type) := by
  unfold finishcond
  repeat (first
    | refine Keeps_ite b _ _ _ ?_ ?_
    | exact hself _
    | refine Keeps_bind b _ _ ?_ (fun _ => ?_)
    | split
    | exact Keeps_pure b _
    | exact Keeps_fail b
    | exact Keeps_ask b _
    | refine Keeps_whenP b _ _ ?_
    | exact Keeps_act b _ (fun s => by simp; done)
    | exact Keeps_eff b _ (fun s => by simp; done))

theorem keeps_getincdecexpr_end (b : Bool) (tok : Tok) (type : Int) :
    Keeps b (getincdecexpr_end tok type) := by
  unfold getincdecexpr_end
  repeat (first
    | refine Keeps_ite b _ _ _ ?_ ?_
    | exact hself _
    | refine Keeps_bind b _ _ ?_ (fun _ => ?_)
    | split
    | exact Keeps_pure b _
    | exact Keeps_fail b
    | exact Keeps_ask b _
    | refine Keeps_whenP b _ _ ?_
    | exact Keeps_act b _ (fun s => by simp; done)
    | exact Keeps_eff b _ (fun s => by simp; done))

theorem keeps_endcall (b : Bool) (op : Op) (index argcount : Int) :
    Keeps b (endcall op index argcount) := by
  unfold endcall
  repeat (first
    | refine Keeps_ite b _ _ _ ?_ ?_
    | exact hself _
    | refine Keeps_bind b _ _ ?_ (fun _ => ?_)
    | split
    | exact Keeps_pure b _
    | exact Keeps_fail b
    | exact Keeps_ask b _
    | refine Keeps_whenP b _ _ ?_
    | exact Keeps_act b _ (fun s => by simp; done)
    | exact Keeps_eff b _ (fun s => by simp; done))

theorem keeps_getobjdeclaration_error (b : Bool) (msg : String) (oldmode : Int) :
    Keeps b (getobjdeclaration_error msg oldmode) := by
  unfold getobjdeclaration_error
  repeat (first
    | refine Keeps_ite b _ _ _ ?_ ?_
    | exact hself _
    | refine Keeps_bind b _ _ ?_ (fun _ => ?_)
    | split
    | exact Keeps_pure b _
    | exact Keeps_fail b
    | exact Keeps_ask b _
    | refine Keeps_whenP b _ _ ?_
    | exact Keeps_act b _ (fun s => by simp; done)
    | exact Keeps_eff b _ (fun s => by simp; done))

theorem keeps_getobjdeclaration_define (b : Bool) (self : Rec) (name : String) (symtype : SymType) (oldmode : Int) (indices : List Int) (hself : ∀ c, Keeps b (self c)) :
    Keeps b (getobjdeclaration_define self name symtype oldmode indices) := by
  unfold getobjdeclaration_define
  repeat (first
    | refine Keeps_ite b _ _ _ ?_ ?_
    | exact hself _
    | refine Keeps_bind b _ _ ?_ (fun _ => ?_)
    | split
    | exact Keeps_pure b _
    | exact Keeps_fail b
    | exact Keeps_ask b _
    | refine Keeps_whenP b _ _ ?_
    | exact Keeps_act b _ (fun s => by simp; done)
    | exact Keeps_eff b _ (fun s => by simp; done))

theorem keeps_getinitlist_elem (b : Bool) (self : Rec) (t : Tok) (index : Int) (hself : ∀ c, Keeps b (self c)) :
    Keeps b (getinitlist_elem self t index) := by
  unfold getinitlist_elem
  repeat (first
    | refine Keeps_ite b _ _ _ ?_ ?_
    | exact hself _
    | refine Keeps_bind b _ _ ?_ (fun _ => ?_)
    | split
    | exact Keeps_pure b _
    | exact Keeps_fail b
    | exact Keeps_ask b _
    | refine Keeps_whenP b _ _ ?_
    | exact Keeps_act b _ (fun s => by simp; done)
    | exact Keeps_eff b _ (fun s => by simp; done))

theorem keeps_declname (b : Bool) (self : Rec) (symtype : SymType) (okmat : Bool) (hself : ∀ c, Keeps b (self c)) :
    Keeps b (declname self symtype okmat) := by
  unfold declname
  repeat (first
    | refine Keeps_ite b _ _ _ ?_ ?_
    | exact hself _
    | refine Keeps_bind b _ _ ?_ (fun _ => ?_)
    | split
    | exact Keeps_pure b _
    | exact Keeps_fail b
    | exact Keeps_ask b _
    | refine Keeps_whenP b _ _ ?_
    | exact Keeps_act b _ (fun s => by simp; done)
    | exact Keeps_eff b _ (fun s => by simp; done))

theorem keeps_creatematrix_bound (b : Bool) (self : Rec) (hself : ∀ c, Keeps b (self c)) :
    Keeps b (creatematrix_bound self) := by
  unfold creatematrix_bound
  repeat (first
    | refine Keeps_ite b _ _ _ ?_ ?_
    | exact hself _
    | refine Keeps_bind b _ _ ?_ (fun _ => ?_)
    | split
    | exact Keeps_pure b _
    | exact Keeps_fail b
    | exact Keeps_ask b _
    | refine Keeps_whenP b _ _ ?_
    | exact Keeps_act b _ (fun s => by simp; done)
    | exact Keeps_eff b _ (fun s => by simp; done))

theorem keeps_creatematrix_elem (b : Bool) (self : Rec) (hself : ∀ c, Keeps b (self c)) :
    Keeps b (creatematrix_elem self) := by
  unfold creatematrix_elem
  repeat (first
    | refine Keeps_ite b _ _ _ ?_ ?_
    | exact hself _
    | refine Keeps_bind b _ _ ?_ (fun _ => ?_)
    | split
    | exact Keeps_pure b _
    | exact Keeps_fail b
    | exact Keeps_ask b _
    | refine Keeps_whenP b _ _ ?_
    | exact Keeps_act b _ (fun s => by simp; done)
    | exact Keeps_eff b _ (fun s => by simp; done))

theorem keeps_initlisttail (b : Bool) (self : Rec) (hself : ∀ c, Keeps b (self c)) (k : Nat) :
    Keeps b (initlisttail self k) := by
  induction k with
  | zero =>
    exact Keeps_fail b
  | succ k ih =>
    unfold initlisttail
    repeat (first
      | refine Keeps_ite b _ _ _ ?_ ?_
      | exact hself _
      | exact ih _
      | exact ih
      | refine Keeps_bind b _ _ ?_ (fun _ => ?_)
      | split
      | exact Keeps_pure b _
      | exact Keeps_fail b
      | exact Keeps_ask b _
      | refine Keeps_whenP b _ _ ?_
      | exact Keeps_act b _ (fun s => by simp; done)
      | exact Keeps_eff b _ (fun s => by simp; done))

theorem keeps_getopassignment_rhs (b : Bool) (fuel : Nat) (self : Rec) (hself : ∀ c, Keeps b (self c)) :
    Keeps b (getopassignment_rhs fuel self) := by
  unfold getopassignment_rhs
  repeat (first
    | refine Keeps_ite b _ _ _ ?_ ?_
    | exact hself _
    | exact keeps_initlisttail b _ hself _
    | refine Keeps_bind b _ _ ?_ (fun _ => ?_)
    | split
    | exact Keeps_pure b _
    | exact Keeps_fail b
    | exact Keeps_ask b _
    | refine Keeps_whenP b _ _ ?_
    | exact Keeps_act b _ (fun s => by simp; done)
    | exact Keeps_eff b _ (fun s => by simp; done))

theorem keeps_getexprlist_loop (b : Bool) (self : Rec) (hself : ∀ c, Keeps b (self c)) (k : Nat) :
    ∀ (type : Int), Keeps b (getexprlist_loop self k type) := by
  induction k with
  | zero =>
    intro _
    exact Keeps_fail b
  | succ k ih =>
    intro _
    unfold getexprlist_loop
    repeat (first
      | refine Keeps_ite b _ _ _ ?_ ?_
      | exact hself _
      | exact ih _
      | exact ih
      | refine Keeps_bind b _ _ ?_ (fun _ => ?_)
      | split
      | exact Keeps_pure b _
      | exact Keeps_fail b
      | exact Keeps_ask b _
      | refine Keeps_whenP b _ _ ?_
      | exact Keeps_act b _ (fun s => by simp; done)
      | exact Keeps_eff b _ (fun s => by simp; done))

theorem keeps_getopassignment_loop (b : Bool) (fuel : Nat) (self : Rec) (hself : ∀ c, Keeps b (self c)) (k : Nat) :
    ∀ (op : Op), Keeps b (getopassignment_loop fuel self k op) := by
  induction k with
  | zero =>
    intro _
    exact Keeps_fail b
  | succ k ih =>
    intro _
    unfold getopassignment_loop
    repeat (first
      | refine Keeps_ite b _ _ _ ?_ ?_
      | exact hself _
      | exact ih _
      | exact ih
      | exact keeps_getopassignment_rhs b _ _ hself
      | refine Keeps_bind b _ _ ?_ (fun _ => ?_)
      | split
      | exact Keeps_pure b _
      | exact Keeps_fail b
      | exact Keeps_ask b _
      | refine Keeps_whenP b _ _ ?_
      | exact Keeps_act b _ (fun s => by simp; done)
      | exact Keeps_eff b _ (fun s => by simp; done))

theorem keeps_getorcond_loop (b : Bool) (self : Rec) (donelabel : Nat) (hself : ∀ c, Keeps b (self c)) (k : Nat) :
    ∀ (type : Int), Keeps b (getorcond_loop self donelabel k type) := by
  induction k with
  | zero =>
    intro _
    exact Keeps_fail b
  | succ k ih =>
    intro _
    unfold getorcond_loop
    repeat (first
      | refine Keeps_ite b _ _ _ ?_ ?_
      | exact hself _
      | exact ih _
      | exact ih
      | exact keeps_finishcond b _ _
      | refine Keeps_bind b _ _ ?_ (fun _ => ?_)
      | split
      | exact Keeps_pure b _
      | exact Keeps_fail b
      | exact Keeps_ask b _
      | refine Keeps_whenP b _ _ ?_
      | exact Keeps_act b _ (fun s => by simp; done)
      | exact Keeps_eff b _ (fun s => by simp; done))

theorem keeps_getandcond_loop (b : Bool) (self : Rec) (donelabel : Nat) (hself : ∀ c, Keeps b (self c)) (k : Nat) :
    ∀ (type : Int), Keeps b (getandcond_loop self donelabel k type) := by
  induction k with
  | zero =>
    intro _
    exact Keeps_fail b
  | succ k ih =>
    intro _
    unfold getandcond_loop
    repeat (first
      | refine Keeps_ite b _ _ _ ?_ ?_
      | exact hself _
      | exact ih _
      | exact ih
      | exact keeps_finishcond b _ _
      | refine Keeps_bind b _ _ ?_ (fun _ => ?_)
      | split
      | exact Keeps_pure b _
      | exact Keeps_fail b
      | exact Keeps_ask b _
      | refine Keeps_whenP b _ _ ?_
      | exact Keeps_act b _ (fun s => by simp; done)
      | exact Keeps_eff b _ (fun s => by simp; done))

theorem keeps_getsum_loop (b : Bool) (self : Rec) (hself : ∀ c, Keeps b (self c)) (k : Nat) :
    ∀ (type : Int), Keeps b (getsum_loop self k type) := by
  induction k with
  | zero =>
    intro _
    exact Keeps_fail b
  | succ k ih =>
    intro _
    unfold getsum_loop
    repeat (first
      | refine Keeps_ite b _ _ _ ?_ ?_
      | exact hself _
      | exact ih _
      | exact ih
      | refine Keeps_bind b _ _ ?_ (fun _ => ?_)
      | split
      | exact Keeps_pure b _
      | exact Keeps_fail b
      | exact Keeps_ask b _
      | refine Keeps_whenP b _ _ ?_
      | exact Keeps_act b _ (fun s => by simp; done)
      | exact Keeps_eff b _ (fun s => by simp; done))

theorem keeps_getproduct_loop (b : Bool) (self : Rec) (hself : ∀ c, Keeps b (self c)) (k : Nat) :
    ∀ (type : Int), Keeps b (getproduct_loop self k type) := by
  induction k with
  | zero =>
    intro _
    exact Keeps_fail b
  | succ k ih =>
    intro _
    unfold getproduct_loop
    repeat (first
      | refine Keeps_ite b _ _ _ ?_ ?_
      | exact hself _
      | exact ih _
      | exact ih
      | refine Keeps_bind b _ _ ?_ (fun _ => ?_)
      | split
      | exact Keeps_pure b _
      | exact Keeps_fail b
      | exact Keeps_ask b _
      | refine Keeps_whenP b _ _ ?_
      | exact Keeps_act b _ (fun s => by simp; done)
      | exact Keeps_eff b _ (fun s => by simp; done))

theorem keeps_getorexpr_loop (b : Bool) (self : Rec) (hself : ∀ c, Keeps b (self c)) (k : Nat) :
    ∀ (type : Int), Keeps b (getorexpr_loop self k type) := by
  induction k with
  | zero =>
    intro _
    exact Keeps_fail b
  | succ k ih =>
    intro _
    unfold getorexpr_loop
    repeat (first
      | refine Keeps_ite b _ _ _ ?_ ?_
      | exact hself _
      | exact ih _
      | exact ih
      | refine Keeps_bind b _ _ ?_ (fun _ => ?_)
      | split
      | exact Keeps_pure b _
      | exact Keeps_fail b
      | exact Keeps_ask b _
      | refine Keeps_whenP b _ _ ?_
      | exact Keeps_act b _ (fun s => by simp; done)
      | exact Keeps_eff b _ (fun s => by simp; done))

theorem keeps_getandexpr_loop (b : Bool) (self : Rec) (hself : ∀ c, Keeps b (self c)) (k : Nat) :
    ∀ (type : Int), Keeps b (getandexpr_loop self k type) := by
  induction k with
  | zero =>
    intro _
    exact Keeps_fail b
  | succ k ih =>
    intro _
    unfold getandexpr_loop
    repeat (first
      | refine Keeps_ite b _ _ _ ?_ ?_
      | exact hself _
      | exact ih _
      | exact ih
      | refine Keeps_bind b _ _ ?_ (fun _ => ?_)
      | split
      | exact Keeps_pure b _
      | exact Keeps_fail b
      | exact Keeps_ask b _
      | refine Keeps_whenP b _ _ ?_
      | exact Keeps_act b _ (fun s => by simp; done)
      | exact Keeps_eff b _ (fun s => by simp; done))

theorem keeps_getincdecexpr_loop (b : Bool)  (k : Nat) :
    Keeps b (getincdecexpr_loop k) := by
  induction k with
  | zero =>
    exact Keeps_fail b
  | succ k ih =>
    unfold getincdecexpr_loop
    repeat (first
      | refine Keeps_ite b _ _ _ ?_ ?_
      | exact hself _
      | exact ih _
      | exact ih
      | refine Keeps_bind b _ _ ?_ (fun _ => ?_)
      | split
      | exact Keeps_pure b _
      | exact Keeps_fail b
      | exact Keeps_ask b _
      | refine Keeps_whenP b _ _ ?_
      | exact Keeps_act b _ (fun s => by simp; done)
      | exact Keeps_eff b _ (fun s => by simp; done))

theorem keeps_getterm_loop (b : Bool) (self : Rec) (hself : ∀ c, Keeps b (self c)) (k : Nat) :
    Keeps b (getterm_loop self k) := by
  induction k with
  | zero =>
    exact Keeps_fail b
  | succ k ih =>
    unfold getterm_loop
    repeat (first
      | refine Keeps_ite b _ _ _ ?_ ?_
      | exact hself _
      | exact ih _
      | exact ih
      | refine Keeps_bind b _ _ ?_ (fun _ => ?_)
      | split
      | exact Keeps_pure b _
      | exact Keeps_fail b
      | exact Keeps_ask b _
      | refine Keeps_whenP b _ _ ?_
      | exact Keeps_act b _ (fun s => by simp; done)
      | exact Keeps_eff b _ (fun s => by simp; done))

theorem keeps_getterm_mat (b : Bool) (self : Rec) (hself : ∀ c, Keeps b (self c)) (k : Nat) :
    Keeps b (getterm_mat self k) := by
  induction k with
  | zero =>
    exact Keeps_fail b
  | succ k ih =>
    unfold getterm_mat
    repeat (first
      | refine Keeps_ite b _ _ _ ?_ ?_
      | exact hself _
      | exact ih _
      | exact ih
      | refine Keeps_bind b _ _ ?_ (fun _ => ?_)
      | split
      | exact Keeps_pure b _
      | exact Keeps_fail b
      | exact Keeps_ask b _
      | refine Keeps_whenP b _ _ ?_
      | exact Keeps_act b _ (fun s => by simp; done)
      | exact Keeps_eff b _ (fun s => by simp; done))

theorem keeps_getidexpr_loop (b : Bool) (self : Rec) (okmat : Bool) (hself : ∀ c, Keeps b (self c)) (k : Nat) :
    Keeps b (getidexpr_loop self okmat k) := by
  induction k with
  | zero =>
    exact Keeps_fail b
  | succ k ih =>
    unfold getidexpr_loop
    repeat (first
      | refine Keeps_ite b _ _ _ ?_ ?_
      | exact hself _
      | exact ih _
      | exact ih
      | refine Keeps_bind b _ _ ?_ (fun _ => ?_)
      | split
      | exact Keeps_pure b _
      | exact Keeps_fail b
      | exact Keeps_ask b _
      | refine Keeps_whenP b _ _ ?_
      | exact Keeps_act b _ (fun s => by simp; done)
      | exact Keeps_eff b _ (fun s => by simp; done))

theorem keeps_getmatargs_loop (b : Bool) (self : Rec) (hself : ∀ c, Keeps b (self c)) (k : Nat) :
    ∀ (dim : Int), Keeps b (getmatargs_loop self k dim) := by
  induction k with
  | zero =>
    intro _
    exact Keeps_fail b
  | succ k ih =>
    intro _
    unfold getmatargs_loop
    repeat (first
      | refine Keeps_ite b _ _ _ ?_ ?_
      | exact hself _
      | exact ih _
      | exact ih
      | refine Keeps_bind b _ _ ?_ (fun _ => ?_)
      | split
      | exact Keeps_pure b _
      | exact Keeps_fail b
      | exact Keeps_ask b _
      | refine Keeps_whenP b _ _ ?_
      | exact Keeps_act b _ (fun s => by simp; done)
      | exact Keeps_eff b _ (fun s => by simp; done))

theorem keeps_getcallargs_loop (self : Rec) (name : String) (op : Op) (index : Int) (hself : ∀ c, Keeps true (self c)) (k : Nat) :
    ∀ (argcount : Int), Keeps true (getcallargs_loop self name op index k argcount) := by
  induction k with
  | zero =>
    intro _
    exact Keeps_fail true
  | succ k ih =>
    intro _
    unfold getcallargs_loop
    repeat (first
      | refine Keeps_ite true _ _ _ ?_ ?_
      | exact hself _
      | exact ih _
      | exact ih
      | exact keeps_endcall true _ _ _
      | refine Keeps_bind true _ _ ?_ (fun _ => ?_)
      | split
      | exact Keeps_pure true _
      | exact Keeps_fail true
      | exact Keeps_ask true _
      | refine Keeps_whenP true _ _ ?_
      | exact Keeps_act true _ (fun s => mono_writeindexop s)
      | exact Keeps_act true _ (fun s => by simp; done)
      | exact Keeps_eff true _ (fun s => by simp; done))

theorem keeps_getinitlist_loop (b : Bool) (self : Rec) (oldmode : Int) (hself : ∀ c, Keeps b (self c)) (k : Nat) :
    ∀ (index : Int), Keeps b (getinitlist_loop self oldmode k index) := by
  induction k with
  | zero =>
    intro _
    exact Keeps_fail b
  | succ k ih =>
    intro _
    unfold getinitlist_loop
    repeat (first
      | refine Keeps_ite b _ _ _ ?_ ?_
      | exact hself _
      | exact ih _
      | exact ih
      | exact keeps_getinitlist_elem b _ _ _ hself
      | refine Keeps_bind b _ _ ?_ (fun _ => ?_)
      | split
      | exact Keeps_pure b _
      | exact Keeps_fail b
      | exact Keeps_ask b _
      | refine Keeps_whenP b _ _ ?_
      | exact Keeps_act b _ (fun s => by simp; done)
      | exact Keeps_eff b _ (fun s => by simp; done))

theorem keeps_skipcommas (b : Bool)  (k : Nat) :
    Keeps b (skipcommas k) := by
  induction k with
  | zero =>
    exact Keeps_fail b
  | succ k ih =>
    unfold skipcommas
    repeat (first
      | refine Keeps_ite b _ _ _ ?_ ?_
      | exact hself _
      | exact ih _
      | exact ih
      | refine Keeps_bind b _ _ ?_ (fun _ => ?_)
      | split
      | exact Keeps_pure b _
      | exact Keeps_fail b
      | exact Keeps_ask b _
      | refine Keeps_whenP b _ _ ?_
      | exact Keeps_act b _ (fun s => by simp; done)
      | exact Keeps_eff b _ (fun s => by simp; done))

theorem keeps_creatematrix_loop (b : Bool) (self : Rec) (hself : ∀ c, Keeps b (self c)) (k : Nat) :
    ∀ (dim : Int), Keeps b (creatematrix_loop self k dim) := by
  induction k with
  | zero =>
    intro _
    exact Keeps_fail b
  | succ k ih =>
    intro _
    unfold creatematrix_loop
    repeat (first
      | refine Keeps_ite b _ _ _ ?_ ?_
      | exact hself _
      | exact ih _
      | exact ih
      | exact keeps_creatematrix_bound b _ hself
      | exact keeps_creatematrix_elem b _ hself
      | refine Keeps_bind b _ _ ?_ (fun _ => ?_)
      | split
      | exact Keeps_pure b _
      | exact Keeps_fail b
      | exact Keeps_ask b _
      | refine Keeps_whenP b _ _ ?_
      | exact Keeps_act b _ (fun s => by simp; done)
      | exact Keeps_eff b _ (fun s => by simp; done))

theorem keeps_getobjdeclaration_loop (b : Bool) (self : Rec) (name : String) (symtype : SymType) (oldmode : Int) (hself : ∀ c, Keeps b (self c)) (k : Nat) :
    ∀ (indices : List Int), Keeps b (getobjdeclaration_loop self name symtype oldmode k indices) := by
  induction k with
  | zero =>
    intro _
    exact Keeps_fail b
  | succ k ih =>
    intro _
    unfold getobjdeclaration_loop
    repeat (first
      | refine Keeps_ite b _ _ _ ?_ ?_
      | exact hself _
      | exact ih _
      | exact ih
      | exact keeps_getobjdeclaration_error b _ _
      | exact keeps_getobjdeclaration_define b _ _ _ _ _ hself
      | refine Keeps_bind b _ _ ?_ (fun _ => ?_)
      | split
      | exact Keeps_pure b _
      | exact Keeps_fail b
      | exact Keeps_ask b _
      | refine Keeps_whenP b _ _ ?_
      | exact Keeps_act b _ (fun s => by simp; done)
      | exact Keeps_eff b _ (fun s => by simp; done))

theorem keeps_getobjvars_loop (b : Bool) (self : Rec) (index : Int) (symtype : SymType) (hself : ∀ c, Keeps b (self c)) (k : Nat) :
    Keeps b (getobjvars_loop self index symtype k) := by
  induction k with
  | zero =>
    exact Keeps_fail b
  | succ k ih =>
    unfold getobjvars_loop
    repeat (first
      | refine Keeps_ite b _ _ _ ?_ ?_
      | exact hself _
      | exact ih _
      | exact ih
      | refine Keeps_bind b _ _ ?_ (fun _ => ?_)
      | split
      | exact Keeps_pure b _
      | exact Keeps_fail b
      | exact Keeps_ask b _
      | refine Keeps_whenP b _ _ ?_
      | exact Keeps_act b _ (fun s => by simp; done)
      | exact Keeps_eff b _ (fun s => by simp; done))

theorem keeps_getmatdeclaration_loop (b : Bool) (self : Rec) (symtype : SymType) (hself : ∀ c, Keeps b (self c)) (k : Nat) :
    Keeps b (getmatdeclaration_loop self symtype k) := by
  induction k with
  | zero =>
    exact Keeps_fail b
  | succ k ih =>
    unfold getmatdeclaration_loop
    repeat (first
      | refine Keeps_ite b _ _ _ ?_ ?_
      | exact hself _
      | exact ih _
      | exact ih
      | refine Keeps_bind b _ _ ?_ (fun _ => ?_)
      | split
      | exact Keeps_pure b _
      | exact Keeps_fail b
      | exact Keeps_ask b _
      | refine Keeps_whenP b _ _ ?_
      | exact Keeps_act b _ (fun s => by simp; done)
      | exact Keeps_eff b _ (fun s => by simp; done))

theorem keeps_getdeclarations_loop (b : Bool) (self : Rec) (symtype : SymType) (hself : ∀ c, Keeps b (self c)) (k : Nat) :
    Keeps b (getdeclarations_loop self symtype k) := by
  induction k with
  | zero =>
    exact Keeps_fail b
  | succ k ih =>
    unfold getdeclarations_loop
    repeat (first
      | refine Keeps_ite b _ _ _ ?_ ?_
      | exact hself _
      | exact ih _
      | exact ih
      | refine Keeps_bind b _ _ ?_ (fun _ => ?_)
      | split
      | exact Keeps_pure b _
      | exact Keeps_fail b
      | exact Keeps_ask b _
      | refine Keeps_whenP b _ _ ?_
      | exact Keeps_act b _ (fun s => by simp; done)
      | exact Keeps_eff b _ (fun s => by simp; done))

theorem keeps_getsimpledeclaration_loop (b : Bool) (self : Rec) (symtype : SymType) (hself : ∀ c, Keeps b (self c)) (k : Nat) :
    Keeps b (getsimpledeclaration_loop self symtype k) := by
  induction k with
  | zero =>
    exact Keeps_fail b
  | succ k ih =>
    unfold getsimpledeclaration_loop
    repeat (first
      | refine Keeps_ite b _ _ _ ?_ ?_
      | exact hself _
      | exact ih _
      | exact ih
      | refine Keeps_bind b _ _ ?_ (fun _ => ?_)
      | split
      | exact Keeps_pure b _
      | exact Keeps_fail b
      | exact Keeps_ask b _
      | refine Keeps_whenP b _ _ ?_
      | exact Keeps_act b _ (fun s => by simp; done)
      | exact Keeps_eff b _ (fun s => by simp; done))

theorem keeps_getassignment_tail (fuel : Nat) (self : Rec) (type : Int) (hself : ∀ c, Keeps true (self c)) :
    Keeps true (getassignment_tail fuel self type) := by
  unfold getassignment_tail
  repeat (first
    | refine Keeps_ite true _ _ _ ?_ ?_
    | exact hself _
    | exact keeps_initlisttail true _ hself _
    | refine Keeps_bind true _ _ ?_ (fun _ => ?_)
    | split
    | exact Keeps_pure true _
    | exact Keeps_fail true
    | exact Keeps_ask true _
    | refine Keeps_whenP true _ _ ?_
    | exact Keeps_act true _ (fun s => mono_writeindexop s)
    | exact Keeps_act true _ (fun s => by simp; done)
    | exact Keeps_eff true _ (fun s => by simp; done))

theorem keeps_getterm_head (fuel : Nat) (self : Rec) (hself : ∀ c, Keeps true (self c)) :
    Keeps true (getterm_head fuel self) := by
  unfold getterm_head
  repeat (first
    | refine Keeps_ite true _ _ _ ?_ ?_
    | exact hself _
    | exact keeps_getterm_mat true _ hself _
    | refine Keeps_bind true _ _ ?_ (fun _ => ?_)
    | split
    | exact Keeps_pure true _
    | exact Keeps_fail true
    | exact Keeps_ask true _
    | refine Keeps_whenP true _ _ ?_
    | exact Keeps_act true _ (fun s => mono_writeindexop s)
    | exact Keeps_act true _ (fun s => by simp; done)
    | exact Keeps_eff true _ (fun s => by simp; done))

theorem keeps_getstatement_end (b : Bool)  (k : Nat) :
    Keeps b (getstatement_end k) := by
  induction k with
  | zero =>
    exact Keeps_fail b
  | succ k ih =>
    unfold getstatement_end
    repeat (first
      | refine Keeps_ite b _ _ _ ?_ ?_
      | exact hself _
      | exact ih _
      | exact ih
      | refine Keeps_bind b _ _ ?_ (fun _ => ?_)
      | split
      | exact Keeps_pure b _
      | exact Keeps_fail b
      | exact Keeps_ask b _
      | refine Keeps_whenP b _ _ ?_
      | exact Keeps_act b _ (fun s => by simp; done)
      | exact Keeps_eff b _ (fun s => by simp; done))

theorem keeps_getstatement_expr (b : Bool) (fuel : Nat) (self : Rec) (c1 b1 : Option Nat) (hself : ∀ c, Keeps b (self c)) :
    Keeps b (getstatement_expr fuel self c1 b1) := by
  unfold getstatement_expr
  repeat (first
    | refine Keeps_ite b _ _ _ ?_ ?_
    | exact hself _
    | exact keeps_getstatement_end b _
    | refine Keeps_bind b _ _ ?_ (fun _ => ?_)
    | split
    | exact Keeps_pure b _
    | exact Keeps_fail b
    | exact Keeps_ask b _
    | refine Keeps_whenP b _ _ ?_
    | exact Keeps_act b _ (fun s => by simp; done)
    | exact Keeps_eff b _ (fun s => by simp; done))

theorem keeps_getstatement_symbol (b : Bool) (fuel : Nat) (self : Rec) (c1 b1 : Option Nat) (hself : ∀ c, Keeps b (self c)) :
    Keeps b (getstatement_symbol fuel self c1 b1) := by
  unfold getstatement_symbol
  repeat (first
    | refine Keeps_ite b _ _ _ ?_ ?_
    | exact hself _
    | exact keeps_getstatement_expr b _ _ _ _ hself
    | refine Keeps_bind b _ _ ?_ (fun _ => ?_)
    | split
    | exact Keeps_pure b _
    | exact Keeps_fail b
    | exact Keeps_ask b _
    | refine Keeps_whenP b _ _ ?_
    | exact Keeps_act b _ (fun s => by simp; done)
    | exact Keeps_eff b _ (fun s => by simp; done))

theorem keeps_getstatement_return (b : Bool) (fuel : Nat) (self : Rec) (hself : ∀ c, Keeps b (self c)) :
    Keeps b (getstatement_return fuel self) := by
  unfold getstatement_return
  repeat (first
    | refine Keeps_ite b _ _ _ ?_ ?_
    | exact hself _
    | exact keeps_getstatement_end b _
    | refine Keeps_bind b _ _ ?_ (fun _ => ?_)
    | split
    | exact Keeps_pure b _
    | exact Keeps_fail b
    | exact Keeps_ask b _
    | refine Keeps_whenP b _ _ ?_
    | exact Keeps_act b _ (fun s => by simp; done)
    | exact Keeps_eff b _ (fun s => by simp; done))

theorem keeps_getstatement_ifend (b : Bool) (self : Rec) (c1 b1 : Option Nat) (hself : ∀ c, Keeps b (self c)) :
    Keeps b (getstatement_ifend self c1 b1) := by
  unfold getstatement_ifend
  repeat (first
    | refine Keeps_ite b _ _ _ ?_ ?_
    | exact hself _
    | refine Keeps_bind b _ _ ?_ (fun _ => ?_)
    | split
    | exact Keeps_pure b _
    | exact Keeps_fail b
    | exact Keeps_ask b _
    | refine Keeps_whenP b _ _ ?_
    | exact Keeps_act b _ (fun s => by simp; done)
    | exact Keeps_eff b _ (fun s => by simp; done))

theorem keeps_getstatement_if (b : Bool) (self : Rec) (c1 b1 : Option Nat) (l1 l2 : Nat) (hself : ∀ c, Keeps b (self c)) :
    Keeps b (getstatement_if self c1 b1 l1 l2) := by
  unfold getstatement_if
  repeat (first
    | refine Keeps_ite b _ _ _ ?_ ?_
    | exact hself _
    | exact keeps_getstatement_ifend b _ _ _ hself
    | refine Keeps_bind b _ _ ?_ (fun _ => ?_)
    | split
    | exact Keeps_pure b _
    | exact Keeps_fail b
    | exact Keeps_ask b _
    | refine Keeps_whenP b _ _ ?_
    | exact Keeps_act b _ (fun s => by simp; done)
    | exact Keeps_eff b _ (fun s => by simp; done))

theorem keeps_getstatement_error (b : Bool) (oldmode : Int) (msg : String) :
    Keeps b (getstatement_error oldmode msg) := by
  unfold getstatement_error
  repeat (first
    | refine Keeps_ite b _ _ _ ?_ ?_
    | exact hself _
    | refine Keeps_bind b _ _ ?_ (fun _ => ?_)
    | split
    | exact Keeps_pure b _
    | exact Keeps_fail b
    | exact Keeps_ask b _
    | refine Keeps_whenP b _ _ ?_
    | exact Keeps_act b _ (fun s => by simp; done)
    | exact Keeps_eff b _ (fun s => by simp; done))

theorem keeps_getstatement_for_body (b : Bool) (self : Rec) (oldmode : Int) (l3 l4 : Nat) (c1 : Option Nat) (hself : ∀ c, Keeps b (self c)) :
    Keeps b (getstatement_for_body self oldmode l3 l4 c1) := by
  unfold getstatement_for_body
  repeat (first
    | refine Keeps_ite b _ _ _ ?_ ?_
    | exact hself _
    | refine Keeps_bind b _ _ ?_ (fun _ => ?_)
    | split
    | exact Keeps_pure b _
    | exact Keeps_fail b
    | exact Keeps_ask b _
    | refine Keeps_whenP b _ _ ?_
    | exact Keeps_act b _ (fun s => by simp; done)
    | exact Keeps_eff b _ (fun s => by simp; done))

theorem keeps_getstatement_for_c (b : Bool) (self : Rec) (oldmode : Int) (l1 l2 l3 l4 : Nat) (c1 : Option Nat) (hself : ∀ c, Keeps b (self c)) :
    Keeps b (getstatement_for_c self oldmode l1 l2 l3 l4 c1) := by
  unfold getstatement_for_c
  repeat (first
    | refine Keeps_ite b _ _ _ ?_ ?_
    | exact hself _
    | exact keeps_getstatement_error b _ _
    | exact keeps_getstatement_for_body b _ _ _ _ _ hself
    | refine Keeps_bind b _ _ ?_ (fun _ => ?_)
    | split
    | exact Keeps_pure b _
    | exact Keeps_fail b
    | exact Keeps_ask b _
    | refine Keeps_whenP b _ _ ?_
    | exact Keeps_act b _ (fun s => by simp; done)
    | exact Keeps_eff b _ (fun s => by simp; done))

theorem keeps_getstatement_for_b (b : Bool) (self : Rec) (oldmode : Int) (l1 l2 l3 l4 : Nat) (hself : ∀ c, Keeps b (self c)) :
    Keeps b (getstatement_for_b self oldmode l1 l2 l3 l4) := by
  unfold getstatement_for_b
  repeat (first
    | refine Keeps_ite b _ _ _ ?_ ?_
    | exact hself _
    | exact keeps_getstatement_error b _ _
    | exact keeps_getstatement_for_c b _ _ _ _ _ _ _ hself
    | refine Keeps_bind b _ _ ?_ (fun _ => ?_)
    | split
    | exact Keeps_pure b _
    | exact Keeps_fail b
    | exact Keeps_ask b _
    | refine Keeps_whenP b _ _ ?_
    | exact Keeps_act b _ (fun s => by simp; done)
    | exact Keeps_eff b _ (fun s => by simp; done))

theorem keeps_getstatement_for (b : Bool) (self : Rec) (l1 l2 l3 l4 : Nat)
    (hself : ∀ c, Keeps b (self c)) :
    Keeps b (getstatement_for self l1 l2 l3 l4) := by
  have hact : ∀ f : State → State, (∀ s, Mono b s (f s)) → Keeps b (act f) :=
    fun f h => Keeps_act b f h
  have heff : ∀ {α : Type} (f : State → α × State), (∀ s, Mono b s (f s).2) → Keeps b (eff f) :=
    fun f h => Keeps_eff b f h
  unfold getstatement_for
  refine Keeps_bind b _ _ (heff _ (fun s => by simp)) (fun oldmode => ?_)
  refine Keeps_bind b _ _ (hact _ (fun s => by simp)) (fun _ => ?_)
  refine Keeps_bind b _ _ (hact _ (fun s => by simp)) (fun _ => ?_)
  refine Keeps_bind b _ _ (hact _ (fun s => by simp)) (fun _ => ?_)
  refine Keeps_bind b _ _ (hact _ (fun s => by simp)) (fun _ => ?_)
  refine Keeps_bind b _ _ (heff _ (fun s => by simp)) (fun t => ?_)
  refine Keeps_ite b _ _ _ (keeps_getstatement_error b _ _) ?_
  refine Keeps_bind b _ _ (heff _ (fun s => by simp)) (fun t1 => ?_)
  refine Keeps_ite b _ _ _ ?_ (keeps_getstatement_for_b b _ _ _ _ _ _ hself)
  refine Keeps_bind b _ _ (hact _ (fun s => by simp)) (fun _ => ?_)
  refine Keeps_bind b _ _ (hself _) (fun _ => ?_)
  refine Keeps_bind b _ _ (hact _ (fun s => by simp)) (fun _ => ?_)
  refine Keeps_bind b _ _ (heff _ (fun s => by simp)) (fun t2 => ?_)
  exact Keeps_ite b _ _ _ (keeps_getstatement_error b _ _)
    (keeps_getstatement_for_b b _ _ _ _ _ _ hself)

theorem keeps_getstatement_while (b : Bool) (self : Rec) (l1 l2 : Nat) (hself : ∀ c, Keeps b (self c)) :
    Keeps b (getstatement_while self l1 l2) := by
  unfold getstatement_while
  repeat (first
    | refine Keeps_ite b _ _ _ ?_ ?_
    | exact hself _
    | refine Keeps_bind b _ _ ?_ (fun _ => ?_)
    | split
    | exact Keeps_pure b _
    | exact Keeps_fail b
    | exact Keeps_ask b _
    | refine Keeps_whenP b _ _ ?_
    | exact Keeps_act b _ (fun s => by simp; done)
    | exact Keeps_eff b _ (fun s => by simp; done))

theorem keeps_getstatement_do (b : Bool) (self : Rec) (l1 l2 l3 : Nat) (hself : ∀ c, Keeps b (self c)) :
    Keeps b (getstatement_do self l1 l2 l3) := by
  unfold getstatement_do
  repeat (first
    | refine Keeps_ite b _ _ _ ?_ ?_
    | exact hself _
    | exact keeps_getstatement_error b _ _
    | refine Keeps_bind b _ _ ?_ (fun _ => ?_)
    | split
    | exact Keeps_pure b _
    | exact Keeps_fail b
    | exact Keeps_ask b _
    | refine Keeps_whenP b _ _ ?_
    | exact Keeps_act b _ (fun s => by simp; done)
    | exact Keeps_eff b _ (fun s => by simp; done))

theorem keeps_getstatement_switch (b : Bool) (self : Rec) (c1 : Option Nat) (l1 l2 l3 : Nat) (hself : ∀ c, Keeps b (self c)) :
    Keeps b (getstatement_switch self c1 l1 l2 l3) := by
  unfold getstatement_switch
  repeat (first
    | refine Keeps_ite b _ _ _ ?_ ?_
    | exact hself _
    | exact keeps_getstatement_error b _ _
    | refine Keeps_bind b _ _ ?_ (fun _ => ?_)
    | split
    | exact Keeps_pure b _
    | exact Keeps_fail b
    | exact Keeps_ask b _
    | refine Keeps_whenP b _ _ ?_
    | exact Keeps_act b _ (fun s => by simp; done)
    | exact Keeps_eff b _ (fun s => by simp; done))

theorem keeps_getstatement_case (b : Bool) (self : Rec) (c1 b1 n1 d1 : Option Nat) (l1 : Nat) (hself : ∀ c, Keeps b (self c)) :
    Keeps b (getstatement_case self c1 b1 n1 d1 l1) := by
  unfold getstatement_case
  repeat (first
    | refine Keeps_ite b _ _ _ ?_ ?_
    | exact hself _
    | refine Keeps_bind b _ _ ?_ (fun _ => ?_)
    | split
    | exact Keeps_pure b _
    | exact Keeps_fail b
    | exact Keeps_ask b _
    | refine Keeps_whenP b _ _ ?_
    | exact Keeps_act b _ (fun s => by simp; done)
    | exact Keeps_eff b _ (fun s => by simp; done))

theorem keeps_getstatement_default (b : Bool) (self : Rec) (c1 b1 n1 d1 : Option Nat) (l1 : Nat) (hself : ∀ c, Keeps b (self c)) :
    Keeps b (getstatement_default self c1 b1 n1 d1 l1) := by
  unfold getstatement_default
  repeat (first
    | refine Keeps_ite b _ _ _ ?_ ?_
    | exact hself _
    | refine Keeps_bind b _ _ ?_ (fun _ => ?_)
    | split
    | exact Keeps_pure b _
    | exact Keeps_fail b
    | exact Keeps_ask b _
    | refine Keeps_whenP b _ _ ?_
    | exact Keeps_act b _ (fun s => by simp; done)
    | exact Keeps_eff b _ (fun s => by simp; done))

theorem keeps_getstatement_print (b : Bool) (self : Rec) (hself : ∀ c, Keeps b (self c)) (k : Nat) :
    ∀ (printeol : Bool), Keeps b (getstatement_print self k printeol) := by
  induction k with
  | zero =>
    intro _
    exact Keeps_fail b
  | succ k ih =>
    intro _
    unfold getstatement_print
    repeat (first
      | refine Keeps_ite b _ _ _ ?_ ?_
      | exact hself _
      | exact ih _
      | exact ih
      | refine Keeps_bind b _ _ ?_ (fun _ => ?_)
      | split
      | exact Keeps_pure b _
      | exact Keeps_fail b
      | exact Keeps_ask b _
      | refine Keeps_whenP b _ _ ?_
      | exact Keeps_act b _ (fun s => by simp; done)
      | exact Keeps_eff b _ (fun s => by simp; done))

theorem keeps_getstatement_quit (b : Bool) (fuel : Nat) (op : Op) :
    Keeps b (getstatement_quit fuel op) := by
  unfold getstatement_quit
  repeat (first
    | refine Keeps_ite b _ _ _ ?_ ?_
    | exact hself _
    | exact keeps_getstatement_end b _
    | refine Keeps_bind b _ _ ?_ (fun _ => ?_)
    | split
    | exact Keeps_pure b _
    | exact Keeps_fail b
    | exact Keeps_ask b _
    | refine Keeps_whenP b _ _ ?_
    | exact Keeps_act b _ (fun s => by simp; done)
    | exact Keeps_eff b _ (fun s => by simp; done))

theorem keeps_getbody_loop (b : Bool) (self : Rec) (oldmode : Int) (c1 b1 n1 d1 : Option Nat) (hself : ∀ c, Keeps b (self c)) (k : Nat) :
    Keeps b (getbody_loop self oldmode c1 b1 n1 d1 k) := by
  induction k with
  | zero =>
    exact Keeps_fail b
  | succ k ih =>
    unfold getbody_loop
    repeat (first
      | refine Keeps_ite b _ _ _ ?_ ?_
      | exact hself _
      | exact ih _
      | exact ih
      | refine Keeps_bind b _ _ ?_ (fun _ => ?_)
      | split
      | exact Keeps_pure b _
      | exact Keeps_fail b
      | exact Keeps_ask b _
      | refine Keeps_whenP b _ _ ?_
      | exact Keeps_act b _ (fun s => by simp; done)
      | exact Keeps_eff b _ (fun s => by simp; done))

theorem keeps_getbody (b : Bool) (fuel : Nat) (self : Rec) (c1 b1 n1 d1 : Option Nat) (hself : ∀ c, Keeps b (self c)) :
    Keeps b (getbody fuel self c1 b1 n1 d1) := by
  unfold getbody
  repeat (first
    | refine Keeps_ite b _ _ _ ?_ ?_
    | exact hself _
    | exact keeps_getbody_loop b _ _ _ _ _ _ hself _
    | refine Keeps_bind b _ _ ?_ (fun _ => ?_)
    | split
    | exact Keeps_pure b _
    | exact Keeps_fail b
    | exact Keeps_ask b _
    | refine Keeps_whenP b _ _ ?_
    | exact Keeps_act b _ (fun s => by simp; done)
    | exact Keeps_eff b _ (fun s => by simp; done))

theorem keeps_getdeclarations (b : Bool) (fuel : Nat) (self : Rec) (symtype : SymType) (hself : ∀ c, Keeps b (self c)) :
    Keeps b (getdeclarations fuel self symtype) := by
  unfold getdeclarations
  repeat (first
    | refine Keeps_ite b _ _ _ ?_ ?_
    | exact hself _
    | exact keeps_getdeclarations_loop b _ _ hself _
    | refine Keeps_bind b _ _ ?_ (fun _ => ?_)
    | split
    | exact Keeps_pure b _
    | exact Keeps_fail b
    | exact Keeps_ask b _
    | refine Keeps_whenP b _ _ ?_
    | exact Keeps_act b _ (fun s => by simp; done)
    | exact Keeps_eff b _ (fun s => by simp; done))

theorem keeps_getsimpledeclaration (b : Bool) (fuel : Nat) (self : Rec) (symtype : SymType) (hself : ∀ c, Keeps b (self c)) :
    Keeps b (getsimpledeclaration fuel self symtype) := by
  unfold getsimpledeclaration
  repeat (first
    | refine Keeps_ite b _ _ _ ?_ ?_
    | exact hself _
    | exact keeps_getsimpledeclaration_loop b _ _ hself _
    | refine Keeps_bind b _ _ ?_ (fun _ => ?_)
    | split
    | exact Keeps_pure b _
    | exact Keeps_fail b
    | exact Keeps_ask b _
    | refine Keeps_whenP b _ _ ?_
    | exact Keeps_act b _ (fun s => by simp; done)
    | exact Keeps_eff b _ (fun s => by simp; done))

theorem keeps_getonevariable (b : Bool) (self : Rec) (symtype : SymType) (hself : ∀ c, Keeps b (self c)) :
    Keeps b (getonevariable self symtype) := by
  unfold getonevariable
  repeat (first
    | refine Keeps_ite b _ _ _ ?_ ?_
    | exact hself _
    | refine Keeps_bind b _ _ ?_ (fun _ => ?_)
    | split
    | exact Keeps_pure b _
    | exact Keeps_fail b
    | exact Keeps_ask b _
    | refine Keeps_whenP b _ _ ?_
    | exact Keeps_act b _ (fun s => by simp; done)
    | exact Keeps_eff b _ (fun s => by simp; done))

theorem keeps_getstatement (b : Bool) (fuel : Nat) (self : Rec) (c1 b1 n1 d1 : Option Nat)
    (hself : ∀ c, Keeps b (self c)) :
    Keeps b (getstatement fuel self c1 b1 n1 d1) := by
  have hend := keeps_getstatement_end b fuel
  have hact : ∀ f : State → State, (∀ s, Mono b s (f s)) → Keeps b (act f) :=
    fun f h => Keeps_act b f h
  unfold getstatement
  refine Keeps_bind b _ _ (Keeps_eff b _ (fun s => by simp)) (fun label => ?_)
  refine Keeps_bind b _ _ (Keeps_act b _ (fun s => by simp)) (fun _ => ?_)
  refine Keeps_bind b _ _ (Keeps_eff b _ (fun s => by simp)) (fun t => ?_)
  refine Keeps_ite b _ _ _ (Keeps_pure b _) ?_
  refine Keeps_ite b _ _ _ (Keeps_bind b _ _ (hself _) (fun _ => hend)) ?_
  refine Keeps_ite b _ _ _ ?_ ?_
  · exact Keeps_bind b _ _ (hact _ (fun s => by simp)) (fun _ =>
      Keeps_bind b _ _ (hact _ (fun s => by simp)) (fun _ =>
        Keeps_bind b _ _ (hself _) (fun _ =>
          Keeps_bind b _ _ (hact _ (fun s => by simp)) (fun _ => hend))))
  refine Keeps_ite b _ _ _ (Keeps_bind b _ _ (hself _) (fun _ => hend)) ?_
  refine Keeps_ite b _ _ _
    (Keeps_bind b _ _ (hact _ (fun s => by simp)) (fun _ => Keeps_pure b _)) ?_
  refine Keeps_ite b _ _ _ ?_ ?_
  · cases c1 with
    | none => exact Keeps_bind b _ _ (hact _ (fun s => by simp)) (fun _ => Keeps_pure b _)
    | some l => exact Keeps_bind b _ _ (hact _ (fun s => by simp)) (fun _ => hend)
  refine Keeps_ite b _ _ _ ?_ ?_
  · cases b1 with
    | none => exact Keeps_bind b _ _ (hact _ (fun s => by simp)) (fun _ => Keeps_pure b _)
    | some l => exact Keeps_bind b _ _ (hact _ (fun s => by simp)) (fun _ => hend)
  refine Keeps_ite b _ _ _ ?_ ?_
  · refine Keeps_bind b _ _ (Keeps_eff b _ (fun s => by simp)) (fun _ => ?_)
    refine Keeps_ite b _ _ _ ?_ ?_
    · exact Keeps_bind b _ _ (hact _ (fun s => by simp)) (fun _ => Keeps_pure b _)
    · exact Keeps_bind b _ _ (hact _ (fun s => by simp)) (fun _ =>
        Keeps_bind b _ _ (hact _ (fun s => by simp)) (fun _ => hend))
  refine Keeps_ite b _ _ _ (keeps_getstatement_return b _ _ hself) ?_
  refine Keeps_ite b _ _ _ (hself _) ?_
  refine Keeps_ite b _ _ _ (keeps_getstatement_if b _ _ _ _ _ hself) ?_
  refine Keeps_ite b _ _ _ (keeps_getstatement_for b _ _ _ _ _ hself) ?_
  refine Keeps_ite b _ _ _ (keeps_getstatement_while b _ _ _ hself) ?_
  refine Keeps_ite b _ _ _ (keeps_getstatement_do b _ _ _ _ hself) ?_
  refine Keeps_ite b _ _ _ (keeps_getstatement_switch b _ _ _ _ _ hself) ?_
  refine Keeps_ite b _ _ _ (keeps_getstatement_case b _ _ _ _ _ _ hself) ?_
  refine Keeps_ite b _ _ _ (keeps_getstatement_default b _ _ _ _ _ _ hself) ?_
  refine Keeps_ite b _ _ _
    (Keeps_bind b _ _ (hact _ (fun s => by simp)) (fun _ => Keeps_pure b _)) ?_
  refine Keeps_ite b _ _ _ (Keeps_bind b _ _ (hact _ (fun s => by simp)) (fun _ => hend)) ?_
  refine Keeps_ite b _ _ _ (keeps_getstatement_print b _ hself _ _) ?_
  refine Keeps_ite b _ _ _ (keeps_getstatement_quit b _ _) ?_
  refine Keeps_ite b _ _ _ (keeps_getstatement_quit b _ _) ?_
  refine Keeps_ite b _ _ _ (keeps_getstatement_symbol b _ _ _ _ hself) ?_
  exact keeps_getstatement_expr b _ _ _ _ hself

theorem keeps_getobjdeclaration (b : Bool) (fuel : Nat) (self : Rec) (symtype : SymType) (hself : ∀ c, Keeps b (self c)) :
    Keeps b (getobjdeclaration fuel self symtype) := by
  unfold getobjdeclaration
  repeat (first
    | refine Keeps_ite b _ _ _ ?_ ?_
    | exact hself _
    | exact keeps_getobjdeclaration_loop b _ _ _ _ hself _ _
    | refine Keeps_bind b _ _ ?_ (fun _ => ?_)
    | split
    | exact Keeps_pure b _
    | exact Keeps_fail b
    | exact Keeps_ask b _
    | refine Keeps_whenP b _ _ ?_
    | exact Keeps_act b _ (fun s => by simp; done)
    | exact Keeps_eff b _ (fun s => by simp; done))

theorem keeps_getoneobj (b : Bool) (fuel : Nat) (self : Rec) (index : Int) (symtype : SymType) (hself : ∀ c, Keeps b (self c)) :
    Keeps b (getoneobj fuel self index symtype) := by
  unfold getoneobj
  repeat (first
    | refine Keeps_ite b _ _ _ ?_ ?_
    | exact hself _
    | exact keeps_declname b _ _ _ hself
    | exact keeps_initlisttail b _ hself _
    | refine Keeps_bind b _ _ ?_ (fun _ => ?_)
    | split
    | exact Keeps_pure b _
    | exact Keeps_fail b
    | exact Keeps_ask b _
    | refine Keeps_whenP b _ _ ?_
    | exact Keeps_act b _ (fun s => by simp; done)
    | exact Keeps_eff b _ (fun s => by simp; done))

theorem keeps_getobjvars (b : Bool) (fuel : Nat) (self : Rec) (name : String) (symtype : SymType) (hself : ∀ c, Keeps b (self c)) :
    Keeps b (getobjvars fuel self name symtype) := by
  unfold getobjvars
  repeat (first
    | refine Keeps_ite b _ _ _ ?_ ?_
    | exact hself _
    | exact keeps_getobjvars_loop b _ _ _ hself _
    | refine Keeps_bind b _ _ ?_ (fun _ => ?_)
    | split
    | exact Keeps_pure b _
    | exact Keeps_fail b
    | exact Keeps_ask b _
    | refine Keeps_whenP b _ _ ?_
    | exact Keeps_act b _ (fun s => by simp; done)
    | exact Keeps_eff b _ (fun s => by simp; done))

theorem keeps_getmatdeclaration (b : Bool) (fuel : Nat) (self : Rec) (symtype : SymType) (hself : ∀ c, Keeps b (self c)) :
    Keeps b (getmatdeclaration fuel self symtype) := by
  unfold getmatdeclaration
  repeat (first
    | refine Keeps_ite b _ _ _ ?_ ?_
    | exact hself _
    | exact keeps_getmatdeclaration_loop b _ _ hself _
    | refine Keeps_bind b _ _ ?_ (fun _ => ?_)
    | split
    | exact Keeps_pure b _
    | exact Keeps_fail b
    | exact Keeps_ask b _
    | refine Keeps_whenP b _ _ ?_
    | exact Keeps_act b _ (fun s => by simp; done)
    | exact Keeps_eff b _ (fun s => by simp; done))

theorem keeps_getonematrix (b : Bool) (fuel : Nat) (self : Rec) (symtype : SymType) (hself : ∀ c, Keeps b (self c)) :
    Keeps b (getonematrix fuel self symtype) := by
  unfold getonematrix
  repeat (first
    | refine Keeps_ite b _ _ _ ?_ ?_
    | exact hself _
    | exact keeps_declname b _ _ _ hself
    | exact keeps_skipcommas b _
    | exact keeps_initlisttail b _ hself _
    | refine Keeps_bind b _ _ ?_ (fun _ => ?_)
    | split
    | exact Keeps_pure b _
    | exact Keeps_fail b
    | exact Keeps_ask b _
    | refine Keeps_whenP b _ _ ?_
    | exact Keeps_act b _ (fun s => by simp; done)
    | exact Keeps_eff b _ (fun s => by simp; done))

theorem keeps_creatematrix (b : Bool) (fuel : Nat) (self : Rec) (hself : ∀ c, Keeps b (self c)) :
    Keeps b (creatematrix fuel self) := by
  unfold creatematrix
  repeat (first
    | refine Keeps_ite b _ _ _ ?_ ?_
    | exact hself _
    | exact keeps_creatematrix_loop b _ hself _ _
    | refine Keeps_bind b _ _ ?_ (fun _ => ?_)
    | split
    | exact Keeps_pure b _
    | exact Keeps_fail b
    | exact Keeps_ask b _
    | refine Keeps_whenP b _ _ ?_
    | exact Keeps_act b _ (fun s => by simp; done)
    | exact Keeps_eff b _ (fun s => by simp; done))

theorem keeps_getsimplebody (b : Bool) (self : Rec) (hself : ∀ c, Keeps b (self c)) :
    Keeps b (getsimplebody self) := by
  unfold getsimplebody
  repeat (first
    | refine Keeps_ite b _ _ _ ?_ ?_
    | exact hself _
    | refine Keeps_bind b _ _ ?_ (fun _ => ?_)
    | split
    | exact Keeps_pure b _
    | exact Keeps_fail b
    | exact Keeps_ask b _
    | refine Keeps_whenP b _ _ ?_
    | exact Keeps_act b _ (fun s => by simp; done)
    | exact Keeps_eff b _ (fun s => by simp; done))

theorem keeps_getcondition (b : Bool) (self : Rec) (hself : ∀ c, Keeps b (self c)) :
    Keeps b (getcondition self) := by
  unfold getcondition
  repeat (first
    | refine Keeps_ite b _ _ _ ?_ ?_
    | exact hself _
    | refine Keeps_bind b _ _ ?_ (fun _ => ?_)
    | split
    | exact Keeps_pure b _
    | exact Keeps_fail b
    | exact Keeps_ask b _
    | refine Keeps_whenP b _ _ ?_
    | exact Keeps_act b _ (fun s => by simp; done)
    | exact Keeps_eff b _ (fun s => by simp; done))

theorem keeps_getmatargs (b : Bool) (fuel : Nat) (self : Rec) (hself : ∀ c, Keeps b (self c)) :
    Keeps b (getmatargs fuel self) := by
  unfold getmatargs
  repeat (first
    | refine Keeps_ite b _ _ _ ?_ ?_
    | exact hself _
    | exact keeps_getmatargs_loop b _ hself _ _
    | refine Keeps_bind b _ _ ?_ (fun _ => ?_)
    | split
    | exact Keeps_pure b _
    | exact Keeps_fail b
    | exact Keeps_ask b _
    | refine Keeps_whenP b _ _ ?_
    | exact Keeps_act b _ (fun s => by simp; done)
    | exact Keeps_eff b _ (fun s => by simp; done))

theorem keeps_getcallargs (fuel : Nat) (self : Rec) (name : String) (hself : ∀ c, Keeps true (self c)) :
    Keeps true (getcallargs fuel self name) := by
  unfold getcallargs
  repeat (first
    | refine Keeps_ite true _ _ _ ?_ ?_
    | exact hself _
    | exact keeps_endcall true _ _ _
    | exact keeps_getcallargs_loop _ _ _ _ hself _ _
    | refine Keeps_bind true _ _ ?_ (fun _ => ?_)
    | split
    | exact Keeps_pure true _
    | exact Keeps_fail true
    | exact Keeps_ask true _
    | refine Keeps_whenP true _ _ ?_
    | exact Keeps_act true _ (fun s => mono_writeindexop s)
    | exact Keeps_act true _ (fun s => by simp; done)
    | exact Keeps_eff true _ (fun s => by simp; done))

theorem keeps_getexprlist (b : Bool) (fuel : Nat) (self : Rec) (hself : ∀ c, Keeps b (self c)) :
    Keeps b (getexprlist fuel self) := by
  unfold getexprlist
  repeat (first
    | refine Keeps_ite b _ _ _ ?_ ?_
    | exact hself _
    | exact keeps_getexprlist_loop b _ hself _ _
    | refine Keeps_bind b _ _ ?_ (fun _ => ?_)
    | split
    | exact Keeps_pure b _
    | exact Keeps_fail b
    | exact Keeps_ask b _
    | refine Keeps_whenP b _ _ ?_
    | exact Keeps_act b _ (fun s => by simp; done)
    | exact Keeps_eff b _ (fun s => by simp; done))

theorem keeps_getopassignment (fuel : Nat) (self : Rec) (hself : ∀ c, Keeps true (self c)) :
    Keeps true (getopassignment fuel self) := by
  unfold getopassignment
  repeat (first
    | refine Keeps_ite true _ _ _ ?_ ?_
    | exact hself _
    | exact keeps_getopassignment_loop true _ _ hself _ _
    | refine Keeps_bind true _ _ ?_ (fun _ => ?_)
    | split
    | exact Keeps_pure true _
    | exact Keeps_fail true
    | exact Keeps_ask true _
    | refine Keeps_whenP true _ _ ?_
    | exact Keeps_act true _ (fun s => mono_writeindexop s)
    | exact Keeps_act true _ (fun s => by simp; done)
    | exact Keeps_eff true _ (fun s => by simp; done))

theorem keeps_getassignment (fuel : Nat) (self : Rec) (hself : ∀ c, Keeps true (self c)) :
    Keeps true (getassignment fuel self) := by
  unfold getassignment
  repeat (first
    | refine Keeps_ite true _ _ _ ?_ ?_
    | exact hself _
    | exact keeps_getassignment_tail _ _ _ hself
    | refine Keeps_bind true _ _ ?_ (fun _ => ?_)
    | split
    | exact Keeps_pure true _
    | exact Keeps_fail true
    | exact Keeps_ask true _
    | refine Keeps_whenP true _ _ ?_
    | exact Keeps_act true _ (fun s => mono_writeindexop s)
    | exact Keeps_act true _ (fun s => by simp; done)
    | exact Keeps_eff true _ (fun s => by simp; done))

theorem keeps_getaltcond (b : Bool) (self : Rec) (hself : ∀ c, Keeps b (self c)) :
    Keeps b (getaltcond self) := by
  unfold getaltcond
  repeat (first
    | refine Keeps_ite b _ _ _ ?_ ?_
    | exact hself _
    | refine Keeps_bind b _ _ ?_ (fun _ => ?_)
    | split
    | exact Keeps_pure b _
    | exact Keeps_fail b
    | exact Keeps_ask b _
    | refine Keeps_whenP b _ _ ?_
    | exact Keeps_act b _ (fun s => by simp; done)
    | exact Keeps_eff b _ (fun s => by simp; done))

theorem keeps_getorcond (b : Bool) (fuel : Nat) (self : Rec) (hself : ∀ c, Keeps b (self c)) :
    Keeps b (getorcond fuel self) := by
  unfold getorcond
  repeat (first
    | refine Keeps_ite b _ _ _ ?_ ?_
    | exact hself _
    | exact keeps_getorcond_loop b _ _ hself _ _
    | refine Keeps_bind b _ _ ?_ (fun _ => ?_)
    | split
    | exact Keeps_pure b _
    | exact Keeps_fail b
    | exact Keeps_ask b _
    | refine Keeps_whenP b _ _ ?_
    | exact Keeps_act b _ (fun s => by simp; done)
    | exact Keeps_eff b _ (fun s => by simp; done))

theorem keeps_getandcond (b : Bool) (fuel : Nat) (self : Rec) (hself : ∀ c, Keeps b (self c)) :
    Keeps b (getandcond fuel self) := by
  unfold getandcond
  repeat (first
    | refine Keeps_ite b _ _ _ ?_ ?_
    | exact hself _
    | exact keeps_getandcond_loop b _ _ hself _ _
    | refine Keeps_bind b _ _ ?_ (fun _ => ?_)
    | split
    | exact Keeps_pure b _
    | exact Keeps_fail b
    | exact Keeps_ask b _
    | refine Keeps_whenP b _ _ ?_
    | exact Keeps_act b _ (fun s => by simp; done)
    | exact Keeps_eff b _ (fun s => by simp; done))

theorem keeps_getrelation (b : Bool) (self : Rec) (hself : ∀ c, Keeps b (self c)) :
    Keeps b (getrelation self) := by
  unfold getrelation
  repeat (first
    | refine Keeps_ite b _ _ _ ?_ ?_
    | exact hself _
    | refine Keeps_bind b _ _ ?_ (fun _ => ?_)
    | split
    | exact Keeps_pure b _
    | exact Keeps_fail b
    | exact Keeps_ask b _
    | refine Keeps_whenP b _ _ ?_
    | exact Keeps_act b _ (fun s => by simp; done)
    | exact Keeps_eff b _ (fun s => by simp; done))

theorem keeps_getsum (b : Bool) (fuel : Nat) (self : Rec) (hself : ∀ c, Keeps b (self c)) :
    Keeps b (getsum fuel self) := by
  unfold getsum
  repeat (first
    | refine Keeps_ite b _ _ _ ?_ ?_
    | exact hself _
    | exact keeps_getsum_loop b _ hself _ _
    | refine Keeps_bind b _ _ ?_ (fun _ => ?_)
    | split
    | exact Keeps_pure b _
    | exact Keeps_fail b
    | exact Keeps_ask b _
    | refine Keeps_whenP b _ _ ?_
    | exact Keeps_act b _ (fun s => by simp; done)
    | exact Keeps_eff b _ (fun s => by simp; done))

theorem keeps_getproduct (b : Bool) (fuel : Nat) (self : Rec) (hself : ∀ c, Keeps b (self c)) :
    Keeps b (getproduct fuel self) := by
  unfold getproduct
  repeat (first
    | refine Keeps_ite b _ _ _ ?_ ?_
    | exact hself _
    | exact keeps_getproduct_loop b _ hself _ _
    | refine Keeps_bind b _ _ ?_ (fun _ => ?_)
    | split
    | exact Keeps_pure b _
    | exact Keeps_fail b
    | exact Keeps_ask b _
    | refine Keeps_whenP b _ _ ?_
    | exact Keeps_act b _ (fun s => by simp; done)
    | exact Keeps_eff b _ (fun s => by simp; done))

theorem keeps_getorexpr (b : Bool) (fuel : Nat) (self : Rec) (hself : ∀ c, Keeps b (self c)) :
    Keeps b (getorexpr fuel self) := by
  unfold getorexpr
  repeat (first
    | refine Keeps_ite b _ _ _ ?_ ?_
    | exact hself _
    | exact keeps_getorexpr_loop b _ hself _ _
    | refine Keeps_bind b _ _ ?_ (fun _ => ?_)
    | split
    | exact Keeps_pure b _
    | exact Keeps_fail b
    | exact Keeps_ask b _
    | refine Keeps_whenP b _ _ ?_
    | exact Keeps_act b _ (fun s => by simp; done)
    | exact Keeps_eff b _ (fun s => by simp; done))

theorem keeps_getandexpr (b : Bool) (fuel : Nat) (self : Rec) (hself : ∀ c, Keeps b (self c)) :
    Keeps b (getandexpr fuel self) := by
  unfold getandexpr
  repeat (first
    | refine Keeps_ite b _ _ _ ?_ ?_
    | exact hself _
    | exact keeps_getandexpr_loop b _ hself _ _
    | refine Keeps_bind b _ _ ?_ (fun _ => ?_)
    | split
    | exact Keeps_pure b _
    | exact Keeps_fail b
    | exact Keeps_ask b _
    | refine Keeps_whenP b _ _ ?_
    | exact Keeps_act b _ (fun s => by simp; done)
    | exact Keeps_eff b _ (fun s => by simp; done))

theorem keeps_getshiftexpr (b : Bool) (self : Rec) (hself : ∀ c, Keeps b (self c)) :
    Keeps b (getshiftexpr self) := by
  unfold getshiftexpr
  repeat (first
    | refine Keeps_ite b _ _ _ ?_ ?_
    | exact hself _
    | refine Keeps_bind b _ _ ?_ (fun _ => ?_)
    | split
    | exact Keeps_pure b _
    | exact Keeps_fail b
    | exact Keeps_ask b _
    | refine Keeps_whenP b _ _ ?_
    | exact Keeps_act b _ (fun s => by simp; done)
    | exact Keeps_eff b _ (fun s => by simp; done))

theorem keeps_getreference (b : Bool) (self : Rec) (hself : ∀ c, Keeps b (self c)) :
    Keeps b (getreference self) := by
  unfold getreference
  repeat (first
    | refine Keeps_ite b _ _ _ ?_ ?_
    | exact hself _
    | refine Keeps_bind b _ _ ?_ (fun _ => ?_)
    | split
    | exact Keeps_pure b _
    | exact Keeps_fail b
    | exact Keeps_ask b _
    | refine Keeps_whenP b _ _ ?_
    | exact Keeps_act b _ (fun s => by simp; done)
    | exact Keeps_eff b _ (fun s => by simp; done))

theorem keeps_getincdecexpr (fuel : Nat) (self : Rec) (hself : ∀ c, Keeps true (self c)) :
    Keeps true (getincdecexpr fuel self) := by
  unfold getincdecexpr
  repeat (first
    | refine Keeps_ite true _ _ _ ?_ ?_
    | exact hself _
    | exact keeps_getincdecexpr_loop true _
    | exact keeps_getincdecexpr_end true _ _
    | refine Keeps_bind true _ _ ?_ (fun _ => ?_)
    | split
    | exact Keeps_pure true _
    | exact Keeps_fail true
    | exact Keeps_ask true _
    | refine Keeps_whenP true _ _ ?_
    | exact Keeps_act true _ (fun s => mono_writeindexop s)
    | exact Keeps_act true _ (fun s => by simp; done)
    | exact Keeps_eff true _ (fun s => by simp; done))

theorem keeps_getterm (fuel : Nat) (self : Rec) (hself : ∀ c, Keeps true (self c)) :
    Keeps true (getterm fuel self) := by
  unfold getterm
  repeat (first
    | refine Keeps_ite true _ _ _ ?_ ?_
    | exact hself _
    | exact keeps_getterm_head _ _ hself
    | exact keeps_getterm_loop true _ hself _
    | refine Keeps_bind true _ _ ?_ (fun _ => ?_)
    | split
    | exact Keeps_pure true _
    | exact Keeps_fail true
    | exact Keeps_ask true _
    | refine Keeps_whenP true _ _ ?_
    | exact Keeps_act true _ (fun s => mono_writeindexop s)
    | exact Keeps_act true _ (fun s => by simp; done)
    | exact Keeps_eff true _ (fun s => by simp; done))

theorem keeps_getidexpr (b : Bool) (fuel : Nat) (self : Rec) (okmat autodef : Bool) (hself : ∀ c, Keeps b (self c)) :
    Keeps b (getidexpr fuel self okmat autodef) := by
  unfold getidexpr
  repeat (first
    | refine Keeps_ite b _ _ _ ?_ ?_
    | exact hself _
    | exact keeps_getidexpr_loop b _ _ hself _
    | refine Keeps_bind b _ _ ?_ (fun _ => ?_)
    | split
    | exact Keeps_pure b _
    | exact Keeps_fail b
    | exact Keeps_ask b _
    | refine Keeps_whenP b _ _ ?_
    | exact Keeps_act b _ (fun s => by simp; done)
    | exact Keeps_eff b _ (fun s => by simp; done))

theorem keeps_getinitlist (b : Bool) (fuel : Nat) (self : Rec) (hself : ∀ c, Keeps b (self c)) :
    Keeps b (getinitlist fuel self) := by
  unfold getinitlist
  repeat (first
    | refine Keeps_ite b _ _ _ ?_ ?_
    | exact hself _
    | exact keeps_getinitlist_loop b _ _ hself _ _
    | refine Keeps_bind b _ _ ?_ (fun _ => ?_)
    | split
    | exact Keeps_pure b _
    | exact Keeps_fail b
    | exact Keeps_ask b _
    | refine Keeps_whenP b _ _ ?_
    | exact Keeps_act b _ (fun s => by simp; done)
    | exact Keeps_eff b _ (fun s => by simp; done))

/-- Every parser function keeps Mono when its sub-parsers do. -/
theorem keeps_body (fuel : Nat) (self : Rec) (hself : ∀ c, Keeps true (self c)) (c : Call) :
    Keeps true (body fuel self c) := by
  cases c with
  | getbody c1 b1 n1 d1 => exact keeps_getbody true _ _ _ _ _ _ hself
  | getdeclarations symtype => exact keeps_getdeclarations true _ _ _ hself
  | getsimpledeclaration symtype => exact keeps_getsimpledeclaration true _ _ _ hself
  | getonevariable symtype => exact keeps_getonevariable true _ _ hself
  | getstatement c1 b1 n1 d1 => exact keeps_getstatement true _ _ _ _ _ _ hself
  | getobjdeclaration symtype => exact keeps_getobjdeclaration true _ _ _ hself
  | getoneobj index symtype => exact keeps_getoneobj true _ _ _ _ hself
  | getobjvars name symtype => exact keeps_getobjvars true _ _ _ _ hself
  | getmatdeclaration symtype => exact keeps_getmatdeclaration true _ _ _ hself
  | getonematrix symtype => exact keeps_getonematrix true _ _ _ hself
  | creatematrix  => exact keeps_creatematrix true _ _ hself
  | getsimplebody  => exact keeps_getsimplebody true _ hself
  | getcondition  => exact keeps_getcondition true _ hself
  | getmatargs  => exact keeps_getmatargs true _ _ hself
  | getcallargs name => exact keeps_getcallargs _ _ _ hself
  | getexprlist  => exact keeps_getexprlist true _ _ hself
  | getopassignment  => exact keeps_getopassignment _ _ hself
  | getassignment  => exact keeps_getassignment _ _ hself
  | getaltcond  => exact keeps_getaltcond true _ hself
  | getorcond  => exact keeps_getorcond true _ _ hself
  | getandcond  => exact keeps_getandcond true _ _ hself
  | getrelation  => exact keeps_getrelation true _ hself
  | getsum  => exact keeps_getsum true _ _ hself
  | getproduct  => exact keeps_getproduct true _ _ hself
  | getorexpr  => exact keeps_getorexpr true _ _ hself
  | getandexpr  => exact keeps_getandexpr true _ _ hself
  | getshiftexpr  => exact keeps_getshiftexpr true _ hself
  | getreference  => exact keeps_getreference true _ hself
  | getincdecexpr  => exact keeps_getincdecexpr _ _ hself
  | getterm  => exact keeps_getterm _ _ hself
  | getidexpr okmat autodef => exact keeps_getidexpr true _ _ _ _ hself
  | getinitlist  => exact keeps_getinitlist true _ _ hself

theorem keeps_run (n : Nat) : ∀ c, Keeps true (run n c) := by
  induction n with
  | zero =>
    intro c
    exact Keeps_fail true
  | succ n ih =>
    intro c
    exact keeps_body n (run n) ih c

/-- Between the start and the result of a call of the parser the error count
and the code only grow, the trace is extended and a label offset stays, is
cleared, or moves to an offset not before the code of the start. -/
theorem run_mono (n : Nat) (c : Call) (s s1 : State) (r : Int)
    (h : run n c s = some (r, s1)) : Mono true s s1 :=
  keeps_run n c s r s1 h

/-! ## The switch statement -/

theorem getstatement_switch_eq (n : Nat) (c b nc d : Option Nat) (s : State)
    (h : (gettoken (stmt_entry s)).1 = .T_SWITCH) :
    run (n + 1) (.getstatement c b nc d) s
      = getstatement_switch (run n) c (s.labels.length + 1) (s.labels.length + 2)
          (s.labels.length + 3) (gettoken (stmt_entry s)).2 := by
  rw [run_succ]
  simp only [stmt_entry] at h
  simp [body, getstatement, h, stmt_entry]
  rfl

/-- C10: for `switch (c) { body }` getstatement emits the code of c, JUMP to
the next-case label, the body compiled with the break label, the next-case
label, the default label and the continue label of the enclosing statement;
then JUMP to the break label, places the next-case label, emits JUMP to the
default label if the body placed it and POP otherwise, and places the break
label. -/
theorem C10_switch_statement (n : Nat) (c b nc d : Option Nat) (s s4 s7 : State) (ty r : Int)
    (condT bodyT : List Event)
    (hsw : (gettoken (stmt_entry s)).1 = .T_SWITCH)
    (hcond : run n .getcondition (switch_cond (s.labels.length + 1) (s.labels.length + 2)
      (s.labels.length + 3) (gettoken (stmt_entry s)).2) = some (ty, s4))
    (hcondT : s4.trace = (switch_cond (s.labels.length + 1) (s.labels.length + 2)
      (s.labels.length + 3) (gettoken (stmt_entry s)).2).trace ++ condT)
    (hbrace : (gettoken s4).1 = .T_LEFTBRACE)
    (hbody : run n (.getstatement c (some (s.labels.length + 1)) (some (s.labels.length + 2))
      (some (s.labels.length + 3))) (switch_body (s.labels.length + 2) s4) = some (r, s7))
    (hbodyT : s7.trace = (switch_body (s.labels.length + 2) s4).trace ++ bodyT) :
    run (n + 1) (.getstatement c b nc d) s
      = some (0, (tokenmode s.mode (setlabel (s.labels.length + 1)
          ((if placed (s.labels.length + 3) s7 then addoplabel .OP_JUMP (s.labels.length + 3)
            else addop .OP_POP)
            (setlabel (s.labels.length + 2) (addoplabel .OP_JUMP (s.labels.length + 1) s7))))).2)
    ∧ (tokenmode s.mode (setlabel (s.labels.length + 1)
          ((if placed (s.labels.length + 3) s7 then addoplabel .OP_JUMP (s.labels.length + 3)
            else addop .OP_POP)
            (setlabel (s.labels.length + 2)
              (addoplabel .OP_JUMP (s.labels.length + 1) s7))))).2.trace
      = s.trace
        ++ [Event.addopone .OP_DEBUG (linenumber s), Event.tokenmode TM_DEFAULT,
            Event.clearlabel (s.labels.length + 1), Event.clearlabel (s.labels.length + 2),
            Event.clearlabel (s.labels.length + 3)]
        ++ condT ++ [Event.addoplabel .OP_JUMP (s.labels.length + 2)] ++ bodyT
        ++ [Event.addoplabel .OP_JUMP (s.labels.length + 1),
            Event.setlabel (s.labels.length + 2),
            (if placed (s.labels.length + 3) s7
              then Event.addoplabel .OP_JUMP (s.labels.length + 3) else Event.addop .OP_POP),
            Event.setlabel (s.labels.length + 1), Event.tokenmode s.mode] := by
  have hmode : (tokenmode TM_DEFAULT (gettoken (stmt_entry s)).2).1 = s.mode := by
    simp [tokenmode, stmt_entry, addopone, emitwords, log, newlabels]
  -- the default label before the body: cleared
  have hlenc : (switch_cond (s.labels.length + 1) (s.labels.length + 2) (s.labels.length + 3)
      (gettoken (stmt_entry s)).2).labels.length = s.labels.length + 5 := by
    simp [switch_cond, stmt_entry, addopone, emitwords, log, tokenmode]
  have hl3c : getlabel (s.labels.length + 3) (switch_cond (s.labels.length + 1)
      (s.labels.length + 2) (s.labels.length + 3) (gettoken (stmt_entry s)).2) = ⟨-1, -1⟩ := by
    unfold switch_cond
    exact getlabel_set_self _ _ _ _ rfl (by simp [stmt_entry, tokenmode, log])
  have hl34 : getlabel (s.labels.length + 3) s4 = ⟨-1, -1⟩ := by
    rw [run_label n .getcondition rfl _ s4 ty hcond _ (by rw [hlenc]; omega), hl3c]
  have hstart : (getlabel (s.labels.length + 3) (switch_body (s.labels.length + 2) s4)).l_offset
      = -1 := by
    unfold switch_body
    rw [getlabel_congr (labels_rescantoken _), offset_addoplabel,
      getlabel_congr (labels_gettoken _), hl34]
  have hcode : 2 ≤ (switch_body (s.labels.length + 2) s4).f_opcodes.length := by
    unfold switch_body
    rw [f_opcodes_rescantoken, length_f_opcodes_addoplabel]
    omega
  -- after the body: cleared, or placed at an offset after the JUMP
  have hmono := (run_mono n _ _ s7 r hbody).2.2.2 (s.labels.length + 3)
  rw [hstart] at hmono
  have h7 : (getlabel (s.labels.length + 3) s7).l_offset = -1
      ∨ 2 ≤ (getlabel (s.labels.length + 3) s7).l_offset := by
    rcases hmono with h | h | h
    · exact Or.inl h
    · exact Or.inl h
    · right
      have : (2 : Int) ≤ ((switch_body (s.labels.length + 2) s4).f_opcodes.length : Int) := by
        exact_mod_cast hcode
      omega
  have htest : getlabel (s.labels.length + 3) (setlabel (s.labels.length + 2)
      (addoplabel .OP_JUMP (s.labels.length + 1) s7)) = getlabel (s.labels.length + 3)
        (addoplabel .OP_JUMP (s.labels.length + 1) s7) :=
    offset_setlabel_ne _ _ _ (by omega)
  have hdec : decide ((getlabel (s.labels.length + 3) (setlabel (s.labels.length + 2)
      (addoplabel .OP_JUMP (s.labels.length + 1) s7))).l_offset > 0)
      = placed (s.labels.length + 3) s7 := by
    rw [htest, offset_addoplabel]
    unfold placed
    rcases h7 with h | h <;> simp [h] <;> omega
  constructor
  · rw [getstatement_switch_eq n c b nc d s hsw]
    simp only [switch_cond, switch_body] at hcond hbody
    simp only [getstatement_switch, P_bind, eff_apply, act_apply, ask_apply, hcond, hbrace,
      hbody, hmode, hdec, ne_eq, not_true_eq_false, if_false, P_pure]
    cases placed (s.labels.length + 3) s7 <;> simp
  · cases placed (s.labels.length + 3) s7 <;>
      simp [hbodyT, switch_body, hcondT, switch_cond, tokenmode, log]

theorem C10_switch_statement_witness :
    (run 31 (.getstatement none none none none) switchsample).map
        (fun r => (r.1, r.2.f_opcodes))
      = some (0,
          [Word.op .OP_DEBUG, Word.arg 1, Word.op .OP_GLOBALADDR, Word.ptr "a",
           Word.op .OP_JUMP, Word.arg 20, Word.op .OP_DEBUG, Word.arg 1,
           Word.op .OP_DEBUG, Word.arg 1, Word.op .OP_JUMP, Word.arg 13, Word.op .OP_POP,
           Word.op .OP_DEBUG, Word.arg 1, Word.op .OP_GLOBALADDR, Word.ptr "b",
           Word.op .OP_POP, Word.op .OP_JUMP, Word.arg 22, Word.op .OP_JUMP, Word.arg 12]) := by
  have h := C10_switch_statement 30 none none none none switchsample switchsample4
    switchsample7 0 0
    [Event.clearlabel 7, Event.clearlabel 8, Event.addopptr .OP_GLOBALADDR "a"]
    [Event.addopone .OP_DEBUG 1, Event.tokenmode 0, Event.addopone .OP_DEBUG 1,
     Event.clearlabel 15, Event.addoplabel .OP_JUMP 15, Event.setlabel 3,
     Event.addop .OP_POP, Event.setlabel 15, Event.addopone .OP_DEBUG 1,
     Event.clearlabel 26, Event.clearlabel 27, Event.addopptr .OP_GLOBALADDR "b",
     Event.addop .OP_POP, Event.tokenmode 0]
    (by decide!) (by decide!) (by decide!) (by decide!) (by decide!) (by decide!)
  rw [h.1]
  decide!

/-! ## Operators that need an lvalue -/

/-- C24: applied to an operand whose kind has RVALUE, a compound assignment
operator, `=`, postfix and prefix `++`/`--` report a diagnostic (the error
count increases); for `=` and the compound operators the kind returned is
RVALUE|ASSIGN and the operator emits nothing: the state returned is the one
of the nested parse of the right operand. -/
theorem C24_rvalue_operand_reported (n : Nat) (s s1 s3 : State) (type r : Int) (op : Op)
    (hkind : isrvalue type = true) :
    -- compound assignment
    (run n .getassignment s = some (type, s1) →
      opassignop (gettoken s1).1 = some op →
      run n .getopassignment
        (scanerror .T_NULL "Illegal assignment in getopassignment" (gettoken s1).2)
        = some (r, s3) →
      run (n + 1) .getopassignment s = some (Int.lor EXPR_RVALUE EXPR_ASSIGN, s3)
      ∧ s1.errorcount < s3.errorcount
      ∧ (scanerror .T_NULL "Illegal assignment in getopassignment" (gettoken s1).2).f_opcodes
        = s1.f_opcodes)
    -- assignment
    ∧ ((gettoken s).1 ∉ emptyexprtokens →
      run n .getaltcond (rescantoken (gettoken s).2) = some (type, s1) →
      (gettoken s1).1 = .T_ASSIGN →
      run n .getassignment
        (scanerror .T_SEMICOLON "Illegal assignment in getassignment" (gettoken s1).2)
        = some (r, s3) →
      run (n + 1) .getassignment s = some (Int.lor EXPR_RVALUE EXPR_ASSIGN, s3)
      ∧ s1.errorcount < s3.errorcount
      ∧ (scanerror .T_SEMICOLON "Illegal assignment in getassignment" (gettoken s1).2).f_opcodes
        = s1.f_opcodes)
    -- postfix ++ and --
    ∧ (run n .getterm s = some (type, s1) →
      ((gettoken s1).1 = .T_PLUSPLUS ∨ (gettoken s1).1 = .T_MINUSMINUS) →
      run (n + 1) .getincdecexpr s
        = (getincdecexpr_loop n >>= fun tok =>
            getincdecexpr_end tok (Int.lor EXPR_RVALUE EXPR_ASSIGN))
          (addop (if (gettoken s1).1 = .T_PLUSPLUS then .OP_POSTINC else .OP_POSTDEC)
            (writeindexop (scanerror .T_NULL "Bad ++ usage" (gettoken s1).2)))
      ∧ ∀ r1 sf, run (n + 1) .getincdecexpr s = some (r1, sf) → s1.errorcount < sf.errorcount)
    -- prefix ++ and --
    ∧ (run n .getterm (gettoken s).2 = some (type, s1) →
      ((gettoken s).1 = .T_PLUSPLUS →
        run (n + 1) .getterm s
          = some (EXPR_ASSIGN,
              addop .OP_PREINC (writeindexop (scanerror .T_NULL "Bad ++ usage" s1)))
        ∧ (addop .OP_PREINC (writeindexop (scanerror .T_NULL "Bad ++ usage" s1))).errorcount
          = s1.errorcount + 1)
      ∧ ((gettoken s).1 = .T_MINUSMINUS →
        run (n + 1) .getterm s
          = some (EXPR_ASSIGN,
              addop .OP_PREDEC (writeindexop (scanerror .T_NULL "Bad -- usage" s1)))
        ∧ (addop .OP_PREDEC (writeindexop (scanerror .T_NULL "Bad -- usage" s1))).errorcount
          = s1.errorcount + 1)) := by
  have hw : ∀ x : State, (writeindexop x).errorcount = x.errorcount := by
    intro x
    unfold writeindexop
    simp only [log]
    split <;> rfl
  refine ⟨?_, ?_, ?_, ?_⟩
  · intro hlv hop hrest
    refine ⟨?_, ?_, by simp⟩
    · rw [run_succ]
      simp [body, getopassignment, hlv, hop, hkind, hrest]
    · have := (run_mono n _ _ s3 r hrest).1
      simp at this
      omega
  · intro hne hlv hassign hrest
    refine ⟨?_, ?_, by simp⟩
    · simp [emptyexprtokens] at hne
      rw [run_succ]
      simp [body, getassignment, hne, hlv, getassignment_tail, hassign, hkind, hrest]
    · have := (run_mono n _ _ s3 r hrest).1
      simp at this
      omega
  · intro hterm htok
    have heq : run (n + 1) .getincdecexpr s
        = (getincdecexpr_loop n >>= fun tok =>
            getincdecexpr_end tok (Int.lor EXPR_RVALUE EXPR_ASSIGN))
          (addop (if (gettoken s1).1 = .T_PLUSPLUS then .OP_POSTINC else .OP_POSTDEC)
            (writeindexop (scanerror .T_NULL "Bad ++ usage" (gettoken s1).2))) := by
      rw [run_succ]
      simp [body, getincdecexpr, hterm, htok, hkind]
    refine ⟨heq, ?_⟩
    intro r1 sf hres
    rw [heq] at hres
    have hk : Keeps true (getincdecexpr_loop n >>= fun tok =>
        getincdecexpr_end tok (Int.lor EXPR_RVALUE EXPR_ASSIGN)) :=
      Keeps_bind true _ _ (keeps_getincdecexpr_loop true n)
        (fun _ => keeps_getincdecexpr_end true _ _)
    have := (hk _ r1 sf hres).1
    have e : (addop (if (gettoken s1).1 = .T_PLUSPLUS then Op.OP_POSTINC else Op.OP_POSTDEC)
        (writeindexop (scanerror .T_NULL "Bad ++ usage" (gettoken s1).2))).errorcount
        = s1.errorcount + 1 := by
      show (writeindexop _).errorcount = _
      rw [hw]
      simp
    omega
  · intro hterm
    constructor
    · intro htok
      refine ⟨?_, ?_⟩
      · rw [run_succ]
        simp [body, getterm, getterm_head, htok, hterm, hkind, EXPR_ASSIGN]
      · show (writeindexop _).errorcount = _
        rw [hw]
        simp
    · intro htok
      refine ⟨?_, ?_⟩
      · rw [run_succ]
        simp [body, getterm, getterm_head, htok, hterm, hkind, EXPR_ASSIGN]
      · show (writeindexop _).errorcount = _
        rw [hw]
        simp

theorem C24_rvalue_operand_reported_witness :
    (run 21 .getopassignment badopsample).map (fun r => (r.1, r.2.errorcount, r.2.f_opcodes))
      = some (Int.lor EXPR_RVALUE EXPR_ASSIGN, 1,
          [Word.op .OP_NUMBER, Word.arg 0, Word.op .OP_GLOBALADDR, Word.ptr "a"])
    ∧ (run 21 .getassignment badassignsample).map
        (fun r => (r.1, r.2.errorcount, r.2.f_opcodes))
      = some (Int.lor EXPR_RVALUE EXPR_ASSIGN, 1,
          [Word.op .OP_NUMBER, Word.arg 0, Word.op .OP_UNDEF])
    ∧ (run 21 .getterm badpreincsample).map (fun r => (r.1, r.2.errorcount, r.2.f_opcodes))
      = some (EXPR_ASSIGN, 1, [Word.op .OP_NUMBER, Word.arg 0, Word.op .OP_PREINC]) := by
  have h1 := (C24_rvalue_operand_reported 20 badopsample
    (after (run 20 .getassignment badopsample) badopsample)
    (after (run 20 .getopassignment (scanerror .T_NULL "Illegal assignment in getopassignment"
      (gettoken (after (run 20 .getassignment badopsample) badopsample)).2)) badopsample)
    3 0 .OP_ADD (by decide)).1 (by decide!) (by decide!) (by decide!)
  have h2 := (C24_rvalue_operand_reported 20 badassignsample
    (after (run 20 .getaltcond (rescantoken (gettoken badassignsample).2)) badassignsample)
    (after (run 20 .getassignment (scanerror .T_SEMICOLON "Illegal assignment in getassignment"
      (gettoken (after (run 20 .getaltcond (rescantoken (gettoken badassignsample).2))
        badassignsample)).2)) badassignsample)
    3 1 .OP_ADD (by decide)).2.1 (by decide!) (by decide!) (by decide!) (by decide!)
  have h3 := ((C24_rvalue_operand_reported 20 badpreincsample
    (after (run 20 .getterm (gettoken badpreincsample).2) badpreincsample)
    badpreincsample 3 0 .OP_ADD (by decide)).2.2.2 (by decide!)).1 (by decide!)
  rw [h1.1, h2.1, h3.1]
  refine ⟨?_, ?_, ?_⟩ <;> decide!

/-! ## The write flag of index opcodes -/

theorem getinitlist_loop_elem (self : Rec) (oldmode : Int) (k : Nat) (index : Int) (s : State)
    (h1 : (gettoken s).1 ≠ .T_COMMA) (h2 : (gettoken s).1 ≠ .T_NEWLINE)
    (h3 : (gettoken s).1 ≠ .T_RIGHTBRACE) :
    getinitlist_loop self oldmode (k + 1) index s
      = (getinitlist_elem self (gettoken s).1 index >>= fun _ =>
          act (addopone .OP_ELEMINIT index) >>= fun _ =>
            initlist_sep self oldmode k index) (gettoken s).2 := by
  simp [getinitlist_loop, h1, h2, h3, initlist_sep]

/-- C31 (amended): for the element at position `index` of an initializer list,
getinitlist emits DUPLICATE and ELEMADDR(index) only when the element is a
nested list in braces, in front of the code of that list; a scalar element is
parsed by getopassignment with nothing emitted in front of it; in both cases
ELEMINIT(index) follows the code of the element. -/
theorem C31_initlist_element (n k : Nat) (oldmode index : Int) (s e : State) (r : Int)
    (h1 : (gettoken s).1 ≠ .T_COMMA) (h2 : (gettoken s).1 ≠ .T_NEWLINE)
    (h3 : (gettoken s).1 ≠ .T_RIGHTBRACE) :
    ((gettoken s).1 = .T_LEFTBRACE →
      run n .getinitlist
          (addopone .OP_ELEMADDR index (addop .OP_DUPLICATE (rescantoken (gettoken s).2)))
        = some (r, e) →
      getinitlist_loop (run n) oldmode (k + 1) index s
          = initlist_sep (run n) oldmode k index (addopone .OP_ELEMINIT index e)
        ∧ (addopone .OP_ELEMADDR index (addop .OP_DUPLICATE (rescantoken (gettoken s).2))).trace
          = s.trace ++ [Event.addop .OP_DUPLICATE, Event.addopone .OP_ELEMADDR index]
        ∧ (addopone .OP_ELEMINIT index e).trace
          = e.trace ++ [Event.addopone .OP_ELEMINIT index])
    ∧ ((gettoken s).1 ≠ .T_LEFTBRACE →
      run n .getopassignment (rescantoken (gettoken s).2) = some (r, e) →
      getinitlist_loop (run n) oldmode (k + 1) index s
          = initlist_sep (run n) oldmode k index (addopone .OP_ELEMINIT index e)
        ∧ (rescantoken (gettoken s).2).trace = s.trace
        ∧ (rescantoken (gettoken s).2).f_opcodes = s.f_opcodes
        ∧ (addopone .OP_ELEMINIT index e).trace
          = e.trace ++ [Event.addopone .OP_ELEMINIT index]) := by
  constructor
  · intro hb he
    refine ⟨?_, by simp, rfl⟩
    rw [getinitlist_loop_elem _ _ _ _ _ h1 h2 h3]
    simp [getinitlist_elem, hb, he]
  · intro hb he
    refine ⟨?_, by simp, by simp, rfl⟩
    rw [getinitlist_loop_elem _ _ _ _ _ h1 h2 h3]
    simp [getinitlist_elem, hb, he]

theorem C31_initlist_element_witness :
    (getinitlist_loop (run 20) 0 21 0 nestedinitsample).map
        (fun x => (x.1, x.2.f_opcodes))
      = some (0, [Word.op .OP_DUPLICATE, Word.op .OP_ELEMADDR, Word.arg 0, Word.op .OP_NUMBER,
          Word.arg 1, Word.op .OP_ELEMINIT, Word.arg 0, Word.op .OP_ELEMINIT, Word.arg 0]) := by
  have h := ((C31_initlist_element 20 20 0 0 nestedinitsample
    (after (run 20 .getinitlist (addopone .OP_ELEMADDR 0 (addop .OP_DUPLICATE
      (rescantoken (gettoken nestedinitsample).2)))) nestedinitsample) 0
    (by decide) (by decide) (by decide)).1 (by decide) (by decide!)).1
  rw [h]
  decide!

/-- C31, counterexample: for the list `{ 1 }` getinitlist emits the code of the
scalar element and ELEMINIT(0), with no DUPLICATE and no ELEMADDR. -/
theorem C31_scalar_element_without_elemaddr :
    (run 20 .getinitlist scalarinitsample).map (fun x => (x.2.f_opcodes, x.2.errorcount))
      = some ([Word.op .OP_NUMBER, Word.arg 1, Word.op .OP_ELEMINIT, Word.arg 0], 0) := by
  decide!

theorem initevents_length_cons (i : Int) (r : List Event) (rest : List (List Event)) :
    initevents i (r :: rest) = r ++ [Event.addopone .OP_ELEMINIT i] ++ initevents (i + 1) rest :=
  rfl

theorem flatlist_loop (n : Nat) (oldmode index : Int) (s e : State) (items : List (List Event))
    (last : Int) (h : FlatList n oldmode index s items e last) :
    ∀ k, items.length ≤ k →
      getinitlist_loop (run n) oldmode k index s = some (last, e)
      ∧ e.trace = s.trace ++ initevents index items ++ [Event.tokenmode oldmode]
      ∧ last = index + items.length - 1 := by
  induction h with
  | last index s b ty r ht hb hbT hend =>
    intro k hk
    obtain ⟨k, rfl⟩ : ∃ j, k = j + 1 := ⟨k - 1, by simp at hk; omega⟩
    simp only [List.mem_cons, List.mem_singleton, List.not_mem_nil, or_false, not_or] at ht
    obtain ⟨h1, h2, h3, h4⟩ := ht
    refine ⟨?_, ?_, by simp⟩
    · rw [getinitlist_loop_elem _ _ _ _ _ h1 h2 h3]
      simp [getinitlist_elem, h4, hb, initlist_sep, hend]
    · simp [hbT, initevents]
  | more index last s b e ty r rest ht hb hbT hsep _ ih =>
    intro k hk
    obtain ⟨k, rfl⟩ : ∃ j, k = j + 1 := ⟨k - 1, by simp at hk; omega⟩
    simp only [List.mem_cons, List.mem_singleton, List.not_mem_nil, or_false, not_or] at ht
    obtain ⟨h1, h2, h3, h4⟩ := ht
    obtain ⟨i1, i2, i3⟩ := ih k (by simpa using hk)
    refine ⟨?_, ?_, ?_⟩
    · rw [getinitlist_loop_elem _ _ _ _ _ h1 h2 h3]
      simp [getinitlist_elem, h4, hb, initlist_sep, hsep, i1]
    · rw [i2]
      simp [hbT, initevents]
    · rw [i3]
      simp
      omega

/-! ## Matrix declarators -/

theorem boundof_step (n : Nat) (s b : State) (bd : Bound) (h : BoundOf n s bd b) :
    (run n .getopassignment >>= fun _ => creatematrix_bound (run n)) s = some ((), b)
    ∧ b.trace = s.trace ++ boundevents bd := by
  cases h with
  | upper b0 ty r h1 h2 h3 =>
    constructor
    · rcases h3 with h3 | h3 <;> simp [h1, creatematrix_bound, h3]
    · simp [h2, boundevents]
  | range b0 c0 ty ty2 r r2 h1 h2 h3 h4 h5 =>
    constructor
    · simp [h1, creatematrix_bound, h3, h4]
    · simp [h5, h2, boundevents]

theorem creatematrix_loop_step (n k : Nat) (dim : Int) (s b : State) (bd : Bound)
    (h : BoundOf n s bd b) :
    creatematrix_loop (run n) (k + 1) dim s
      = (if (gettoken b).1 = .T_RIGHTBRACKET then
          matrix_fill (run n) (addopone .OP_MATCREATE dim (gettoken b).2)
        else if (gettoken b).1 = .T_COMMA then
          (if dim + 1 ≤ (gettoken b).2.MAXDIM then
            creatematrix_loop (run n) k (dim + 1) (gettoken b).2
          else some (0, scanerror .T_SEMICOLON "Only MAXDIM dimensions allowed" (gettoken b).2))
        else some (0, scanerror .T_SEMICOLON "Illegal matrix definition" (gettoken b).2)) := by
  have h1 := (boundof_step n s b bd h).1
  simp only [P_bind] at h1
  simp only [creatematrix_loop, P_bind]
  cases hx : run n .getopassignment s with
  | none => rw [hx] at h1; simp at h1
  | some p =>
    rw [hx] at h1
    simp only at h1 ⊢
    rw [h1]
    by_cases h2 : (gettoken b).1 = .T_RIGHTBRACKET
    · simp [h2, matrix_fill]
    · by_cases h3 : (gettoken b).1 = .T_COMMA
      · by_cases h4 : dim + 1 ≤ (gettoken b).2.MAXDIM
        · simp [h2, h3, h4]
        · simp [h2, h3, h4]
      · simp [h2, h3]

theorem matdims_loop (n : Nat) (M : Int) (dim : Int) (s e : State) (dims : List Bound)
    (last : Int) (ok : Bool) (h : MatDims n M dim s dims e last ok) :
    ∀ k, dims.length ≤ k →
      creatematrix_loop (run n) k dim s
        = (if ok then matrix_fill (run n) (addopone .OP_MATCREATE last e)
           else some (0, scanerror .T_SEMICOLON "Only MAXDIM dimensions allowed" e))
      ∧ e.trace = s.trace ++ dimsevents dims
      ∧ last = dim + dims.length - 1
      ∧ (1 ≤ M → dim ≤ M → if ok then last ≤ M else last = M) := by
  induction h with
  | last dim s b bd hb ht =>
    intro k hk
    obtain ⟨k, rfl⟩ : ∃ j, k = j + 1 := ⟨k - 1, by simp at hk; omega⟩
    refine ⟨?_, ?_, by simp, fun _ h => by simpa using h⟩
    · rw [creatematrix_loop_step n k dim s b bd hb]
      simp [ht]
    · simp [(boundof_step n s b bd hb).2, dimsevents]
  | over dim s b bd hb ht hM hno =>
    intro k hk
    obtain ⟨k, rfl⟩ : ∃ j, k = j + 1 := ⟨k - 1, by simp at hk; omega⟩
    refine ⟨?_, ?_, by simp, fun _ h => by simp; omega⟩
    · rw [creatematrix_loop_step n k dim s b bd hb]
      simp [ht, hM, hno]
    · simp [(boundof_step n s b bd hb).2, dimsevents]
  | more dim last s b e bd rest ok hb ht hM hle _ ih =>
    intro k hk
    obtain ⟨k, rfl⟩ : ∃ j, k = j + 1 := ⟨k - 1, by simp at hk; omega⟩
    obtain ⟨i1, i2, i3, i4⟩ := ih k (by simpa using hk)
    refine ⟨?_, ?_, ?_, fun h1 _ => i4 h1 hle⟩
    · rw [creatematrix_loop_step n k dim s b bd hb]
      simp [ht, hM, hle, i1]
    · rw [i2]
      simp [(boundof_step n s b bd hb).2, dimsevents]
    · rw [i3]
      simp
      omega

/-- C32: for a matrix declarator whose dimensions are read from `s` on,
creatematrix emits for every dimension given as a single bound the code of
the bound, then ONE, SUB, ZERO, and for `lo : hi` the code of lo and of hi;
at `]`, which is reached exactly when the number k of dimensions is at most
MAXDIM (taken to be at least 1), it emits MATCREATE(k), then the initial
value of the elements (ZERO, or the code of the nested matrix when `[`
follows), then INITFILL; at the comma after dimension number MAXDIM it
reports "Only MAXDIM dimensions allowed" and returns, having emitted no
MATCREATE. -/
theorem C32_creatematrix (n : Nat) (M : Int) (s e x y : State) (dims : List Bound)
    (last r : Int) (ok : Bool)
    (hdims : MatDims n M 1 s dims e last ok) (hk : dims.length ≤ n) (hM : 1 ≤ M) :
    (ok = true →
      run (n + 1) .creatematrix s = matrix_fill (run n) (addopone .OP_MATCREATE last e)
      ∧ (addopone .OP_MATCREATE last e).trace
          = s.trace ++ dimsevents dims ++ [Event.addopone .OP_MATCREATE last]
      ∧ last = dims.length ∧ last ≤ M)
    ∧ (ok = false →
      run (n + 1) .creatematrix s
          = some (0, scanerror .T_SEMICOLON "Only MAXDIM dimensions allowed" e)
      ∧ (scanerror .T_SEMICOLON "Only MAXDIM dimensions allowed" e).trace
          = s.trace ++ dimsevents dims
            ++ [Event.scanerror .T_SEMICOLON "Only MAXDIM dimensions allowed"]
      ∧ (dims.length : Int) = M)
    ∧ ((gettoken x).1 ≠ .T_LEFTBRACKET →
      matrix_fill (run n) x
        = some (0, addop .OP_INITFILL (addop .OP_ZERO (rescantoken (gettoken x).2))))
    ∧ ((gettoken x).1 = .T_LEFTBRACKET → run n .creatematrix (gettoken x).2 = some (r, y) →
      matrix_fill (run n) x = some (0, addop .OP_INITFILL y)) := by
  obtain ⟨h1, h2, h3, h4⟩ := matdims_loop n M 1 s e dims last ok hdims n hk
  have h5 := h4 hM hM
  refine ⟨?_, ?_, ?_, ?_⟩
  · intro hok
    subst hok
    simp only [if_true] at h1 h5
    refine ⟨?_, ?_, by rw [h3]; simp, h5⟩
    · rw [run_succ]
      simp only [body, creatematrix]
      exact h1
    · simp [h2]
  · intro hok
    subst hok
    simp only [Bool.false_eq_true, if_false] at h1 h5
    refine ⟨?_, ?_, ?_⟩
    · rw [run_succ]
      simp only [body, creatematrix]
      exact h1
    · simp [h2]
    · rw [← h5, h3]
      simp
  · intro hx
    simp [matrix_fill, creatematrix_elem, hx]
  · intro hx hy
    simp [matrix_fill, creatematrix_elem, hx, hy]

theorem C32_creatematrix_witness :
    (run 21 .creatematrix dimsample).map (fun p => (p.2.f_opcodes, p.2.errorcount))
      = some ([Word.op .OP_NUMBER, Word.arg 5, Word.op .OP_ONE, Word.op .OP_SUB,
          Word.op .OP_ZERO, Word.op .OP_NUMBER, Word.arg 1, Word.op .OP_NUMBER, Word.arg 2,
          Word.op .OP_MATCREATE, Word.arg 2, Word.op .OP_ZERO, Word.op .OP_INITFILL], 0)
    ∧ (run 21 .creatematrix dimsample5).map (fun p => (p.2.f_opcodes.length, p.2.errorcount))
      = some (20, 1) := by
  have hu : ∀ s r, (run 20 .getopassignment s).isSome = true →
      (after (run 20 .getopassignment s) s).trace = s.trace ++ r →
      ((gettoken (after (run 20 .getopassignment s) s)).1 = .T_RIGHTBRACKET
        ∨ (gettoken (after (run 20 .getopassignment s) s)).1 = .T_COMMA) →
      BoundOf 20 s (.upper r) (dimsample_upper s) := by
    intro s r h1 h2 h3
    cases hx : run 20 .getopassignment s with
    | none => rw [hx] at h1; simp at h1
    | some p =>
      have e : after (run 20 .getopassignment s) s = p.2 := by rw [hx]; rfl
      rw [e] at h2 h3
      have e2 : dimsample_upper s
          = addop .OP_ZERO (addop .OP_SUB (addop .OP_ONE (rescantoken (gettoken p.2).2))) := by
        unfold dimsample_upper
        rw [e]
      rw [e2]
      exact BoundOf.upper s p.2 p.1 r hx h2 h3
  have h5 : MatDims 20 4 1 dimsample5
      [Bound.upper [Event.clearlabel 2, Event.clearlabel 3, Event.addopone .OP_NUMBER 0],
       Bound.upper [Event.clearlabel 6, Event.clearlabel 7, Event.addopone .OP_NUMBER 0],
       Bound.upper [Event.clearlabel 10, Event.clearlabel 11, Event.addopone .OP_NUMBER 0],
       Bound.upper [Event.clearlabel 14, Event.clearlabel 15, Event.addopone .OP_NUMBER 0]]
      (gettoken (dimsample_upper (gettoken (dimsample_upper (gettoken (dimsample_upper
        (gettoken (dimsample_upper dimsample5)).2)).2)).2)).2 4 false :=
    MatDims.more 1 4 dimsample5 _ _ _ _ false
      (hu _ _ (by decide!) (by decide!) (by decide!)) (by decide!) (by decide!) (by decide)
      (MatDims.more 2 4 _ _ _ _ _ false
        (hu _ _ (by decide!) (by decide!) (by decide!)) (by decide!) (by decide!) (by decide)
        (MatDims.more 3 4 _ _ _ _ _ false
          (hu _ _ (by decide!) (by decide!) (by decide!)) (by decide!) (by decide!) (by decide)
          (MatDims.over 4 _ _ _
            (hu _ _ (by decide!) (by decide!) (by decide!)) (by decide!) (by decide!)
            (by decide))))
  have g := C32_creatematrix 20 4 dimsample5 _ dimsample5 dimsample5 _ 4 0 false h5 (by decide)
    (by decide)
  refine ⟨?_, by rw [(g.2.1 rfl).1]; decide!⟩
  have hd : MatDims 20 4 1 dimsample
      [Bound.upper [Event.clearlabel 2, Event.clearlabel 3, Event.addopone .OP_NUMBER 5],
       Bound.range [Event.clearlabel 6, Event.clearlabel 7, Event.addopone .OP_NUMBER 1]
         [Event.clearlabel 10, Event.clearlabel 11, Event.addopone .OP_NUMBER 2]]
      (gettoken dimsample2).2 2 true :=
    MatDims.more 1 2 dimsample (dimsample_upper dimsample) _ _ _ true
      (BoundOf.upper dimsample (after (run 20 .getopassignment dimsample) dimsample) 3 _
        (by decide!) (by decide!) (by decide!))
      (by decide!) (by decide!) (by decide)
      (MatDims.last 2 (gettoken (dimsample_upper dimsample)).2 dimsample2 _
        (BoundOf.range _
          (after (run 20 .getopassignment (gettoken (dimsample_upper dimsample)).2) dimsample)
          dimsample2 3 3 _ _ (by decide!) (by decide!) (by decide!) (by decide!) (by decide!))
        (by decide!))
  have h := C32_creatematrix 20 4 dimsample (gettoken dimsample2).2
    (addopone .OP_MATCREATE 2 (gettoken dimsample2).2) dimsample _ 2 0 true hd (by decide)
    (by decide)
  rw [(h.1 rfl).1, h.2.2.1 (by decide!)]
  decide!

/-! ## Object type declarations -/

theorem defineobject_trace (name : String) (l : List Int) (c : Int) (s : State) :
    (defineobject name l c s).trace = s.trace ++ [Event.defineobject name l c] := by
  unfold defineobject
  simp only [log]
  split <;> rfl

theorem addelement_trace (name : String) (s : State) :
    (addelement name s).2.trace = s.trace ++ [Event.addelement name] := by
  unfold addelement
  split <;> rfl

theorem fieldlist_loop (n : Nat) (M : Nat) (T : String) (symtype : SymType) (oldmode : Int)
    (indices all : List Int) (s e : State) (names : List String) (o : ObjEnd)
    (h : FieldList M indices s names all e o) :
    ∀ k, names.length + 1 ≤ k →
      getobjdeclaration_loop (run n) T symtype oldmode k indices s
        = objend (run n) T symtype o (objend_state T oldmode all e o)
      ∧ (objend_state T oldmode all e o).trace
        = s.trace ++ names.map Event.addelement ++ objend_events T oldmode all o
      ∧ (o = .defined → all.length = indices.length + names.length ∧ all.length ≤ M
          ∨ names = [] ∧ all = indices) := by
  induction h with
  | close indices s ht =>
    intro k hk
    obtain ⟨k, rfl⟩ : ∃ j, k = j + 1 := ⟨k - 1, by omega⟩
    refine ⟨?_, ?_, fun _ => Or.inr ⟨rfl, rfl⟩⟩
    · simp [getobjdeclaration_loop, ht, getobjdeclaration_define, objend, objend_state]
    · simp [objend_state, objend_events, defineobject_trace]
  | last indices s ht hM hlt hnew hclose =>
    intro k hk
    obtain ⟨k, rfl⟩ : ∃ j, k = j + 1 := ⟨k - 1, by omega⟩
    refine ⟨?_, ?_, fun _ => Or.inl ⟨by simp, by simp; omega⟩⟩
    · have hne : ¬ indices.length = (gettoken s).2.MAXINDICES := by omega
      simp at hnew
      have hr : (gettoken (rescantoken (gettoken (addelement (tokensymbol (gettoken s).2)
          (gettoken s).2).2).2)).1 = .T_RIGHTBRACE := by
        rw [gettoken_rescantoken, gettoken_curtoken]
        exact hclose
      simp [getobjdeclaration_loop, ht, hne, hnew, hclose, hr, getobjdeclaration_define, objend,
        objend_state]
    · simp [objend_state, objend_events, defineobject_trace, addelement_trace]
  | dup indices s ht hM hlt hold =>
    intro k hk
    obtain ⟨k, rfl⟩ : ∃ j, k = j + 1 := ⟨k - 1, by omega⟩
    refine ⟨?_, ?_, fun h => by cases h⟩
    · have hne : ¬ indices.length = (gettoken s).2.MAXINDICES := by omega
      simp at hold
      simp [getobjdeclaration_loop, ht, hne, hold, getobjdeclaration_error, objend, objend_state]
    · simp [objend_state, objend_events, addelement_trace]
  | over indices s ht hM hlen =>
    intro k hk
    obtain ⟨k, rfl⟩ : ∃ j, k = j + 1 := ⟨k - 1, by omega⟩
    refine ⟨?_, ?_, fun h => by cases h⟩
    · have he : indices.length = (gettoken s).2.MAXINDICES := by omega
      simp [getobjdeclaration_loop, ht, he, getobjdeclaration_error, objend, objend_state]
    · simp [objend_state, objend_events]
  | more indices all s e names o ht hM hlt hnew hcomma _ ih =>
    intro k hk
    obtain ⟨k, rfl⟩ : ∃ j, k = j + 1 := ⟨k - 1, by omega⟩
    obtain ⟨i1, i2, i3⟩ := ih k (by simp at hk; omega)
    refine ⟨?_, ?_, ?_⟩
    · have hne : ¬ indices.length = (gettoken s).2.MAXINDICES := by omega
      simp at hnew
      simp [getobjdeclaration_loop, ht, hne, hnew, hcomma, i1]
    · rw [i2]
      simp [addelement_trace]
    · intro ho
      rcases i3 ho with ⟨h1, h2⟩ | ⟨h1, h2⟩
      · left
        refine ⟨?_, h2⟩
        rw [h1]
        simp
        omega
      · left
        subst h1
        rw [h2]
        simp
        omega

theorem fieldlist_nodup (M : Nat) (indices all : List Int) (s e : State) (names : List String)
    (o : ObjEnd) (h : FieldList M indices s names all e o) :
    o = .defined → indices.Nodup → all.Nodup := by
  induction h with
  | close indices s ht => exact fun _ h => h
  | last indices s ht hM hlt hnew hclose =>
    intro _ h
    simp at hnew
    exact List.Nodup.append h (List.nodup_singleton _) (by simpa using hnew)
  | dup indices s ht hM hlt hold => exact fun h => by cases h
  | over indices s ht hM hlen => exact fun h => by cases h
  | more indices all s e names o ht hM hlt hnew hcomma _ ih =>
    intro ho h
    simp at hnew
    exact ih ho (List.Nodup.append h (List.nodup_singleton _) (by simpa using hnew))

/-- C33: for `obj T { f1, ..., fn }` read from `s` on, with the bound M =
MAXINDICES: when the indices interned for the fields are pairwise distinct and
n is at most M, getobjdeclaration calls addelement for each field in source
order, restores the token mode and calls defineobject(T, indices, n) once,
indices holding the interned indices in source order, then parses the
variable list; at a field whose index was interned for an earlier field it
reports "Duplicate element name", and at a field read when M indices are
collected "Too many elements in OBJ statement", restores the token mode and
returns, with no call of defineobject or getobjvars. -/
theorem C33_getobjdeclaration (n M : Nat) (symtype : SymType) (s e : State)
    (names : List String) (all : List Int) (o : ObjEnd)
    (hname : (gettoken s).1 = .T_SYMBOL)
    (hbrace : (gettoken (gettoken s).2).1 = .T_LEFTBRACE)
    (hfields : FieldList M [] (objfields s) names all e o)
    (hn : names.length + 1 ≤ n) :
    run (n + 1) (.getobjdeclaration symtype) s
      = objend (run n) (tokensymbol (gettoken s).2) symtype o
          (objend_state (tokensymbol (gettoken s).2) (gettoken (gettoken s).2).2.mode all e o)
    ∧ (objend_state (tokensymbol (gettoken s).2) (gettoken (gettoken s).2).2.mode all e o).trace
      = s.trace ++ [Event.tokenmode TM_DEFAULT] ++ names.map Event.addelement
        ++ objend_events (tokensymbol (gettoken s).2) (gettoken (gettoken s).2).2.mode all o
    ∧ (o = .defined → all.length = names.length ∧ all.length ≤ M ∧ all.Nodup)
    ∧ (o ≠ .defined →
        run (n + 1) (.getobjdeclaration symtype) s
          = some (0, objend_state (tokensymbol (gettoken s).2) (gettoken (gettoken s).2).2.mode
              all e o)) := by
  obtain ⟨h1, h2, h3⟩ := fieldlist_loop n M (tokensymbol (gettoken s).2) symtype
    (gettoken (gettoken s).2).2.mode [] all (objfields s) e names o hfields n hn
  have hrun : run (n + 1) (.getobjdeclaration symtype) s
      = objend (run n) (tokensymbol (gettoken s).2) symtype o
          (objend_state (tokensymbol (gettoken s).2) (gettoken (gettoken s).2).2.mode all e
            o) := by
    rw [← h1, run_succ]
    simp [body, getobjdeclaration, hname, hbrace, addliteral, objfields, tokenmode]
  refine ⟨hrun, ?_, ?_, ?_⟩
  · rw [h2]
    simp [objfields]
  · intro ho
    have hnd := fieldlist_nodup M [] all (objfields s) e names o hfields ho List.nodup_nil
    rcases h3 ho with ⟨h4, h5⟩ | ⟨h4, h5⟩
    · exact ⟨by simpa using h4, h5, hnd⟩
    · subst h4 h5
      exact ⟨rfl, Nat.zero_le _, hnd⟩
  · intro ho
    rw [hrun]
    cases o with
    | defined => exact absurd rfl ho
    | duplicate => rfl
    | toomany => rfl

theorem C33_getobjdeclaration_witness :
    (run 21 (.getobjdeclaration .SYM_UNDEFINED) objsample).map
        (fun x => (x.2.trace.take 5, x.2.objects))
      = some ([Event.tokenmode 0, Event.addelement "x", Event.addelement "y",
          Event.tokenmode 1, Event.defineobject "point" [0, 1] 2], [("point", [0, 1])])
    ∧ (run 21 (.getobjdeclaration .SYM_UNDEFINED) objdupsample).map
        (fun x => (x.2.trace, x.2.objects, x.2.errorcount))
      = some ([Event.tokenmode 0, Event.addelement "x", Event.addelement "x",
          Event.scanerror .T_SEMICOLON "Duplicate element name", Event.tokenmode 1], [], 1) := by
  have hf : FieldList 20 [] (objfields objsample) ["x", "y"] [0, 1]
      (gettoken (rescantoken (gettoken (addelement "y" (gettoken (gettoken
        (addelement "x" (gettoken (objfields objsample)).2).2).2).2).2).2)).2 .defined :=
    FieldList.more [] [0, 1] (objfields objsample) _ ["y"] .defined (by decide) (by decide)
      (by decide) (by decide) (by decide)
      (FieldList.last _ _ (by decide) (by decide) (by decide) (by decide) (by decide))
  have hd : FieldList 20 [] (objfields objdupsample) ["x", "x"] [0]
      (addelement "x" (gettoken (gettoken
        (addelement "x" (gettoken (objfields objdupsample)).2).2).2).2).2 .duplicate :=
    FieldList.more [] [0] (objfields objdupsample) _ ["x"] .duplicate (by decide) (by decide)
      (by decide) (by decide) (by decide)
      (FieldList.dup _ _ (by decide) (by decide) (by decide) (by decide))
  have h := C33_getobjdeclaration 20 20 .SYM_UNDEFINED objsample _ _ _ .defined (by decide)
    (by decide) hf (by decide)
  have g := C33_getobjdeclaration 20 20 .SYM_UNDEFINED objdupsample _ _ _ .duplicate (by decide)
    (by decide) hd (by decide)
  refine ⟨?_, ?_⟩
  · rw [h.1]
    decide!
  · rw [g.2.2.2 (by decide)]
    decide!

/-! ## Postfix chains of a term -/

/-- C34: the postfix loop of getterm has no case for `->`. After the
parenthesised lvalue of `( a ) -> x` getterm returns kind 0 with only the
address of a emitted and `->` as the next token, and the statement
`( a ) -> x ;` is reported with "Semicolon expected"; after the identifier of
`a -> x` the loop of getidexpr emits DEREF and ELEMADDR, and after the
parenthesised lvalue of `( a ) . x` the loop of getterm emits ELEMADDR. -/
theorem C34_arrow_after_parenthesis :
    (run 30 .getterm arrowparensample).map
        (fun p => (p.1, p.2.f_opcodes, p.2.errorcount, (gettoken p.2).1))
      = some (0, [Word.op .OP_GLOBALADDR, Word.ptr "a"], 0, Tok.T_ARROW)
    ∧ (run 60 (.getstatement none none none none) arrowparensample).map
        (fun p => (p.2.f_opcodes, p.2.errorcount, p.2.trace.getLast?))
      = some ([Word.op .OP_DEBUG, Word.arg 1, Word.op .OP_GLOBALADDR, Word.ptr "a",
          Word.op .OP_POP], 1, some (Event.scanerror .T_NULL "Semicolon expected"))
    ∧ (run 30 .getterm arrowidsample).map
        (fun p => (p.1, p.2.f_opcodes, p.2.errorcount, (gettoken p.2).1))
      = some (0, [Word.op .OP_GLOBALADDR, Word.ptr "a", Word.op .OP_DEREF,
          Word.op .OP_ELEMADDR, Word.arg 0], 0, Tok.T_SEMICOLON)
    ∧ (run 30 .getterm dotparensample).map
        (fun p => (p.1, p.2.f_opcodes, p.2.errorcount, (gettoken p.2).1))
      = some (0, [Word.op .OP_GLOBALADDR, Word.ptr "a", Word.op .OP_ELEMADDR, Word.arg 0], 0,
          Tok.T_SEMICOLON) := by
  refine ⟨?_, ?_, ?_, ?_⟩ <;> decide!

/-! ## Kinds of the binary operators -/

theorem getassignment_tail_opassign (n : Nat) (self : Rec) (type : Int) (s1 : State) (op : Op)
    (hop : opassignop (gettoken s1).1 = some op) :
    getassignment_tail n self type s1 = some (type, rescantoken (gettoken s1).2) := by
  cases h : (gettoken s1).1 <;> simp [opassignop, h] at hop <;>
    simp [getassignment_tail, h]

/-- C36: the right operand of `=` is parsed by getassignment, and getassignment
leaves a compound assignment operator unread (third conjunct); `lv = rhs`
returns the kind EXPR_ASSIGN, which has no RVALUE bit. So in
`lv = rhs OP= ...` getopassignment takes `lv = rhs` as the left operand of the
operator without a diagnostic of its own: the calls are those of lv,
writeindexop, those of rhs, ASSIGN, writeindexop and then for every operator
of the chain DUPLICATE, the calls of its right operand, the opcode of the
operator and ASSIGN. -/
theorem C36_assign_then_compound (n : Nat) (s s1 s2 sf : State) (type ty2 : Int) (op : Op)
    (ra rb : List Event) (items : List (Op × List Event))
    (hne : (gettoken s).1 ∉ emptyexprtokens)
    (hlv : run n .getaltcond (rescantoken (gettoken s).2) = some (type, s1))
    (hra : s1.trace = s.trace ++ ra)
    (hkind : isrvalue type = false)
    (hassign : (gettoken s1).1 = .T_ASSIGN)
    (hbrace : (gettoken (writeindexop (gettoken s1).2)).1 ≠ .T_LEFTBRACE)
    (hrhs : run n .getassignment (rescantoken (gettoken (writeindexop (gettoken s1).2)).2)
      = some (ty2, s2))
    (hrb : s2.trace = s1.trace ++ [Event.writeindexop] ++ rb)
    (hop : opassignop (gettoken (addop .OP_ASSIGN s2)).1 = some op)
    (hchain : OpChain (n + 1) op (writeindexop (gettoken (addop .OP_ASSIGN s2)).2) items sf)
    (hlen : items.length ≤ n + 1) :
    run (n + 1) .getassignment s = some (EXPR_ASSIGN, addop .OP_ASSIGN s2)
    ∧ isrvalue EXPR_ASSIGN = false
    ∧ (∀ (self : Rec) (t : Int) (x : State) (o : Op), opassignop (gettoken x).1 = some o →
        getassignment_tail n self t x = some (t, rescantoken (gettoken x).2))
    ∧ run (n + 2) .getopassignment s = some (EXPR_ASSIGN, sf)
    ∧ sf.trace = s.trace ++ ra ++ [Event.writeindexop] ++ rb
        ++ [Event.addop .OP_ASSIGN, Event.writeindexop] ++ chainevents items
    ∧ (run 21 .getopassignment assignopsample).map (fun r => (r.1, r.2.f_opcodes, r.2.errorcount))
      = some (EXPR_ASSIGN,
          [Word.op .OP_GLOBALADDR, Word.ptr "a", Word.op .OP_GLOBALADDR, Word.ptr "b",
           Word.op .OP_ASSIGN, Word.op .OP_DUPLICATE, Word.op .OP_GLOBALADDR, Word.ptr "c",
           Word.op .OP_ADD, Word.op .OP_ASSIGN], 0)
    ∧ (run 60 .getopassignment parenassignsample).map
        (fun r => (r.1, r.2.f_opcodes, r.2.errorcount))
      = (run 21 .getopassignment assignopsample).map
        (fun r => (r.1, r.2.f_opcodes, r.2.errorcount))
    ∧ (run 21 .getopassignment assignchainsample).map
        (fun r => (r.1, r.2.f_opcodes, r.2.errorcount))
      = some (EXPR_ASSIGN,
          [Word.op .OP_GLOBALADDR, Word.ptr "a", Word.op .OP_GLOBALADDR, Word.ptr "b",
           Word.op .OP_GLOBALADDR, Word.ptr "c", Word.op .OP_ASSIGN, Word.op .OP_ASSIGN],
          0) := by
  have h1 : run (n + 1) .getassignment s = some (EXPR_ASSIGN, addop .OP_ASSIGN s2) := by
    have hne2 := hne
    simp [emptyexprtokens] at hne2
    rw [run_succ]
    simp [body, getassignment, hne2, hlv, getassignment_tail, hassign, hkind, hbrace, hrhs]
  obtain ⟨h2, h3⟩ := opchain_loop (n + 1) op _ sf items hchain (n + 1) hlen
  refine ⟨h1, by decide, fun self t x o ho => getassignment_tail_opassign n self t x o ho,
    ?_, ?_, by decide!, by decide!, by decide!⟩
  · have hk : isrvalue EXPR_ASSIGN = false := by decide
    rw [run_succ]
    simp [body, getopassignment, h1, hop, h2, hk]
  · rw [h3]
    simp [hrb, hra]

/-- Witness of C36: `a = b += c` with globals a, b, c. -/
theorem C36_assign_then_compound_witness :
    (run 21 .getopassignment assignopsample).map (fun r => r.2.trace.drop 3)
      = some [Event.clearlabel 2, Event.clearlabel 3, Event.addopptr .OP_GLOBALADDR "a",
          Event.writeindexop,
          Event.clearlabel 6, Event.clearlabel 7, Event.addopptr .OP_GLOBALADDR "b",
          Event.addop .OP_ASSIGN, Event.writeindexop,
          Event.addop .OP_DUPLICATE,
          Event.clearlabel 10, Event.clearlabel 11, Event.addopptr .OP_GLOBALADDR "c",
          Event.addop .OP_ADD, Event.addop .OP_ASSIGN] := by
  have h := C36_assign_then_compound 19 assignopsample assignopsample1 assignopsample2
    _ 0 0 .OP_ADD
    [Event.clearlabel 2, Event.clearlabel 3, Event.addopptr .OP_GLOBALADDR "a"]
    [Event.clearlabel 6, Event.clearlabel 7, Event.addopptr .OP_GLOBALADDR "b"]
    [(.OP_ADD, [Event.clearlabel 10, Event.clearlabel 11, Event.addopptr .OP_GLOBALADDR "c"])]
    (by decide!) (by decide!) (by decide!) (by decide) (by decide!) (by decide!)
    (by decide!) (by decide!) (by decide!)
    (OpChain.last .OP_ADD _ assignopsample3 _ (by decide!) (by decide!) (by decide!))
    (by decide)
  rw [h.2.2.2.1]
  decide!

theorem indexof_nonneg (name : String) (l : List String) : 0 ≤ indexof name l ↔ name ∈ l := by
  unfold indexof
  by_cases h : name ∈ l <;> simp [h]

theorem nameseq_tables (s s1 : State) (names : List String) (h : NameSeq s names s1) :
    s1.locals = s.locals ∧ s1.params = s.params ∧ s1.globals = s.globals
    ∧ s1.f_opcodes = s.f_opcodes ∧ s1.trace = s.trace ∧ s1.errorcount = s.errorcount := by
  induction h with
  | done s => simp
  | name s s1 names _ _ ih =>
    obtain ⟨a, b, c, d, e, f⟩ := ih
    refine ⟨a.trans ?_, b.trans ?_, c.trans ?_, d.trans ?_, e.trans ?_, f.trans ?_⟩ <;>
      (unfold gettoken; split <;> rfl)

theorem gettoken_tables (s : State) :
    (gettoken s).2.locals = s.locals ∧ (gettoken s).2.params = s.params
    ∧ (gettoken s).2.globals = s.globals
    ∧ (gettoken s).2.f_opcodes = s.f_opcodes ∧ (gettoken s).2.trace = s.trace
    ∧ (gettoken s).2.errorcount = s.errorcount := by
  refine ⟨?_, ?_, ?_, ?_, ?_, ?_⟩ <;> (unfold gettoken; split <;> rfl)

theorem definesymbol_opcodes (name : String) (symtype : SymType) (s : State) :
    (definesymbol name symtype s).f_opcodes = s.f_opcodes := by
  unfold definesymbol
  cases symboltype name s <;> cases symtype <;>
    simp [addlocal, addglobal, endscope, log, scanerror] <;>
    (repeat' split) <;> rfl

theorem scanerror_tables (skip : Tok) (msg : String) (s : State) :
    (scanerror skip msg s).locals = s.locals ∧ (scanerror skip msg s).params = s.params
    ∧ (scanerror skip msg s).globals = s.globals := by
  refine ⟨?_, ?_, ?_⟩ <;> (unfold scanerror; simp only [log]; repeat' split) <;> rfl

theorem symboltype_scanerror (name : String) (skip : Tok) (msg : String) (s : State) :
    symboltype name (scanerror skip msg s) = symboltype name s := by
  obtain ⟨a, b, c⟩ := scanerror_tables skip msg s
  simp [symboltype, findparam, findlocal, findglobal, a, b, c]

theorem symboltype_definesymbol (name : String) (symtype : SymType) (s : State) :
    symboltype name (definesymbol name symtype s) ≠ .SYM_UNDEFINED := by
  by_cases hp : 0 ≤ findparam name s
  · have h1 : symboltype name s = .SYM_PARAM := by simp [symboltype, hp]
    have h2 : definesymbol name symtype s = scanerror .T_COMMA "Variable is already defined" s := by
      simp [definesymbol, h1]
    rw [h2, symboltype_scanerror, h1]
    simp
  · by_cases hl : 0 ≤ findlocal name s
    · have h1 : symboltype name s = .SYM_LOCAL := by simp [symboltype, hp, hl]
      have h2 : symboltype name (definesymbol name symtype s) = .SYM_LOCAL := by
        unfold definesymbol
        rw [h1]
        simp only
        split
        · exact h1
        · rw [symboltype_scanerror, h1]
      rw [h2]
      simp
    · have hp2 : name ∉ s.params := by
        rw [← indexof_nonneg]
        exact hp
      have hl2 : name ∉ s.locals := by
        rw [← indexof_nonneg]
        exact hl
      have hloc : ∀ x : State, x.params = s.params →
          symboltype name (addlocal name x).2 = .SYM_LOCAL := by
        intro x hx
        have a : ¬ 0 ≤ findparam name (addlocal name x).2 := by
          simp only [findparam, indexof_nonneg]
          unfold addlocal
          split <;> simp [log, hx, hp2]
        have b : 0 ≤ findlocal name (addlocal name x).2 := by
          simp only [findlocal, indexof_nonneg]
          unfold addlocal
          split
          · rename_i h
            simpa [log] using h
          · simp [log]
        simp [symboltype, a, b]
      have hglob : ∀ (x : State) (f : Bool), x.params = s.params → x.locals = s.locals →
          symboltype name (addglobal name f x) ≠ .SYM_UNDEFINED := by
        intro x f hx hy
        have a : ¬ 0 ≤ findparam name (addglobal name f x) := by
          simp only [findparam, indexof_nonneg]
          simp [addglobal, log, hx, hp2]
        have b : ¬ 0 ≤ findlocal name (addglobal name f x) := by
          simp only [findlocal, indexof_nonneg]
          simp [addglobal, log, hy, hl2]
        have c : findglobal name (addglobal name f x) = some (name, f) := by
          simp [findglobal, addglobal, log]
        simp only [symboltype, a, b, c]
        cases f <;> simp
      unfold definesymbol
      cases h1 : symboltype name s <;> simp only
      · split
        · rw [hloc s rfl]; simp
        · exact hglob s _ rfl rfl
      · exfalso
        simp [symboltype, hp, hl] at h1
        split at h1
        · split at h1 <;> simp at h1
        · simp at h1
      · exfalso
        simp [symboltype, hp, hl] at h1
        split at h1
        · split at h1 <;> simp at h1
        · simp at h1
      · split
        · rw [hloc s rfl]; simp
        · exact hglob s _ rfl rfl
      · split
        · split
          · rw [hloc _ (by simp [endscope, log])]; simp
          · rw [hloc s rfl]; simp
        · split
          · exact hglob _ _ (by simp [endscope, log]) (by simp [endscope, log])
          · exact hglob s _ rfl rfl

theorem usesymbol_opcodes (name : String) (s : State)
    (h : symboltype name s ≠ .SYM_UNDEFINED) :
    (usesymbol name false s).f_opcodes = s.f_opcodes ++ addrcode name s := by
  unfold usesymbol addrcode
  cases h1 : symboltype name s <;>
    simp [h1, addopone, addopptr, emitwords, log] at h ⊢

theorem assignback_opcodes (symtype : SymType) (names : List String) (e : State) :
    (assignback symtype names e).f_opcodes = e.f_opcodes ++ backcode symtype names e := by
  induction names with
  | nil => simp [assignback, backcode]
  | cons name rest ih =>
    simp only [assignback, backcode]
    have h := usesymbol_opcodes name (definesymbol name symtype (assignback symtype rest e))
      (symboltype_definesymbol name symtype _)
    simp [addop, emitwords, log, h, definesymbol_opcodes, ih]

theorem defineall_opcodes (symtype : SymType) (names : List String) (e : State) :
    (defineall symtype names e).f_opcodes = e.f_opcodes := by
  induction names with
  | nil => simp [defineall]
  | cons name rest ih => simp [defineall, definesymbol_opcodes, ih]

theorem getonevariable_assign (n : Nat) (symtype : SymType) (s s1 e : State) (r : Int)
    (names : List String) (h : NameSeq s names s1)
    (hassign : (gettoken s1).1 = .T_ASSIGN)
    (hinit : run n .getopassignment (gettoken s1).2 = some (r, e)) :
    run (n + 1 + names.length) (.getonevariable symtype) s
      = some (1, assignback symtype names (rescantoken e)) := by
  induction h with
  | done s =>
    simp only [List.length_nil, Nat.add_zero]
    rw [run_succ]
    simp [body, getonevariable, hassign, hinit, assignback]
  | name s s1 names hsym _ ih =>
    have ih2 := ih hassign hinit
    simp only [List.length_cons]
    rw [← Nat.add_assoc, run_succ]
    simp [body, getonevariable, hsym, ih2, assignback, whenP]

theorem getonevariable_plain (n : Nat) (symtype : SymType) (s s1 : State)
    (names : List String) (h : NameSeq s names s1)
    (h1 : (gettoken s1).1 ≠ .T_SYMBOL) (h2 : (gettoken s1).1 ≠ .T_ASSIGN) :
    run (n + 1 + names.length) (.getonevariable symtype) s
      = some (0, defineall symtype names (rescantoken (gettoken s1).2)) := by
  induction h with
  | done s =>
    simp only [List.length_nil, Nat.add_zero]
    rw [run_succ]
    simp [body, getonevariable, h1, h2, defineall]
  | name s s1 names hsym _ ih =>
    have ih2 := ih h1 h2
    simp only [List.length_cons]
    rw [← Nat.add_assoc, run_succ]
    simp [body, getonevariable, hsym, ih2, defineall, whenP]

/-- One subsequence `n1 n2 ... nk = e` of a simple declaration, read by one
iteration of the loop of getsimpledeclaration: nothing is defined or emitted
while the names are read; then, from the last name back to the first one, the
name is defined and its address and ASSIGNBACK are emitted, and one POP
follows. A subsequence with no `=` defines its names and emits no code. -/
theorem simple_declaration_step (n k : Nat) (symtype : SymType) (s0 s1 e : State) (r : Int)
    (names : List String)
    (hsym : (gettoken s0).1 = .T_SYMBOL)
    (hnames : NameSeq (rescantoken (gettoken s0).2) names s1) :
    ((gettoken s1).2.locals = s0.locals ∧ (gettoken s1).2.params = s0.params
      ∧ (gettoken s1).2.globals = s0.globals ∧ (gettoken s1).2.f_opcodes = s0.f_opcodes
      ∧ (gettoken s1).2.trace = s0.trace)
    ∧ ((gettoken s1).1 = .T_ASSIGN → run n .getopassignment (gettoken s1).2 = some (r, e) →
        run (n + 1 + names.length) (.getonevariable symtype) (rescantoken (gettoken s0).2)
          = some (1, assignback symtype names (rescantoken e))
        ∧ getsimpledeclaration_loop (run (n + 1 + names.length)) symtype (k + 1) s0
          = getsimpledeclaration_loop (run (n + 1 + names.length)) symtype k
              (addop .OP_POP (assignback symtype names (rescantoken e)))
        ∧ (addop .OP_POP (assignback symtype names (rescantoken e))).f_opcodes
          = e.f_opcodes ++ backcode symtype names (rescantoken e) ++ [Word.op .OP_POP])
    ∧ ((gettoken s1).1 ≠ .T_SYMBOL → (gettoken s1).1 ≠ .T_ASSIGN →
        getsimpledeclaration_loop (run (n + 1 + names.length)) symtype (k + 1) s0
          = getsimpledeclaration_loop (run (n + 1 + names.length)) symtype k
              (defineall symtype names (rescantoken (gettoken s1).2))
        ∧ (defineall symtype names (rescantoken (gettoken s1).2)).f_opcodes = s0.f_opcodes)
    ∧ (∀ (name : String) (x : State),
        symboltype name (definesymbol name symtype x) ≠ .SYM_UNDEFINED
        ∧ (definesymbol name symtype x).f_opcodes = x.f_opcodes) := by
  obtain ⟨a1, a2, a3, a4, a5, _⟩ := nameseq_tables _ _ _ hnames
  obtain ⟨b1, b2, b3, b4, b5, _⟩ := gettoken_tables s1
  obtain ⟨c1, c2, c3, c4, c5, _⟩ := gettoken_tables s0
  refine ⟨⟨?_, ?_, ?_, ?_, ?_⟩, ?_, ?_, ?_⟩
  · rw [b1, a1]; exact c1
  · rw [b2, a2]; exact c2
  · rw [b3, a3]; exact c3
  · rw [b4, a4]; exact c4
  · rw [b5, a5]; exact c5
  · intro hassign hinit
    have h1 := getonevariable_assign n symtype _ s1 e r names hnames hassign hinit
    refine ⟨h1, ?_, ?_⟩
    · simp [getsimpledeclaration_loop, hsym, h1, whenP]
    · rw [show (addop .OP_POP (assignback symtype names (rescantoken e))).f_opcodes
          = (assignback symtype names (rescantoken e)).f_opcodes ++ [Word.op .OP_POP] from by
            simp [addop, emitwords, log],
        assignback_opcodes]
      rfl
  · intro h1 h2
    have h3 := getonevariable_plain n symtype _ s1 names hnames h1 h2
    refine ⟨?_, ?_⟩
    · simp [getsimpledeclaration_loop, hsym, h3, whenP]
    · rw [defineall_opcodes]
      show (gettoken s1).2.f_opcodes = s0.f_opcodes
      rw [b4, a4]; exact c4
  · intro name x
    exact ⟨symboltype_definesymbol name symtype x, definesymbol_opcodes name symtype x⟩

theorem argdone_trace (name : String) (op : Op) (addrflag : Bool) (argcount : Int) (s : State) :
    (argdone name op addrflag argcount s).trace
      = s.trace ++ argevents name op addrflag argcount := by
  unfold argdone argevents
  cases addrflag <;> by_cases h1 : op = .OP_CALL <;>
    by_cases h2 : name = "quomod" ∧ argcount > 2 <;>
    simp [h1, h2]

theorem callargs_arg (n k : Nat) (name : String) (op : Op) (index done : Int) (s s1 : State)
    (r : Int)
    (h1 : (gettoken s).1 ≠ .T_RIGHTPAREN)
    (h2 : (gettoken (rescantoken (gettoken s).2)).1 ≠ .T_COMMA)
    (harg : run n .getopassignment (argstart s) = some (r, s1)) :
    getcallargs_loop (run n) name op index (k + 1) done s
      = callargs_next (run n) name op index k (done + 1)
          (argdone name op (argflag s) (done + 1) s1) := by
  unfold argstart at harg
  unfold argflag argdone
  by_cases hbq : (gettoken (rescantoken (gettoken (rescantoken (gettoken s).2)).2)).1
      = .T_BACKQUOTE
  · rw [if_pos hbq] at harg
    by_cases hop : op = .OP_CALL <;> by_cases hq : name = "quomod" ∧ done + 1 > 2 <;>
      simp [getcallargs_loop, h1, h2, hbq, harg, hq, hop, callargs_next, whenP]
  · rw [if_neg hbq] at harg
    by_cases hop : op = .OP_CALL <;> by_cases hq : name = "quomod" ∧ done + 1 > 2 <;>
      simp [getcallargs_loop, h1, h2, hbq, harg, hq, hop, callargs_next, whenP]

theorem endcall_apply (op : Op) (index argcount : Int) (s : State) :
    ∃ e, endcall op index argcount s = some (0, e)
      ∧ e.trace = s.trace ++ callevents op index argcount
      ∧ e.f_opcodes = s.f_opcodes ++ [Word.op op, Word.arg index, Word.arg argcount] := by
  by_cases h : op = .OP_CALL <;>
    simp [endcall, callevents, h, whenP, builtincheck, addopfunction, emitwords, log]

theorem arglist_loop (n : Nat) (name : String) (op : Op) (index done : Int) (s e : State)
    (items : List ArgPos) (commas : Nat) (h : ArgList n name op done s items commas e) :
    ∀ k, items.length ≤ k →
      getcallargs_loop (run n) name op index k done s
        = endcall op index (done + items.length) e
      ∧ e.trace = s.trace ++ listevents name op done items
      ∧ items.length = commas + 1 := by
  induction h with
  | close done s h1 =>
    intro k hk
    obtain ⟨k, rfl⟩ : ∃ j, k = j + 1 := ⟨k - 1, by simp at hk; omega⟩
    simp [getcallargs_loop, h1, listevents, posevents, addop, emitwords, log, gettoken_trace]
  | comma done s e rest commas h1 h2 _ ih =>
    intro k hk
    obtain ⟨k, rfl⟩ : ∃ j, k = j + 1 := ⟨k - 1, by simp at hk; omega⟩
    obtain ⟨a, b, c⟩ := ih k (by simpa using hk)
    refine ⟨?_, ?_, by simp [c]⟩
    · simp [getcallargs_loop, h1, h2, a]
      congr 1
      ring
    · rw [b]
      simp [listevents, posevents, addop, emitwords, log, gettoken_trace]
  | last done s s1 r code h1 h2 harg htr hclose =>
    intro k hk
    obtain ⟨k, rfl⟩ : ∃ j, k = j + 1 := ⟨k - 1, by simp at hk; omega⟩
    refine ⟨?_, ?_, by simp⟩
    · rw [callargs_arg n k name op index done s s1 r h1 h2 harg]
      simp [callargs_next, hclose]
    · simp [gettoken_trace, argdone_trace, htr, listevents, posevents]
  | more done s s1 e r code rest commas h1 h2 harg htr hcomma _ ih =>
    intro k hk
    obtain ⟨k, rfl⟩ : ∃ j, k = j + 1 := ⟨k - 1, by simp at hk; omega⟩
    obtain ⟨a, b, c⟩ := ih k (by simpa using hk)
    refine ⟨?_, ?_, by simp [c]⟩
    · rw [callargs_arg n k name op index done s s1 r h1 h2 harg]
      simp [callargs_next, hcomma, a]
      congr 1
      ring
    · rw [b]
      simp [gettoken_trace, argdone_trace, htr, listevents, posevents]

/-- C39: getcallargs takes CALL with the builtin index when the name is a
builtin and USERCALL with the index given by adduserfunc otherwise. At `)`
right after the opening parenthesis the call is emitted with 0 arguments and
nothing else. Otherwise, for a list of argument positions separated by commas,
the calls are those of the positions in order and then the call, whose
argument count is the number of positions, one more than the number of commas;
an empty position is one UNDEF, and an argument without backquote (of a
function other than quomod) is its code followed by GETVALUE exactly when the
opcode is not CALL. -/
theorem C39_getcallargs (n : Nat) (name : String) (s e : State) (items : List ArgPos)
    (commas : Nat) :
    ((0 ≤ getbuiltinfunc name s → callee name s = ((.OP_CALL, getbuiltinfunc name s), s))
      ∧ (getbuiltinfunc name s < 0 →
        callee name s = ((.OP_USERCALL, (adduserfunc name s).1), (adduserfunc name s).2)))
    ∧ ((gettoken (callee name s).2).1 = .T_RIGHTPAREN →
        ∃ x, run (n + 1) (.getcallargs name) s = some (0, x)
          ∧ x.trace = (callee name s).2.trace
              ++ callevents (callee name s).1.1 (callee name s).1.2 0)
    ∧ ((gettoken (callee name s).2).1 ≠ .T_RIGHTPAREN →
        ArgList n name (callee name s).1.1 0 (rescantoken (gettoken (callee name s).2).2)
          items commas e →
        items.length ≤ n →
        ∃ x, run (n + 1) (.getcallargs name) s = some (0, x)
          ∧ x.trace = (callee name s).2.trace
              ++ listevents name (callee name s).1.1 0 items
              ++ callevents (callee name s).1.1 (callee name s).1.2 items.length
          ∧ (items.length : Int) = commas + 1)
    ∧ (∀ (op : Op) (c : Int), posevents name op c .empty = [Event.addop .OP_UNDEF])
    ∧ (∀ (op : Op) (c : Int) (code : List Event), name ≠ "quomod" →
        posevents name op c (.arg false code)
          = code ++ (if op = .OP_CALL then [] else [Event.addop .OP_GETVALUE])) := by
  refine ⟨⟨?_, ?_⟩, ?_, ?_, fun _ _ => rfl, ?_⟩
  · intro h
    have h2 : ¬ getbuiltinfunc name s < 0 := by omega
    simp [callee, h2]
  · intro h
    simp [callee, h]
  · intro h
    obtain ⟨x, hx, ht, _⟩ := endcall_apply (callee name s).1.1 (callee name s).1.2 0
      (gettoken (callee name s).2).2
    refine ⟨x, ?_, ?_⟩
    · rw [run_succ]
      simp [body, getcallargs, h, hx]
    · rw [ht]
      simp
  · intro h hl hk
    obtain ⟨a, b, c⟩ := arglist_loop n name (callee name s).1.1 (callee name s).1.2 0 _ e
      items commas hl n hk
    obtain ⟨x, hx, ht, _⟩ := endcall_apply (callee name s).1.1 (callee name s).1.2
      (0 + (items.length : Int)) e
    simp only [zero_add] at a hx ht
    refine ⟨x, ?_, ?_, ?_⟩
    · rw [run_succ]
      simp [body, getcallargs, h, a, hx]
    · rw [ht, b]
      simp
    · rw [c]
      simp
  · intro op c code hq
    by_cases h : op = .OP_CALL <;> simp [posevents, argevents, hq, h]

/-- Witness of C39: the sample call of the user function `g` has four argument
positions and three commas. -/
theorem C39_getcallargs_witness :
    (run 21 (.getcallargs "g") callsample).map (fun r => r.2.trace.drop 2)
      = some [Event.adduserfunc "g",
          Event.clearlabel 2, Event.clearlabel 3, Event.addopptr .OP_GLOBALADDR "a",
          Event.addop .OP_GETVALUE,
          Event.addop .OP_UNDEF,
          Event.clearlabel 6, Event.clearlabel 7, Event.addopptr .OP_GLOBALADDR "b",
          Event.writeindexop,
          Event.addop .OP_UNDEF,
          Event.addopfunction .OP_USERCALL 0 4] := by
  obtain ⟨x, hx, ht, _⟩ := (C39_getcallargs 20 "g" callsample _ _ 3).2.2.1 (by decide!)
    (ArgList.more 0 callsample0 callsample1 _ 0
      [Event.clearlabel 2, Event.clearlabel 3, Event.addopptr .OP_GLOBALADDR "a"] _ 2
      (by decide!) (by decide!) (by decide!) (by decide!) (by decide!)
      (ArgList.comma 1 _ _ _ 1 (by decide!) (by decide!)
        (ArgList.more 2 callsample2 callsample3 _ 0
          [Event.clearlabel 6, Event.clearlabel 7, Event.addopptr .OP_GLOBALADDR "b"] _ 0
          (by decide!) (by decide!) (by decide!) (by decide!) (by decide!)
          (ArgList.close 3 _ (by decide!)))))
    (by decide)
  rw [hx]
  show some (x.trace.drop 2) = _
  rw [ht]
  decide!

theorem getstatement_while_eq (n : Nat) (c b nc d : Option Nat) (s : State)
    (h : (gettoken (stmt_entry s)).1 = .T_WHILE) :
    run (n + 1) (.getstatement c b nc d) s
      = getstatement_while (run n) (s.labels.length + 1) (s.labels.length + 2)
          (gettoken (stmt_entry s)).2 := by
  rw [run_succ]
  simp only [stmt_entry] at h
  simp [body, getstatement, h, stmt_entry]
  rfl

theorem getstatement_do_eq (n : Nat) (c b nc d : Option Nat) (s : State)
    (h : (gettoken (stmt_entry s)).1 = .T_DO) :
    run (n + 1) (.getstatement c b nc d) s
      = getstatement_do (run n) (s.labels.length + 1) (s.labels.length + 2)
          (s.labels.length + 3) (gettoken (stmt_entry s)).2 := by
  rw [run_succ]
  simp only [stmt_entry] at h
  simp [body, getstatement, h, stmt_entry]
  rfl

/-- C40: for `while (c) body` getstatement places the continue label, emits the
code of c, JUMPZ to the break label, the body, JUMP to the continue label and
places the break label. For `do body while (c)` it places the label of the
top, emits the body, places the continue label, emits the code of c, JUMPNZ to
the top and places the break label. In both the body is compiled with the
continue label and the break label of the loop and without next-case and
default label: `continue` in the body emits JUMP to the continue label, and
`case` and `default:` in a statement compiled without these labels report an
error. -/
theorem C40_loop_layouts (n : Nat) (c b nc d : Option Nat) (s s4 s7 : State) (ty r : Int)
    (condT bodyT : List Event) :
    -- while
    ((gettoken (stmt_entry s)).1 = .T_WHILE →
      run n .getcondition (while_cond (s.labels.length + 1) (s.labels.length + 2)
        (gettoken (stmt_entry s)).2) = some (ty, s4) →
      s4.trace = (while_cond (s.labels.length + 1) (s.labels.length + 2)
        (gettoken (stmt_entry s)).2).trace ++ condT →
      run n (.getstatement (some (s.labels.length + 1)) (some (s.labels.length + 2)) none none)
        (addoplabel .OP_JUMPZ (s.labels.length + 2) s4) = some (r, s7) →
      s7.trace = (addoplabel .OP_JUMPZ (s.labels.length + 2) s4).trace ++ bodyT →
      run (n + 1) (.getstatement c b nc d) s
        = some (0, (tokenmode s.mode (setlabel (s.labels.length + 2)
            (addoplabel .OP_JUMP (s.labels.length + 1) s7))).2)
      ∧ (tokenmode s.mode (setlabel (s.labels.length + 2)
            (addoplabel .OP_JUMP (s.labels.length + 1) s7))).2.trace
        = s.trace
          ++ [Event.addopone .OP_DEBUG (linenumber s), Event.tokenmode TM_DEFAULT,
              Event.clearlabel (s.labels.length + 1), Event.clearlabel (s.labels.length + 2),
              Event.setlabel (s.labels.length + 1)]
          ++ condT ++ [Event.addoplabel .OP_JUMPZ (s.labels.length + 2)] ++ bodyT
          ++ [Event.addoplabel .OP_JUMP (s.labels.length + 1),
              Event.setlabel (s.labels.length + 2), Event.tokenmode s.mode])
    -- do
    ∧ ((gettoken (stmt_entry s)).1 = .T_DO →
      run n (.getstatement (some (s.labels.length + 1)) (some (s.labels.length + 2)) none none)
        (do_body (s.labels.length + 1) (s.labels.length + 2) (s.labels.length + 3)
          (gettoken (stmt_entry s)).2) = some (r, s7) →
      s7.trace = (do_body (s.labels.length + 1) (s.labels.length + 2) (s.labels.length + 3)
          (gettoken (stmt_entry s)).2).trace ++ bodyT →
      (gettoken s7).1 = .T_WHILE →
      run n .getcondition (setlabel (s.labels.length + 1) (gettoken s7).2) = some (ty, s4) →
      s4.trace = (setlabel (s.labels.length + 1) (gettoken s7).2).trace ++ condT →
      run (n + 1) (.getstatement c b nc d) s
        = some (0, (tokenmode s.mode (setlabel (s.labels.length + 2)
            (addoplabel .OP_JUMPNZ (s.labels.length + 3) s4))).2)
      ∧ (tokenmode s.mode (setlabel (s.labels.length + 2)
            (addoplabel .OP_JUMPNZ (s.labels.length + 3) s4))).2.trace
        = s.trace
          ++ [Event.addopone .OP_DEBUG (linenumber s), Event.tokenmode TM_DEFAULT,
              Event.clearlabel (s.labels.length + 1), Event.clearlabel (s.labels.length + 2),
              Event.clearlabel (s.labels.length + 3), Event.setlabel (s.labels.length + 3)]
          ++ bodyT ++ [Event.setlabel (s.labels.length + 1)] ++ condT
          ++ [Event.addoplabel .OP_JUMPNZ (s.labels.length + 3),
              Event.setlabel (s.labels.length + 2), Event.tokenmode s.mode])
    -- continue in a statement compiled with a continue label
    ∧ (∀ l : Nat, (gettoken (stmt_entry s)).1 = .T_CONTINUE →
      run (n + 1) (.getstatement (some l) b nc d) s
          = getstatement_end n (addoplabel .OP_JUMP l (gettoken (stmt_entry s)).2)
        ∧ (addoplabel .OP_JUMP l (gettoken (stmt_entry s)).2).trace
            = s.trace ++ [Event.addopone .OP_DEBUG (linenumber s), Event.addoplabel .OP_JUMP l])
    -- case in a statement compiled without next-case label
    ∧ ((gettoken (stmt_entry s)).1 = .T_CASE →
      run (n + 1) (.getstatement c b none none) s
          = some (0, scanerror .T_SEMICOLON "CASE not within SWITCH statement"
              (gettoken (stmt_entry s)).2)
        ∧ (scanerror .T_SEMICOLON "CASE not within SWITCH statement"
              (gettoken (stmt_entry s)).2).errorcount = s.errorcount + 1)
    -- default in a statement compiled without default label
    ∧ ((gettoken (stmt_entry s)).1 = .T_DEFAULT →
      (gettoken (gettoken (stmt_entry s)).2).1 = .T_COLON →
      run (n + 1) (.getstatement c b none none) s
          = some (0, scanerror .T_SEMICOLON "DEFAULT not within SWITCH statement"
              (gettoken (gettoken (stmt_entry s)).2).2)
        ∧ (scanerror .T_SEMICOLON "DEFAULT not within SWITCH statement"
              (gettoken (gettoken (stmt_entry s)).2).2).errorcount = s.errorcount + 1) := by
  have hmode : (tokenmode TM_DEFAULT (gettoken (stmt_entry s)).2).1 = s.mode := by
    simp [tokenmode, stmt_entry, addopone, emitwords, log, newlabels]
  refine ⟨?_, ?_, ?_, ?_, ?_⟩
  · intro h hcond hcondT hbody hbodyT
    constructor
    · rw [getstatement_while_eq n c b nc d s h]
      simp only [while_cond] at hcond
      simp [getstatement_while, hcond, hbody, hmode]
    · simp [hbodyT, hcondT, while_cond, tokenmode, log]
  · intro h hbody hbodyT hw hcond hcondT
    constructor
    · rw [getstatement_do_eq n c b nc d s h]
      simp only [do_body] at hbody
      simp [getstatement_do, hcond, hbody, hmode, hw]
    · simp [hbodyT, hcondT, do_body, tokenmode, log]
  · intro l h
    exact ⟨getstatement_continue_eq n (some l) b nc d s h, by simp⟩
  · intro h
    refine ⟨?_, ?_⟩
    · rw [getstatement_case_eq n c b none none s h]
      simp [getstatement_case]
    · simp
  · intro h hc
    refine ⟨?_, ?_⟩
    · rw [getstatement_default_eq n c b none none s h]
      simp [getstatement_default, hc]
    · simp

/-- Witness of C40: in `while (a) continue;` the body jumps to the label placed
in front of the condition. -/
theorem C40_loop_layouts_witness :
    (run 31 (.getstatement none none none none) whilesample).map
        (fun r => (r.1, r.2.f_opcodes, r.2.errorcount))
      = some (0,
          [Word.op .OP_DEBUG, Word.arg 1, Word.op .OP_GLOBALADDR, Word.ptr "a",
           Word.op .OP_JUMPZ, Word.arg 12, Word.op .OP_DEBUG, Word.arg 1,
           Word.op .OP_JUMP, Word.arg 2, Word.op .OP_JUMP, Word.arg 2], 0)
    ∧ (run 31 (.getstatement none none none none) dosample).map
        (fun r => (r.1, r.2.f_opcodes, r.2.errorcount))
      = some (0,
          [Word.op .OP_DEBUG, Word.arg 1, Word.op .OP_DEBUG, Word.arg 1,
           Word.op .OP_JUMP, Word.arg 6, Word.op .OP_GLOBALADDR, Word.ptr "a",
           Word.op .OP_JUMPNZ, Word.arg 2], 0) := by
  have h := (C40_loop_layouts 30 none none none none whilesample whilesample4 whilesample7 0 0
    [Event.clearlabel 7, Event.clearlabel 8, Event.addopptr .OP_GLOBALADDR "a"]
    [Event.addopone .OP_DEBUG 1, Event.addoplabel .OP_JUMP 1]).1
    (by decide!) (by decide!) (by decide!) (by decide!) (by decide!)
  have h2 := (C40_loop_layouts 30 none none none none dosample dosample4 dosample7 0 0
    [Event.clearlabel 12, Event.clearlabel 13, Event.addopptr .OP_GLOBALADDR "a"]
    [Event.addopone .OP_DEBUG 1, Event.addoplabel .OP_JUMP 1]).2.1
    (by decide!) (by decide!) (by decide!) (by decide!) (by decide!) (by decide!)
  rw [h.1, h2.1]
  decide!

/-! ## The for statement without init, through getstatement -/

theorem for_start_eq (s : State) :
    for_start s = for_init (s.labels.length + 1) (s.labels.length + 2) (s.labels.length + 3)
      (s.labels.length + 4) (gettoken (stmt_entry s)).2 := rfl

/-- C9: for `for (; cond; step) body` (init empty, cond and step present)
getstatement skips only the emission of init, at every emission offset of the
statement, offset 0 included: the condition label is placed, the code of cond,
JUMPNZ to the body label, JUMP to the break label; the step label is placed,
the code of step, POP, JUMP to the condition label; the body label is placed,
the body; JUMP to the step label; the break label is placed; no JUMP to the
body label precedes the step. The condition label is placed behind the DEBUG
opcode of the statement, at the offset of the statement plus 2. -/
theorem C9_for_empty_init (n : Nat) (c b nc d : Option Nat) (s s8 s12 s15 : State)
    (ty2 ty3 r : Int) (condT stepT bodyT : List Event)
    (hfor : (gettoken (stmt_entry s)).1 = .T_FOR)
    (hparen : (gettoken (for_start s)).1 = .T_LEFTPAREN)
    (hinit0 : (gettoken (gettoken (for_start s)).2).1 = .T_SEMICOLON)
    (hcond0 : (gettoken (gettoken (gettoken (for_start s)).2).2).1 ≠ .T_SEMICOLON)
    (hcond : run n .getexprlist
      (for_cond (s.labels.length + 1) (gettoken (gettoken (for_start s)).2).2) = some (ty2, s8))
    (hcondT : s8.trace
      = (for_cond (s.labels.length + 1) (gettoken (gettoken (for_start s)).2).2).trace ++ condT)
    (hsemi2 : (gettoken (addoplabel .OP_JUMP (s.labels.length + 4)
      (addoplabel .OP_JUMPNZ (s.labels.length + 3) s8))).1 = .T_SEMICOLON)
    (hstep0 : (gettoken (gettoken (addoplabel .OP_JUMP (s.labels.length + 4)
      (addoplabel .OP_JUMPNZ (s.labels.length + 3) s8))).2).1 ≠ .T_RIGHTPAREN)
    (hstep : run n .getexprlist
      (for_step (s.labels.length + 2) (s.labels.length + 3) (s.labels.length + 4) s8)
      = some (ty3, s12))
    (hstepT : s12.trace =
      (for_step (s.labels.length + 2) (s.labels.length + 3) (s.labels.length + 4) s8).trace
      ++ stepT)
    (hparen2 : (gettoken (addoplabel .OP_JUMP (s.labels.length + 1) (addop .OP_POP s12))).1
      = .T_RIGHTPAREN)
    (hbody : run n (.getstatement (some (s.labels.length + 2)) (some (s.labels.length + 4))
        none none) (for_body (s.labels.length + 1) (s.labels.length + 3) s12) = some (r, s15))
    (hbodyT : s15.trace = (for_body (s.labels.length + 1) (s.labels.length + 3) s12).trace
      ++ bodyT) :
    run (n + 1) (.getstatement c b nc d) s
      = some (0, for_end (s.labels.length + 2) (s.labels.length + 4) s.mode s15)
    ∧ (for_end (s.labels.length + 2) (s.labels.length + 4) s.mode s15).trace =
        s.trace
        ++ [Event.addopone .OP_DEBUG (linenumber s), Event.tokenmode TM_DEFAULT,
            Event.clearlabel (s.labels.length + 1), Event.clearlabel (s.labels.length + 2),
            Event.clearlabel (s.labels.length + 3), Event.clearlabel (s.labels.length + 4)]
        ++ [Event.setlabel (s.labels.length + 1)] ++ condT
        ++ [Event.addoplabel .OP_JUMPNZ (s.labels.length + 3),
            Event.addoplabel .OP_JUMP (s.labels.length + 4)]
        ++ [Event.setlabel (s.labels.length + 2)] ++ stepT
        ++ [Event.addop .OP_POP, Event.addoplabel .OP_JUMP (s.labels.length + 1)]
        ++ [Event.setlabel (s.labels.length + 3)] ++ bodyT
        ++ [Event.addoplabel .OP_JUMP (s.labels.length + 2),
            Event.setlabel (s.labels.length + 4), Event.tokenmode s.mode]
    ∧ (getlabel (s.labels.length + 1)
        (for_cond (s.labels.length + 1) (gettoken (gettoken (for_start s)).2).2)).l_offset
      = (s.f_opcodes.length : Int) + 2 := by
  have hlen : (gettoken (stmt_entry s)).2.labels.length = s.labels.length + 5 := by
    simp [stmt_entry, addopone, emitwords, log]
  have hmode : (gettoken (stmt_entry s)).2.mode = s.mode := by
    simp [stmt_entry, addopone, emitwords, log, newlabels]
  have hoff : (getlabel (s.labels.length + 1)
      (for_cond (s.labels.length + 1) (gettoken (gettoken (for_start s)).2).2)).l_offset
      = (s.f_opcodes.length : Int) + 2 := by
    unfold for_cond
    rw [getlabel_congr (labels_rescantoken _),
      getlabel_setlabel_self _ _ (by simp [for_start, stmt_entry, addopone, emitwords, log,
        tokenmode])]
    simp [for_start, stmt_entry, addopone, emitwords, log, tokenmode, newlabels]
  rw [for_start_eq] at hparen hinit0 hcond0 hcond hcondT hoff
  have h := getstatement_for_without_init n (s.labels.length + 1) (s.labels.length + 2)
    (s.labels.length + 3) (s.labels.length + 4) (gettoken (stmt_entry s)).2 s8 s12 s15
    ty2 ty3 r condT stepT bodyT (by rw [hlen]; omega) (by omega) (by rw [hoff]; omega)
    hparen hinit0 hcond0 hcond hcondT hsemi2 hstep0 hstep hstepT hparen2 hbody hbodyT
  rw [hmode] at h
  refine ⟨?_, ?_, ?_⟩
  · rw [getstatement_for_eq n c b nc d s hfor]
    exact h.1
  · rw [h.2]
    simp [stmt_entry, linenumber, newlabels]
  · rw [for_start_eq]
    exact hoff

/-- Witness of C9: `for (; b; c) d;` as the first statement of a function; the
condition label is placed at offset 2, behind DEBUG. -/
theorem C9_for_empty_init_witness :
    forsample9.f_opcodes = []
    ∧ (run 21 (.getstatement none none none none) forsample9).map
        (fun r => (r.1, r.2.f_opcodes))
      = some (0,
          [Word.op .OP_DEBUG, Word.arg 1,
           Word.op .OP_GLOBALADDR, Word.ptr "b", Word.op .OP_JUMPNZ, Word.arg 13,
           Word.op .OP_JUMP, Word.arg 20,
           Word.op .OP_GLOBALADDR, Word.ptr "c", Word.op .OP_POP, Word.op .OP_JUMP, Word.arg 2,
           Word.op .OP_DEBUG, Word.arg 1, Word.op .OP_GLOBALADDR, Word.ptr "d", Word.op .OP_POP,
           Word.op .OP_JUMP, Word.arg 8]) := by
  have h := C9_for_empty_init 20 none none none none forsample9 forsample9a forsample9b
    forsample9c 0 0 0
    [Event.clearlabel 7, Event.clearlabel 8, Event.addopptr .OP_GLOBALADDR "b"]
    [Event.clearlabel 11, Event.clearlabel 12, Event.addopptr .OP_GLOBALADDR "c"]
    [Event.addopone .OP_DEBUG 1, Event.clearlabel 20, Event.clearlabel 21,
     Event.addopptr .OP_GLOBALADDR "d", Event.addop .OP_POP]
    (by decide!) (by decide!) (by decide!) (by decide!) (by decide!) (by decide!) (by decide!)
    (by decide!) (by decide!) (by decide!) (by decide!) (by decide!) (by decide!)
  rw [h.1]
  constructor <;> decide!

/-! ## The parameters of a function definition -/

theorem paramlist_loop (n label : Nat) (x e : State)
    (items : List (String × Int × Option (List Event))) (h : ParamList n label x items e) :
    ∀ (k : Nat) (index : Int), items.length + 1 ≤ k →
      getfunction_params (run n) label k index x = getfunction_body (run n) e
      ∧ e.trace = x.trace ++ paramevents label items := by
  induction h with
  | close x hc =>
    intro k index hk
    obtain ⟨k, rfl⟩ : ∃ j, k = j + 1 := ⟨k - 1, by omega⟩
    simp [getfunction_params, hc, paramevents]
  | plain_last x hsym hnew hc =>
    intro k index hk
    obtain ⟨k, rfl⟩ : ∃ j, k = j + 1 := ⟨k - 1, by omega⟩
    have hne : (gettoken (addparam (tokensymbol (gettoken x).2) (gettoken x).2).2).1
        ≠ .T_ASSIGN := by rw [hc]; decide
    obtain ⟨a, _, c⟩ := (getfunction_params_step n k label index x x 0 [] hsym hnew).2 hne
    refine ⟨?_, ?_⟩
    · rw [a]
      simp [param_next, hc]
    · rw [c]
      simp [paramevents]
  | plain_more x e rest hsym hnew hc _ ih =>
    intro k index hk
    obtain ⟨k, rfl⟩ : ∃ j, k = j + 1 := ⟨k - 1, by omega⟩
    have hne : (gettoken (addparam (tokensymbol (gettoken x).2) (gettoken x).2).2).1
        ≠ .T_ASSIGN := by rw [hc]; decide
    obtain ⟨a, _, c⟩ := (getfunction_params_step n k label index x x 0 [] hsym hnew).2 hne
    obtain ⟨i1, i2⟩ := ih k (addparam (tokensymbol (gettoken x).2) (gettoken x).2).1
      (by simp at hk; omega)
    refine ⟨?_, ?_⟩
    · rw [a]
      simp [param_next, hc, i1]
    · rw [i2, c]
      simp [paramevents]
  | default_last x s7 ty code hsym hnew hassign hexpr hexprT hc =>
    intro k index hk
    obtain ⟨k, rfl⟩ : ∃ j, k = j + 1 := ⟨k - 1, by omega⟩
    obtain ⟨a, c⟩ := (getfunction_params_step n k label index x s7 ty code hsym hnew).1
      hassign hexpr hexprT
    refine ⟨?_, ?_⟩
    · rw [a]
      simp [param_next, hc]
    · rw [gettoken_trace, c]
      simp [paramevents]
  | default_more x s7 e ty code rest hsym hnew hassign hexpr hexprT hc _ ih =>
    intro k index hk
    obtain ⟨k, rfl⟩ : ∃ j, k = j + 1 := ⟨k - 1, by omega⟩
    obtain ⟨a, c⟩ := (getfunction_params_step n k label index x s7 ty code hsym hnew).1
      hassign hexpr hexprT
    obtain ⟨i1, i2⟩ := ih k (addparam (tokensymbol (gettoken x).2) (gettoken x).2).1
      (by simp at hk; omega)
    refine ⟨?_, ?_⟩
    · rw [a]
      simp [param_next, hc, i1]
    · rw [i2, gettoken_trace, c]
      simp [paramevents]

/-- C17: getfunction, for a definition `name(p1, ..., pm)` whose name is no
builtin and whose parameters are all accepted by addparam, makes for every
parameter, in source order, the call addparam and, when the parameter has a
default value, emits PARAMADDR with the slot addparam returned, JUMPNN to the
label, the code of the default expression and ASSIGNPOP, and places the label
immediately after ASSIGNPOP; a parameter without `=` emits no code. It then
goes on with the body of the function. The last part is one iteration of the
parameter loop, in any state, for a name that addparam accepts. -/
theorem C17_getfunction_parameters (fuel : Nat) (s e : State)
    (items : List (String × Int × Option (List Event)))
    (hsym : (gettoken (tokenmode TM_DEFAULT (newlabels 1 s).2).2).1 = .T_SYMBOL)
    (hnb : getbuiltinfunc (tokensymbol (func_name s)) (func_name s) < 0)
    (hparen : (gettoken (func_scope s)).1 = .T_LEFTPAREN)
    (hparams : ParamList fuel s.labels.length (gettoken (func_scope s)).2 items e)
    (hlen : items.length + 1 ≤ fuel) :
    getfunction fuel s = getfunction_body (run fuel) e
    ∧ e.trace = s.trace
        ++ [Event.tokenmode TM_DEFAULT, Event.beginfunc (tokensymbol (func_name s)) false,
            Event.enterfuncscope]
        ++ paramevents s.labels.length items
    ∧ (∀ (name : String) (slot : Int) (code : List Event)
        (rest : List (String × Int × Option (List Event))),
        paramevents s.labels.length ((name, slot, some code) :: rest)
          = [Event.addparam name, Event.clearlabel s.labels.length,
              Event.addopone .OP_PARAMADDR slot, Event.addoplabel .OP_JUMPNN s.labels.length]
            ++ code ++ [Event.addop .OP_ASSIGNPOP, Event.setlabel s.labels.length]
            ++ paramevents s.labels.length rest)
    ∧ (∀ (name : String) (slot : Int) (rest : List (String × Int × Option (List Event))),
        paramevents s.labels.length ((name, slot, none) :: rest)
          = [Event.addparam name] ++ paramevents s.labels.length rest)
    ∧ (∀ (n k label : Nat) (index : Int) (x s7 : State) (ty : Int) (exprT : List Event),
        (gettoken x).1 = .T_SYMBOL →
        (symboltype (tokensymbol (gettoken x).2) (gettoken x).2 = .SYM_UNDEFINED
          ∨ symboltype (tokensymbol (gettoken x).2) (gettoken x).2 = .SYM_GLOBAL
          ∨ symboltype (tokensymbol (gettoken x).2) (gettoken x).2 = .SYM_STATIC) →
        ((gettoken (addparam (tokensymbol (gettoken x).2) (gettoken x).2).2).1 = .T_ASSIGN →
          run n .getopassignment (param_default label
              (addparam (tokensymbol (gettoken x).2) (gettoken x).2).1
              (gettoken (addparam (tokensymbol (gettoken x).2) (gettoken x).2).2).2)
            = some (ty, s7) →
          s7.trace = (param_default label
              (addparam (tokensymbol (gettoken x).2) (gettoken x).2).1
              (gettoken (addparam (tokensymbol (gettoken x).2) (gettoken x).2).2).2).trace
            ++ exprT →
          getfunction_params (run n) label (k + 1) index x
            = param_next (run n) label k (addparam (tokensymbol (gettoken x).2) (gettoken x).2).1
                (gettoken (setlabel label (addop .OP_ASSIGNPOP s7))).1
                (gettoken (setlabel label (addop .OP_ASSIGNPOP s7))).2
          ∧ (setlabel label (addop .OP_ASSIGNPOP s7)).trace
            = x.trace ++ [Event.addparam (tokensymbol (gettoken x).2), Event.clearlabel label,
                Event.addopone .OP_PARAMADDR
                  (addparam (tokensymbol (gettoken x).2) (gettoken x).2).1,
                Event.addoplabel .OP_JUMPNN label]
              ++ exprT ++ [Event.addop .OP_ASSIGNPOP, Event.setlabel label])
        ∧ ((gettoken (addparam (tokensymbol (gettoken x).2) (gettoken x).2).2).1 ≠ .T_ASSIGN →
          getfunction_params (run n) label (k + 1) index x
            = param_next (run n) label k (addparam (tokensymbol (gettoken x).2) (gettoken x).2).1
                (gettoken (addparam (tokensymbol (gettoken x).2) (gettoken x).2).2).1
                (gettoken (addparam (tokensymbol (gettoken x).2) (gettoken x).2).2).2
          ∧ (gettoken (addparam (tokensymbol (gettoken x).2) (gettoken x).2).2).2.f_opcodes
            = x.f_opcodes
          ∧ (gettoken (addparam (tokensymbol (gettoken x).2) (gettoken x).2).2).2.trace
            = x.trace ++ [Event.addparam (tokensymbol (gettoken x).2)])) := by
  obtain ⟨a, b⟩ := paramlist_loop fuel s.labels.length _ e items hparams fuel 0 hlen
  refine ⟨?_, ?_, fun _ _ _ _ => rfl, fun _ _ _ => rfl,
    fun n k label index x s7 ty exprT hsym hnew =>
      getfunction_params_step n k label index x s7 ty exprT hsym hnew⟩
  · have hnb2 : ¬ getbuiltinfunc (tokensymbol (func_name s)) (func_name s) ≥ 0 := by omega
    simp only [func_name] at hnb2
    simp only [func_scope, func_name] at hparen a
    simp [getfunction, hsym, hnb2, hparen]
    exact a
  · rw [b]
    simp [func_scope, func_name, beginfunc, enterfuncscope, log, tokenmode, newlabels]

/-- Witness of C17: `define g(a = 10, b) = a`. -/
theorem C17_getfunction_parameters_witness :
    (getfunction 20 funcsample).map (fun r => (r.2.f_opcodes, r.2.params, r.2.errorcount))
      = some ([Word.op .OP_PARAMADDR, Word.arg 0, Word.op .OP_JUMPNN, Word.arg 7,
          Word.op .OP_NUMBER, Word.arg 0, Word.op .OP_ASSIGNPOP,
          Word.op .OP_PARAMADDR, Word.arg 0, Word.op .OP_RETURN], ["a", "b"], 0)
    ∧ (after (getfunction 20 funcsample) funcsample).trace.take 13
      = [Event.tokenmode TM_DEFAULT, Event.beginfunc "g" false, Event.enterfuncscope,
         Event.addparam "a", Event.clearlabel 0, Event.addopone .OP_PARAMADDR 0,
         Event.addoplabel .OP_JUMPNN 0,
         Event.clearlabel 3, Event.clearlabel 4, Event.addopone .OP_NUMBER 0,
         Event.addop .OP_ASSIGNPOP, Event.setlabel 0, Event.addparam "b"] := by
  have h := C17_getfunction_parameters 20 funcsample _ _ (by decide!) (by decide!) (by decide!)
    (ParamList.default_more _ funcsample7 _ 3
      [Event.clearlabel 3, Event.clearlabel 4, Event.addopone .OP_NUMBER 0] _
      (by decide!) (by decide!) (by decide!) (by decide!) (by decide!) (by decide!)
      (ParamList.plain_last _ (by decide!) (by decide!) (by decide!)))
    (by decide)
  rw [h.1]
  constructor <;> decide!

/-! ## The calls of writeindexop made by a function itself -/

/-- C29 (amended): a chain `a OP1= b OP2= c` is compiled from left to right,
for every pair of compound operators: after the lvalue a, writeindexop, then
DUPLICATE, the code of b (parsed by getassignment, which stops before OP2=),
the opcode of OP1, ASSIGN, then DUPLICATE, the code of c, the opcode of OP2,
ASSIGN; for the globals a, b, c and `+=` these are the opcodes of
`(a += b) += c`. Simple assignment is right-associative: in `a = b = c` the
right operand of the first `=` is the assignment `b = c`, and the calls are
the code of a, writeindexop, the code of b, writeindexop, the code of c,
ASSIGN, ASSIGN. -/
theorem C29_chain_left_to_right (n : Nat) (s s1 b1 b2 : State) (type : Int) (op1 op2 : Op)
    (r1 r2 : List Event) (x sa sb sc : State) (ta tb tc : Int) (ra rb rc : List Event) :
    (2 ≤ n →
      run n .getassignment s = some (type, s1) →
      isrvalue type = false →
      opassignop (gettoken s1).1 = some op1 →
      getopassignment_rhs n (run n) (addop .OP_DUPLICATE (writeindexop (gettoken s1).2))
        = some ((), b1) →
      b1.trace = (addop .OP_DUPLICATE (writeindexop (gettoken s1).2)).trace ++ r1 →
      opassignop (gettoken (addop .OP_ASSIGN (addop op1 b1))).1 = some op2 →
      getopassignment_rhs n (run n)
        (addop .OP_DUPLICATE (gettoken (addop .OP_ASSIGN (addop op1 b1))).2) = some ((), b2) →
      b2.trace
        = (addop .OP_DUPLICATE (gettoken (addop .OP_ASSIGN (addop op1 b1))).2).trace ++ r2 →
      opassignop (gettoken (addop .OP_ASSIGN (addop op2 b2))).1 = none →
      run (n + 1) .getopassignment s
        = some (EXPR_ASSIGN, rescantoken (gettoken (addop .OP_ASSIGN (addop op2 b2))).2)
      ∧ (rescantoken (gettoken (addop .OP_ASSIGN (addop op2 b2))).2).trace
        = s1.trace ++ [Event.writeindexop, Event.addop .OP_DUPLICATE] ++ r1
          ++ [Event.addop op1, Event.addop .OP_ASSIGN, Event.addop .OP_DUPLICATE] ++ r2
          ++ [Event.addop op2, Event.addop .OP_ASSIGN])
    ∧ ((gettoken x).1 ∉ emptyexprtokens →
      run (n + 1) .getaltcond (rescantoken (gettoken x).2) = some (ta, sa) →
      sa.trace = x.trace ++ ra →
      isrvalue ta = false → (gettoken sa).1 = .T_ASSIGN →
      (gettoken (writeindexop (gettoken sa).2)).1 ≠ .T_LEFTBRACE →
      (gettoken (assign_rhs sa)).1 ∉ emptyexprtokens →
      run n .getaltcond (rescantoken (gettoken (assign_rhs sa)).2) = some (tb, sb) →
      sb.trace = sa.trace ++ [Event.writeindexop] ++ rb →
      isrvalue tb = false → (gettoken sb).1 = .T_ASSIGN →
      (gettoken (writeindexop (gettoken sb).2)).1 ≠ .T_LEFTBRACE →
      run n .getassignment (assign_rhs sb) = some (tc, sc) →
      sc.trace = sb.trace ++ [Event.writeindexop] ++ rc →
      run (n + 1) .getassignment (assign_rhs sa) = some (EXPR_ASSIGN, addop .OP_ASSIGN sc)
      ∧ run (n + 2) .getassignment x
        = some (EXPR_ASSIGN, addop .OP_ASSIGN (addop .OP_ASSIGN sc))
      ∧ (addop .OP_ASSIGN (addop .OP_ASSIGN sc)).trace
        = x.trace ++ ra ++ [Event.writeindexop] ++ rb ++ [Event.writeindexop] ++ rc
          ++ [Event.addop .OP_ASSIGN, Event.addop .OP_ASSIGN])
    ∧ (run 21 .getopassignment chainsample).map (fun r => r.2.f_opcodes)
      = (run 60 .getopassignment chainleftsample).map (fun r => r.2.f_opcodes) := by
  refine ⟨?_, ?_, by decide!⟩
  · intro hn hlv hkind hop1 hb hbT hop2 hc hcT hend
    exact compound_pair_layout n s s1 b1 b2 type op1 op2 r1 r2 hn hlv hkind hop1 hb hbT
      hop2 hc hcT hend
  · intro hx ha haT hka hassa hnb hy hb hbT hkb hassb hbrace hc hcT
    have hx2 := hx
    simp [emptyexprtokens] at hx2
    have hy2 := hy
    simp [emptyexprtokens] at hy2
    have hinner : run (n + 1) .getassignment (assign_rhs sa)
        = some (EXPR_ASSIGN, addop .OP_ASSIGN sc) := by
      simp only [assign_rhs] at hc
      rw [run_succ]
      simp [body, getassignment, hy2, hb, getassignment_tail, hassb, hkb, hbrace, hc]
    refine ⟨hinner, ?_, ?_⟩
    · simp only [assign_rhs] at hinner
      rw [run_succ]
      simp [body, getassignment, hx2, ha, getassignment_tail, hassa, hka, hnb, hinner]
    · simp [hcT, hbT, haT]

/-- Witness of C29: the chain `a += b += c` and the assignment `a = b = c`
with globals a, b, c. -/
theorem C29_chain_left_to_right_witness :
    (run 21 .getopassignment chainsample).map (fun r => r.2.f_opcodes)
      = some [Word.op .OP_GLOBALADDR, Word.ptr "a", Word.op .OP_DUPLICATE,
          Word.op .OP_GLOBALADDR, Word.ptr "b", Word.op .OP_ADD, Word.op .OP_ASSIGN,
          Word.op .OP_DUPLICATE, Word.op .OP_GLOBALADDR, Word.ptr "c", Word.op .OP_ADD,
          Word.op .OP_ASSIGN]
    ∧ (run 21 .getassignment assignchainsample).map (fun r => r.2.f_opcodes)
      = some [Word.op .OP_GLOBALADDR, Word.ptr "a", Word.op .OP_GLOBALADDR, Word.ptr "b",
          Word.op .OP_GLOBALADDR, Word.ptr "c", Word.op .OP_ASSIGN, Word.op .OP_ASSIGN] := by
  have h := (C29_chain_left_to_right 20 chainsample
    (after (run 20 .getassignment chainsample) chainsample)
    (after (getopassignment_rhs 20 (run 20) (addop .OP_DUPLICATE (writeindexop
        (gettoken (after (run 20 .getassignment chainsample) chainsample)).2))) chainsample)
    (after (getopassignment_rhs 20 (run 20) (addop .OP_DUPLICATE
          (gettoken (addop .OP_ASSIGN (addop .OP_ADD
            (after (getopassignment_rhs 20 (run 20) (addop .OP_DUPLICATE (writeindexop
              (gettoken (after (run 20 .getassignment chainsample) chainsample)).2)))
              chainsample)))).2)) chainsample)
    0 .OP_ADD .OP_ADD
    [Event.clearlabel 6, Event.clearlabel 7, Event.addopptr .OP_GLOBALADDR "b"]
    [Event.clearlabel 10, Event.clearlabel 11, Event.addopptr .OP_GLOBALADDR "c"]
    chainsample chainsample chainsample chainsample 0 0 0 [] [] []).1
    (by decide) (by decide!) (by decide) (by decide!) (by decide!) (by decide!) (by decide!)
    (by decide!) (by decide!) (by decide!)
  have g := (C29_chain_left_to_right 19 chainsample chainsample chainsample chainsample 0
    .OP_ADD .OP_ADD [] []
    assignchainsample assignchainsample1 assignchainsample2 assignchainsample3 0 0 0
    [Event.clearlabel 2, Event.clearlabel 3, Event.addopptr .OP_GLOBALADDR "a"]
    [Event.clearlabel 6, Event.clearlabel 7, Event.addopptr .OP_GLOBALADDR "b"]
    [Event.clearlabel 10, Event.clearlabel 11, Event.addopptr .OP_GLOBALADDR "c"]).2.1
    (by decide!) (by decide!) (by decide!) (by decide) (by decide!) (by decide!) (by decide!)
    (by decide!) (by decide!) (by decide) (by decide!) (by decide!) (by decide!) (by decide!)
  rw [h.1, g.2.1]
  constructor <;> decide!

/-! ## Flat initializer lists, through getinitlist -/

theorem inititems_loop (n : Nat) (oldmode index : Int) (s e : State)
    (items : List (Int × List Event)) (steps : Nat) (last : Int)
    (h : InitItems n oldmode index s items steps e last) :
    ∀ k, steps ≤ k →
      getinitlist_loop (run n) oldmode k index s = some (last, e)
      ∧ e.trace = s.trace ++ itemevents items ++ [Event.tokenmode oldmode] := by
  induction h with
  | skip index last s e items steps hc _ ih =>
    intro k hk
    obtain ⟨k, rfl⟩ : ∃ j, k = j + 1 := ⟨k - 1, by omega⟩
    obtain ⟨i1, i2⟩ := ih k (by omega)
    refine ⟨?_, ?_⟩
    · simp [getinitlist_loop, hc, i1]
    · rw [i2]
      simp
  | close index s hc =>
    intro k hk
    obtain ⟨k, rfl⟩ : ∃ j, k = j + 1 := ⟨k - 1, by omega⟩
    refine ⟨?_, ?_⟩
    · simp [getinitlist_loop, hc]
    · simp [itemevents]
  | last index s b ty r ht hb hbT hend =>
    intro k hk
    obtain ⟨k, rfl⟩ : ∃ j, k = j + 1 := ⟨k - 1, by omega⟩
    simp only [List.mem_cons, List.mem_singleton, List.not_mem_nil, or_false, not_or] at ht
    obtain ⟨h1, h2, h3, h4⟩ := ht
    refine ⟨?_, ?_⟩
    · rw [getinitlist_loop_elem _ _ _ _ _ h1 h2 h3]
      simp [getinitlist_elem, h4, hb, initlist_sep, hend]
    · simp [hbT, itemevents]
  | more index last s b e ty r rest steps ht hb hbT hsep _ ih =>
    intro k hk
    obtain ⟨k, rfl⟩ : ∃ j, k = j + 1 := ⟨k - 1, by omega⟩
    simp only [List.mem_cons, List.mem_singleton, List.not_mem_nil, or_false, not_or] at ht
    obtain ⟨h1, h2, h3, h4⟩ := ht
    obtain ⟨i1, i2⟩ := ih k (by omega)
    refine ⟨?_, ?_⟩
    · rw [getinitlist_loop_elem _ _ _ _ _ h1 h2 h3]
      simp [getinitlist_elem, h4, hb, initlist_sep, hsep, i1]
    · rw [i2]
      simp [hbT, itemevents]

theorem getinitlist_brace (n : Nat) (s : State)
    (h : (gettoken (tokenmode TM_DEFAULT s).2).1 = .T_LEFTBRACE) :
    run (n + 1) .getinitlist s = getinitlist_loop (run n) s.mode n 0 (initlist_open s) := by
  have hm : (tokenmode TM_DEFAULT s).1 = s.mode := rfl
  rw [run_succ]
  simp [body, getinitlist, h, initlist_open, hm]

/-- C37: getinitlist on a flat initializer list `{ e1, ..., em }` (elements
without braces, single commas, no trailing comma) emits for every element its
code and then ELEMINIT, with the operands 0, 1, ..., m-1 in source order, and
returns m-1. In general, for elements at any positions between commas, the
calls are the code of each element followed by ELEMINIT with its position: a
comma met where an element is expected advances the position by one and emits
nothing. -/
theorem C37_getinitlist_flat (n : Nat) (s e : State) (codes : List (List Event))
    (items : List (Int × List Event)) (steps : Nat) (last : Int)
    (hbrace : (gettoken (tokenmode TM_DEFAULT s).2).1 = .T_LEFTBRACE) :
    (FlatList n s.mode 0 (initlist_open s) codes e last → codes.length ≤ n →
      run (n + 1) .getinitlist s = some (last, e)
      ∧ e.trace = s.trace ++ [Event.tokenmode TM_DEFAULT] ++ initevents 0 codes
          ++ [Event.tokenmode s.mode]
      ∧ last = codes.length - 1)
    ∧ (InitItems n s.mode 0 (initlist_open s) items steps e last → steps ≤ n →
      run (n + 1) .getinitlist s = some (last, e)
      ∧ e.trace = s.trace ++ [Event.tokenmode TM_DEFAULT] ++ itemevents items
          ++ [Event.tokenmode s.mode])
    ∧ (∀ (i : Int) (r : List Event) (rest : List (List Event)),
        initevents i (r :: rest)
          = r ++ [Event.addopone .OP_ELEMINIT i] ++ initevents (i + 1) rest) := by
  have ht : (initlist_open s).trace = s.trace ++ [Event.tokenmode TM_DEFAULT] := by
    simp [initlist_open]
  refine ⟨?_, ?_, fun _ _ _ => rfl⟩
  · intro h hk
    obtain ⟨a, b, c⟩ := flatlist_loop n s.mode 0 _ e codes last h n hk
    refine ⟨?_, ?_, ?_⟩
    · rw [getinitlist_brace n s hbrace, a]
    · rw [b, ht]
    · rw [c]
      simp
  · intro h hk
    obtain ⟨a, b⟩ := inititems_loop n s.mode 0 _ e items steps last h n hk
    refine ⟨?_, ?_⟩
    · rw [getinitlist_brace n s hbrace, a]
    · rw [b, ht]

/-- Witness of C37: `{ 1, 2, 3 }` gives ELEMINIT 0, 1, 2 and `{ , , 7 }` gives
only ELEMINIT 2. -/
theorem C37_getinitlist_flat_witness :
    (run 21 .getinitlist flatlistsample).map (fun x => (x.1, x.2.f_opcodes))
      = some (2, [Word.op .OP_NUMBER, Word.arg 1, Word.op .OP_ELEMINIT, Word.arg 0,
          Word.op .OP_NUMBER, Word.arg 2, Word.op .OP_ELEMINIT, Word.arg 1,
          Word.op .OP_NUMBER, Word.arg 3, Word.op .OP_ELEMINIT, Word.arg 2])
    ∧ (run 21 .getinitlist leadlistsample).map (fun x => (x.1, x.2.f_opcodes))
      = some (2, [Word.op .OP_NUMBER, Word.arg 0, Word.op .OP_ELEMINIT, Word.arg 2]) := by
  have hf : FlatList 20 flatlistsample.mode 0 (initlist_open flatlistsample)
      [[Event.clearlabel 2, Event.clearlabel 3, Event.addopone .OP_NUMBER 1],
       [Event.clearlabel 6, Event.clearlabel 7, Event.addopone .OP_NUMBER 2],
       [Event.clearlabel 10, Event.clearlabel 11, Event.addopone .OP_NUMBER 3]]
      (tokenmode flatlistsample.mode (gettoken (addopone .OP_ELEMINIT 2 flatlistsample5)).2).2
      2 :=
    FlatList.more 0 2 (initlist_open flatlistsample) flatlistsample1 _ 3 _ _ (by decide!)
      (by decide!) (by decide!) (by decide!)
      (FlatList.more 1 2 flatlistsample2 flatlistsample3 _ 3 _ _ (by decide!) (by decide!)
        (by decide!) (by decide!)
        (FlatList.last 2 flatlistsample4 flatlistsample5 3 _ (by decide!) (by decide!)
          (by decide!) (by decide!)))
  have h := (C37_getinitlist_flat 20 flatlistsample _ _ [] 0 2 (by decide!)).1 hf (by decide)
  have hi : InitItems 20 leadlistsample.mode 0 (initlist_open leadlistsample)
      [(2, [Event.clearlabel 2, Event.clearlabel 3, Event.addopone .OP_NUMBER 0])] 3
      (tokenmode leadlistsample.mode (gettoken (addopone .OP_ELEMINIT 2 leadlistsample3)).2).2
      2 :=
    InitItems.skip 0 2 _ _ _ 2 (by decide!)
      (InitItems.skip 1 2 _ _ _ 1 (by decide!)
        (InitItems.last 2 leadlistsample2 leadlistsample3 3 _ (by decide!) (by decide!)
          (by decide!) (by decide!)))
  have g := (C37_getinitlist_flat 20 leadlistsample _ [] _ 3 2 (by decide!)).2.1 hi (by decide)
  rw [h.1, g.1]
  constructor <;> decide!

/-! ## Simple declarations, through getsimpledeclaration -/

theorem nameseq_nonempty (s0 s1 : State) (names : List String)
    (hsym : (gettoken s0).1 = .T_SYMBOL)
    (hnames : NameSeq (rescantoken (gettoken s0).2) names s1)
    (h : (gettoken s1).1 ≠ .T_SYMBOL) : 1 ≤ names.length := by
  cases hnames with
  | done _ =>
    exfalso
    apply h
    rw [gettoken_rescantoken]
    show (gettoken s0).2.curtoken.t_type = _
    rw [gettoken_curtoken]
    exact hsym
  | name _ _ names _ _ => simp

/-- C38: getsimpledeclaration on a subsequence `n1 n2 ... nk = e`: nothing is
defined or emitted while the names are read, so the initializer is compiled
with the symbols visible before the declaration; then, from the last name back
to the first one, the name is defined and its address and ASSIGNBACK are
emitted, and getsimpledeclaration emits one POP and goes on with the rest of
the declaration; when the declaration ends there it returns with exactly this
code. On a subsequence with no `=` getsimpledeclaration defines the names from
the last one back to the first one and emits no code. -/
theorem C38_getsimpledeclaration (n : Nat) (symtype : SymType) (s0 s1 e : State) (r : Int)
    (names : List String)
    (hsym : (gettoken s0).1 = .T_SYMBOL)
    (hnames : NameSeq (rescantoken (gettoken s0).2) names s1) :
    ((gettoken s1).2.locals = s0.locals ∧ (gettoken s1).2.params = s0.params
      ∧ (gettoken s1).2.globals = s0.globals ∧ (gettoken s1).2.f_opcodes = s0.f_opcodes
      ∧ (gettoken s1).2.trace = s0.trace)
    ∧ ((gettoken s1).1 = .T_ASSIGN → run n .getopassignment (gettoken s1).2 = some (r, e) →
        run (n + 2 + names.length) (.getsimpledeclaration symtype) s0
          = getsimpledeclaration_loop (run (n + 1 + names.length)) symtype (n + names.length)
              (addop .OP_POP (assignback symtype names (rescantoken e)))
        ∧ ((gettoken (addop .OP_POP (assignback symtype names (rescantoken e)))).1 ≠ .T_SYMBOL →
          (gettoken (addop .OP_POP (assignback symtype names (rescantoken e)))).1 ≠ .T_COMMA →
          run (n + 2 + names.length) (.getsimpledeclaration symtype) s0
            = some (0, rescantoken
                (gettoken (addop .OP_POP (assignback symtype names (rescantoken e)))).2))
        ∧ (rescantoken (gettoken (addop .OP_POP
              (assignback symtype names (rescantoken e)))).2).f_opcodes
          = e.f_opcodes ++ backcode symtype names (rescantoken e) ++ [Word.op .OP_POP])
    ∧ ((gettoken s1).1 ≠ .T_SYMBOL → (gettoken s1).1 ≠ .T_ASSIGN →
        run (n + 2 + names.length) (.getsimpledeclaration symtype) s0
          = getsimpledeclaration_loop (run (n + 1 + names.length)) symtype (n + names.length)
              (defineall symtype names (rescantoken (gettoken s1).2))
        ∧ ((gettoken (defineall symtype names (rescantoken (gettoken s1).2))).1 ≠ .T_SYMBOL →
          (gettoken (defineall symtype names (rescantoken (gettoken s1).2))).1 ≠ .T_COMMA →
          run (n + 2 + names.length) (.getsimpledeclaration symtype) s0
            = some (0, rescantoken
                (gettoken (defineall symtype names (rescantoken (gettoken s1).2))).2))
        ∧ (rescantoken (gettoken (defineall symtype names
              (rescantoken (gettoken s1).2))).2).f_opcodes = s0.f_opcodes)
    ∧ (∀ (name : String) (x : State),
        symboltype name (definesymbol name symtype x) ≠ .SYM_UNDEFINED
        ∧ (definesymbol name symtype x).f_opcodes = x.f_opcodes) := by
  have hold := simple_declaration_step n (n + names.length) symtype s0 s1 e r names hsym hnames
  have hrun : run (n + 2 + names.length) (.getsimpledeclaration symtype) s0
      = getsimpledeclaration_loop (run (n + 1 + names.length)) symtype
          (n + names.length + 1) s0 := by
    have e1 : n + 2 + names.length = (n + 1 + names.length) + 1 := by omega
    have e2 : n + names.length + 1 = n + 1 + names.length := by omega
    rw [e1, run_succ, e2]
    rfl
  refine ⟨hold.1, ?_, ?_, hold.2.2.2⟩
  · intro hassign hinit
    obtain ⟨_, h2, h3⟩ := hold.2.1 hassign hinit
    have hn : 1 ≤ n := by
      cases n with
      | zero => simp [run_zero] at hinit
      | succ m => omega
    refine ⟨by rw [hrun, h2], ?_, ?_⟩
    · intro ha hb
      rw [hrun, h2]
      obtain ⟨j, hj⟩ : ∃ j, n + names.length = j + 1 := ⟨n + names.length - 1, by omega⟩
      rw [hj]
      simp [getsimpledeclaration_loop, ha, hb]
    · rw [← h3]
      simp
  · intro h1 h2
    obtain ⟨h3, h4⟩ := hold.2.2.1 h1 h2
    have hn : 1 ≤ names.length := nameseq_nonempty s0 s1 names hsym hnames h1
    refine ⟨by rw [hrun, h3], ?_, ?_⟩
    · intro ha hb
      rw [hrun, h3]
      obtain ⟨j, hj⟩ : ∃ j, n + names.length = j + 1 := ⟨n + names.length - 1, by omega⟩
      rw [hj]
      simp [getsimpledeclaration_loop, ha, hb]
    · rw [← h4]
      simp

/-- Witness of C38: `local a b = a, c;` and `local a b = a;` with a global a.
The initializer addresses the global; b gets slot 0 and a slot 1. -/
theorem C38_getsimpledeclaration_witness :
    (run 24 (.getsimpledeclaration .SYM_LOCAL) declsample).map
        (fun r => (r.1, r.2.f_opcodes, r.2.locals, r.2.errorcount))
      = some (0, [Word.op .OP_GLOBALADDR, Word.ptr "a",
          Word.op .OP_LOCALADDR, Word.arg 0, Word.op .OP_ASSIGNBACK,
          Word.op .OP_LOCALADDR, Word.arg 1, Word.op .OP_ASSIGNBACK,
          Word.op .OP_POP], ["b", "a", "c"], 0)
    ∧ (run 24 (.getsimpledeclaration .SYM_LOCAL) declsample_one).map
        (fun r => (r.1, r.2.f_opcodes, r.2.locals, r.2.errorcount))
      = some (0, [Word.op .OP_GLOBALADDR, Word.ptr "a",
          Word.op .OP_LOCALADDR, Word.arg 0, Word.op .OP_ASSIGNBACK,
          Word.op .OP_LOCALADDR, Word.arg 1, Word.op .OP_ASSIGNBACK,
          Word.op .OP_POP], ["b", "a"], 0)
    ∧ (run 24 (.getsimpledeclaration .SYM_LOCAL) declsample_plain).map
        (fun r => (r.1, r.2.f_opcodes, r.2.locals, r.2.errorcount))
      = some (0, [], ["b", "a"], 0) := by
  have h := (C38_getsimpledeclaration 20 .SYM_LOCAL declsample declsample1 declsample2 0 _
    (by decide!)
    (NameSeq.name _ _ _ (by decide!)
      (NameSeq.name _ _ _ (by decide!) (NameSeq.done _)))).2.1 (by decide!) (by decide!)
  have h1 : run 24 (.getsimpledeclaration .SYM_LOCAL) declsample
      = getsimpledeclaration_loop (run 23) .SYM_LOCAL 22
          (addop .OP_POP (assignback .SYM_LOCAL ["a", "b"] (rescantoken declsample2))) := h.1
  have g := (C38_getsimpledeclaration 20 .SYM_LOCAL declsample_one declsample_one1
    declsample_one2 0 _ (by decide!)
    (NameSeq.name _ _ _ (by decide!)
      (NameSeq.name _ _ _ (by decide!) (NameSeq.done _)))).2.1 (by decide!) (by decide!)
  have g1 : run 24 (.getsimpledeclaration .SYM_LOCAL) declsample_one
      = some (0, rescantoken (gettoken (addop .OP_POP
          (assignback .SYM_LOCAL ["a", "b"] (rescantoken declsample_one2)))).2) :=
    g.2.1 (by decide!) (by decide!)
  have f := (C38_getsimpledeclaration 20 .SYM_LOCAL declsample_plain
    (gettoken (gettoken (rescantoken (gettoken declsample_plain).2)).2).2 declsample_plain 0 _
    (by decide!)
    (NameSeq.name _ _ _ (by decide!)
      (NameSeq.name _ _ _ (by decide!) (NameSeq.done _)))).2.2.1 (by decide!) (by decide!)
  have f1 : run 24 (.getsimpledeclaration .SYM_LOCAL) declsample_plain
      = some (0, rescantoken (gettoken (defineall .SYM_LOCAL ["a", "b"]
          (rescantoken (gettoken (gettoken (gettoken
            (rescantoken (gettoken declsample_plain).2)).2).2).2))).2) :=
    f.2.1 (by decide!) (by decide!)
  rw [h1, g1, f1]
  refine ⟨?_, ?_, ?_⟩ <;> decide!

end Codegen
